import Mathlib

/-!
# Trade-finance workflow chaincode: a shallow embedding

The development embeds `tradeWorkflow.go` (package `main`, the
`TradeWorkflowChaincode` type) as pure Lean functions over an explicit ledger
state and proves properties of the workflow transitions.

Modelling conventions.

* The key/value store reached through `stub.GetState`, `stub.PutState` and
  `stub.DelState` is the structure `Ledger`.  Every key family of the chaincode
  is one field; a JSON record is kept in decoded form (`none` stands for bytes
  that are empty or do not decode), byte strings are kept as `String` with the
  empty string standing for "no bytes" (the code only ever tests
  `len(bytes) == 0`).  `PutState` and `DelState` are total.
* Every operation returns the response together with the ledger as the
  operation left it, so that writes made before an error return stay visible.
* Go's `int` is the 64-bit type of the platforms the chaincode is built for.
  A value of type `int` is an `Int` between `-2^63` and `2^63 - 1`; the
  operations `+`, `-`, `+=` and `-=` of the source are `intAdd` and `intSub`,
  which wrap around as two's-complement arithmetic does.
* Go's `float32` and `float64` are modelled exactly: a finite value is a dyadic
  rational `Flt`, and every operation rounds its exact result to the nearest
  representable value, ties to even.  A `float32` is an `F32`: a finite value,
  an infinity or a NaN, and an operation whose rounded result is beyond the
  largest finite value gives an infinity.  The two zeros are identified, as no
  operation of the program tells them apart.  The `float64` values of the
  program are hours between two dates and stay far inside the finite range.
* The conversion `int(x)` of a `float32` truncates toward zero; for a value
  outside the range of `int` the language leaves the result to the
  implementation, and the model takes the result of the conversion
  instruction of amd64, which is `-2^63`.
* Library calls (`strconv.Atoi`, `strconv.ParseFloat`, `time.Parse`) and the
  access-control predicates are fields of `Env`.
-/

namespace TradeWorkflow

/-! ## Machine integers -/

/-- The value is inside the range of Go's 64-bit `int`. -/
def inInt64 (n : Int) : Prop := -(2 ^ 63) ≤ n ∧ n < 2 ^ 63

/-- Membership of the range of `int` is decidable. -/
instance inInt64.decidable (n : Int) : Decidable (inInt64 n) :=
  inferInstanceAs (Decidable (-(2 ^ 63) ≤ n ∧ n < 2 ^ 63))

/-- The `int` that an exact result wraps around to: the value of the same
residue modulo `2^64` inside the range of `int`. -/
def wrap64 (n : Int) : Int := (n + 2 ^ 63) % 2 ^ 64 - 2 ^ 63

/-- The sum `a + b` of two values of type `int`. -/
def intAdd (a b : Int) : Int := wrap64 (a + b)

/-- The difference `a - b` of two values of type `int`. -/
def intSub (a b : Int) : Int := wrap64 (a - b)

/-! ## Binary floating point -/

/-- A finite binary floating-point value, `num / 2 ^ scale`. -/
structure Flt where
  num : Int
  scale : Nat
deriving DecidableEq, Repr

/-- Auxiliary loop of `log2`: the number of halvings that bring `n` below 2. -/
def log2Aux : Nat → Nat → Nat
  | 0, _ => 0
  | fuel + 1, n => if n < 2 then 0 else log2Aux fuel (n / 2) + 1

/-- The floor of the binary logarithm of `n` (0 for `n = 0`). -/
def log2 (n : Nat) : Nat := log2Aux n n

/-- The floor of the binary logarithm of the positive fraction `a / b`. -/
def fracLog2 (a b : Nat) : Int :=
  let e : Int := (log2 a : Int) - (log2 b : Int)
  if 0 ≤ e then (if b * 2 ^ e.toNat ≤ a then e else e - 1)
  else (if b ≤ a * 2 ^ (-e).toNat then e else e - 1)

/-- The integer nearest to `a / b`, ties to the even neighbour (`b` positive). -/
def roundHalfEven (a : Int) (b : Nat) : Int :=
  let q := a / (b : Int)
  let r := a % (b : Int)
  if 2 * r < (b : Int) then q
  else if (b : Int) < 2 * r then q + 1
  else if q % 2 = 0 then q else q + 1

/-- Removes common factors of two from numerator and denominator. -/
def Flt.normalize : Int → Nat → Flt
  | n, 0 => ⟨n, 0⟩
  | n, k + 1 => if n % 2 = 0 then Flt.normalize (n / 2) k else ⟨n, k + 1⟩

/-- Rounds the fraction `a / b` (`b` positive) to the nearest binary
floating-point value with `prec` significant bits and least normal exponent
`emin`, ties to even. -/
def roundBin (prec : Nat) (emin : Int) (a : Int) (b : Nat) : Flt :=
  if a = 0 then ⟨0, 0⟩
  else
    let e := fracLog2 a.natAbs b
    let qe : Int := max e emin - ((prec : Int) - 1)
    if 0 ≤ qe then ⟨roundHalfEven a (b * 2 ^ qe.toNat) * 2 ^ qe.toNat, 0⟩
    else Flt.normalize (roundHalfEven (a * 2 ^ (-qe).toNat) b) (-qe).toNat

/-- Rounding to `float32`: 24 significant bits, least normal exponent -126. -/
def roundF32 (a : Int) (b : Nat) : Flt := roundBin 24 (-126) a b

/-- Rounding to `float64`: 53 significant bits, least normal exponent -1022. -/
def roundF64 (a : Int) (b : Nat) : Flt := roundBin 53 (-1022) a b

/-- The largest finite `float32`, `(2^24 - 1) * 2^104`. -/
def maxF32 : Int := (2 ^ 24 - 1) * 2 ^ 104

/-- A value of type `float32`: finite, an infinity (negative when the flag is
set) or a NaN. -/
inductive F32 where
  | fin (x : Flt)
  | inf (negative : Bool)
  | nan
deriving DecidableEq, Repr

/-- The `float32` that an exact result rounded to 24 bits stands for: the
value itself inside the finite range, beyond it the infinity of its sign. -/
def F32.ofRounded (z : Flt) : F32 :=
  if z.scale = 0 ∧ maxF32 < z.num.natAbs then .inf (decide (z.num < 0)) else .fin z

/-- The comparison `x <= 0`. -/
def F32.leZero : F32 → Bool
  | .fin x => decide (x.num ≤ 0)
  | .inf negative => negative
  | .nan => false

/-- The conversion `float32(n)` of an `int`. -/
def f32OfInt (n : Int) : F32 := F32.ofRounded (roundF32 n 1)

/-- The `float32` constant denoted by the decimal literal `a / b`. -/
def f32Const (a : Int) (b : Nat) : F32 := F32.ofRounded (roundF32 a b)

/-- The `float32` sum `x + y`. -/
def f32Add : F32 → F32 → F32
  | .fin x, .fin y =>
    F32.ofRounded
      (roundF32 (x.num * 2 ^ y.scale + y.num * 2 ^ x.scale) (2 ^ (x.scale + y.scale)))
  | .fin _, .inf b => .inf b
  | .inf a, .fin _ => .inf a
  | .inf a, .inf b => if a = b then .inf a else .nan
  | _, _ => .nan

/-- The `float32` difference `x - y`. -/
def f32Sub : F32 → F32 → F32
  | .fin x, .fin y =>
    F32.ofRounded
      (roundF32 (x.num * 2 ^ y.scale - y.num * 2 ^ x.scale) (2 ^ (x.scale + y.scale)))
  | .fin _, .inf b => .inf (!b)
  | .inf a, .fin _ => .inf a
  | .inf a, .inf b => if a = b then .nan else .inf a
  | _, _ => .nan

/-- The `float32` product `x * y`. -/
def f32Mul : F32 → F32 → F32
  | .fin x, .fin y => F32.ofRounded (roundF32 (x.num * y.num) (2 ^ (x.scale + y.scale)))
  | .fin x, .inf b => if x.num = 0 then .nan else .inf (decide (x.num < 0) != b)
  | .inf a, .fin y => if y.num = 0 then .nan else .inf (a != decide (y.num < 0))
  | .inf a, .inf b => .inf (a != b)
  | _, _ => .nan

/-- The `float32` quotient `x / y`. -/
def f32Div : F32 → F32 → F32
  | .fin x, .fin y =>
    if y.num = 0 then (if x.num = 0 then .nan else .inf (decide (x.num < 0)))
    else
      F32.ofRounded
        (roundF32 (Int.sign y.num * x.num * 2 ^ y.scale) (y.num.natAbs * 2 ^ x.scale))
  | .fin _, .inf _ => .fin ⟨0, 0⟩
  | .inf a, .fin y => .inf (a != decide (y.num < 0))
  | _, _ => .nan

/-- The conversion `int(x)` of a `float32`: truncation toward zero inside the
range of `int`; outside it, and for an infinity or a NaN, the value `-2^63`
that the conversion instruction of amd64 delivers. -/
def f32ToInt : F32 → Int
  | .fin x =>
    if inInt64 (Int.tdiv x.num (2 ^ x.scale)) then Int.tdiv x.num (2 ^ x.scale)
    else -(2 ^ 63)
  | _ => -(2 ^ 63)

/-- The nearest `float32` value of a finite `float64`, before the test of the
finite range. -/
def f32Round (x : Flt) : Flt := roundF32 x.num (2 ^ x.scale)

/-- The conversion `float32(x)` of a finite `float64`. -/
def f32OfFloat64 (x : Flt) : F32 := F32.ofRounded (f32Round x)

/-- The conversion `float32(x)` of a finite `float64`; `none` when the rounded
value leaves the finite range (the result is then an infinity). -/
def f32OfF64 (x : Flt) : Option Flt :=
  let y := f32Round x
  if y.scale = 0 ∧ maxF32 < y.num.natAbs then none else some y

/-- The `float64` sum `x + y`. -/
def f64Add (x y : Flt) : Flt :=
  roundF64 (x.num * 2 ^ y.scale + y.num * 2 ^ x.scale) (2 ^ (x.scale + y.scale))

/-- The `float64` quotient `x / y` for a non-zero divisor. -/
def f64Div (x y : Flt) : Flt :=
  roundF64 (Int.sign y.num * x.num * 2 ^ y.scale) (y.num.natAbs * 2 ^ x.scale)

/-! ## Records -/

/-- Modelled from the spec: the status constants (`REQUESTED`, `ISSUED`,
`ACCEPTED`, `TRANSFER_REQUESTED`, `TRANSFER_ISSUED`, `TRANSFER_ACCEPTED`) are
string constants declared outside `tradeWorkflow.go`; they are the values of
the `Status` field of every record. -/
inductive Status where
  | REQUESTED
  | ISSUED
  | ACCEPTED
  | TRANSFER_REQUESTED
  | TRANSFER_ISSUED
  | TRANSFER_ACCEPTED
deriving DecidableEq, Repr

/-- Position of a status in the letter-of-credit order
`REQUESTED < ISSUED < ACCEPTED < TRANSFER_REQUESTED < TRANSFER_ISSUED < TRANSFER_ACCEPTED`. -/
def Status.rank : Status → Nat
  | .REQUESTED => 0
  | .ISSUED => 1
  | .ACCEPTED => 2
  | .TRANSFER_REQUESTED => 3
  | .TRANSFER_ISSUED => 4
  | .TRANSFER_ACCEPTED => 5

/-- Modelled from the spec: the shipment location constant `SOURCE`, declared
outside `tradeWorkflow.go`. -/
def SOURCE : String := "SOURCE"

/-- Modelled from the spec: the shipment location constant `DESTINATION`,
declared outside `tradeWorkflow.go`. -/
def DESTINATION : String := "DESTINATION"

/-- The bytes `[]byte(REQUESTED)` written under a request marker key. -/
def requestedBytes : String := "REQUESTED"

/-- Modelled from the spec: the struct `TradeAgreement` is declared outside
`tradeWorkflow.go`; the field order is that of the positional literal in
`requestTrade`, the names are those the source selects (`Amount`,
`DescriptionOfGoods`, `Status`, `Payment`). -/
structure TradeAgreement where
  amount : Int
  descriptionOfGoods : String
  status : Status
  payment : Int
deriving DecidableEq, Repr

/-- Modelled from the spec: the struct `LetterOfCredit` is declared outside
`tradeWorkflow.go`; the field order is that of the positional literal in
`requestLC`. -/
structure LetterOfCredit where
  id : String
  expirationDate : String
  beneficiary : String
  amount : Int
  documents : List String
  status : Status
  discountRate : Flt
  advancePaymentSettlement : Bool
deriving DecidableEq, Repr

/-- Modelled from the spec: the struct `ExportLicense` is declared outside
`tradeWorkflow.go`; the field order is that of the positional literal in
`requestEL`. -/
structure ExportLicense where
  id : String
  expirationDate : String
  exporter : String
  carrier : String
  descriptionOfGoods : String
  approver : String
  status : Status
deriving DecidableEq, Repr

/-- Modelled from the spec: the struct `BillOfLading` is declared outside
`tradeWorkflow.go`; the field order is that of the positional literal in
`acceptShipmentAndIssueBL`. -/
structure BillOfLading where
  id : String
  expirationDate : String
  exporter : String
  carrier : String
  descriptionOfGoods : String
  amount : Int
  beneficiary : String
  sourcePort : String
  destinationPort : String
deriving DecidableEq, Repr

/-! ## Ledger -/

/-- Modelled from the spec: the key functions (`getTradeKey`, `getLCKey`,
`getELKey`, `getShipmentLocationKey`, `getArrivalDateKey`, `getBLKey`,
`getPaymentKey`, `getAdvancePaymentKey`) and the fixed keys (`expKey`, `ebKey`,
`expBalKey`, `impKey`, `ibKey`, `impBalKey`, `lenKey`, `lbKey`, `lenBalKey`,
`carKey`, `raKey`) are declared outside `tradeWorkflow.go`.  Each key function
is a deterministic, total map from the trade id into its own namespace, so the
store is one map per namespace plus one cell per fixed key.  A balance cell
holds the integer its bytes denote (`none` when there is none). -/
structure Ledger where
  trade : String → Option TradeAgreement
  lc : String → Option LetterOfCredit
  el : String → Option ExportLicense
  bl : String → Option BillOfLading
  shipmentLocation : String → String
  arrivalDate : String → String
  payment : String → String
  advancePayment : String → String
  exp : String
  eb : String
  expBal : Option Int
  imp : String
  ib : String
  impBal : Option Int
  len : String
  lb : String
  lenBal : Option Int
  car : String
  ra : String

/-- The ledger with no key set. -/
def Ledger.empty : Ledger where
  trade := fun _ => none
  lc := fun _ => none
  el := fun _ => none
  bl := fun _ => none
  shipmentLocation := fun _ => ""
  arrivalDate := fun _ => ""
  payment := fun _ => ""
  advancePayment := fun _ => ""
  exp := ""
  eb := ""
  expBal := none
  imp := ""
  ib := ""
  impBal := none
  len := ""
  lb := ""
  lenBal := none
  car := ""
  ra := ""

/-- The write `PutState(tradeKey, json(t))`. -/
def Ledger.putTrade (s : Ledger) (id : String) (t : TradeAgreement) : Ledger :=
  { s with trade := Function.update s.trade id (some t) }

/-- The write `PutState(lcKey, json(l))`. -/
def Ledger.putLC (s : Ledger) (id : String) (l : LetterOfCredit) : Ledger :=
  { s with lc := Function.update s.lc id (some l) }

/-- The write `PutState(elKey, json(e))`. -/
def Ledger.putEL (s : Ledger) (id : String) (e : ExportLicense) : Ledger :=
  { s with el := Function.update s.el id (some e) }

/-- The write `PutState(blKey, json(b))`. -/
def Ledger.putBL (s : Ledger) (id : String) (b : BillOfLading) : Ledger :=
  { s with bl := Function.update s.bl id (some b) }

/-- The write `PutState(shipmentLocationKey, v)`. -/
def Ledger.putShipmentLocation (s : Ledger) (id : String) (v : String) : Ledger :=
  { s with shipmentLocation := Function.update s.shipmentLocation id v }

/-- The write `PutState(arrivalDateKey, v)`. -/
def Ledger.putArrivalDate (s : Ledger) (id : String) (v : String) : Ledger :=
  { s with arrivalDate := Function.update s.arrivalDate id v }

/-- The write `PutState(paymentKey, v)`. -/
def Ledger.putPayment (s : Ledger) (id : String) (v : String) : Ledger :=
  { s with payment := Function.update s.payment id v }

/-- The deletion `DelState(paymentKey)`. -/
def Ledger.delPayment (s : Ledger) (id : String) : Ledger :=
  { s with payment := Function.update s.payment id "" }

/-- The write `PutState(advancePaymentKey, v)`. -/
def Ledger.putAdvancePayment (s : Ledger) (id : String) (v : String) : Ledger :=
  { s with advancePayment := Function.update s.advancePayment id v }

/-- The deletion `DelState(advancePaymentKey)`. -/
def Ledger.delAdvancePayment (s : Ledger) (id : String) : Ledger :=
  { s with advancePayment := Function.update s.advancePayment id "" }

/-! ## Environment and responses -/

/-- The collaborators of the chaincode.  `testMode` is the field of
`TradeWorkflowChaincode`; the `authenticate*` predicates are the access-control
functions applied to `(creatorOrg, creatorCertIssuer)`; `atoi` is
`strconv.Atoi`, `parseFloat` is `strconv.ParseFloat` (outer `none`: a parse
error, inner `none`: a NaN or an infinity), `parseDate` is `time.Parse` with
the layout `01/02/2006` (the day number of the parsed date), `toLower` is
`strings.ToLower`. -/
structure Env where
  testMode : Bool
  authenticateImporterOrg : String → String → Bool
  authenticateExporterOrg : String → String → Bool
  authenticateLenderOrg : String → String → Bool
  authenticateCarrierOrg : String → String → Bool
  authenticateRegulatorOrg : String → String → Bool
  authenticateExportingEntityOrg : String → String → Bool
  atoi : String → Option Int
  parseFloat : String → Option (Option Flt)
  parseDate : String → Option Int
  toLower : String → String

/-- What the stub knows about the submitted transaction: the creator as
`getTxCreatorInfo` extracts it (`none` when the extraction fails) and the
value of the custom attribute `tradelimit` (`none` when it is not found). -/
structure Tx where
  creator : Option (String × String)
  tradelimit : Option String

/-- The payload of a successful response. -/
inductive Payload where
  | nil
  | status (st : Status)
  | location (l : String)
  | arrivalDate (d : String)
  | billOfLading (b : BillOfLading)
  | balance (b : Int)
deriving DecidableEq, Repr

/-- The value `pb.Response`: `shim.Success(payload)` or `shim.Error(msg)`. -/
inductive Response where
  | success (p : Payload)
  | error (msg : String)
deriving DecidableEq, Repr

/-- Whether the response is a `shim.Error`. -/
def Response.isError : Response → Bool
  | .success _ => false
  | .error _ => true

/-- Whether the response is a `shim.Success`. -/
def Response.isSuccess : Response → Bool
  | .success _ => true
  | .error _ => false

/-! ## Settlement arithmetic -/

/-- The hours of `cd.Sub(ad).Hours()` for two parsed dates given by their day
numbers, as a `float64`.  `Sub` yields the difference in nanoseconds saturated
to the `int64` range of `time.Duration`; `Hours` adds the whole hours and the
remaining nanoseconds divided by `60*60*1e9`. -/
def hoursBetween (ad cd : Int) : Flt :=
  let ns : Int := (cd - ad) * 86400000000000
  let d : Int := if 2 ^ 63 - 1 < ns then 2 ^ 63 - 1 else if ns < -(2 ^ 63) then -(2 ^ 63) else ns
  let hour : Int := Int.tdiv d 3600000000000
  let nsec : Int := Int.tmod d 3600000000000
  f64Add (roundF64 hour 1) (f64Div (roundF64 nsec 1) (roundF64 3600000000000 1))

/-- The value `surcharge` of `makePayment`:
`(float32(delta) - float32(paymentDuration)) / float32(halfPaymentDuration)`
with `paymentDuration = 1440` and `halfPaymentDuration = 720`. -/
def surcharge (ad cd : Int) : F32 :=
  f32Div (f32Sub (f32OfFloat64 (hoursBetween ad cd)) (f32OfInt 1440)) (f32OfInt 720)

/-- The `paymentAmount` that `makePayment` computes once the shipment has left
`SOURCE`, from the trade amount, the amount paid so far and the day numbers of
the arrival and payment dates:
`initialPaymentAmount := Amount - Payment`, which is the payment when
`surcharge <= 0`, and otherwise
`int(float32(initialPaymentAmount) * (1.0 + 0.05 * surcharge))`. -/
def latePaymentAmount (amount payment : Int) (ad cd : Int) : Int :=
  let sc := surcharge ad cd
  let initialPaymentAmount := intSub amount payment
  if sc.leZero = true then initialPaymentAmount
  else f32ToInt (f32Mul (f32OfInt initialPaymentAmount)
    (f32Add (f32Const 1 1) (f32Mul (f32Const 5 100) sc)))

/-- The `paymentAmount` of `makeAdvancePayment`:
`int((fullRate - DiscountRate) * float32(Amount))` with `fullRate = 1.0`. -/
def advancePaymentAmount (l : LetterOfCredit) : Int :=
  f32ToInt (f32Mul (f32Sub (f32Const 1 1) (.fin l.discountRate)) (f32OfInt l.amount))

/-! ## Transitions -/

/-- The source function `Init`. -/
def Init (env : Env) (args : List String) (s : Ledger) : Response × Ledger :=
  match args with
  | [] => (.success .nil, s)
  | [a0, a1, a2, a3, a4, a5, a6, a7, a8, a9, a10] =>
    match env.atoi a2 with
    | none => (.error "Exporter account balance must be an integer", s)
    | some _ =>
      match env.atoi a5 with
      | none => (.error "Importer account balance must be an integer", s)
      | some _ =>
        match env.atoi a8 with
        | none => (.error "Lender account balance must be an integer", s)
        | some _ =>
          (.success .nil,
            { s with exp := a0, eb := a1, expBal := env.atoi a2, imp := a3, ib := a4,
                     impBal := env.atoi a5, len := a6, lb := a7, lenBal := env.atoi a8,
                     car := a9, ra := a10 })
  | _ => (.error "Incorrect number of arguments. Expecting 8", s)

/-- The source function `requestTrade`; `tradelimitAttr` is what
`getCustomAttribute(stub, "tradelimit")` finds. -/
def requestTrade (env : Env) (tradelimitAttr : Option String)
    (creatorOrg creatorCertIssuer : String) (args : List String) (s : Ledger) :
    Response × Ledger :=
  match (match tradelimitAttr with
    | some value => env.atoi value
    | none => some 1000000) with
  | none => (.error "tradelimit is not an integer", s)
  | some tradelimit =>
    if !env.testMode && !env.authenticateImporterOrg creatorOrg creatorCertIssuer then
      (.error "Caller not a member of Importer Org. Access denied.", s)
    else
      match args with
      | [id, amountArg, description] =>
        match env.atoi amountArg with
        | none => (.error "Amount is not an integer", s)
        | some amount =>
          if amount > tradelimit then
            (.error "Caller trade limit authorization exceeded. Access denied.", s)
          else
            (.success .nil, s.putTrade id ⟨amount, description, .REQUESTED, 0⟩)
      | _ => (.error "Incorrect number of arguments. Expecting 3", s)

/-- The source function `acceptTrade`. -/
def acceptTrade (env : Env) (creatorOrg creatorCertIssuer : String) (args : List String)
    (s : Ledger) : Response × Ledger :=
  if !env.testMode && !env.authenticateExporterOrg creatorOrg creatorCertIssuer then
    (.error "Caller not a member of Exporter Org. Access denied.", s)
  else
    match args with
    | [id] =>
      match s.trade id with
      | none => (.error "No record found for trade ID", s)
      | some tradeAgreement =>
        if tradeAgreement.status = .ACCEPTED then (.success .nil, s)
        else (.success .nil, s.putTrade id { tradeAgreement with status := .ACCEPTED })
    | _ => (.error "Incorrect number of arguments. Expecting 1", s)

/-- The source function `requestLC`. -/
def requestLC (env : Env) (creatorOrg creatorCertIssuer : String) (args : List String)
    (s : Ledger) : Response × Ledger :=
  if !env.testMode && !env.authenticateImporterOrg creatorOrg creatorCertIssuer then
    (.error "Caller not a member of Importer Org. Access denied.", s)
  else
    match args with
    | [id] =>
      match s.trade id with
      | none => (.error "No record found for trade ID", s)
      | some tradeAgreement =>
        if tradeAgreement.status ≠ .ACCEPTED then
          (.error "Trade has not been accepted by the parties", s)
        else
          (.success .nil,
            s.putLC id ⟨"", "", s.exp, tradeAgreement.amount, [], .REQUESTED, ⟨0, 0⟩, false⟩)
    | _ => (.error "Incorrect number of arguments. Expecting 1", s)

/-- The source function `issueLC`. -/
def issueLC (env : Env) (creatorOrg creatorCertIssuer : String) (args : List String)
    (s : Ledger) : Response × Ledger :=
  if !env.testMode && !env.authenticateImporterOrg creatorOrg creatorCertIssuer then
    (.error "Caller not a member of Importer Org. Access denied.", s)
  else
    match args with
    | id :: lcId :: expiry :: documents =>
      match s.lc id with
      | none => (.error "unexpected end of JSON input", s)
      | some letterOfCredit =>
        if letterOfCredit.status = .ISSUED then (.success .nil, s)
        else if letterOfCredit.status = .ACCEPTED then (.success .nil, s)
        else if letterOfCredit.status = .TRANSFER_REQUESTED
            ∨ letterOfCredit.status = .TRANSFER_ISSUED
            ∨ letterOfCredit.status = .TRANSFER_ACCEPTED then (.success .nil, s)
        else
          (.success .nil,
            s.putLC id { letterOfCredit with
              id := lcId, expirationDate := expiry, documents := documents, status := .ISSUED })
    | _ => (.error "Incorrect number of arguments. Expecting at least 3", s)

/-- The source function `acceptLC`. -/
def acceptLC (env : Env) (creatorOrg creatorCertIssuer : String) (args : List String)
    (s : Ledger) : Response × Ledger :=
  if !env.testMode && !env.authenticateExporterOrg creatorOrg creatorCertIssuer then
    (.error "Caller not a member of Exporter Org. Access denied.", s)
  else
    match args with
    | [id] =>
      match s.lc id with
      | none => (.error "unexpected end of JSON input", s)
      | some letterOfCredit =>
        if letterOfCredit.status = .ACCEPTED then (.success .nil, s)
        else if letterOfCredit.status = .TRANSFER_REQUESTED
            ∨ letterOfCredit.status = .TRANSFER_ISSUED
            ∨ letterOfCredit.status = .TRANSFER_ACCEPTED then (.success .nil, s)
        else if letterOfCredit.status = .REQUESTED then (.error "L/C not issued yet", s)
        else (.success .nil, s.putLC id { letterOfCredit with status := .ACCEPTED })
    | _ => (.error "Incorrect number of arguments. Expecting 1", s)

/-- The source function `requestEL`. -/
def requestEL (env : Env) (creatorOrg creatorCertIssuer : String) (args : List String)
    (s : Ledger) : Response × Ledger :=
  if !env.testMode && !env.authenticateExporterOrg creatorOrg creatorCertIssuer then
    (.error "Caller not a member of Exporter Org. Access denied.", s)
  else
    match args with
    | [id] =>
      match s.lc id with
      | none => (.error "unexpected end of JSON input", s)
      | some letterOfCredit =>
        if letterOfCredit.status ≠ .ACCEPTED then (.error "L/C not accepted yet", s)
        else
          match s.trade id with
          | none => (.error "No record found for trade ID", s)
          | some tradeAgreement =>
            (.success .nil,
              s.putEL id ⟨"", "", s.exp, s.car, tradeAgreement.descriptionOfGoods, s.ra,
                .REQUESTED⟩)
    | _ => (.error "Incorrect number of arguments. Expecting 1", s)

/-- The source function `issueEL`. -/
def issueEL (env : Env) (creatorOrg creatorCertIssuer : String) (args : List String)
    (s : Ledger) : Response × Ledger :=
  if !env.testMode && !env.authenticateRegulatorOrg creatorOrg creatorCertIssuer then
    (.error "Caller not a member of Regulator Org. Access denied.", s)
  else
    match args with
    | [id, elId, expiry] =>
      match s.el id with
      | none => (.error "unexpected end of JSON input", s)
      | some exportLicense =>
        if exportLicense.status = .ISSUED then (.success .nil, s)
        else
          (.success .nil,
            s.putEL id { exportLicense with
              id := elId, expirationDate := expiry, status := .ISSUED })
    | _ => (.error "Incorrect number of arguments. Expecting 3", s)

/-- The source function `prepareShipment`. -/
def prepareShipment (env : Env) (creatorOrg creatorCertIssuer : String) (args : List String)
    (s : Ledger) : Response × Ledger :=
  if !env.testMode && !env.authenticateExporterOrg creatorOrg creatorCertIssuer then
    (.error "Caller not a member of Exporter Org. Access denied.", s)
  else
    match args with
    | [id] =>
      if s.shipmentLocation id ≠ "" then
        if s.shipmentLocation id = SOURCE then (.success .nil, s)
        else (.error "Shipment past the preparation stage", s)
      else
        match s.el id with
        | none => (.error "unexpected end of JSON input", s)
        | some exportLicense =>
          if exportLicense.status ≠ .ISSUED then (.error "E/L not issued yet", s)
          else (.success .nil, s.putShipmentLocation id SOURCE)
    | _ => (.error "Incorrect number of arguments. Expecting 1", s)

/-- The source function `acceptShipmentAndIssueBL`. -/
def acceptShipmentAndIssueBL (env : Env) (creatorOrg creatorCertIssuer : String)
    (args : List String) (s : Ledger) : Response × Ledger :=
  if !env.testMode && !env.authenticateCarrierOrg creatorOrg creatorCertIssuer then
    (.error "Caller not a member of Carrier Org. Access denied.", s)
  else
    match args with
    | [id, blId, expiry, sourcePort, destinationPort] =>
      if s.shipmentLocation id = "" then (.error "Shipment not prepared yet", s)
      else if s.shipmentLocation id ≠ SOURCE then
        (.error "Shipment past the preparation stage", s)
      else
        match s.trade id with
        | none => (.error "No record found for trade ID", s)
        | some tradeAgreement =>
          (.success .nil,
            s.putBL id ⟨blId, expiry, s.exp, s.car, tradeAgreement.descriptionOfGoods,
              tradeAgreement.amount, s.ib, sourcePort, destinationPort⟩)
    | _ => (.error "Incorrect number of arguments. Expecting 5", s)

/-- The source function `requestLCTransfer`. -/
def requestLCTransfer (env : Env) (creatorOrg creatorCertIssuer : String) (args : List String)
    (s : Ledger) : Response × Ledger :=
  if !env.testMode && !env.authenticateExporterOrg creatorOrg creatorCertIssuer then
    (.error "Caller not a member of Exporter Org. Access denied.", s)
  else
    match args with
    | [id, rateArg] =>
      match s.lc id with
      | none => (.error "unexpected end of JSON input", s)
      | some letterOfCredit =>
        if s.payment id ≠ "" then (.error "Payment request pending", s)
        else if s.shipmentLocation id = "" then (.error "Shipment not prepared yet", s)
        else
          match env.parseFloat rateArg with
          | none => (.error "Discount rate is not a number", s)
          | some discountRate =>
            if letterOfCredit.amount ≤ 0 then (.error "L/C no available amount of credit", s)
            else if letterOfCredit.status = .REQUESTED ∨ letterOfCredit.status = .ISSUED then
              (.error "L/C not accepted yet", s)
            else if letterOfCredit.status = .TRANSFER_REQUESTED then (.success .nil, s)
            else if letterOfCredit.status = .TRANSFER_ISSUED then (.success .nil, s)
            else if letterOfCredit.status = .TRANSFER_ACCEPTED then (.success .nil, s)
            else
              match discountRate.bind f32OfF64 with
              | none => (.error "Error marshaling L/C structure", s)
              | some rate =>
                (.success .nil,
                  s.putLC id { letterOfCredit with
                    beneficiary := s.len, discountRate := rate, status := .TRANSFER_REQUESTED })
    | _ => (.error "Incorrect number of arguments. Expecting 2", s)

/-- The source function `issueLCTransfer`. -/
def issueLCTransfer (env : Env) (creatorOrg creatorCertIssuer : String) (args : List String)
    (s : Ledger) : Response × Ledger :=
  if !env.testMode && !env.authenticateExporterOrg creatorOrg creatorCertIssuer then
    (.error "Caller not a member of Exporter Org. Access denied.", s)
  else
    match args with
    | [id] =>
      match s.lc id with
      | none => (.error "unexpected end of JSON input", s)
      | some letterOfCredit =>
        if s.payment id ≠ "" then (.error "Payment request pending", s)
        else if s.shipmentLocation id = "" then (.error "Shipment not prepared yet", s)
        else if letterOfCredit.amount ≤ 0 then (.error "L/C no available amount of credit", s)
        else if letterOfCredit.status = .REQUESTED ∨ letterOfCredit.status = .ISSUED
            ∨ letterOfCredit.status = .ACCEPTED then
          (.error "L/C transfer not requested yet", s)
        else if letterOfCredit.status = .TRANSFER_ISSUED then (.success .nil, s)
        else if letterOfCredit.status = .TRANSFER_ACCEPTED then (.success .nil, s)
        else (.success .nil, s.putLC id { letterOfCredit with status := .TRANSFER_ISSUED })
    | _ => (.error "Incorrect number of arguments. Expecting 1", s)

/-- The source function `acceptLCTransfer`. -/
def acceptLCTransfer (env : Env) (creatorOrg creatorCertIssuer : String) (args : List String)
    (s : Ledger) : Response × Ledger :=
  if !env.testMode && !env.authenticateLenderOrg creatorOrg creatorCertIssuer then
    (.error "Caller not a member of Lender Org. Access denied.", s)
  else
    match args with
    | [id] =>
      match s.lc id with
      | none => (.error "unexpected end of JSON input", s)
      | some letterOfCredit =>
        if s.payment id ≠ "" then (.error "Payment request pending", s)
        else if s.shipmentLocation id = "" then (.error "Shipment not prepared yet", s)
        else if letterOfCredit.amount ≤ 0 then (.error "L/C no available amount of credit", s)
        else if letterOfCredit.status = .REQUESTED ∨ letterOfCredit.status = .ISSUED
            ∨ letterOfCredit.status = .ACCEPTED
            ∨ letterOfCredit.status = .TRANSFER_REQUESTED then
          (.error "L/C transfer not requested yet", s)
        else if letterOfCredit.status = .TRANSFER_ACCEPTED then (.success .nil, s)
        else (.success .nil, s.putLC id { letterOfCredit with status := .TRANSFER_ACCEPTED })
    | _ => (.error "Incorrect number of arguments. Expecting 1", s)

/-- The source function `requestAdvancePayment`. -/
def requestAdvancePayment (env : Env) (creatorOrg creatorCertIssuer : String)
    (args : List String) (s : Ledger) : Response × Ledger :=
  if !env.testMode && !env.authenticateExporterOrg creatorOrg creatorCertIssuer then
    (.error "Caller not a member of Exporter Org. Access denied.", s)
  else
    match args with
    | [id] =>
      match s.lc id with
      | none => (.error "unexpected end of JSON input", s)
      | some letterOfCredit =>
        if s.advancePayment id ≠ "" then (.success .nil, s)
        else if letterOfCredit.status ≠ .TRANSFER_ACCEPTED then
          (.error "L/C transfer not accepted", s)
        else if letterOfCredit.beneficiary ≠ s.len then (.error "L/C beneficiary not lender", s)
        else if letterOfCredit.advancePaymentSettlement = true then
          (.error "Advance payment already settled", s)
        else (.success .nil, s.putAdvancePayment id requestedBytes)
    | _ => (.error "Incorrect number of arguments. Expecting 1", s)

/-- The section "Update ledger state" of `makeAdvancePayment`: the letter of
credit and the two balances are written, the advance payment request marker is
deleted. -/
def settleAdvancePayment (s : Ledger) (id : String) (letterOfCredit : LetterOfCredit)
    (expBal lenBal : Int) : Ledger :=
  let s1 := s.putLC id letterOfCredit
  let s2 := { s1 with expBal := some expBal, lenBal := some lenBal }
  s2.delAdvancePayment id

/-- The source function `makeAdvancePayment`. -/
def makeAdvancePayment (env : Env) (creatorOrg creatorCertIssuer : String) (args : List String)
    (s : Ledger) : Response × Ledger :=
  if !env.testMode && !env.authenticateLenderOrg creatorOrg creatorCertIssuer then
    (.error "Caller not a member of Lender Org. Access denied.", s)
  else
    match args with
    | [id] =>
      if s.advancePayment id = "" then (.error "No advance payment request found", s)
      else
        match s.lc id with
        | none => (.error "unexpected end of JSON input", s)
        | some letterOfCredit =>
          if letterOfCredit.status ≠ .TRANSFER_ACCEPTED then
            (.error "L/C transfer not accepted", s)
          else if letterOfCredit.beneficiary ≠ s.len then
            (.error "L/C beneficiary not lender", s)
          else if s.shipmentLocation id = "" then (.error "Shipment not prepared yet", s)
          else
            match s.expBal with
            | none => (.error "Exporter balance is not an integer", s)
            | some expBal =>
              match s.lenBal with
              | none => (.error "Lender balance is not an integer", s)
              | some lenBal =>
                let paymentAmount := advancePaymentAmount letterOfCredit
                (.success .nil,
                  settleAdvancePayment s id
                    { letterOfCredit with advancePaymentSettlement := true }
                    (intAdd expBal paymentAmount) (intSub lenBal paymentAmount))
    | _ => (.error "Incorrect number of arguments. Expecting 1", s)

/-- The source function `requestPayment`. -/
def requestPayment (env : Env) (creatorOrg creatorCertIssuer : String) (args : List String)
    (s : Ledger) : Response × Ledger :=
  if !env.testMode && !(env.authenticateExporterOrg creatorOrg creatorCertIssuer
      || env.authenticateLenderOrg creatorOrg creatorCertIssuer) then
    (.error "Caller not a member of Exporter or Lender Org. Access denied.", s)
  else
    match args with
    | [id] =>
      match s.trade id with
      | none => (.error "No record found for trade ID", s)
      | some tradeAgreement =>
        match s.lc id with
        | none => (.error "unexpected end of JSON input", s)
        | some letterOfCredit =>
          if s.shipmentLocation id = "" then (.error "Shipment not prepared yet", s)
          else if s.payment id ≠ "" then (.success .nil, s)
          else if tradeAgreement.amount = tradeAgreement.payment then
            (.error "Payment already settled", s)
          else if s.shipmentLocation id = SOURCE ∧ tradeAgreement.payment ≠ 0 then
            (.error "Partial payment already made", s)
          else if ¬ (letterOfCredit.status = .ACCEPTED
              ∨ letterOfCredit.status = .TRANSFER_ACCEPTED) then
            (.error "L/C not accepted", s)
          else if !env.testMode
              && !((env.authenticateExporterOrg creatorOrg creatorCertIssuer
                    && decide (letterOfCredit.beneficiary = s.exp))
                || (env.authenticateLenderOrg creatorOrg creatorCertIssuer
                    && decide (letterOfCredit.beneficiary = s.len))) then
            (.error "Payment requestor and L/C benificiary not match", s)
          else (.success .nil, s.putPayment id requestedBytes)
    | _ => (.error "Incorrect number of arguments. Expecting 1", s)

/-- The section "Record transfer of funds" of `makePayment` up to the value of
`paymentAmount`: half the trade amount while the shipment is at `SOURCE`,
otherwise the remaining amount with the late-payment surcharge, which needs
the arrival date and the payment date to parse. -/
def computePaymentAmount (env : Env) (s : Ledger) (id paymentDate : String)
    (tradeAgreement : TradeAgreement) : Except String Int :=
  if s.shipmentLocation id = SOURCE then Except.ok (Int.tdiv tradeAgreement.amount 2)
  else if s.arrivalDate id = "" then Except.error "Arrival date missing"
  else
    match env.parseDate (s.arrivalDate id) with
    | none => Except.error "Arrival date does not parse"
    | some ad =>
      match env.parseDate paymentDate with
      | none => Except.error "Payment date does not parse"
      | some cd =>
        Except.ok (latePaymentAmount tradeAgreement.amount tradeAgreement.payment ad cd)

/-- The section "Update ledger state" of `makePayment`: the trade agreement,
the letter of credit and the three balances are written, the payment request
marker is deleted. -/
def settlePayment (s : Ledger) (id : String) (tradeAgreement : TradeAgreement)
    (letterOfCredit : LetterOfCredit) (expBal impBal lenBal : Int) : Ledger :=
  let s1 := (s.putTrade id tradeAgreement).putLC id letterOfCredit
  let s2 := { s1 with expBal := some expBal, impBal := some impBal, lenBal := some lenBal }
  s2.delPayment id

/-- The source function `makePayment`. -/
def makePayment (env : Env) (creatorOrg creatorCertIssuer : String) (args : List String)
    (s : Ledger) : Response × Ledger :=
  if !env.testMode && !env.authenticateImporterOrg creatorOrg creatorCertIssuer then
    (.error "Caller not a member of Importer Org. Access denied.", s)
  else
    match args with
    | [id, paymentDate] =>
      if s.payment id = "" then (.error "No payment request found", s)
      else
        match s.trade id with
        | none => (.error "No record found for trade ID", s)
        | some tradeAgreement =>
          match s.lc id with
          | none => (.error "unexpected end of JSON input", s)
          | some letterOfCredit =>
            if ¬ (letterOfCredit.status = .ACCEPTED
                ∨ letterOfCredit.status = .TRANSFER_ACCEPTED) then
              (.error "L/C not accepted", s)
            else if s.shipmentLocation id = "" then (.error "Shipment not prepared yet", s)
            else
              match s.expBal, s.impBal, s.lenBal with
              | some expBal, some impBal, some lenBal =>
                match computePaymentAmount env s id paymentDate tradeAgreement with
                | .error msg => (.error msg, s)
                | .ok paymentAmount =>
                  let tradeAgreement1 :=
                    { tradeAgreement with
                      payment := intAdd tradeAgreement.payment paymentAmount }
                  let letterOfCredit1 :=
                    { letterOfCredit with
                      amount := intSub letterOfCredit.amount paymentAmount }
                  if letterOfCredit.beneficiary = s.exp then
                    (.success .nil,
                      settlePayment s id tradeAgreement1 letterOfCredit1
                        (intAdd expBal paymentAmount) (intSub impBal paymentAmount) lenBal)
                  else if letterOfCredit.beneficiary = s.len then
                    (.success .nil,
                      settlePayment s id tradeAgreement1 letterOfCredit1
                        expBal (intSub impBal paymentAmount) (intAdd lenBal paymentAmount))
                  else (.error "Beneficiary in L/C not valid", s)
              | _, _, _ => (.error "Account balance is not an integer", s)
    | _ => (.error "Incorrect number of arguments. Expecting 2", s)

/-- The source function `updateShipmentLocation`. -/
def updateShipmentLocation (env : Env) (creatorOrg creatorCertIssuer : String)
    (args : List String) (s : Ledger) : Response × Ledger :=
  if !env.testMode && !env.authenticateCarrierOrg creatorOrg creatorCertIssuer then
    (.error "Caller not a member of Carrier Org. Access denied.", s)
  else
    match args with
    | [id, location, date] =>
      if s.shipmentLocation id = "" then (.error "Shipment not prepared yet", s)
      else
        let s1 :=
          if s.shipmentLocation id = location then s
          else if location = DESTINATION then s.putArrivalDate id date
          else s
        (.success .nil, s1.putShipmentLocation id location)
    | _ => (.error "Incorrect number of arguments. Expecting 2", s)

/-! ## Queries -/

/-- The source function `getTradeStatus`. -/
def getTradeStatus (env : Env) (creatorOrg creatorCertIssuer : String) (args : List String)
    (s : Ledger) : Response × Ledger :=
  if !env.testMode && !(env.authenticateImporterOrg creatorOrg creatorCertIssuer
      || env.authenticateExporterOrg creatorOrg creatorCertIssuer
      || env.authenticateExportingEntityOrg creatorOrg creatorCertIssuer) then
    (.error "Caller not a member of Importer or Exporter or Exporting Entity Org. Access denied.", s)
  else
    match args with
    | [id] =>
      match s.trade id with
      | none => (.error "No record found", s)
      | some tradeAgreement => (.success (.status tradeAgreement.status), s)
    | _ => (.error "Incorrect number of arguments. Expecting 1: <trade ID>", s)

/-- The source function `getLCStatus`. -/
def getLCStatus (env : Env) (creatorOrg creatorCertIssuer : String) (args : List String)
    (s : Ledger) : Response × Ledger :=
  if !env.testMode && !(env.authenticateImporterOrg creatorOrg creatorCertIssuer
      || env.authenticateExporterOrg creatorOrg creatorCertIssuer
      || env.authenticateLenderOrg creatorOrg creatorCertIssuer) then
    (.error "Caller not a member of Importer or Exporter or Exporting Entity Org. Access denied.", s)
  else
    match args with
    | [id] =>
      match s.lc id with
      | none => (.error "No record found", s)
      | some letterOfCredit => (.success (.status letterOfCredit.status), s)
    | _ => (.error "Incorrect number of arguments. Expecting 1: <trade ID>", s)

/-- The source function `getELStatus`. -/
def getELStatus (env : Env) (creatorOrg creatorCertIssuer : String) (args : List String)
    (s : Ledger) : Response × Ledger :=
  if !env.testMode && !(env.authenticateExporterOrg creatorOrg creatorCertIssuer
      || env.authenticateRegulatorOrg creatorOrg creatorCertIssuer) then
    (.error "Caller not a member of Exporter or Regulator Org. Access denied.", s)
  else
    match args with
    | [id] =>
      match s.el id with
      | none => (.error "No record found", s)
      | some exportLicense => (.success (.status exportLicense.status), s)
    | _ => (.error "Incorrect number of arguments. Expecting 1: <trade ID>", s)

/-- The source function `getShipmentLocation`. -/
def getShipmentLocation (env : Env) (creatorOrg creatorCertIssuer : String)
    (args : List String) (s : Ledger) : Response × Ledger :=
  if !env.testMode && !(env.authenticateImporterOrg creatorOrg creatorCertIssuer
      || env.authenticateExporterOrg creatorOrg creatorCertIssuer
      || env.authenticateLenderOrg creatorOrg creatorCertIssuer
      || env.authenticateCarrierOrg creatorOrg creatorCertIssuer) then
    (.error "Caller not a member of Importer or Exporter or Exporting Entity or Carrier Org. Access denied.", s)
  else
    match args with
    | [id] =>
      if s.shipmentLocation id = "" then (.error "No record found", s)
      else (.success (.location (s.shipmentLocation id)), s)
    | _ => (.error "Incorrect number of arguments. Expecting 1: <trade ID>", s)

/-- The source function `getArrivalDate`. -/
def getArrivalDate (env : Env) (creatorOrg creatorCertIssuer : String) (args : List String)
    (s : Ledger) : Response × Ledger :=
  if !env.testMode && !(env.authenticateImporterOrg creatorOrg creatorCertIssuer
      || env.authenticateExporterOrg creatorOrg creatorCertIssuer
      || env.authenticateLenderOrg creatorOrg creatorCertIssuer
      || env.authenticateCarrierOrg creatorOrg creatorCertIssuer) then
    (.error "Caller not a member of Importer or Exporter or Exporting Entity or Carrier Org. Access denied.", s)
  else
    match args with
    | [id] =>
      if s.arrivalDate id = "" then (.error "No record found", s)
      else (.success (.arrivalDate (s.arrivalDate id)), s)
    | _ => (.error "Incorrect number of arguments. Expecting 1: <trade ID>", s)

/-- The source function `getBillOfLading`. -/
def getBillOfLading (env : Env) (creatorOrg creatorCertIssuer : String) (args : List String)
    (s : Ledger) : Response × Ledger :=
  if !env.testMode && !(env.authenticateImporterOrg creatorOrg creatorCertIssuer
      || env.authenticateExporterOrg creatorOrg creatorCertIssuer
      || env.authenticateExportingEntityOrg creatorOrg creatorCertIssuer
      || env.authenticateCarrierOrg creatorOrg creatorCertIssuer) then
    (.error "Caller not a member of Importer or Exporter or Exporting Entity or Carrier Org. Access denied.", s)
  else
    match args with
    | [id] =>
      match s.bl id with
      | none => (.error "No record found", s)
      | some billOfLading => (.success (.billOfLading billOfLading), s)
    | _ => (.error "Incorrect number of arguments. Expecting 1: <trade ID>", s)

/-- The tail of `getAccountBalance`: the read of the selected balance key. -/
def readBalance (balance : Option Int) (s : Ledger) : Response × Ledger :=
  match balance with
  | none => (.error "No record found", s)
  | some b => (.success (.balance b), s)

/-- The source function `getAccountBalance`. -/
def getAccountBalance (env : Env) (creatorOrg creatorCertIssuer : String) (args : List String)
    (s : Ledger) : Response × Ledger :=
  match args with
  | [_, entityArg] =>
    let entity := env.toLower entityArg
    if entity = "exporter" then
      if !env.testMode && !(env.authenticateExporterOrg creatorOrg creatorCertIssuer
          || env.authenticateExportingEntityOrg creatorOrg creatorCertIssuer) then
        (.error "Caller not a member of Exporter or Exporting Entity Org. Access denied.", s)
      else readBalance s.expBal s
    else if entity = "importer" then
      if !env.testMode && !env.authenticateImporterOrg creatorOrg creatorCertIssuer then
        (.error "Caller not a member of Importer Org. Access denied.", s)
      else readBalance s.impBal s
    else if entity = "lender" then
      if !env.testMode && !env.authenticateLenderOrg creatorOrg creatorCertIssuer then
        (.error "Caller not a member of Importer Org. Access denied.", s)
      else readBalance s.lenBal s
    else (.error "Invalid entity; Permissible values: exporter, importer, lender", s)
  | _ => (.error "Incorrect number of arguments. Expecting 2", s)

/-! ## Dispatch -/

/-- The dispatch of `Invoke` on the function name, after the creator has been
determined. -/
def dispatch (env : Env) (tx : Tx) (creatorOrg creatorCertIssuer : String)
    (function : String) (args : List String) (s : Ledger) : Response × Ledger :=
  if function = "requestTrade" then
    requestTrade env tx.tradelimit creatorOrg creatorCertIssuer args s
  else if function = "acceptTrade" then acceptTrade env creatorOrg creatorCertIssuer args s
  else if function = "requestLC" then requestLC env creatorOrg creatorCertIssuer args s
  else if function = "issueLC" then issueLC env creatorOrg creatorCertIssuer args s
  else if function = "acceptLC" then acceptLC env creatorOrg creatorCertIssuer args s
  else if function = "requestLCTransfer" then
    requestLCTransfer env creatorOrg creatorCertIssuer args s
  else if function = "issueLCTransfer" then
    issueLCTransfer env creatorOrg creatorCertIssuer args s
  else if function = "acceptLCTransfer" then
    acceptLCTransfer env creatorOrg creatorCertIssuer args s
  else if function = "requestEL" then requestEL env creatorOrg creatorCertIssuer args s
  else if function = "issueEL" then issueEL env creatorOrg creatorCertIssuer args s
  else if function = "prepareShipment" then
    prepareShipment env creatorOrg creatorCertIssuer args s
  else if function = "acceptShipmentAndIssueBL" then
    acceptShipmentAndIssueBL env creatorOrg creatorCertIssuer args s
  else if function = "requestAdvancePayment" then
    requestAdvancePayment env creatorOrg creatorCertIssuer args s
  else if function = "makeAdvancePayment" then
    makeAdvancePayment env creatorOrg creatorCertIssuer args s
  else if function = "requestPayment" then
    requestPayment env creatorOrg creatorCertIssuer args s
  else if function = "makePayment" then makePayment env creatorOrg creatorCertIssuer args s
  else if function = "updateShipmentLocation" then
    updateShipmentLocation env creatorOrg creatorCertIssuer args s
  else if function = "getTradeStatus" then
    getTradeStatus env creatorOrg creatorCertIssuer args s
  else if function = "getLCStatus" then getLCStatus env creatorOrg creatorCertIssuer args s
  else if function = "getELStatus" then getELStatus env creatorOrg creatorCertIssuer args s
  else if function = "getShipmentLocation" then
    getShipmentLocation env creatorOrg creatorCertIssuer args s
  else if function = "getArrivalDate" then
    getArrivalDate env creatorOrg creatorCertIssuer args s
  else if function = "getBillOfLading" then
    getBillOfLading env creatorOrg creatorCertIssuer args s
  else if function = "getAccountBalance" then
    getAccountBalance env creatorOrg creatorCertIssuer args s
  else (.error "Invalid invoke function name", s)

/-- The source function `Invoke`: outside test mode the creator is taken from
the transaction, in test mode both creator strings stay empty. -/
def Invoke (env : Env) (tx : Tx) (function : String) (args : List String) (s : Ledger) :
    Response × Ledger :=
  if !env.testMode then
    match tx.creator with
    | none => (.error "Error extracting creator identity info", s)
    | some (creatorOrg, creatorCertIssuer) =>
      dispatch env tx creatorOrg creatorCertIssuer function args s
  else dispatch env tx "" "" function args s

/-- One submitted transaction: the transaction context, the function name and
the arguments. -/
structure Call where
  tx : Tx
  function : String
  args : List String

/-- The ledger after a sequence of `Invoke` calls, each applied to the ledger
the previous one left. -/
def run (env : Env) : List Call → Ledger → Ledger
  | [], s => s
  | c :: cs, s => run env cs (Invoke env c.tx c.function c.args s).2

/-! ## A reference environment

Executable versions of the collaborators, used to run the chaincode on
concrete transactions. -/

/-- The value of a decimal digit. -/
def digitVal (c : Char) : Option Nat :=
  if 48 ≤ c.toNat ∧ c.toNat ≤ 57 then some (c.toNat - 48) else none

/-- Reads a run of decimal digits onto the accumulator. -/
def parseDigits : List Char → Nat → Option Nat
  | [], acc => some acc
  | c :: cs, acc =>
    match digitVal c with
    | none => none
    | some d => parseDigits cs (acc * 10 + d)

/-- Reads a non-empty run of decimal digits. -/
def parseNat : List Char → Option Nat
  | [] => none
  | c :: cs => parseDigits (c :: cs) 0

/-- Reads an optional sign followed by a non-empty run of decimal digits. -/
def parseSigned (cs : List Char) : Option Int :=
  match cs with
  | '-' :: rest => (parseNat rest).map fun n => -(n : Int)
  | '+' :: rest => (parseNat rest).map fun n => (n : Int)
  | _ => (parseNat cs).map fun n => (n : Int)

/-- A version of `strconv.Atoi`: a signed decimal numeral inside the `int64` range. -/
def strconvAtoi (s : String) : Option Int :=
  (parseSigned s.data).bind fun n => if -(2 ^ 63) ≤ n ∧ n < 2 ^ 63 then some n else none

/-- The largest finite `float64`, `(2^53 - 1) * 2^971`, with the power of two
written as a product of four smaller powers so that it evaluates directly. -/
def maxF64 : Int := Int.ofNat ((2 ^ 53 - 1) * (2 ^ 256 * 2 ^ 256 * 2 ^ 256 * 2 ^ 203))

/-- Reads an unsigned decimal literal `digits[.digits]` as a fraction. -/
def parseDecimal (cs : List Char) : Option (Nat × Nat) :=
  match cs.span (fun c => c ≠ '.') with
  | (ip, []) => (parseNat ip).map fun n => (n, 1)
  | (ip, _ :: fp) =>
    match ip, fp with
    | [], [] => none
    | _, _ =>
      match parseDigits ip 0, parseDigits fp 0 with
      | some n, some f => some (n * 10 ^ fp.length + f, 10 ^ fp.length)
      | _, _ => none

/-- A version of `strconv.ParseFloat`: the texts `NaN`, `Inf`, `+Inf` and `-Inf`
parse without error to a value that is not finite; a decimal literal
`[sign]digits[.digits]` parses to the nearest `float64`, with a range error
when that is not finite.  Every other text is rejected. -/
def strconvParseFloat (s : String) : Option (Option Flt) :=
  if s = "NaN" ∨ s = "Inf" ∨ s = "+Inf" ∨ s = "-Inf" then some none
  else
    let signed : Option (Int × Nat) :=
      match s.data with
      | '-' :: rest => (parseDecimal rest).map fun p => (-(p.1 : Int), p.2)
      | '+' :: rest => (parseDecimal rest).map fun p => ((p.1 : Int), p.2)
      | cs => (parseDecimal cs).map fun p => ((p.1 : Int), p.2)
    signed.bind fun p =>
      let x := roundF64 p.1 p.2
      if x.scale = 0 ∧ maxF64 < x.num.natAbs then none else some (some x)

/-- Whether the year is a leap year of the proleptic Gregorian calendar. -/
def isLeap (y : Nat) : Bool := (y % 4 == 0 && y % 100 != 0) || y % 400 == 0

/-- The number of days of a month. -/
def daysIn (m y : Nat) : Nat :=
  if m = 2 then (if isLeap y then 29 else 28)
  else if m = 4 ∨ m = 6 ∨ m = 9 ∨ m = 11 then 30
  else 31

/-- The day number (days since 1970-01-01) of a calendar date. -/
def daysFromCivil (y m d : Nat) : Int :=
  let y1 : Int := if m ≤ 2 then (y : Int) - 1 else (y : Int)
  let era : Int := y1 / 400
  let yoe : Int := y1 - era * 400
  let mp : Int := if 2 < m then (m : Int) - 3 else (m : Int) + 9
  let doy : Int := (153 * mp + 2) / 5 + (d : Int) - 1
  let doe : Int := yoe * 365 + yoe / 4 - yoe / 100 + doy
  era * 146097 + doe - 719468

/-- A version of `time.Parse` with the layout `01/02/2006`: two digits of
month, two of day, four of year, the day inside its month. -/
def timeParse (s : String) : Option Int :=
  match s.data with
  | [m1, m2, '/', d1, d2, '/', y1, y2, y3, y4] =>
    match parseDigits [m1, m2] 0, parseDigits [d1, d2] 0, parseDigits [y1, y2, y3, y4] 0 with
    | some m, some d, some y =>
      if 1 ≤ m ∧ m ≤ 12 ∧ 1 ≤ d ∧ d ≤ daysIn m y then some (daysFromCivil y m d) else none
    | _, _, _ => none
  | _ => none

/-- The reference environment: test mode off, each organisation recognised by
its membership id and certificate issuer. -/
def refEnv : Env where
  testMode := false
  authenticateImporterOrg := fun org issuer =>
    org == "ImporterOrgMSP" && issuer == "ca.importerorg.trade.com"
  authenticateExporterOrg := fun org issuer =>
    org == "ExporterOrgMSP" && issuer == "ca.exporterorg.trade.com"
  authenticateLenderOrg := fun org issuer =>
    org == "LenderOrgMSP" && issuer == "ca.lenderorg.trade.com"
  authenticateCarrierOrg := fun org issuer =>
    org == "CarrierOrgMSP" && issuer == "ca.carrierorg.trade.com"
  authenticateRegulatorOrg := fun org issuer =>
    org == "RegulatorOrgMSP" && issuer == "ca.regulatororg.trade.com"
  authenticateExportingEntityOrg := fun org issuer =>
    org == "ExportingEntityOrgMSP" && issuer == "ca.exportingentityorg.trade.com"
  atoi := strconvAtoi
  parseFloat := strconvParseFloat
  parseDate := timeParse
  toLower := fun s => String.mk (s.data.map Char.toLower)

/-- A transaction submitted by a member of the Importer organisation. -/
def importerTx : Tx := ⟨some ("ImporterOrgMSP", "ca.importerorg.trade.com"), none⟩

/-- A transaction submitted by a member of the Exporter organisation. -/
def exporterTx : Tx := ⟨some ("ExporterOrgMSP", "ca.exporterorg.trade.com"), none⟩

/-- A transaction submitted by a member of the Lender organisation. -/
def lenderTx : Tx := ⟨some ("LenderOrgMSP", "ca.lenderorg.trade.com"), none⟩

/-- A transaction submitted by a member of the Carrier organisation. -/
def carrierTx : Tx := ⟨some ("CarrierOrgMSP", "ca.carrierorg.trade.com"), none⟩

/-- A transaction submitted by a member of the Regulator organisation. -/
def regulatorTx : Tx := ⟨some ("RegulatorOrgMSP", "ca.regulatororg.trade.com"), none⟩

/-- The ledger after the bootstrap call of the sample network: the eight
identities and the three starting balances. -/
def genesis : Ledger :=
  (Init refEnv ["LumberInc", "LumberBank", "100000", "WoodenToys", "ToyBank", "200000",
    "FinanceCo", "FinanceBank", "300000", "UniversalFrieght", "ForestryDepartment"]
    Ledger.empty).2

/-- The calls that take trade `T1` of amount 1000 from the request up to a
prepared shipment with an accepted letter of credit. -/
def shipmentPrefixCalls : List Call :=
  [⟨importerTx, "requestTrade", ["T1", "1000", "widgets"]⟩,
   ⟨exporterTx, "acceptTrade", ["T1"]⟩,
   ⟨importerTx, "requestLC", ["T1"]⟩,
   ⟨importerTx, "issueLC", ["T1", "lc1", "12/31/2030", "E/L", "B/L"]⟩,
   ⟨exporterTx, "acceptLC", ["T1"]⟩,
   ⟨exporterTx, "requestEL", ["T1"]⟩,
   ⟨regulatorTx, "issueEL", ["T1", "el1", "12/31/2030"]⟩,
   ⟨exporterTx, "prepareShipment", ["T1"]⟩,
   ⟨carrierTx, "acceptShipmentAndIssueBL", ["T1", "bl1", "12/31/2030", "Mumbai", "Rotterdam"]⟩]

/-! # Properties of the transitions -/

set_option maxRecDepth 100000

/-! ## Case analysis on the dispatched function -/

/-- Case analysis on the function name that `dispatch` inspects: a property of
the result of every dispatched function, each under the name it is dispatched
by, is a property of the result of `dispatch`. -/
theorem dispatch_cases {P : Response × Ledger → Prop} (env : Env) (tx : Tx) (o c fn : String)
    (args : List String) (s : Ledger)
    (h_requestTrade : fn = "requestTrade" → P (requestTrade env tx.tradelimit o c args s))
    (h_acceptTrade : fn = "acceptTrade" → P (acceptTrade env o c args s))
    (h_requestLC : fn = "requestLC" → P (requestLC env o c args s))
    (h_issueLC : fn = "issueLC" → P (issueLC env o c args s))
    (h_acceptLC : fn = "acceptLC" → P (acceptLC env o c args s))
    (h_requestLCTransfer : fn = "requestLCTransfer" → P (requestLCTransfer env o c args s))
    (h_issueLCTransfer : fn = "issueLCTransfer" → P (issueLCTransfer env o c args s))
    (h_acceptLCTransfer : fn = "acceptLCTransfer" → P (acceptLCTransfer env o c args s))
    (h_requestEL : fn = "requestEL" → P (requestEL env o c args s))
    (h_issueEL : fn = "issueEL" → P (issueEL env o c args s))
    (h_prepareShipment : fn = "prepareShipment" → P (prepareShipment env o c args s))
    (h_acceptShipmentAndIssueBL : fn = "acceptShipmentAndIssueBL" → P (acceptShipmentAndIssueBL env o c args s))
    (h_requestAdvancePayment : fn = "requestAdvancePayment" → P (requestAdvancePayment env o c args s))
    (h_makeAdvancePayment : fn = "makeAdvancePayment" → P (makeAdvancePayment env o c args s))
    (h_requestPayment : fn = "requestPayment" → P (requestPayment env o c args s))
    (h_makePayment : fn = "makePayment" → P (makePayment env o c args s))
    (h_updateShipmentLocation : fn = "updateShipmentLocation" → P (updateShipmentLocation env o c args s))
    (h_getTradeStatus : fn = "getTradeStatus" → P (getTradeStatus env o c args s))
    (h_getLCStatus : fn = "getLCStatus" → P (getLCStatus env o c args s))
    (h_getELStatus : fn = "getELStatus" → P (getELStatus env o c args s))
    (h_getShipmentLocation : fn = "getShipmentLocation" → P (getShipmentLocation env o c args s))
    (h_getArrivalDate : fn = "getArrivalDate" → P (getArrivalDate env o c args s))
    (h_getBillOfLading : fn = "getBillOfLading" → P (getBillOfLading env o c args s))
    (h_getAccountBalance : fn = "getAccountBalance" → P (getAccountBalance env o c args s))
    (h_other : P (.error "Invalid invoke function name", s)) :
    P (dispatch env tx o c fn args s) := by
  rw [dispatch]
  by_cases h0 : fn = "requestTrade"
  · rw [if_pos h0]
    exact h_requestTrade h0
  rw [if_neg h0]
  by_cases h1 : fn = "acceptTrade"
  · rw [if_pos h1]
    exact h_acceptTrade h1
  rw [if_neg h1]
  by_cases h2 : fn = "requestLC"
  · rw [if_pos h2]
    exact h_requestLC h2
  rw [if_neg h2]
  by_cases h3 : fn = "issueLC"
  · rw [if_pos h3]
    exact h_issueLC h3
  rw [if_neg h3]
  by_cases h4 : fn = "acceptLC"
  · rw [if_pos h4]
    exact h_acceptLC h4
  rw [if_neg h4]
  by_cases h5 : fn = "requestLCTransfer"
  · rw [if_pos h5]
    exact h_requestLCTransfer h5
  rw [if_neg h5]
  by_cases h6 : fn = "issueLCTransfer"
  · rw [if_pos h6]
    exact h_issueLCTransfer h6
  rw [if_neg h6]
  by_cases h7 : fn = "acceptLCTransfer"
  · rw [if_pos h7]
    exact h_acceptLCTransfer h7
  rw [if_neg h7]
  by_cases h8 : fn = "requestEL"
  · rw [if_pos h8]
    exact h_requestEL h8
  rw [if_neg h8]
  by_cases h9 : fn = "issueEL"
  · rw [if_pos h9]
    exact h_issueEL h9
  rw [if_neg h9]
  by_cases h10 : fn = "prepareShipment"
  · rw [if_pos h10]
    exact h_prepareShipment h10
  rw [if_neg h10]
  by_cases h11 : fn = "acceptShipmentAndIssueBL"
  · rw [if_pos h11]
    exact h_acceptShipmentAndIssueBL h11
  rw [if_neg h11]
  by_cases h12 : fn = "requestAdvancePayment"
  · rw [if_pos h12]
    exact h_requestAdvancePayment h12
  rw [if_neg h12]
  by_cases h13 : fn = "makeAdvancePayment"
  · rw [if_pos h13]
    exact h_makeAdvancePayment h13
  rw [if_neg h13]
  by_cases h14 : fn = "requestPayment"
  · rw [if_pos h14]
    exact h_requestPayment h14
  rw [if_neg h14]
  by_cases h15 : fn = "makePayment"
  · rw [if_pos h15]
    exact h_makePayment h15
  rw [if_neg h15]
  by_cases h16 : fn = "updateShipmentLocation"
  · rw [if_pos h16]
    exact h_updateShipmentLocation h16
  rw [if_neg h16]
  by_cases h17 : fn = "getTradeStatus"
  · rw [if_pos h17]
    exact h_getTradeStatus h17
  rw [if_neg h17]
  by_cases h18 : fn = "getLCStatus"
  · rw [if_pos h18]
    exact h_getLCStatus h18
  rw [if_neg h18]
  by_cases h19 : fn = "getELStatus"
  · rw [if_pos h19]
    exact h_getELStatus h19
  rw [if_neg h19]
  by_cases h20 : fn = "getShipmentLocation"
  · rw [if_pos h20]
    exact h_getShipmentLocation h20
  rw [if_neg h20]
  by_cases h21 : fn = "getArrivalDate"
  · rw [if_pos h21]
    exact h_getArrivalDate h21
  rw [if_neg h21]
  by_cases h22 : fn = "getBillOfLading"
  · rw [if_pos h22]
    exact h_getBillOfLading h22
  rw [if_neg h22]
  by_cases h23 : fn = "getAccountBalance"
  · rw [if_pos h23]
    exact h_getAccountBalance h23
  rw [if_neg h23]
  exact h_other

/-- Case analysis on `Invoke`: a property that holds of the result of every
dispatched function for every creator, and of every error return that leaves
the ledger alone, holds of the result of `Invoke`. -/
theorem Invoke_cases {P : Response × Ledger → Prop} (env : Env) (tx : Tx) (fn : String)
    (args : List String) (s : Ledger)
    (h_requestTrade : fn = "requestTrade" → ∀ o c, P (requestTrade env tx.tradelimit o c args s))
    (h_acceptTrade : fn = "acceptTrade" → ∀ o c, P (acceptTrade env o c args s))
    (h_requestLC : fn = "requestLC" → ∀ o c, P (requestLC env o c args s))
    (h_issueLC : fn = "issueLC" → ∀ o c, P (issueLC env o c args s))
    (h_acceptLC : fn = "acceptLC" → ∀ o c, P (acceptLC env o c args s))
    (h_requestLCTransfer : fn = "requestLCTransfer" → ∀ o c, P (requestLCTransfer env o c args s))
    (h_issueLCTransfer : fn = "issueLCTransfer" → ∀ o c, P (issueLCTransfer env o c args s))
    (h_acceptLCTransfer : fn = "acceptLCTransfer" → ∀ o c, P (acceptLCTransfer env o c args s))
    (h_requestEL : fn = "requestEL" → ∀ o c, P (requestEL env o c args s))
    (h_issueEL : fn = "issueEL" → ∀ o c, P (issueEL env o c args s))
    (h_prepareShipment : fn = "prepareShipment" → ∀ o c, P (prepareShipment env o c args s))
    (h_acceptShipmentAndIssueBL : fn = "acceptShipmentAndIssueBL" → ∀ o c, P (acceptShipmentAndIssueBL env o c args s))
    (h_requestAdvancePayment : fn = "requestAdvancePayment" → ∀ o c, P (requestAdvancePayment env o c args s))
    (h_makeAdvancePayment : fn = "makeAdvancePayment" → ∀ o c, P (makeAdvancePayment env o c args s))
    (h_requestPayment : fn = "requestPayment" → ∀ o c, P (requestPayment env o c args s))
    (h_makePayment : fn = "makePayment" → ∀ o c, P (makePayment env o c args s))
    (h_updateShipmentLocation : fn = "updateShipmentLocation" → ∀ o c, P (updateShipmentLocation env o c args s))
    (h_getTradeStatus : fn = "getTradeStatus" → ∀ o c, P (getTradeStatus env o c args s))
    (h_getLCStatus : fn = "getLCStatus" → ∀ o c, P (getLCStatus env o c args s))
    (h_getELStatus : fn = "getELStatus" → ∀ o c, P (getELStatus env o c args s))
    (h_getShipmentLocation : fn = "getShipmentLocation" → ∀ o c, P (getShipmentLocation env o c args s))
    (h_getArrivalDate : fn = "getArrivalDate" → ∀ o c, P (getArrivalDate env o c args s))
    (h_getBillOfLading : fn = "getBillOfLading" → ∀ o c, P (getBillOfLading env o c args s))
    (h_getAccountBalance : fn = "getAccountBalance" → ∀ o c, P (getAccountBalance env o c args s))
    (h_error : ∀ msg, P (.error msg, s)) :
    P (Invoke env tx fn args s) := by
  have key : ∀ o c, P (dispatch env tx o c fn args s) := fun o c =>
    dispatch_cases env tx o c fn args s
      (fun h => h_requestTrade h o c)
      (fun h => h_acceptTrade h o c)
      (fun h => h_requestLC h o c)
      (fun h => h_issueLC h o c)
      (fun h => h_acceptLC h o c)
      (fun h => h_requestLCTransfer h o c)
      (fun h => h_issueLCTransfer h o c)
      (fun h => h_acceptLCTransfer h o c)
      (fun h => h_requestEL h o c)
      (fun h => h_issueEL h o c)
      (fun h => h_prepareShipment h o c)
      (fun h => h_acceptShipmentAndIssueBL h o c)
      (fun h => h_requestAdvancePayment h o c)
      (fun h => h_makeAdvancePayment h o c)
      (fun h => h_requestPayment h o c)
      (fun h => h_makePayment h o c)
      (fun h => h_updateShipmentLocation h o c)
      (fun h => h_getTradeStatus h o c)
      (fun h => h_getLCStatus h o c)
      (fun h => h_getELStatus h o c)
      (fun h => h_getShipmentLocation h o c)
      (fun h => h_getArrivalDate h o c)
      (fun h => h_getBillOfLading h o c)
      (fun h => h_getAccountBalance h o c)
      (h_error _)
  unfold Invoke
  split
  · split
    · exact h_error _
    · exact key _ _
  · exact key _ _

/-! ## Queries read only -/

/-- The ledger is not touched by `readBalance`. -/
theorem readBalance_ledger (b : Option Int) (s : Ledger) : (readBalance b s).2 = s := by
  cases b <;> rfl

/-- The ledger is not touched by `getTradeStatus`. -/
theorem getTradeStatus_ledger (env : Env) (o c : String) (args : List String) (s : Ledger) :
    (getTradeStatus env o c args s).2 = s := by
  unfold getTradeStatus
  repeat' split
  all_goals rfl

/-- The ledger is not touched by `getLCStatus`. -/
theorem getLCStatus_ledger (env : Env) (o c : String) (args : List String) (s : Ledger) :
    (getLCStatus env o c args s).2 = s := by
  unfold getLCStatus
  repeat' split
  all_goals rfl

/-- The ledger is not touched by `getELStatus`. -/
theorem getELStatus_ledger (env : Env) (o c : String) (args : List String) (s : Ledger) :
    (getELStatus env o c args s).2 = s := by
  unfold getELStatus
  repeat' split
  all_goals rfl

/-- The ledger is not touched by `getShipmentLocation`. -/
theorem getShipmentLocation_ledger (env : Env) (o c : String) (args : List String) (s : Ledger) :
    (getShipmentLocation env o c args s).2 = s := by
  unfold getShipmentLocation
  repeat' split
  all_goals rfl

/-- The ledger is not touched by `getArrivalDate`. -/
theorem getArrivalDate_ledger (env : Env) (o c : String) (args : List String) (s : Ledger) :
    (getArrivalDate env o c args s).2 = s := by
  unfold getArrivalDate
  repeat' split
  all_goals rfl

/-- The ledger is not touched by `getBillOfLading`. -/
theorem getBillOfLading_ledger (env : Env) (o c : String) (args : List String) (s : Ledger) :
    (getBillOfLading env o c args s).2 = s := by
  unfold getBillOfLading
  repeat' split
  all_goals rfl

/-- The ledger is not touched by `getAccountBalance`. -/
theorem getAccountBalance_ledger (env : Env) (o c : String) (args : List String) (s : Ledger) :
    (getAccountBalance env o c args s).2 = s := by
  unfold getAccountBalance
  split
  · dsimp only
    split_ifs <;> first | rfl | exact readBalance_ledger _ s
  · rfl

/-! ## Error returns leave the ledger as it was -/

/-- An error return of `requestTrade` is preceded by no write. -/
theorem requestTrade_error_ledger (env : Env) (lim : Option String) (o c : String) (args : List String)
    (s : Ledger) (h : (requestTrade env lim o c args s).1.isError = true) :
    (requestTrade env lim o c args s).2 = s := by
  revert h
  unfold requestTrade
  repeat' split
  all_goals simp [Response.isError]

/-- An error return of `acceptTrade` is preceded by no write. -/
theorem acceptTrade_error_ledger (env : Env) (o c : String) (args : List String)
    (s : Ledger) (h : (acceptTrade env o c args s).1.isError = true) :
    (acceptTrade env o c args s).2 = s := by
  revert h
  unfold acceptTrade
  repeat' split
  all_goals simp [Response.isError]

/-- An error return of `requestLC` is preceded by no write. -/
theorem requestLC_error_ledger (env : Env) (o c : String) (args : List String)
    (s : Ledger) (h : (requestLC env o c args s).1.isError = true) :
    (requestLC env o c args s).2 = s := by
  revert h
  unfold requestLC
  repeat' split
  all_goals simp [Response.isError]

/-- An error return of `issueLC` is preceded by no write. -/
theorem issueLC_error_ledger (env : Env) (o c : String) (args : List String)
    (s : Ledger) (h : (issueLC env o c args s).1.isError = true) :
    (issueLC env o c args s).2 = s := by
  revert h
  unfold issueLC
  repeat' split
  all_goals simp [Response.isError]

/-- An error return of `acceptLC` is preceded by no write. -/
theorem acceptLC_error_ledger (env : Env) (o c : String) (args : List String)
    (s : Ledger) (h : (acceptLC env o c args s).1.isError = true) :
    (acceptLC env o c args s).2 = s := by
  revert h
  unfold acceptLC
  repeat' split
  all_goals simp [Response.isError]

/-- An error return of `requestLCTransfer` is preceded by no write. -/
theorem requestLCTransfer_error_ledger (env : Env) (o c : String) (args : List String)
    (s : Ledger) (h : (requestLCTransfer env o c args s).1.isError = true) :
    (requestLCTransfer env o c args s).2 = s := by
  revert h
  unfold requestLCTransfer
  repeat' split
  all_goals simp [Response.isError]

/-- An error return of `issueLCTransfer` is preceded by no write. -/
theorem issueLCTransfer_error_ledger (env : Env) (o c : String) (args : List String)
    (s : Ledger) (h : (issueLCTransfer env o c args s).1.isError = true) :
    (issueLCTransfer env o c args s).2 = s := by
  revert h
  unfold issueLCTransfer
  repeat' split
  all_goals simp [Response.isError]

/-- An error return of `acceptLCTransfer` is preceded by no write. -/
theorem acceptLCTransfer_error_ledger (env : Env) (o c : String) (args : List String)
    (s : Ledger) (h : (acceptLCTransfer env o c args s).1.isError = true) :
    (acceptLCTransfer env o c args s).2 = s := by
  revert h
  unfold acceptLCTransfer
  repeat' split
  all_goals simp [Response.isError]

/-- An error return of `requestEL` is preceded by no write. -/
theorem requestEL_error_ledger (env : Env) (o c : String) (args : List String)
    (s : Ledger) (h : (requestEL env o c args s).1.isError = true) :
    (requestEL env o c args s).2 = s := by
  revert h
  unfold requestEL
  repeat' split
  all_goals simp [Response.isError]

/-- An error return of `issueEL` is preceded by no write. -/
theorem issueEL_error_ledger (env : Env) (o c : String) (args : List String)
    (s : Ledger) (h : (issueEL env o c args s).1.isError = true) :
    (issueEL env o c args s).2 = s := by
  revert h
  unfold issueEL
  repeat' split
  all_goals simp [Response.isError]

/-- An error return of `prepareShipment` is preceded by no write. -/
theorem prepareShipment_error_ledger (env : Env) (o c : String) (args : List String)
    (s : Ledger) (h : (prepareShipment env o c args s).1.isError = true) :
    (prepareShipment env o c args s).2 = s := by
  revert h
  unfold prepareShipment
  repeat' split
  all_goals simp [Response.isError]

/-- An error return of `acceptShipmentAndIssueBL` is preceded by no write. -/
theorem acceptShipmentAndIssueBL_error_ledger (env : Env) (o c : String) (args : List String)
    (s : Ledger) (h : (acceptShipmentAndIssueBL env o c args s).1.isError = true) :
    (acceptShipmentAndIssueBL env o c args s).2 = s := by
  revert h
  unfold acceptShipmentAndIssueBL
  repeat' split
  all_goals simp [Response.isError]

/-- An error return of `requestAdvancePayment` is preceded by no write. -/
theorem requestAdvancePayment_error_ledger (env : Env) (o c : String) (args : List String)
    (s : Ledger) (h : (requestAdvancePayment env o c args s).1.isError = true) :
    (requestAdvancePayment env o c args s).2 = s := by
  revert h
  unfold requestAdvancePayment
  repeat' split
  all_goals simp [Response.isError]

/-- An error return of `makeAdvancePayment` is preceded by no write. -/
theorem makeAdvancePayment_error_ledger (env : Env) (o c : String) (args : List String)
    (s : Ledger) (h : (makeAdvancePayment env o c args s).1.isError = true) :
    (makeAdvancePayment env o c args s).2 = s := by
  revert h
  unfold makeAdvancePayment
  repeat' split
  all_goals simp [Response.isError]

/-- An error return of `requestPayment` is preceded by no write. -/
theorem requestPayment_error_ledger (env : Env) (o c : String) (args : List String)
    (s : Ledger) (h : (requestPayment env o c args s).1.isError = true) :
    (requestPayment env o c args s).2 = s := by
  revert h
  unfold requestPayment
  repeat' split
  all_goals simp [Response.isError]

/-- An error return of `makePayment` is preceded by no write. -/
theorem makePayment_error_ledger (env : Env) (o c : String) (args : List String)
    (s : Ledger) (h : (makePayment env o c args s).1.isError = true) :
    (makePayment env o c args s).2 = s := by
  revert h
  unfold makePayment
  repeat' split
  all_goals simp [Response.isError]

/-- An error return of `updateShipmentLocation` is preceded by no write. -/
theorem updateShipmentLocation_error_ledger (env : Env) (o c : String) (args : List String)
    (s : Ledger) (h : (updateShipmentLocation env o c args s).1.isError = true) :
    (updateShipmentLocation env o c args s).2 = s := by
  revert h
  unfold updateShipmentLocation
  repeat' split
  all_goals simp [Response.isError]

/-- C3: whenever a dispatched operation (any function name, any creator, any
argument list) returns an error, the ledger it leaves is exactly the ledger it
was given. -/
theorem C3_error_leaves_ledger_unchanged (env : Env) (tx : Tx) (fn : String)
    (args : List String) (s : Ledger) (h : (Invoke env tx fn args s).1.isError = true) :
    (Invoke env tx fn args s).2 = s :=
  Invoke_cases (P := fun r => r.1.isError = true → r.2 = s) env tx fn args s
    (fun _ o c => requestTrade_error_ledger env _ o c args s)
    (fun _ o c => acceptTrade_error_ledger env o c args s)
    (fun _ o c => requestLC_error_ledger env o c args s)
    (fun _ o c => issueLC_error_ledger env o c args s)
    (fun _ o c => acceptLC_error_ledger env o c args s)
    (fun _ o c => requestLCTransfer_error_ledger env o c args s)
    (fun _ o c => issueLCTransfer_error_ledger env o c args s)
    (fun _ o c => acceptLCTransfer_error_ledger env o c args s)
    (fun _ o c => requestEL_error_ledger env o c args s)
    (fun _ o c => issueEL_error_ledger env o c args s)
    (fun _ o c => prepareShipment_error_ledger env o c args s)
    (fun _ o c => acceptShipmentAndIssueBL_error_ledger env o c args s)
    (fun _ o c => requestAdvancePayment_error_ledger env o c args s)
    (fun _ o c => makeAdvancePayment_error_ledger env o c args s)
    (fun _ o c => requestPayment_error_ledger env o c args s)
    (fun _ o c => makePayment_error_ledger env o c args s)
    (fun _ o c => updateShipmentLocation_error_ledger env o c args s)
    (fun _ o c _ => getTradeStatus_ledger env o c args s)
    (fun _ o c _ => getLCStatus_ledger env o c args s)
    (fun _ o c _ => getELStatus_ledger env o c args s)
    (fun _ o c _ => getShipmentLocation_ledger env o c args s)
    (fun _ o c _ => getArrivalDate_ledger env o c args s)
    (fun _ o c _ => getBillOfLading_ledger env o c args s)
    (fun _ o c _ => getAccountBalance_ledger env o c args s)
    (fun _ _ => rfl) h

/-- Witness for C3: `makePayment` on the bootstrapped ledger, where no payment
request is pending, returns an error and the ledger is the bootstrapped one. -/
theorem C3_error_leaves_ledger_unchanged_witness :
    (Invoke refEnv importerTx "makePayment" ["T1", "03/31/2020"] genesis).1.isError = true
      ∧ (Invoke refEnv importerTx "makePayment" ["T1", "03/31/2020"] genesis).2 = genesis :=
  ⟨by decide,
   C3_error_leaves_ledger_unchanged refEnv importerTx "makePayment" ["T1", "03/31/2020"] genesis
     (by decide)⟩

/-! ## Machine integer arithmetic -/

/-- A value inside the range of `int` wraps around to itself. -/
theorem wrap64_of_inInt64 {n : Int} (h : inInt64 n) : wrap64 n = n := by
  unfold inInt64 at h
  unfold wrap64
  omega

/-- What wraps around is inside the range of `int`. -/
theorem inInt64_wrap64 (n : Int) : inInt64 (wrap64 n) := by
  unfold inInt64 wrap64
  omega

/-- A sum of two values of type `int` is the exact sum when that is inside the
range. -/
theorem intAdd_of_inInt64 {a b : Int} (h : inInt64 (a + b)) : intAdd a b = a + b :=
  wrap64_of_inInt64 h

/-- A difference of two values of type `int` is the exact difference when that
is inside the range. -/
theorem intSub_of_inInt64 {a b : Int} (h : inInt64 (a - b)) : intSub a b = a - b :=
  wrap64_of_inInt64 h

/-- A sum of type `int` is inside the range. -/
theorem inInt64_intAdd (a b : Int) : inInt64 (intAdd a b) := inInt64_wrap64 _

/-- A difference of type `int` is inside the range. -/
theorem inInt64_intSub (a b : Int) : inInt64 (intSub a b) := inInt64_wrap64 _

/-- Adding back what was subtracted gives the minuend, wrapped around. -/
theorem intAdd_intSub_cancel (a b : Int) : intAdd b (intSub a b) = wrap64 a := by
  unfold intAdd intSub wrap64
  omega

/-- Moving an amount from one value to another leaves their sum as it was,
modulo `2^64`. -/
theorem wrap64_intSub_add_intAdd (l t p : Int) :
    wrap64 (intSub l p + intAdd t p) = wrap64 (l + t) := by
  unfold intAdd intSub wrap64
  omega

/-- Two values inside the range of `int` that wrap around to the same value
are equal. -/
theorem eq_of_wrap64_eq {a b : Int} (ha : inInt64 a) (hb : inInt64 b)
    (h : wrap64 a = wrap64 b) : a = b := by
  rw [wrap64_of_inInt64 ha, wrap64_of_inInt64 hb] at h
  exact h

/-- Half of a value of type `int`, truncated, and what is left of the value
are inside the range. -/
theorem inInt64_tdiv_two {a : Int} (h : inInt64 a) :
    inInt64 (Int.tdiv a 2) ∧ inInt64 (a - Int.tdiv a 2) := by
  unfold inInt64 at h ⊢
  rcases le_or_lt 0 a with h0 | h0
  · rw [Int.tdiv_eq_ediv h0 (by norm_num)]
    omega
  · have h1 : Int.tdiv a 2 = -(Int.tdiv (-a) 2) := by
      rw [Int.neg_tdiv, neg_neg]
    rw [h1, Int.tdiv_eq_ediv (by omega : (0 : Int) ≤ -a) (by norm_num)]
    omega

/-! ## Signs of rounded values -/

/-- Rounding a non-negative numerator to the nearest integer gives a
non-negative integer. -/
theorem roundHalfEven_nonneg {a : Int} (b : Nat) (h : 0 ≤ a) : 0 ≤ roundHalfEven a b := by
  have hq : 0 ≤ a / (b : Int) := Int.ediv_nonneg h (Int.ofNat_nonneg b)
  unfold roundHalfEven
  dsimp only
  split_ifs <;> omega

/-- Normalisation keeps the sign of the numerator. -/
theorem Flt.normalize_num_nonneg (k : Nat) : ∀ {n : Int}, 0 ≤ n → 0 ≤ (Flt.normalize n k).num := by
  induction k with
  | zero => intro n h; simpa [Flt.normalize] using h
  | succ k ih =>
    intro n h
    unfold Flt.normalize
    split_ifs
    · exact ih (by omega)
    · exact h

/-- Rounding a non-negative fraction gives a non-negative value. -/
theorem roundBin_num_nonneg (prec : Nat) (emin : Int) {a : Int} (b : Nat) (h : 0 ≤ a) :
    0 ≤ (roundBin prec emin a b).num := by
  unfold roundBin
  dsimp only
  split_ifs
  · exact le_refl _
  · exact Int.mul_nonneg (roundHalfEven_nonneg _ h) (by positivity)
  · exact Flt.normalize_num_nonneg _ (roundHalfEven_nonneg _ (Int.mul_nonneg h (by positivity)))

/-! ## Inversion of the settlement functions -/

/-- What a run of `makePayment` amounts to: either it returns an error and the
ledger is untouched, or every guard of the source has passed and the ledger is
the one `settlePayment` writes, with the payee decided by the beneficiary. -/
theorem makePayment_cases (env : Env) (o c : String) (args : List String) (s : Ledger) :
    ((makePayment env o c args s).1.isError = true ∧ (makePayment env o c args s).2 = s)
    ∨ ∃ id date t l eb ib lb p,
        args = [id, date] ∧ s.payment id ≠ "" ∧ s.trade id = some t ∧ s.lc id = some l
        ∧ (l.status = .ACCEPTED ∨ l.status = .TRANSFER_ACCEPTED)
        ∧ s.shipmentLocation id ≠ ""
        ∧ s.expBal = some eb ∧ s.impBal = some ib ∧ s.lenBal = some lb
        ∧ computePaymentAmount env s id date t = .ok p
        ∧ ((l.beneficiary = s.exp
            ∧ makePayment env o c args s
              = (.success .nil,
                  settlePayment s id { t with payment := intAdd t.payment p }
                    { l with amount := intSub l.amount p } (intAdd eb p) (intSub ib p) lb))
          ∨ (l.beneficiary ≠ s.exp ∧ l.beneficiary = s.len
            ∧ makePayment env o c args s
              = (.success .nil,
                  settlePayment s id { t with payment := intAdd t.payment p }
                    { l with amount := intSub l.amount p } eb (intSub ib p) (intAdd lb p)))) := by
  unfold makePayment
  repeat' split
  all_goals first
    | exact Or.inl ⟨rfl, rfl⟩
    | (refine Or.inr ⟨_, _, _, _, _, _, _, _, rfl, ‹_›, ‹_›, ‹_›, ?_, ‹_›, ‹_›, ‹_›, ‹_›, ‹_›, ?_⟩
       · exact not_not.mp (by assumption)
       · first
          | exact Or.inl ⟨‹_›, rfl⟩
          | exact Or.inr ⟨‹_›, ‹_›, rfl⟩)

/-- What a run of `makeAdvancePayment` amounts to: either it returns an error
and the ledger is untouched, or every guard of the source has passed and the
ledger is the one `settleAdvancePayment` writes. -/
theorem makeAdvancePayment_cases (env : Env) (o c : String) (args : List String) (s : Ledger) :
    ((makeAdvancePayment env o c args s).1.isError = true
      ∧ (makeAdvancePayment env o c args s).2 = s)
    ∨ ∃ id l eb lb,
        args = [id] ∧ s.advancePayment id ≠ "" ∧ s.lc id = some l
        ∧ l.status = .TRANSFER_ACCEPTED ∧ l.beneficiary = s.len
        ∧ s.shipmentLocation id ≠ ""
        ∧ s.expBal = some eb ∧ s.lenBal = some lb
        ∧ makeAdvancePayment env o c args s
          = (.success .nil,
              settleAdvancePayment s id { l with advancePaymentSettlement := true }
                (intAdd eb (advancePaymentAmount l)) (intSub lb (advancePaymentAmount l))) := by
  unfold makeAdvancePayment
  repeat' split
  all_goals first
    | exact Or.inl ⟨rfl, rfl⟩
    | (refine Or.inr ⟨_, _, _, _, rfl, ‹_›, ‹_›, ?_, ?_, ‹_›, ‹_›, ‹_›, rfl⟩
       · simp_all
       · simp_all)

/-! ## The letter of credit across a step -/

/-- The letter of credit of every trade persists across a step and is related
to its successor by `R`. -/
def LCStep (R : LetterOfCredit → LetterOfCredit → Prop) (s s' : Ledger) : Prop :=
  ∀ id l, s.lc id = some l → ∃ l', s'.lc id = some l' ∧ R l l'

/-- A step that leaves the letters of credit alone. -/
theorem LCStep.of_lc_eq {R : LetterOfCredit → LetterOfCredit → Prop} (hR : ∀ l, R l l)
    {s s' : Ledger} (h : s'.lc = s.lc) : LCStep R s s' :=
  fun _ l hl => ⟨l, by rw [h]; exact hl, hR l⟩

/-- A step that rewrites one existing letter of credit. -/
theorem LCStep.of_putLC {R : LetterOfCredit → LetterOfCredit → Prop} (hR : ∀ l, R l l)
    {s s' : Ledger} {id0 : String} {l0 l1 : LetterOfCredit} (h0 : s.lc id0 = some l0)
    (h01 : R l0 l1) (h : s'.lc = Function.update s.lc id0 (some l1)) : LCStep R s s' := by
  intro id l hl
  rw [h]
  by_cases hid : id = id0
  · subst hid
    rw [h0] at hl
    cases hl
    exact ⟨l1, by simp, h01⟩
  · exact ⟨l, by simp [Function.update_noteq hid, hl], hR l⟩

/-- Weakening of the relation of a step. -/
theorem LCStep.mono {R R' : LetterOfCredit → LetterOfCredit → Prop}
    (hRR : ∀ l l', R l l' → R' l l') {s s' : Ledger} (h : LCStep R s s') : LCStep R' s s' :=
  fun id l hl => let ⟨l', h1, h2⟩ := h id l hl; ⟨l', h1, hRR l l' h2⟩

/-- The successor keeps the amount and does not lower the status. -/
def lcKeep (l l' : LetterOfCredit) : Prop :=
  l.status.rank ≤ l'.status.rank ∧ l'.amount = l.amount

/-- Every letter of credit is related to itself by `lcKeep`. -/
theorem lcKeep_refl (l : LetterOfCredit) : lcKeep l l := ⟨Nat.le_refl _, rfl⟩

/-- Across `requestTrade` every letter of credit keeps its amount and does not lower
its status. -/
theorem requestTrade_lcKeep (env : Env) (lim : Option String) (o c : String) (args : List String) (s : Ledger) :
    LCStep lcKeep s (requestTrade env lim o c args s).2 := by
  unfold requestTrade
  repeat' split
  all_goals exact LCStep.of_lc_eq lcKeep_refl rfl

/-- Across `acceptTrade` every letter of credit keeps its amount and does not lower
its status. -/
theorem acceptTrade_lcKeep (env : Env) (o c : String) (args : List String) (s : Ledger) :
    LCStep lcKeep s (acceptTrade env o c args s).2 := by
  unfold acceptTrade
  repeat' split
  all_goals exact LCStep.of_lc_eq lcKeep_refl rfl

/-- Across `issueLC` every letter of credit keeps its amount and does not lower
its status. -/
theorem issueLC_lcKeep (env : Env) (o c : String) (args : List String) (s : Ledger) :
    LCStep lcKeep s (issueLC env o c args s).2 := by
  unfold issueLC
  repeat' split
  all_goals first
    | exact LCStep.of_lc_eq lcKeep_refl rfl
    | (refine LCStep.of_putLC lcKeep_refl (by assumption) ?_ rfl
       cases hst : LetterOfCredit.status ‹LetterOfCredit› <;>
         simp_all [lcKeep, Status.rank])

/-- Across `acceptLC` every letter of credit keeps its amount and does not lower
its status. -/
theorem acceptLC_lcKeep (env : Env) (o c : String) (args : List String) (s : Ledger) :
    LCStep lcKeep s (acceptLC env o c args s).2 := by
  unfold acceptLC
  repeat' split
  all_goals first
    | exact LCStep.of_lc_eq lcKeep_refl rfl
    | (refine LCStep.of_putLC lcKeep_refl (by assumption) ?_ rfl
       cases hst : LetterOfCredit.status ‹LetterOfCredit› <;>
         simp_all [lcKeep, Status.rank])

/-- Across `requestLCTransfer` every letter of credit keeps its amount and does not lower
its status. -/
theorem requestLCTransfer_lcKeep (env : Env) (o c : String) (args : List String) (s : Ledger) :
    LCStep lcKeep s (requestLCTransfer env o c args s).2 := by
  unfold requestLCTransfer
  repeat' split
  all_goals first
    | exact LCStep.of_lc_eq lcKeep_refl rfl
    | (refine LCStep.of_putLC lcKeep_refl (by assumption) ?_ rfl
       cases hst : LetterOfCredit.status ‹LetterOfCredit› <;>
         simp_all [lcKeep, Status.rank])

/-- Across `issueLCTransfer` every letter of credit keeps its amount and does not lower
its status. -/
theorem issueLCTransfer_lcKeep (env : Env) (o c : String) (args : List String) (s : Ledger) :
    LCStep lcKeep s (issueLCTransfer env o c args s).2 := by
  unfold issueLCTransfer
  repeat' split
  all_goals first
    | exact LCStep.of_lc_eq lcKeep_refl rfl
    | (refine LCStep.of_putLC lcKeep_refl (by assumption) ?_ rfl
       cases hst : LetterOfCredit.status ‹LetterOfCredit› <;>
         simp_all [lcKeep, Status.rank])

/-- Across `acceptLCTransfer` every letter of credit keeps its amount and does not lower
its status. -/
theorem acceptLCTransfer_lcKeep (env : Env) (o c : String) (args : List String) (s : Ledger) :
    LCStep lcKeep s (acceptLCTransfer env o c args s).2 := by
  unfold acceptLCTransfer
  repeat' split
  all_goals first
    | exact LCStep.of_lc_eq lcKeep_refl rfl
    | (refine LCStep.of_putLC lcKeep_refl (by assumption) ?_ rfl
       cases hst : LetterOfCredit.status ‹LetterOfCredit› <;>
         simp_all [lcKeep, Status.rank])

/-- Across `requestEL` every letter of credit keeps its amount and does not lower
its status. -/
theorem requestEL_lcKeep (env : Env) (o c : String) (args : List String) (s : Ledger) :
    LCStep lcKeep s (requestEL env o c args s).2 := by
  unfold requestEL
  repeat' split
  all_goals exact LCStep.of_lc_eq lcKeep_refl rfl

/-- Across `issueEL` every letter of credit keeps its amount and does not lower
its status. -/
theorem issueEL_lcKeep (env : Env) (o c : String) (args : List String) (s : Ledger) :
    LCStep lcKeep s (issueEL env o c args s).2 := by
  unfold issueEL
  repeat' split
  all_goals exact LCStep.of_lc_eq lcKeep_refl rfl

/-- Across `prepareShipment` every letter of credit keeps its amount and does not lower
its status. -/
theorem prepareShipment_lcKeep (env : Env) (o c : String) (args : List String) (s : Ledger) :
    LCStep lcKeep s (prepareShipment env o c args s).2 := by
  unfold prepareShipment
  repeat' split
  all_goals exact LCStep.of_lc_eq lcKeep_refl rfl

/-- Across `acceptShipmentAndIssueBL` every letter of credit keeps its amount and does not lower
its status. -/
theorem acceptShipmentAndIssueBL_lcKeep (env : Env) (o c : String) (args : List String) (s : Ledger) :
    LCStep lcKeep s (acceptShipmentAndIssueBL env o c args s).2 := by
  unfold acceptShipmentAndIssueBL
  repeat' split
  all_goals exact LCStep.of_lc_eq lcKeep_refl rfl

/-- Across `requestAdvancePayment` every letter of credit keeps its amount and does not lower
its status. -/
theorem requestAdvancePayment_lcKeep (env : Env) (o c : String) (args : List String) (s : Ledger) :
    LCStep lcKeep s (requestAdvancePayment env o c args s).2 := by
  unfold requestAdvancePayment
  repeat' split
  all_goals exact LCStep.of_lc_eq lcKeep_refl rfl

/-- Across `makeAdvancePayment` every letter of credit keeps its amount and does not lower
its status. -/
theorem makeAdvancePayment_lcKeep (env : Env) (o c : String) (args : List String) (s : Ledger) :
    LCStep lcKeep s (makeAdvancePayment env o c args s).2 := by
  unfold makeAdvancePayment
  repeat' split
  all_goals first
    | exact LCStep.of_lc_eq lcKeep_refl rfl
    | (refine LCStep.of_putLC lcKeep_refl (by assumption) ?_ rfl
       cases hst : LetterOfCredit.status ‹LetterOfCredit› <;>
         simp_all [lcKeep, Status.rank])

/-- Across `requestPayment` every letter of credit keeps its amount and does not lower
its status. -/
theorem requestPayment_lcKeep (env : Env) (o c : String) (args : List String) (s : Ledger) :
    LCStep lcKeep s (requestPayment env o c args s).2 := by
  unfold requestPayment
  repeat' split
  all_goals exact LCStep.of_lc_eq lcKeep_refl rfl

/-- Across `updateShipmentLocation` every letter of credit keeps its amount and does not lower
its status. -/
theorem updateShipmentLocation_lcKeep (env : Env) (o c : String) (args : List String) (s : Ledger) :
    LCStep lcKeep s (updateShipmentLocation env o c args s).2 := by
  unfold updateShipmentLocation
  repeat' split
  all_goals exact LCStep.of_lc_eq lcKeep_refl rfl

/-- The successor has the same status. -/
def lcSameStatus (l l' : LetterOfCredit) : Prop := l'.status = l.status

/-- Every letter of credit has its own status. -/
theorem lcSameStatus_refl (l : LetterOfCredit) : lcSameStatus l l := rfl

/-- Across `makePayment` every letter of credit keeps its status. -/
theorem makePayment_lc_status (env : Env) (o c : String) (args : List String) (s : Ledger) :
    LCStep lcSameStatus s (makePayment env o c args s).2 := by
  rcases makePayment_cases env o c args s with ⟨_, h⟩ | ⟨id, date, t, l, eb, ib, lb, p, _, _, _,
    hl, _, _, _, _, _, _, ⟨_, h⟩ | ⟨_, _, h⟩⟩
  · rw [h]
    exact LCStep.of_lc_eq lcSameStatus_refl rfl
  · rw [h]
    exact LCStep.of_putLC lcSameStatus_refl hl
      (rfl : lcSameStatus l { l with amount := intSub l.amount p }) rfl
  · rw [h]
    exact LCStep.of_putLC lcSameStatus_refl hl
      (rfl : lcSameStatus l { l with amount := intSub l.amount p }) rfl

/-- What `requestLC` does to the letter of credit of a trade: it leaves it, or
it stores a fresh one in status `REQUESTED` whose amount is the trade amount. -/
theorem requestLC_lc (env : Env) (o c : String) (args : List String) (s : Ledger)
    (id : String) :
    (requestLC env o c args s).2.lc id = s.lc id
    ∨ ∃ t, s.trade id = some t
        ∧ (requestLC env o c args s).2.lc id
          = some ⟨"", "", s.exp, t.amount, [], .REQUESTED, ⟨0, 0⟩, false⟩ := by
  unfold requestLC
  repeat' split
  all_goals first
    | exact Or.inl rfl
    | skip
  rename_i id0 _ t ht _
  by_cases hid : id = id0
  · subst hid
    exact Or.inr ⟨t, ht, by simp [Ledger.putLC]⟩
  · exact Or.inl (by simp [Ledger.putLC, Function.update_noteq hid])

/-- Across any dispatched function other than `requestLC` every letter of
credit persists and its status does not move down the order. -/
theorem Invoke_lc_rank (env : Env) (tx : Tx) (fn : String) (args : List String) (s : Ledger)
    (hfn : fn ≠ "requestLC") :
    LCStep (fun l l' => l.status.rank ≤ l'.status.rank) s (Invoke env tx fn args s).2 :=
  Invoke_cases (P := fun r => LCStep (fun l l' => l.status.rank ≤ l'.status.rank) s r.2)
    env tx fn args s
    (fun _ o c => (requestTrade_lcKeep env _ o c args s).mono (fun _ _ h => h.1))
    (fun _ o c => (acceptTrade_lcKeep env o c args s).mono (fun _ _ h => h.1))
    (fun h => absurd h hfn)
    (fun _ o c => (issueLC_lcKeep env o c args s).mono (fun _ _ h => h.1))
    (fun _ o c => (acceptLC_lcKeep env o c args s).mono (fun _ _ h => h.1))
    (fun _ o c => (requestLCTransfer_lcKeep env o c args s).mono (fun _ _ h => h.1))
    (fun _ o c => (issueLCTransfer_lcKeep env o c args s).mono (fun _ _ h => h.1))
    (fun _ o c => (acceptLCTransfer_lcKeep env o c args s).mono (fun _ _ h => h.1))
    (fun _ o c => (requestEL_lcKeep env o c args s).mono (fun _ _ h => h.1))
    (fun _ o c => (issueEL_lcKeep env o c args s).mono (fun _ _ h => h.1))
    (fun _ o c => (prepareShipment_lcKeep env o c args s).mono (fun _ _ h => h.1))
    (fun _ o c => (acceptShipmentAndIssueBL_lcKeep env o c args s).mono (fun _ _ h => h.1))
    (fun _ o c => (requestAdvancePayment_lcKeep env o c args s).mono (fun _ _ h => h.1))
    (fun _ o c => (makeAdvancePayment_lcKeep env o c args s).mono (fun _ _ h => h.1))
    (fun _ o c => (requestPayment_lcKeep env o c args s).mono (fun _ _ h => h.1))
    (fun _ o c => (makePayment_lc_status env o c args s).mono
      (fun l l' (h : l'.status = l.status) => le_of_eq (congrArg Status.rank h.symm)))
    (fun _ o c => (updateShipmentLocation_lcKeep env o c args s).mono (fun _ _ h => h.1))
    (fun _ o c => LCStep.of_lc_eq (fun _ => Nat.le_refl _) (by rw [getTradeStatus_ledger]))
    (fun _ o c => LCStep.of_lc_eq (fun _ => Nat.le_refl _) (by rw [getLCStatus_ledger]))
    (fun _ o c => LCStep.of_lc_eq (fun _ => Nat.le_refl _) (by rw [getELStatus_ledger]))
    (fun _ o c => LCStep.of_lc_eq (fun _ => Nat.le_refl _) (by rw [getShipmentLocation_ledger]))
    (fun _ o c => LCStep.of_lc_eq (fun _ => Nat.le_refl _) (by rw [getArrivalDate_ledger]))
    (fun _ o c => LCStep.of_lc_eq (fun _ => Nat.le_refl _) (by rw [getBillOfLading_ledger]))
    (fun _ o c => LCStep.of_lc_eq (fun _ => Nat.le_refl _) (by rw [getAccountBalance_ledger]))
    (fun _ => LCStep.of_lc_eq (fun _ => Nat.le_refl _) rfl)

/-! ## Runs -/

/-- The ledger after the calls that prepare the shipment of trade `T1`: the
trade agreement and the letter of credit are accepted, the export licence is
issued, the shipment is at `SOURCE` and the bill of lading is recorded. -/
def preparedLedger : Ledger := run refEnv shipmentPrefixCalls genesis

/-- Over a sequence of calls none of which is `requestLC`, every letter of
credit persists and its status does not move down the order. -/
theorem run_lc_rank (env : Env) (calls : List Call)
    (hcalls : ∀ call ∈ calls, call.function ≠ "requestLC") :
    ∀ s : Ledger, LCStep (fun l l' => l.status.rank ≤ l'.status.rank) s (run env calls s) := by
  induction calls with
  | nil => exact fun s => LCStep.of_lc_eq (fun _ => Nat.le_refl _) rfl
  | cons call rest ih =>
    intro s id l h
    obtain ⟨l1, h1, hr1⟩ :=
      Invoke_lc_rank env call.tx call.function call.args s
        (hcalls call (List.mem_cons_self _ _)) id l h
    obtain ⟨l2, h2, hr2⟩ :=
      ih (fun c hc => hcalls c (List.mem_cons_of_mem _ hc)) _ id l1 h1
    exact ⟨l2, h2, Nat.le_trans hr1 hr2⟩

/-- The status of an existing letter of credit never moves down the order
`REQUESTED < ISSUED < ACCEPTED < TRANSFER_REQUESTED < TRANSFER_ISSUED <
TRANSFER_ACCEPTED` over any sequence of calls none of which is `requestLC`; a
`requestLC` call either leaves the letter of credit as it is or replaces it by
a fresh one in status `REQUESTED`. -/
theorem lc_status_monotone_except_requestLC (env : Env) (s : Ledger) (id : String)
    (l : LetterOfCredit) (h : s.lc id = some l) :
    (∀ calls : List Call, (∀ call ∈ calls, call.function ≠ "requestLC") →
        ∃ l', (run env calls s).lc id = some l' ∧ l.status.rank ≤ l'.status.rank)
    ∧ (∀ tx args, (Invoke env tx "requestLC" args s).2.lc id = some l
        ∨ ∃ l', (Invoke env tx "requestLC" args s).2.lc id = some l'
            ∧ l'.status = .REQUESTED) := by
  refine ⟨fun calls hcalls => run_lc_rank env calls hcalls s id l h, fun tx args => ?_⟩
  have key : ∀ o c, (requestLC env o c args s).2.lc id = some l
      ∨ ∃ l', (requestLC env o c args s).2.lc id = some l' ∧ l'.status = .REQUESTED := by
    intro o c
    rcases requestLC_lc env o c args s id with h1 | ⟨t, _, h1⟩
    · exact Or.inl (by rw [h1, h])
    · exact Or.inr ⟨_, h1, rfl⟩
  unfold Invoke
  split
  · split
    · exact Or.inl h
    · rw [dispatch]
      simp only [String.reduceEq, if_false, if_true]
      exact key _ _
  · rw [dispatch]
    simp only [String.reduceEq, if_false, if_true]
    exact key _ _

/-- C1 (the code at the failing input): on the prepared ledger the trade
agreement of `T1` is accepted and its letter of credit is in status `ACCEPTED`;
the Importer calls `requestLC` for `T1` again, the call succeeds and the stored
letter of credit is in status `REQUESTED`, below `ACCEPTED` in the order, with
the issued id, expiry and documents gone. -/
theorem C1_requestLC_regresses_status :
    preparedLedger.lc "T1"
        = some ⟨"lc1", "12/31/2030", "LumberInc", 1000, ["E/L", "B/L"], .ACCEPTED, ⟨0, 0⟩, false⟩
    ∧ (Invoke refEnv importerTx "requestLC" ["T1"] preparedLedger).1 = .success .nil
    ∧ (Invoke refEnv importerTx "requestLC" ["T1"] preparedLedger).2.lc "T1"
        = some ⟨"", "", "LumberInc", 1000, [], .REQUESTED, ⟨0, 0⟩, false⟩
    ∧ Status.REQUESTED.rank < Status.ACCEPTED.rank := by
  decide

/-- The calls, after `shipmentPrefixCalls`, that request and make the first
installment of trade `T1` while the shipment is at `SOURCE`. -/
def firstInstallmentCalls : List Call :=
  [⟨exporterTx, "requestPayment", ["T1"]⟩,
   ⟨importerTx, "makePayment", ["T1", "01/15/2020"]⟩]

/-- The calls, after `shipmentPrefixCalls`, that pay trade `T1` of amount 1000
late in one payment of 1050, ninety days after the arrival on 1 January 2020,
and then request a further payment. -/
def overpaidCalls : List Call :=
  [⟨carrierTx, "updateShipmentLocation", ["T1", "DESTINATION", "01/01/2020"]⟩,
   ⟨exporterTx, "requestPayment", ["T1"]⟩,
   ⟨importerTx, "makePayment", ["T1", "03/31/2020"]⟩,
   ⟨exporterTx, "requestPayment", ["T1"]⟩]

/-- C10 (the code at the failing input): trade `T1` of amount 1000 has been paid
late in one payment of 1050, its letter of credit has amount -50, and a
further payment has been requested, which `requestPayment` lets through
because the paid amount differs from the trade amount; `makePayment` succeeds,
pays the remaining -50, and the amount of the letter of credit grows from -50
to 0. -/
theorem C10_lc_amount_grows_after_overpayment :
    (run refEnv overpaidCalls preparedLedger).trade "T1"
        = some ⟨1000, "widgets", .ACCEPTED, 1050⟩
    ∧ ((run refEnv overpaidCalls preparedLedger).lc "T1").map (fun l => l.amount) = some (-50)
    ∧ (run refEnv overpaidCalls preparedLedger).payment "T1" ≠ ""
    ∧ (Invoke refEnv importerTx "makePayment" ["T1", "02/01/2020"]
          (run refEnv overpaidCalls preparedLedger)).1 = .success .nil
    ∧ ((Invoke refEnv importerTx "makePayment" ["T1", "02/01/2020"]
          (run refEnv overpaidCalls preparedLedger)).2.lc "T1").map (fun l => l.amount)
        = some 0
    ∧ (Invoke refEnv importerTx "makePayment" ["T1", "02/01/2020"]
          (run refEnv overpaidCalls preparedLedger)).2.trade "T1"
        = some ⟨1000, "widgets", .ACCEPTED, 1000⟩ := by
  decide

/-! ## `Invoke` on a given transition name -/

/-- A property of `requestTrade` for every creator, and of the error return for a
creator that cannot be extracted, is a property of `Invoke` on the name
`requestTrade`. -/
theorem Invoke_requestTrade {P : Response × Ledger → Prop} (env : Env) (tx : Tx)
    (args : List String) (s : Ledger) (h : ∀ o c, P (requestTrade env tx.tradelimit o c args s))
    (herr : P (.error "Error extracting creator identity info", s)) :
    P (Invoke env tx "requestTrade" args s) := by
  unfold Invoke
  split
  · split
    · exact herr
    · rw [dispatch]
      simp only [String.reduceEq, if_false, if_true]
      exact h _ _
  · rw [dispatch]
    simp only [String.reduceEq, if_false, if_true]
    exact h _ _

/-- A property of `acceptTrade` for every creator, and of the error return for a
creator that cannot be extracted, is a property of `Invoke` on the name
`acceptTrade`. -/
theorem Invoke_acceptTrade {P : Response × Ledger → Prop} (env : Env) (tx : Tx)
    (args : List String) (s : Ledger) (h : ∀ o c, P (acceptTrade env o c args s))
    (herr : P (.error "Error extracting creator identity info", s)) :
    P (Invoke env tx "acceptTrade" args s) := by
  unfold Invoke
  split
  · split
    · exact herr
    · rw [dispatch]
      simp only [String.reduceEq, if_false, if_true]
      exact h _ _
  · rw [dispatch]
    simp only [String.reduceEq, if_false, if_true]
    exact h _ _

/-- A property of `requestLC` for every creator, and of the error return for a
creator that cannot be extracted, is a property of `Invoke` on the name
`requestLC`. -/
theorem Invoke_requestLC {P : Response × Ledger → Prop} (env : Env) (tx : Tx)
    (args : List String) (s : Ledger) (h : ∀ o c, P (requestLC env o c args s))
    (herr : P (.error "Error extracting creator identity info", s)) :
    P (Invoke env tx "requestLC" args s) := by
  unfold Invoke
  split
  · split
    · exact herr
    · rw [dispatch]
      simp only [String.reduceEq, if_false, if_true]
      exact h _ _
  · rw [dispatch]
    simp only [String.reduceEq, if_false, if_true]
    exact h _ _

/-- A property of `issueLC` for every creator, and of the error return for a
creator that cannot be extracted, is a property of `Invoke` on the name
`issueLC`. -/
theorem Invoke_issueLC {P : Response × Ledger → Prop} (env : Env) (tx : Tx)
    (args : List String) (s : Ledger) (h : ∀ o c, P (issueLC env o c args s))
    (herr : P (.error "Error extracting creator identity info", s)) :
    P (Invoke env tx "issueLC" args s) := by
  unfold Invoke
  split
  · split
    · exact herr
    · rw [dispatch]
      simp only [String.reduceEq, if_false, if_true]
      exact h _ _
  · rw [dispatch]
    simp only [String.reduceEq, if_false, if_true]
    exact h _ _

/-- A property of `acceptLC` for every creator, and of the error return for a
creator that cannot be extracted, is a property of `Invoke` on the name
`acceptLC`. -/
theorem Invoke_acceptLC {P : Response × Ledger → Prop} (env : Env) (tx : Tx)
    (args : List String) (s : Ledger) (h : ∀ o c, P (acceptLC env o c args s))
    (herr : P (.error "Error extracting creator identity info", s)) :
    P (Invoke env tx "acceptLC" args s) := by
  unfold Invoke
  split
  · split
    · exact herr
    · rw [dispatch]
      simp only [String.reduceEq, if_false, if_true]
      exact h _ _
  · rw [dispatch]
    simp only [String.reduceEq, if_false, if_true]
    exact h _ _

/-- A property of `requestLCTransfer` for every creator, and of the error return for a
creator that cannot be extracted, is a property of `Invoke` on the name
`requestLCTransfer`. -/
theorem Invoke_requestLCTransfer {P : Response × Ledger → Prop} (env : Env) (tx : Tx)
    (args : List String) (s : Ledger) (h : ∀ o c, P (requestLCTransfer env o c args s))
    (herr : P (.error "Error extracting creator identity info", s)) :
    P (Invoke env tx "requestLCTransfer" args s) := by
  unfold Invoke
  split
  · split
    · exact herr
    · rw [dispatch]
      simp only [String.reduceEq, if_false, if_true]
      exact h _ _
  · rw [dispatch]
    simp only [String.reduceEq, if_false, if_true]
    exact h _ _

/-- A property of `issueLCTransfer` for every creator, and of the error return for a
creator that cannot be extracted, is a property of `Invoke` on the name
`issueLCTransfer`. -/
theorem Invoke_issueLCTransfer {P : Response × Ledger → Prop} (env : Env) (tx : Tx)
    (args : List String) (s : Ledger) (h : ∀ o c, P (issueLCTransfer env o c args s))
    (herr : P (.error "Error extracting creator identity info", s)) :
    P (Invoke env tx "issueLCTransfer" args s) := by
  unfold Invoke
  split
  · split
    · exact herr
    · rw [dispatch]
      simp only [String.reduceEq, if_false, if_true]
      exact h _ _
  · rw [dispatch]
    simp only [String.reduceEq, if_false, if_true]
    exact h _ _

/-- A property of `acceptLCTransfer` for every creator, and of the error return for a
creator that cannot be extracted, is a property of `Invoke` on the name
`acceptLCTransfer`. -/
theorem Invoke_acceptLCTransfer {P : Response × Ledger → Prop} (env : Env) (tx : Tx)
    (args : List String) (s : Ledger) (h : ∀ o c, P (acceptLCTransfer env o c args s))
    (herr : P (.error "Error extracting creator identity info", s)) :
    P (Invoke env tx "acceptLCTransfer" args s) := by
  unfold Invoke
  split
  · split
    · exact herr
    · rw [dispatch]
      simp only [String.reduceEq, if_false, if_true]
      exact h _ _
  · rw [dispatch]
    simp only [String.reduceEq, if_false, if_true]
    exact h _ _

/-- A property of `requestEL` for every creator, and of the error return for a
creator that cannot be extracted, is a property of `Invoke` on the name
`requestEL`. -/
theorem Invoke_requestEL {P : Response × Ledger → Prop} (env : Env) (tx : Tx)
    (args : List String) (s : Ledger) (h : ∀ o c, P (requestEL env o c args s))
    (herr : P (.error "Error extracting creator identity info", s)) :
    P (Invoke env tx "requestEL" args s) := by
  unfold Invoke
  split
  · split
    · exact herr
    · rw [dispatch]
      simp only [String.reduceEq, if_false, if_true]
      exact h _ _
  · rw [dispatch]
    simp only [String.reduceEq, if_false, if_true]
    exact h _ _

/-- A property of `issueEL` for every creator, and of the error return for a
creator that cannot be extracted, is a property of `Invoke` on the name
`issueEL`. -/
theorem Invoke_issueEL {P : Response × Ledger → Prop} (env : Env) (tx : Tx)
    (args : List String) (s : Ledger) (h : ∀ o c, P (issueEL env o c args s))
    (herr : P (.error "Error extracting creator identity info", s)) :
    P (Invoke env tx "issueEL" args s) := by
  unfold Invoke
  split
  · split
    · exact herr
    · rw [dispatch]
      simp only [String.reduceEq, if_false, if_true]
      exact h _ _
  · rw [dispatch]
    simp only [String.reduceEq, if_false, if_true]
    exact h _ _

/-- A property of `prepareShipment` for every creator, and of the error return for a
creator that cannot be extracted, is a property of `Invoke` on the name
`prepareShipment`. -/
theorem Invoke_prepareShipment {P : Response × Ledger → Prop} (env : Env) (tx : Tx)
    (args : List String) (s : Ledger) (h : ∀ o c, P (prepareShipment env o c args s))
    (herr : P (.error "Error extracting creator identity info", s)) :
    P (Invoke env tx "prepareShipment" args s) := by
  unfold Invoke
  split
  · split
    · exact herr
    · rw [dispatch]
      simp only [String.reduceEq, if_false, if_true]
      exact h _ _
  · rw [dispatch]
    simp only [String.reduceEq, if_false, if_true]
    exact h _ _

/-- A property of `acceptShipmentAndIssueBL` for every creator, and of the error return for a
creator that cannot be extracted, is a property of `Invoke` on the name
`acceptShipmentAndIssueBL`. -/
theorem Invoke_acceptShipmentAndIssueBL {P : Response × Ledger → Prop} (env : Env) (tx : Tx)
    (args : List String) (s : Ledger) (h : ∀ o c, P (acceptShipmentAndIssueBL env o c args s))
    (herr : P (.error "Error extracting creator identity info", s)) :
    P (Invoke env tx "acceptShipmentAndIssueBL" args s) := by
  unfold Invoke
  split
  · split
    · exact herr
    · rw [dispatch]
      simp only [String.reduceEq, if_false, if_true]
      exact h _ _
  · rw [dispatch]
    simp only [String.reduceEq, if_false, if_true]
    exact h _ _

/-- A property of `requestAdvancePayment` for every creator, and of the error return for a
creator that cannot be extracted, is a property of `Invoke` on the name
`requestAdvancePayment`. -/
theorem Invoke_requestAdvancePayment {P : Response × Ledger → Prop} (env : Env) (tx : Tx)
    (args : List String) (s : Ledger) (h : ∀ o c, P (requestAdvancePayment env o c args s))
    (herr : P (.error "Error extracting creator identity info", s)) :
    P (Invoke env tx "requestAdvancePayment" args s) := by
  unfold Invoke
  split
  · split
    · exact herr
    · rw [dispatch]
      simp only [String.reduceEq, if_false, if_true]
      exact h _ _
  · rw [dispatch]
    simp only [String.reduceEq, if_false, if_true]
    exact h _ _

/-- A property of `makeAdvancePayment` for every creator, and of the error return for a
creator that cannot be extracted, is a property of `Invoke` on the name
`makeAdvancePayment`. -/
theorem Invoke_makeAdvancePayment {P : Response × Ledger → Prop} (env : Env) (tx : Tx)
    (args : List String) (s : Ledger) (h : ∀ o c, P (makeAdvancePayment env o c args s))
    (herr : P (.error "Error extracting creator identity info", s)) :
    P (Invoke env tx "makeAdvancePayment" args s) := by
  unfold Invoke
  split
  · split
    · exact herr
    · rw [dispatch]
      simp only [String.reduceEq, if_false, if_true]
      exact h _ _
  · rw [dispatch]
    simp only [String.reduceEq, if_false, if_true]
    exact h _ _

/-- A property of `requestPayment` for every creator, and of the error return for a
creator that cannot be extracted, is a property of `Invoke` on the name
`requestPayment`. -/
theorem Invoke_requestPayment {P : Response × Ledger → Prop} (env : Env) (tx : Tx)
    (args : List String) (s : Ledger) (h : ∀ o c, P (requestPayment env o c args s))
    (herr : P (.error "Error extracting creator identity info", s)) :
    P (Invoke env tx "requestPayment" args s) := by
  unfold Invoke
  split
  · split
    · exact herr
    · rw [dispatch]
      simp only [String.reduceEq, if_false, if_true]
      exact h _ _
  · rw [dispatch]
    simp only [String.reduceEq, if_false, if_true]
    exact h _ _

/-- A property of `makePayment` for every creator, and of the error return for a
creator that cannot be extracted, is a property of `Invoke` on the name
`makePayment`. -/
theorem Invoke_makePayment {P : Response × Ledger → Prop} (env : Env) (tx : Tx)
    (args : List String) (s : Ledger) (h : ∀ o c, P (makePayment env o c args s))
    (herr : P (.error "Error extracting creator identity info", s)) :
    P (Invoke env tx "makePayment" args s) := by
  unfold Invoke
  split
  · split
    · exact herr
    · rw [dispatch]
      simp only [String.reduceEq, if_false, if_true]
      exact h _ _
  · rw [dispatch]
    simp only [String.reduceEq, if_false, if_true]
    exact h _ _

/-- A property of `updateShipmentLocation` for every creator, and of the error return for a
creator that cannot be extracted, is a property of `Invoke` on the name
`updateShipmentLocation`. -/
theorem Invoke_updateShipmentLocation {P : Response × Ledger → Prop} (env : Env) (tx : Tx)
    (args : List String) (s : Ledger) (h : ∀ o c, P (updateShipmentLocation env o c args s))
    (herr : P (.error "Error extracting creator identity info", s)) :
    P (Invoke env tx "updateShipmentLocation" args s) := by
  unfold Invoke
  split
  · split
    · exact herr
    · rw [dispatch]
      simp only [String.reduceEq, if_false, if_true]
      exact h _ _
  · rw [dispatch]
    simp only [String.reduceEq, if_false, if_true]
    exact h _ _

/-! ## The trade agreement across a step -/

/-- The trade agreement of every trade persists across a step and is related
to its successor by `R`. -/
def TradeStep (R : TradeAgreement → TradeAgreement → Prop) (s s' : Ledger) : Prop :=
  ∀ id t, s.trade id = some t → ∃ t', s'.trade id = some t' ∧ R t t'

/-- A step that leaves the trade agreements alone. -/
theorem TradeStep.of_trade_eq {R : TradeAgreement → TradeAgreement → Prop} (hR : ∀ t, R t t)
    {s s' : Ledger} (h : s'.trade = s.trade) : TradeStep R s s' :=
  fun _ t ht => ⟨t, by rw [h]; exact ht, hR t⟩

/-- A step that rewrites one existing trade agreement. -/
theorem TradeStep.of_putTrade {R : TradeAgreement → TradeAgreement → Prop} (hR : ∀ t, R t t)
    {s s' : Ledger} {id0 : String} {t0 t1 : TradeAgreement} (h0 : s.trade id0 = some t0)
    (h01 : R t0 t1) (h : s'.trade = Function.update s.trade id0 (some t1)) :
    TradeStep R s s' := by
  intro id t ht
  rw [h]
  by_cases hid : id = id0
  · subst hid
    rw [h0] at ht
    cases ht
    exact ⟨t1, by simp, h01⟩
  · exact ⟨t, by simp [Function.update_noteq hid, ht], hR t⟩

/-- The successor has the same amount, goods and paid amount, and is accepted
if the original was. -/
def tradeKeep (t t' : TradeAgreement) : Prop :=
  t'.amount = t.amount ∧ t'.payment = t.payment
    ∧ t'.descriptionOfGoods = t.descriptionOfGoods
    ∧ (t.status = .ACCEPTED → t'.status = .ACCEPTED)

/-- Every trade agreement is related to itself by `tradeKeep`. -/
theorem tradeKeep_refl (t : TradeAgreement) : tradeKeep t t := ⟨rfl, rfl, rfl, id⟩

/-- Across `acceptTrade` every trade agreement keeps its amount, its goods and its
paid amount, and stays accepted if it was. -/
theorem acceptTrade_tradeKeep (env : Env) (o c : String) (args : List String) (s : Ledger) :
    TradeStep tradeKeep s (acceptTrade env o c args s).2 := by
  unfold acceptTrade
  repeat' split
  all_goals first
    | exact TradeStep.of_trade_eq tradeKeep_refl rfl
    | (refine TradeStep.of_putTrade tradeKeep_refl (by assumption) ?_ rfl
       exact ⟨rfl, rfl, rfl, fun _ => rfl⟩)

/-- Across `requestLC` every trade agreement keeps its amount, its goods and its
paid amount, and stays accepted if it was. -/
theorem requestLC_tradeKeep (env : Env) (o c : String) (args : List String) (s : Ledger) :
    TradeStep tradeKeep s (requestLC env o c args s).2 := by
  unfold requestLC
  repeat' split
  all_goals exact TradeStep.of_trade_eq tradeKeep_refl rfl

/-- Across `issueLC` every trade agreement keeps its amount, its goods and its
paid amount, and stays accepted if it was. -/
theorem issueLC_tradeKeep (env : Env) (o c : String) (args : List String) (s : Ledger) :
    TradeStep tradeKeep s (issueLC env o c args s).2 := by
  unfold issueLC
  repeat' split
  all_goals exact TradeStep.of_trade_eq tradeKeep_refl rfl

/-- Across `acceptLC` every trade agreement keeps its amount, its goods and its
paid amount, and stays accepted if it was. -/
theorem acceptLC_tradeKeep (env : Env) (o c : String) (args : List String) (s : Ledger) :
    TradeStep tradeKeep s (acceptLC env o c args s).2 := by
  unfold acceptLC
  repeat' split
  all_goals exact TradeStep.of_trade_eq tradeKeep_refl rfl

/-- Across `requestLCTransfer` every trade agreement keeps its amount, its goods and its
paid amount, and stays accepted if it was. -/
theorem requestLCTransfer_tradeKeep (env : Env) (o c : String) (args : List String) (s : Ledger) :
    TradeStep tradeKeep s (requestLCTransfer env o c args s).2 := by
  unfold requestLCTransfer
  repeat' split
  all_goals exact TradeStep.of_trade_eq tradeKeep_refl rfl

/-- Across `issueLCTransfer` every trade agreement keeps its amount, its goods and its
paid amount, and stays accepted if it was. -/
theorem issueLCTransfer_tradeKeep (env : Env) (o c : String) (args : List String) (s : Ledger) :
    TradeStep tradeKeep s (issueLCTransfer env o c args s).2 := by
  unfold issueLCTransfer
  repeat' split
  all_goals exact TradeStep.of_trade_eq tradeKeep_refl rfl

/-- Across `acceptLCTransfer` every trade agreement keeps its amount, its goods and its
paid amount, and stays accepted if it was. -/
theorem acceptLCTransfer_tradeKeep (env : Env) (o c : String) (args : List String) (s : Ledger) :
    TradeStep tradeKeep s (acceptLCTransfer env o c args s).2 := by
  unfold acceptLCTransfer
  repeat' split
  all_goals exact TradeStep.of_trade_eq tradeKeep_refl rfl

/-- Across `requestEL` every trade agreement keeps its amount, its goods and its
paid amount, and stays accepted if it was. -/
theorem requestEL_tradeKeep (env : Env) (o c : String) (args : List String) (s : Ledger) :
    TradeStep tradeKeep s (requestEL env o c args s).2 := by
  unfold requestEL
  repeat' split
  all_goals exact TradeStep.of_trade_eq tradeKeep_refl rfl

/-- Across `issueEL` every trade agreement keeps its amount, its goods and its
paid amount, and stays accepted if it was. -/
theorem issueEL_tradeKeep (env : Env) (o c : String) (args : List String) (s : Ledger) :
    TradeStep tradeKeep s (issueEL env o c args s).2 := by
  unfold issueEL
  repeat' split
  all_goals exact TradeStep.of_trade_eq tradeKeep_refl rfl

/-- Across `prepareShipment` every trade agreement keeps its amount, its goods and its
paid amount, and stays accepted if it was. -/
theorem prepareShipment_tradeKeep (env : Env) (o c : String) (args : List String) (s : Ledger) :
    TradeStep tradeKeep s (prepareShipment env o c args s).2 := by
  unfold prepareShipment
  repeat' split
  all_goals exact TradeStep.of_trade_eq tradeKeep_refl rfl

/-- Across `acceptShipmentAndIssueBL` every trade agreement keeps its amount, its goods and its
paid amount, and stays accepted if it was. -/
theorem acceptShipmentAndIssueBL_tradeKeep (env : Env) (o c : String) (args : List String) (s : Ledger) :
    TradeStep tradeKeep s (acceptShipmentAndIssueBL env o c args s).2 := by
  unfold acceptShipmentAndIssueBL
  repeat' split
  all_goals exact TradeStep.of_trade_eq tradeKeep_refl rfl

/-- Across `requestAdvancePayment` every trade agreement keeps its amount, its goods and its
paid amount, and stays accepted if it was. -/
theorem requestAdvancePayment_tradeKeep (env : Env) (o c : String) (args : List String) (s : Ledger) :
    TradeStep tradeKeep s (requestAdvancePayment env o c args s).2 := by
  unfold requestAdvancePayment
  repeat' split
  all_goals exact TradeStep.of_trade_eq tradeKeep_refl rfl

/-- Across `makeAdvancePayment` every trade agreement keeps its amount, its goods and its
paid amount, and stays accepted if it was. -/
theorem makeAdvancePayment_tradeKeep (env : Env) (o c : String) (args : List String) (s : Ledger) :
    TradeStep tradeKeep s (makeAdvancePayment env o c args s).2 := by
  unfold makeAdvancePayment
  repeat' split
  all_goals exact TradeStep.of_trade_eq tradeKeep_refl rfl

/-- Across `requestPayment` every trade agreement keeps its amount, its goods and its
paid amount, and stays accepted if it was. -/
theorem requestPayment_tradeKeep (env : Env) (o c : String) (args : List String) (s : Ledger) :
    TradeStep tradeKeep s (requestPayment env o c args s).2 := by
  unfold requestPayment
  repeat' split
  all_goals exact TradeStep.of_trade_eq tradeKeep_refl rfl

/-- Across `updateShipmentLocation` every trade agreement keeps its amount, its goods and its
paid amount, and stays accepted if it was. -/
theorem updateShipmentLocation_tradeKeep (env : Env) (o c : String) (args : List String) (s : Ledger) :
    TradeStep tradeKeep s (updateShipmentLocation env o c args s).2 := by
  unfold updateShipmentLocation
  repeat' split
  all_goals exact TradeStep.of_trade_eq tradeKeep_refl rfl

/-- What `requestTrade` does to the trade agreement of a trade: it leaves it, or
it stores a fresh one in status `REQUESTED` with nothing paid, whose amount is
the parsed amount argument. -/
theorem requestTrade_trade (env : Env) (lim : Option String) (o c : String)
    (args : List String) (s : Ledger) (id : String) :
    (requestTrade env lim o c args s).2.trade id = s.trade id
    ∨ ∃ amountArg description amount, args = [id, amountArg, description]
        ∧ env.atoi amountArg = some amount
        ∧ (requestTrade env lim o c args s).2.trade id
          = some ⟨amount, description, .REQUESTED, 0⟩ := by
  unfold requestTrade
  repeat' split
  all_goals first
    | exact Or.inl rfl
    | skip
  rename_i id0 amountArg description _ amount hamount _
  by_cases hid : id = id0
  · subst hid
    exact Or.inr ⟨amountArg, description, amount, rfl, hamount, by simp [Ledger.putTrade]⟩
  · exact Or.inl (by simp [Ledger.putTrade, Function.update_noteq hid])

/-- When the surcharge is not positive the payment computed after the shipment
has left `SOURCE` is the remaining amount. -/
theorem latePaymentAmount_on_time (amount payment ad cd : Int)
    (h : (surcharge ad cd).leZero = true) :
    latePaymentAmount amount payment ad cd = intSub amount payment := by
  unfold latePaymentAmount
  simp [h]

/-- What `makePayment` does to the trade agreement of a trade: it leaves it, or
it adds the computed payment to the paid amount: half the amount while the
shipment is at `SOURCE`, the late payment amount for the parsed arrival and
payment dates otherwise. -/
theorem makePayment_trade (env : Env) (o c : String) (args : List String) (s : Ledger)
    (id : String) (t : TradeAgreement) (h : s.trade id = some t) :
    (makePayment env o c args s).2.trade id = some t
    ∨ ∃ date p, args = [id, date]
        ∧ (makePayment env o c args s).1 = .success .nil
        ∧ (makePayment env o c args s).2.trade id = some { t with payment := intAdd t.payment p }
        ∧ ((s.shipmentLocation id = SOURCE ∧ p = Int.tdiv t.amount 2)
          ∨ (s.shipmentLocation id ≠ SOURCE
            ∧ ∃ ad cd, env.parseDate (s.arrivalDate id) = some ad
                ∧ env.parseDate date = some cd
                ∧ p = latePaymentAmount t.amount t.payment ad cd)) := by
  have hp : ∀ date p, computePaymentAmount env s id date t = .ok p →
      (s.shipmentLocation id = SOURCE ∧ p = Int.tdiv t.amount 2)
      ∨ (s.shipmentLocation id ≠ SOURCE
        ∧ ∃ ad cd, env.parseDate (s.arrivalDate id) = some ad
            ∧ env.parseDate date = some cd
            ∧ p = latePaymentAmount t.amount t.payment ad cd) := by
    intro date p hc
    unfold computePaymentAmount at hc
    split at hc
    · cases hc
      exact Or.inl ⟨by assumption, rfl⟩
    · split at hc
      · cases hc
      · split at hc
        · cases hc
        · split at hc
          · cases hc
          · cases hc
            exact Or.inr ⟨by assumption, _, _, by assumption, by assumption, rfl⟩
  have key : ∀ id0 date t0 l1 p eb ib lb, args = [id0, date] → s.trade id0 = some t0 →
      computePaymentAmount env s id0 date t0 = .ok p →
      makePayment env o c args s
        = (.success .nil, settlePayment s id0 { t0 with payment := intAdd t0.payment p } l1 eb ib lb) →
      (makePayment env o c args s).2.trade id = some t
      ∨ ∃ date p, args = [id, date]
          ∧ (makePayment env o c args s).1 = .success .nil
          ∧ (makePayment env o c args s).2.trade id = some { t with payment := intAdd t.payment p }
          ∧ ((s.shipmentLocation id = SOURCE ∧ p = Int.tdiv t.amount 2)
            ∨ (s.shipmentLocation id ≠ SOURCE
              ∧ ∃ ad cd, env.parseDate (s.arrivalDate id) = some ad
                  ∧ env.parseDate date = some cd
                  ∧ p = latePaymentAmount t.amount t.payment ad cd)) := by
    intro id0 date t0 l1 p eb ib lb hargs h0 hc h1
    by_cases hid : id = id0
    · subst hid
      rw [h] at h0
      cases h0
      refine Or.inr ⟨date, p, hargs, by rw [h1], ?_, hp date p hc⟩
      rw [h1]
      simp [settlePayment, Ledger.delPayment, Ledger.putLC, Ledger.putTrade]
    · refine Or.inl ?_
      rw [h1]
      simp [settlePayment, Ledger.delPayment, Ledger.putLC, Ledger.putTrade,
        Function.update_noteq hid, h]
  rcases makePayment_cases env o c args s with ⟨_, h1⟩ | ⟨id0, date, t0, l0, eb, ib, lb, p, hargs,
    _, ht0, _, _, _, _, _, _, hc, ⟨_, h1⟩ | ⟨_, _, h1⟩⟩
  · exact Or.inl (by rw [h1]; exact h)
  · exact key id0 date t0 _ p _ _ _ hargs ht0 hc h1
  · exact key id0 date t0 _ p _ _ _ hargs ht0 hc h1

/-- Across any dispatched function other than `requestTrade` and `makePayment`
every trade agreement keeps its amount, its goods and its paid amount, and
stays accepted if it was. -/
theorem Invoke_tradeKeep (env : Env) (tx : Tx) (fn : String) (args : List String) (s : Ledger)
    (hrt : fn ≠ "requestTrade") (hmp : fn ≠ "makePayment") :
    TradeStep tradeKeep s (Invoke env tx fn args s).2 :=
  Invoke_cases (P := fun r => TradeStep tradeKeep s r.2) env tx fn args s
    (fun h => absurd h hrt)
    (fun _ o c => acceptTrade_tradeKeep env o c args s)
    (fun _ o c => requestLC_tradeKeep env o c args s)
    (fun _ o c => issueLC_tradeKeep env o c args s)
    (fun _ o c => acceptLC_tradeKeep env o c args s)
    (fun _ o c => requestLCTransfer_tradeKeep env o c args s)
    (fun _ o c => issueLCTransfer_tradeKeep env o c args s)
    (fun _ o c => acceptLCTransfer_tradeKeep env o c args s)
    (fun _ o c => requestEL_tradeKeep env o c args s)
    (fun _ o c => issueEL_tradeKeep env o c args s)
    (fun _ o c => prepareShipment_tradeKeep env o c args s)
    (fun _ o c => acceptShipmentAndIssueBL_tradeKeep env o c args s)
    (fun _ o c => requestAdvancePayment_tradeKeep env o c args s)
    (fun _ o c => makeAdvancePayment_tradeKeep env o c args s)
    (fun _ o c => requestPayment_tradeKeep env o c args s)
    (fun h => absurd h hmp)
    (fun _ o c => updateShipmentLocation_tradeKeep env o c args s)
    (fun _ o c => TradeStep.of_trade_eq tradeKeep_refl (by rw [getTradeStatus_ledger]))
    (fun _ o c => TradeStep.of_trade_eq tradeKeep_refl (by rw [getLCStatus_ledger]))
    (fun _ o c => TradeStep.of_trade_eq tradeKeep_refl (by rw [getELStatus_ledger]))
    (fun _ o c => TradeStep.of_trade_eq tradeKeep_refl (by rw [getShipmentLocation_ledger]))
    (fun _ o c => TradeStep.of_trade_eq tradeKeep_refl (by rw [getArrivalDate_ledger]))
    (fun _ o c => TradeStep.of_trade_eq tradeKeep_refl (by rw [getBillOfLading_ledger]))
    (fun _ o c => TradeStep.of_trade_eq tradeKeep_refl (by rw [getAccountBalance_ledger]))
    (fun _ => TradeStep.of_trade_eq tradeKeep_refl rfl)

/-! ## Paid amount against trade amount -/

/-- The calls, after `shipmentPrefixCalls`, that record the arrival of the
shipment of `T1` on 1 January 2020, request the payment and make it on
31 March 2020, ninety days after arrival. -/
def latePaymentCalls : List Call :=
  [⟨carrierTx, "updateShipmentLocation", ["T1", "DESTINATION", "01/01/2020"]⟩,
   ⟨exporterTx, "requestPayment", ["T1"]⟩,
   ⟨importerTx, "makePayment", ["T1", "03/31/2020"]⟩]

/-- C2 (amended): a stored trade agreement with `paidToDate <= amount` keeps that
bound across every dispatched function other than `requestTrade` and
`makePayment`; `requestTrade` leaves it or stores a fresh one with nothing
paid (so the bound then holds exactly when the new amount is not negative);
`makePayment` leaves it or adds the computed payment, in the 64-bit arithmetic
of `int`: half the amount while the shipment is at `SOURCE`, and, once it has
left `SOURCE`, the late payment amount, which brings `paidToDate` to exactly
`amount` (a value of type `int`) when the surcharge is not positive. -/
theorem C2_paid_le_amount_step (env : Env) (tx : Tx) (fn : String) (args : List String)
    (s : Ledger) (id : String) (t : TradeAgreement) (h : s.trade id = some t)
    (hle : t.payment ≤ t.amount) :
    (fn ≠ "requestTrade" → fn ≠ "makePayment" →
        ∃ t', (Invoke env tx fn args s).2.trade id = some t' ∧ t'.payment ≤ t'.amount)
    ∧ (∃ t', (Invoke env tx "requestTrade" args s).2.trade id = some t'
        ∧ (t' = t ∨ t'.payment = 0))
    ∧ (∃ t', (Invoke env tx "makePayment" args s).2.trade id = some t'
        ∧ (t' = t
          ∨ ∃ p, t' = { t with payment := intAdd t.payment p }
              ∧ ((s.shipmentLocation id = SOURCE ∧ p = Int.tdiv t.amount 2)
                ∨ (s.shipmentLocation id ≠ SOURCE
                  ∧ ∃ ad cd, p = latePaymentAmount t.amount t.payment ad cd
                      ∧ ((surcharge ad cd).leZero = true → inInt64 t.amount →
                          intAdd t.payment p = t.amount))))) := by
  refine ⟨fun hrt hmp => ?_, ?_, ?_⟩
  · obtain ⟨t', h1, ha, hp, _⟩ := Invoke_tradeKeep env tx fn args s hrt hmp id t h
    exact ⟨t', h1, by rw [ha, hp]; exact hle⟩
  · refine Invoke_requestTrade
      (P := fun r => ∃ t', r.2.trade id = some t' ∧ (t' = t ∨ t'.payment = 0))
      env tx args s (fun o c => ?_) ⟨t, h, Or.inl rfl⟩
    rcases requestTrade_trade env tx.tradelimit o c args s id with h1 | ⟨_, _, _, _, _, h1⟩
    · exact ⟨t, by rw [h1, h], Or.inl rfl⟩
    · exact ⟨_, h1, Or.inr rfl⟩
  · refine Invoke_makePayment
      (P := fun r => ∃ t', r.2.trade id = some t'
        ∧ (t' = t
          ∨ ∃ p, t' = { t with payment := intAdd t.payment p }
              ∧ ((s.shipmentLocation id = SOURCE ∧ p = Int.tdiv t.amount 2)
                ∨ (s.shipmentLocation id ≠ SOURCE
                  ∧ ∃ ad cd, p = latePaymentAmount t.amount t.payment ad cd
                      ∧ ((surcharge ad cd).leZero = true → inInt64 t.amount →
                          intAdd t.payment p = t.amount)))))
      env tx args s (fun o c => ?_) ⟨t, h, Or.inl rfl⟩
    rcases makePayment_trade env o c args s id t h with h1 | ⟨date, p, _, _, h1, hp⟩
    · exact ⟨t, h1, Or.inl rfl⟩
    · refine ⟨_, h1, Or.inr ⟨p, rfl, ?_⟩⟩
      rcases hp with hs | ⟨hs, ad, cd, _, _, hpe⟩
      · exact Or.inl hs
      · refine Or.inr ⟨hs, ad, cd, hpe, fun hsc hin => ?_⟩
        rw [hpe, latePaymentAmount_on_time _ _ _ _ hsc, intAdd_intSub_cancel,
          wrap64_of_inInt64 hin]

/-- Witness for C2 (amended): on the prepared ledger the trade agreement of `T1`
has nothing paid of 1000, and the bound survives the payment request. -/
theorem C2_paid_le_amount_step_witness :
    preparedLedger.trade "T1" = some ⟨1000, "widgets", .ACCEPTED, 0⟩
    ∧ (0 : Int) ≤ 1000
    ∧ ∃ t', (Invoke refEnv exporterTx "requestPayment" ["T1"] preparedLedger).2.trade "T1"
          = some t'
        ∧ t'.payment ≤ t'.amount :=
  ⟨by decide, by decide,
   (C2_paid_le_amount_step refEnv exporterTx "requestPayment" ["T1"] preparedLedger "T1"
      ⟨1000, "widgets", .ACCEPTED, 0⟩ (by decide) (by decide)).1 (by decide) (by decide)⟩

/-- Counterexample to C2 as stated.  From the empty ledger the single call
`requestTrade(T2, -5, widgets)` stores a trade agreement with `paidToDate` 0
above its amount -5.  From the bootstrapped ledger, the trade `T1` of amount
1000 is paid in one payment ninety days after arrival: `makePayment` succeeds
and `paidToDate` is 1050. -/
theorem C2_counterexample :
    (Invoke refEnv importerTx "requestTrade" ["T2", "-5", "widgets"] Ledger.empty).2.trade "T2"
        = some ⟨-5, "widgets", .REQUESTED, 0⟩
    ∧ (run refEnv latePaymentCalls preparedLedger).trade "T1"
        = some ⟨1000, "widgets", .ACCEPTED, 1050⟩
    ∧ (run refEnv latePaymentCalls preparedLedger).payment "T1" = ""
    ∧ ¬ ((1050 : Int) ≤ 1000) := by
  decide

/-! ## `dispatch` on a given transition name -/

/-- The name `requestTrade` dispatches to the function `requestTrade`. -/
theorem dispatch_requestTrade (env : Env) (tx : Tx) (o c : String) (args : List String)
    (s : Ledger) : dispatch env tx o c "requestTrade" args s = requestTrade env tx.tradelimit o c args s := by
  rw [dispatch]
  simp only [String.reduceEq, if_false, if_true]

/-- The name `acceptTrade` dispatches to the function `acceptTrade`. -/
theorem dispatch_acceptTrade (env : Env) (tx : Tx) (o c : String) (args : List String)
    (s : Ledger) : dispatch env tx o c "acceptTrade" args s = acceptTrade env o c args s := by
  rw [dispatch]
  simp only [String.reduceEq, if_false, if_true]

/-- The name `requestLC` dispatches to the function `requestLC`. -/
theorem dispatch_requestLC (env : Env) (tx : Tx) (o c : String) (args : List String)
    (s : Ledger) : dispatch env tx o c "requestLC" args s = requestLC env o c args s := by
  rw [dispatch]
  simp only [String.reduceEq, if_false, if_true]

/-- The name `issueLC` dispatches to the function `issueLC`. -/
theorem dispatch_issueLC (env : Env) (tx : Tx) (o c : String) (args : List String)
    (s : Ledger) : dispatch env tx o c "issueLC" args s = issueLC env o c args s := by
  rw [dispatch]
  simp only [String.reduceEq, if_false, if_true]

/-- The name `acceptLC` dispatches to the function `acceptLC`. -/
theorem dispatch_acceptLC (env : Env) (tx : Tx) (o c : String) (args : List String)
    (s : Ledger) : dispatch env tx o c "acceptLC" args s = acceptLC env o c args s := by
  rw [dispatch]
  simp only [String.reduceEq, if_false, if_true]

/-- The name `requestLCTransfer` dispatches to the function `requestLCTransfer`. -/
theorem dispatch_requestLCTransfer (env : Env) (tx : Tx) (o c : String) (args : List String)
    (s : Ledger) : dispatch env tx o c "requestLCTransfer" args s = requestLCTransfer env o c args s := by
  rw [dispatch]
  simp only [String.reduceEq, if_false, if_true]

/-- The name `issueLCTransfer` dispatches to the function `issueLCTransfer`. -/
theorem dispatch_issueLCTransfer (env : Env) (tx : Tx) (o c : String) (args : List String)
    (s : Ledger) : dispatch env tx o c "issueLCTransfer" args s = issueLCTransfer env o c args s := by
  rw [dispatch]
  simp only [String.reduceEq, if_false, if_true]

/-- The name `acceptLCTransfer` dispatches to the function `acceptLCTransfer`. -/
theorem dispatch_acceptLCTransfer (env : Env) (tx : Tx) (o c : String) (args : List String)
    (s : Ledger) : dispatch env tx o c "acceptLCTransfer" args s = acceptLCTransfer env o c args s := by
  rw [dispatch]
  simp only [String.reduceEq, if_false, if_true]

/-- The name `requestEL` dispatches to the function `requestEL`. -/
theorem dispatch_requestEL (env : Env) (tx : Tx) (o c : String) (args : List String)
    (s : Ledger) : dispatch env tx o c "requestEL" args s = requestEL env o c args s := by
  rw [dispatch]
  simp only [String.reduceEq, if_false, if_true]

/-- The name `issueEL` dispatches to the function `issueEL`. -/
theorem dispatch_issueEL (env : Env) (tx : Tx) (o c : String) (args : List String)
    (s : Ledger) : dispatch env tx o c "issueEL" args s = issueEL env o c args s := by
  rw [dispatch]
  simp only [String.reduceEq, if_false, if_true]

/-- The name `prepareShipment` dispatches to the function `prepareShipment`. -/
theorem dispatch_prepareShipment (env : Env) (tx : Tx) (o c : String) (args : List String)
    (s : Ledger) : dispatch env tx o c "prepareShipment" args s = prepareShipment env o c args s := by
  rw [dispatch]
  simp only [String.reduceEq, if_false, if_true]

/-- The name `acceptShipmentAndIssueBL` dispatches to the function `acceptShipmentAndIssueBL`. -/
theorem dispatch_acceptShipmentAndIssueBL (env : Env) (tx : Tx) (o c : String) (args : List String)
    (s : Ledger) : dispatch env tx o c "acceptShipmentAndIssueBL" args s = acceptShipmentAndIssueBL env o c args s := by
  rw [dispatch]
  simp only [String.reduceEq, if_false, if_true]

/-- The name `requestAdvancePayment` dispatches to the function `requestAdvancePayment`. -/
theorem dispatch_requestAdvancePayment (env : Env) (tx : Tx) (o c : String) (args : List String)
    (s : Ledger) : dispatch env tx o c "requestAdvancePayment" args s = requestAdvancePayment env o c args s := by
  rw [dispatch]
  simp only [String.reduceEq, if_false, if_true]

/-- The name `makeAdvancePayment` dispatches to the function `makeAdvancePayment`. -/
theorem dispatch_makeAdvancePayment (env : Env) (tx : Tx) (o c : String) (args : List String)
    (s : Ledger) : dispatch env tx o c "makeAdvancePayment" args s = makeAdvancePayment env o c args s := by
  rw [dispatch]
  simp only [String.reduceEq, if_false, if_true]

/-- The name `requestPayment` dispatches to the function `requestPayment`. -/
theorem dispatch_requestPayment (env : Env) (tx : Tx) (o c : String) (args : List String)
    (s : Ledger) : dispatch env tx o c "requestPayment" args s = requestPayment env o c args s := by
  rw [dispatch]
  simp only [String.reduceEq, if_false, if_true]

/-- The name `makePayment` dispatches to the function `makePayment`. -/
theorem dispatch_makePayment (env : Env) (tx : Tx) (o c : String) (args : List String)
    (s : Ledger) : dispatch env tx o c "makePayment" args s = makePayment env o c args s := by
  rw [dispatch]
  simp only [String.reduceEq, if_false, if_true]

/-- The name `updateShipmentLocation` dispatches to the function `updateShipmentLocation`. -/
theorem dispatch_updateShipmentLocation (env : Env) (tx : Tx) (o c : String) (args : List String)
    (s : Ledger) : dispatch env tx o c "updateShipmentLocation" args s = updateShipmentLocation env o c args s := by
  rw [dispatch]
  simp only [String.reduceEq, if_false, if_true]

/-! ## Calling a transition twice -/

/-- A successful `requestTrade`, called again on the ledger it left,
returns the same response and leaves the same ledger. -/
theorem requestTrade_twice (env : Env) (lim : Option String) (o c : String) (args : List String) (s : Ledger)
    (r : Response × Ledger) (hr : requestTrade env lim o c args s = r)
    (hs : r.1.isSuccess = true) :
    requestTrade env lim o c args r.2 = r := by
  unfold requestTrade at hr
  repeat' split at hr
  all_goals subst hr
  all_goals first
    | (simp [Response.isSuccess] at hs; done)
    | simp [requestTrade, Ledger.putTrade, Ledger.putLC, Ledger.putEL, Ledger.putBL,
         Ledger.putShipmentLocation, Ledger.putArrivalDate, Ledger.putPayment,
         Ledger.putAdvancePayment, SOURCE, requestedBytes, *]

/-- A successful `acceptTrade`, called again on the ledger it left,
returns the same response and leaves the same ledger. -/
theorem acceptTrade_twice (env : Env) (o c : String) (args : List String) (s : Ledger)
    (r : Response × Ledger) (hr : acceptTrade env o c args s = r)
    (hs : r.1.isSuccess = true) :
    acceptTrade env o c args r.2 = r := by
  unfold acceptTrade at hr
  repeat' split at hr
  all_goals subst hr
  all_goals first
    | (simp [Response.isSuccess] at hs; done)
    | simp [acceptTrade, Ledger.putTrade, Ledger.putLC, Ledger.putEL, Ledger.putBL,
         Ledger.putShipmentLocation, Ledger.putArrivalDate, Ledger.putPayment,
         Ledger.putAdvancePayment, SOURCE, requestedBytes, *]

/-- A successful `requestLC`, called again on the ledger it left,
returns the same response and leaves the same ledger. -/
theorem requestLC_twice (env : Env) (o c : String) (args : List String) (s : Ledger)
    (r : Response × Ledger) (hr : requestLC env o c args s = r)
    (hs : r.1.isSuccess = true) :
    requestLC env o c args r.2 = r := by
  unfold requestLC at hr
  repeat' split at hr
  all_goals subst hr
  all_goals first
    | (simp [Response.isSuccess] at hs; done)
    | simp [requestLC, Ledger.putTrade, Ledger.putLC, Ledger.putEL, Ledger.putBL,
         Ledger.putShipmentLocation, Ledger.putArrivalDate, Ledger.putPayment,
         Ledger.putAdvancePayment, SOURCE, requestedBytes, *]

/-- A successful `issueLC`, called again on the ledger it left,
returns the same response and leaves the same ledger. -/
theorem issueLC_twice (env : Env) (o c : String) (args : List String) (s : Ledger)
    (r : Response × Ledger) (hr : issueLC env o c args s = r)
    (hs : r.1.isSuccess = true) :
    issueLC env o c args r.2 = r := by
  unfold issueLC at hr
  repeat' split at hr
  all_goals subst hr
  all_goals first
    | (simp [Response.isSuccess] at hs; done)
    | simp [issueLC, Ledger.putTrade, Ledger.putLC, Ledger.putEL, Ledger.putBL,
         Ledger.putShipmentLocation, Ledger.putArrivalDate, Ledger.putPayment,
         Ledger.putAdvancePayment, SOURCE, requestedBytes, *]

/-- A successful `acceptLC`, called again on the ledger it left,
returns the same response and leaves the same ledger. -/
theorem acceptLC_twice (env : Env) (o c : String) (args : List String) (s : Ledger)
    (r : Response × Ledger) (hr : acceptLC env o c args s = r)
    (hs : r.1.isSuccess = true) :
    acceptLC env o c args r.2 = r := by
  unfold acceptLC at hr
  repeat' split at hr
  all_goals subst hr
  all_goals first
    | (simp [Response.isSuccess] at hs; done)
    | simp [acceptLC, Ledger.putTrade, Ledger.putLC, Ledger.putEL, Ledger.putBL,
         Ledger.putShipmentLocation, Ledger.putArrivalDate, Ledger.putPayment,
         Ledger.putAdvancePayment, SOURCE, requestedBytes, *]

/-- A successful `requestLCTransfer`, called again on the ledger it left,
returns the same response and leaves the same ledger. -/
theorem requestLCTransfer_twice (env : Env) (o c : String) (args : List String) (s : Ledger)
    (r : Response × Ledger) (hr : requestLCTransfer env o c args s = r)
    (hs : r.1.isSuccess = true) :
    requestLCTransfer env o c args r.2 = r := by
  unfold requestLCTransfer at hr
  repeat' split at hr
  all_goals subst hr
  all_goals first
    | (simp [Response.isSuccess] at hs; done)
    | simp [requestLCTransfer, Ledger.putTrade, Ledger.putLC, Ledger.putEL, Ledger.putBL,
         Ledger.putShipmentLocation, Ledger.putArrivalDate, Ledger.putPayment,
         Ledger.putAdvancePayment, SOURCE, requestedBytes, *]

/-- A successful `issueLCTransfer`, called again on the ledger it left,
returns the same response and leaves the same ledger. -/
theorem issueLCTransfer_twice (env : Env) (o c : String) (args : List String) (s : Ledger)
    (r : Response × Ledger) (hr : issueLCTransfer env o c args s = r)
    (hs : r.1.isSuccess = true) :
    issueLCTransfer env o c args r.2 = r := by
  unfold issueLCTransfer at hr
  repeat' split at hr
  all_goals subst hr
  all_goals first
    | (simp [Response.isSuccess] at hs; done)
    | simp [issueLCTransfer, Ledger.putTrade, Ledger.putLC, Ledger.putEL, Ledger.putBL,
         Ledger.putShipmentLocation, Ledger.putArrivalDate, Ledger.putPayment,
         Ledger.putAdvancePayment, SOURCE, requestedBytes, *]

/-- A successful `acceptLCTransfer`, called again on the ledger it left,
returns the same response and leaves the same ledger. -/
theorem acceptLCTransfer_twice (env : Env) (o c : String) (args : List String) (s : Ledger)
    (r : Response × Ledger) (hr : acceptLCTransfer env o c args s = r)
    (hs : r.1.isSuccess = true) :
    acceptLCTransfer env o c args r.2 = r := by
  unfold acceptLCTransfer at hr
  repeat' split at hr
  all_goals subst hr
  all_goals first
    | (simp [Response.isSuccess] at hs; done)
    | simp [acceptLCTransfer, Ledger.putTrade, Ledger.putLC, Ledger.putEL, Ledger.putBL,
         Ledger.putShipmentLocation, Ledger.putArrivalDate, Ledger.putPayment,
         Ledger.putAdvancePayment, SOURCE, requestedBytes, *]

/-- A successful `requestEL`, called again on the ledger it left,
returns the same response and leaves the same ledger. -/
theorem requestEL_twice (env : Env) (o c : String) (args : List String) (s : Ledger)
    (r : Response × Ledger) (hr : requestEL env o c args s = r)
    (hs : r.1.isSuccess = true) :
    requestEL env o c args r.2 = r := by
  unfold requestEL at hr
  repeat' split at hr
  all_goals subst hr
  all_goals first
    | (simp [Response.isSuccess] at hs; done)
    | simp [requestEL, Ledger.putTrade, Ledger.putLC, Ledger.putEL, Ledger.putBL,
         Ledger.putShipmentLocation, Ledger.putArrivalDate, Ledger.putPayment,
         Ledger.putAdvancePayment, SOURCE, requestedBytes, *]

/-- A successful `issueEL`, called again on the ledger it left,
returns the same response and leaves the same ledger. -/
theorem issueEL_twice (env : Env) (o c : String) (args : List String) (s : Ledger)
    (r : Response × Ledger) (hr : issueEL env o c args s = r)
    (hs : r.1.isSuccess = true) :
    issueEL env o c args r.2 = r := by
  unfold issueEL at hr
  repeat' split at hr
  all_goals subst hr
  all_goals first
    | (simp [Response.isSuccess] at hs; done)
    | simp [issueEL, Ledger.putTrade, Ledger.putLC, Ledger.putEL, Ledger.putBL,
         Ledger.putShipmentLocation, Ledger.putArrivalDate, Ledger.putPayment,
         Ledger.putAdvancePayment, SOURCE, requestedBytes, *]

/-- A successful `prepareShipment`, called again on the ledger it left,
returns the same response and leaves the same ledger. -/
theorem prepareShipment_twice (env : Env) (o c : String) (args : List String) (s : Ledger)
    (r : Response × Ledger) (hr : prepareShipment env o c args s = r)
    (hs : r.1.isSuccess = true) :
    prepareShipment env o c args r.2 = r := by
  unfold prepareShipment at hr
  repeat' split at hr
  all_goals subst hr
  all_goals first
    | (simp [Response.isSuccess] at hs; done)
    | simp [prepareShipment, Ledger.putTrade, Ledger.putLC, Ledger.putEL, Ledger.putBL,
         Ledger.putShipmentLocation, Ledger.putArrivalDate, Ledger.putPayment,
         Ledger.putAdvancePayment, SOURCE, requestedBytes, *]

/-- A successful `acceptShipmentAndIssueBL`, called again on the ledger it left,
returns the same response and leaves the same ledger. -/
theorem acceptShipmentAndIssueBL_twice (env : Env) (o c : String) (args : List String) (s : Ledger)
    (r : Response × Ledger) (hr : acceptShipmentAndIssueBL env o c args s = r)
    (hs : r.1.isSuccess = true) :
    acceptShipmentAndIssueBL env o c args r.2 = r := by
  unfold acceptShipmentAndIssueBL at hr
  repeat' split at hr
  all_goals subst hr
  all_goals first
    | (simp [Response.isSuccess] at hs; done)
    | (simp [acceptShipmentAndIssueBL, Ledger.putTrade, Ledger.putLC, Ledger.putEL, Ledger.putBL,
         Ledger.putShipmentLocation, Ledger.putArrivalDate, Ledger.putPayment,
         Ledger.putAdvancePayment, SOURCE, requestedBytes, *]; done)
    | (unfold acceptShipmentAndIssueBL
       repeat' split
       all_goals first
         | rfl
         | simp_all [Ledger.putTrade, Ledger.putLC, Ledger.putEL, Ledger.putBL,
         Ledger.putShipmentLocation, Ledger.putArrivalDate, Ledger.putPayment,
         Ledger.putAdvancePayment, SOURCE, requestedBytes])

/-- A successful `updateShipmentLocation` with a non-empty location, called again on the ledger it left,
returns the same response and leaves the same ledger. -/
theorem updateShipmentLocation_twice (env : Env) (o c : String) (args : List String) (s : Ledger)
    (r : Response × Ledger) (hr : updateShipmentLocation env o c args s = r)
    (hs : r.1.isSuccess = true)
    (hloc : args.get? 1 ≠ some "") :
    updateShipmentLocation env o c args r.2 = r := by
  unfold updateShipmentLocation at hr
  repeat' split at hr
  all_goals subst hr
  all_goals first
    | (simp [Response.isSuccess] at hs; done)
    | (simp [updateShipmentLocation, Ledger.putTrade, Ledger.putLC, Ledger.putEL, Ledger.putBL,
         Ledger.putShipmentLocation, Ledger.putArrivalDate, Ledger.putPayment,
         Ledger.putAdvancePayment, SOURCE, requestedBytes, *]; done)
    | (unfold updateShipmentLocation
       repeat' split
       all_goals first
         | rfl
         | simp_all [Ledger.putTrade, Ledger.putLC, Ledger.putEL, Ledger.putBL,
         Ledger.putShipmentLocation, Ledger.putArrivalDate, Ledger.putPayment,
         Ledger.putAdvancePayment, SOURCE, requestedBytes])

/-- A successful `requestAdvancePayment`, called again on the ledger it left,
returns the same response and leaves the same ledger. -/
theorem requestAdvancePayment_twice (env : Env) (o c : String) (args : List String) (s : Ledger)
    (r : Response × Ledger) (hr : requestAdvancePayment env o c args s = r)
    (hs : r.1.isSuccess = true) :
    requestAdvancePayment env o c args r.2 = r := by
  unfold requestAdvancePayment at hr
  repeat' split at hr
  all_goals subst hr
  all_goals first
    | (simp [Response.isSuccess] at hs; done)
    | simp [requestAdvancePayment, Ledger.putTrade, Ledger.putLC, Ledger.putEL, Ledger.putBL,
         Ledger.putShipmentLocation, Ledger.putArrivalDate, Ledger.putPayment,
         Ledger.putAdvancePayment, SOURCE, requestedBytes, *]

/-- What a run of `requestPayment` amounts to: either it returns an error and
the ledger is untouched, or the caller is admitted, the trade agreement, the
letter of credit and the shipment location exist, and either a request is
already pending and nothing is written, or the marker is written. -/
theorem requestPayment_cases (env : Env) (o c : String) (args : List String) (s : Ledger) :
    ((requestPayment env o c args s).1.isError = true ∧ (requestPayment env o c args s).2 = s)
    ∨ ∃ id t l, args = [id]
        ∧ ¬ ((!env.testMode && !(env.authenticateExporterOrg o c
              || env.authenticateLenderOrg o c)) = true)
        ∧ s.trade id = some t ∧ s.lc id = some l ∧ ¬ s.shipmentLocation id = ""
        ∧ ((s.payment id ≠ "" ∧ requestPayment env o c args s = (.success .nil, s))
          ∨ (¬ s.payment id ≠ ""
            ∧ requestPayment env o c args s
              = (.success .nil, s.putPayment id requestedBytes))) := by
  unfold requestPayment
  repeat' split
  all_goals first
    | exact Or.inl ⟨rfl, rfl⟩
    | exact Or.inr ⟨_, _, _, rfl, ‹_›, ‹_›, ‹_›, ‹_›, Or.inl ⟨‹_›, rfl⟩⟩
    | exact Or.inr ⟨_, _, _, rfl, ‹_›, ‹_›, ‹_›, ‹_›, Or.inr ⟨‹_›, rfl⟩⟩

/-- A successful `requestPayment`, called again on the ledger it left,
returns the same response and leaves the same ledger. -/
theorem requestPayment_twice (env : Env) (o c : String) (args : List String) (s : Ledger)
    (r : Response × Ledger) (hr : requestPayment env o c args s = r)
    (hs : r.1.isSuccess = true) :
    requestPayment env o c args r.2 = r := by
  rcases requestPayment_cases env o c args s with ⟨he, _⟩ | ⟨id, t, l, hargs, hauth, ht, hl, hloc,
    ⟨_, h1⟩ | ⟨_, h1⟩⟩
  · rw [hr] at he
    cases hresp : r.1 <;> simp [hresp, Response.isSuccess, Response.isError] at hs he
  · rw [← hr, h1]
    exact h1
  · rw [← hr, h1]
    subst hargs
    unfold requestPayment
    rw [if_neg hauth]
    have hp : (s.putPayment id requestedBytes).payment id ≠ "" := by
      simp [Ledger.putPayment, requestedBytes]
    simp only [Ledger.putPayment] at hp ⊢
    simp only [ht, hl]
    rw [if_neg hloc, if_pos hp]

/-- The names of the fifteen transitions that settle no payment. -/
def nonSettlementNames : List String :=
  ["requestTrade", "acceptTrade", "requestLC", "issueLC", "acceptLC", "requestLCTransfer",
   "issueLCTransfer", "acceptLCTransfer", "requestEL", "issueEL", "prepareShipment",
   "acceptShipmentAndIssueBL", "updateShipmentLocation", "requestAdvancePayment",
   "requestPayment"]

/-- Calling `Invoke` twice reduces to calling `dispatch` twice for the same
creator. -/
theorem Invoke_twice_of_dispatch (env : Env) (tx : Tx) (fn : String) (args : List String)
    (s : Ledger)
    (h : ∀ o c r, dispatch env tx o c fn args s = r → r.1.isSuccess = true →
      dispatch env tx o c fn args r.2 = r)
    (hs : (Invoke env tx fn args s).1.isSuccess = true) :
    Invoke env tx fn args (Invoke env tx fn args s).2 = Invoke env tx fn args s := by
  unfold Invoke at hs ⊢
  split at hs
  · split at hs
    · simp [Response.isSuccess] at hs
    · rename_i h1 _ _ _ h2
      simp only [h1, h2, if_true]
      exact h _ _ _ rfl hs
  · rename_i h1
    simp only [h1, if_false]
    exact h _ _ _ rfl (by simpa [h1] using hs)

/-- Each of the fifteen transitions that settle no payment, when it succeeds and
is called again with the same creator and arguments on the ledger it left,
succeeds again and leaves that same ledger; for `updateShipmentLocation` this
holds when the location argument is not the empty string. -/
theorem transition_twice (env : Env) (tx : Tx) (fn : String) (args : List String)
    (s : Ledger) (hfn : fn ∈ nonSettlementNames)
    (hloc : fn = "updateShipmentLocation" → args.get? 1 ≠ some "")
    (hs : (Invoke env tx fn args s).1.isSuccess = true) :
    (Invoke env tx fn args (Invoke env tx fn args s).2).1.isSuccess = true
    ∧ (Invoke env tx fn args (Invoke env tx fn args s).2).2 = (Invoke env tx fn args s).2 := by
  have key : Invoke env tx fn args (Invoke env tx fn args s).2 = Invoke env tx fn args s := by
    refine Invoke_twice_of_dispatch env tx fn args s ?_ hs
    intro o c r hr hsr
    simp only [nonSettlementNames, List.mem_cons, List.mem_singleton, List.not_mem_nil,
      or_false] at hfn
    rcases hfn with rfl | rfl | rfl | rfl | rfl | rfl | rfl | rfl | rfl | rfl | rfl | rfl | rfl
      | rfl | rfl
    · rw [dispatch_requestTrade] at hr ⊢
      exact requestTrade_twice env _ o c args s r hr hsr
    · rw [dispatch_acceptTrade] at hr ⊢
      exact acceptTrade_twice env o c args s r hr hsr
    · rw [dispatch_requestLC] at hr ⊢
      exact requestLC_twice env o c args s r hr hsr
    · rw [dispatch_issueLC] at hr ⊢
      exact issueLC_twice env o c args s r hr hsr
    · rw [dispatch_acceptLC] at hr ⊢
      exact acceptLC_twice env o c args s r hr hsr
    · rw [dispatch_requestLCTransfer] at hr ⊢
      exact requestLCTransfer_twice env o c args s r hr hsr
    · rw [dispatch_issueLCTransfer] at hr ⊢
      exact issueLCTransfer_twice env o c args s r hr hsr
    · rw [dispatch_acceptLCTransfer] at hr ⊢
      exact acceptLCTransfer_twice env o c args s r hr hsr
    · rw [dispatch_requestEL] at hr ⊢
      exact requestEL_twice env o c args s r hr hsr
    · rw [dispatch_issueEL] at hr ⊢
      exact issueEL_twice env o c args s r hr hsr
    · rw [dispatch_prepareShipment] at hr ⊢
      exact prepareShipment_twice env o c args s r hr hsr
    · rw [dispatch_acceptShipmentAndIssueBL] at hr ⊢
      exact acceptShipmentAndIssueBL_twice env o c args s r hr hsr
    · rw [dispatch_updateShipmentLocation] at hr ⊢
      exact updateShipmentLocation_twice env o c args s r hr hsr (hloc rfl)
    · rw [dispatch_requestAdvancePayment] at hr ⊢
      exact requestAdvancePayment_twice env o c args s r hr hsr
    · rw [dispatch_requestPayment] at hr ⊢
      exact requestPayment_twice env o c args s r hr hsr
  rw [key]
  exact ⟨hs, rfl⟩

/-- C4 (the code at the failing input): on the prepared ledger the shipment of
`T1` is at `SOURCE`; the Carrier calls `updateShipmentLocation` for `T1` with
the empty string as location; the call succeeds and stores the empty location,
and the same call repeated at once returns an error. -/
theorem C4_empty_location_breaks_repetition :
    preparedLedger.shipmentLocation "T1" = "SOURCE"
    ∧ (Invoke refEnv carrierTx "updateShipmentLocation" ["T1", "", "01/01/2020"]
        preparedLedger).1 = .success .nil
    ∧ (Invoke refEnv carrierTx "updateShipmentLocation" ["T1", "", "01/01/2020"]
        preparedLedger).2.shipmentLocation "T1" = ""
    ∧ (Invoke refEnv carrierTx "updateShipmentLocation" ["T1", "", "01/01/2020"]
        (Invoke refEnv carrierTx "updateShipmentLocation" ["T1", "", "01/01/2020"]
          preparedLedger).2).1 = .error "Shipment not prepared yet" := by
  decide

/-! ## Repeated letter-of-credit transitions -/

/-- The caller passes an access check: test mode is on or the predicate of the
organisation holds. -/
def admitted (env : Env) (auth : String → String → Bool) (o c : String) : Prop :=
  env.testMode = true ∨ auth o c = true

/-- An admitted caller does not take the access-denied branch. -/
theorem admitted_not_denied {env : Env} {auth : String → String → Bool} {o c : String}
    (h : admitted env auth o c) : ¬ ((!env.testMode && !auth o c) = true) := by
  rcases h with h | h <;> simp [h]

/-- The calls, after `shipmentPrefixCalls`, that transfer the letter of credit
of `T1` to the Lender at a discount rate of 0.1. -/
def transferCalls : List Call :=
  [⟨exporterTx, "requestLCTransfer", ["T1", "0.1"]⟩,
   ⟨exporterTx, "issueLCTransfer", ["T1"]⟩,
   ⟨lenderTx, "acceptLCTransfer", ["T1"]⟩]

/-- The ledger after the transfer of the letter of credit of `T1`. -/
def transferredLedger : Ledger := run refEnv transferCalls preparedLedger

/-- The three state guards that the transfer transitions check before they look
at the status: no payment request pending, a shipment location recorded, and
credit left. -/
def transferGuards (s : Ledger) (id : String) (l : LetterOfCredit) : Prop :=
  s.payment id = "" ∧ s.shipmentLocation id ≠ "" ∧ 0 < l.amount

/-- With a transfer guard violated, `requestLCTransfer` returns an error. -/
theorem requestLCTransfer_guard_error (env : Env) (o c : String) (s : Ledger) (id rate : String)
    (l : LetterOfCredit) (d : Option Flt) (h : s.lc id = some l)
    (ha : admitted env env.authenticateExporterOrg o c) (hd : env.parseFloat rate = some d)
    (hg : ¬ transferGuards s id l) :
    (requestLCTransfer env o c [id, rate] s).1.isError = true := by
  unfold requestLCTransfer
  rw [if_neg (admitted_not_denied ha)]
  simp only [h, hd]
  by_cases hp : s.payment id = ""
  · by_cases hl : s.shipmentLocation id = ""
    · simp [hp, hl, Response.isError]
    · by_cases hamt : 0 < l.amount
      · exact absurd ⟨hp, hl, hamt⟩ hg
      · simp [hp, hl, not_lt.mp hamt, Response.isError]
  · simp [hp, Response.isError]

/-- With a transfer guard violated, `issueLCTransfer` returns an error. -/
theorem issueLCTransfer_guard_error (env : Env) (o c : String) (s : Ledger) (id : String)
    (l : LetterOfCredit) (h : s.lc id = some l)
    (ha : admitted env env.authenticateExporterOrg o c) (hg : ¬ transferGuards s id l) :
    (issueLCTransfer env o c [id] s).1.isError = true := by
  unfold issueLCTransfer
  rw [if_neg (admitted_not_denied ha)]
  simp only [h]
  by_cases hp : s.payment id = ""
  · by_cases hl : s.shipmentLocation id = ""
    · simp [hp, hl, Response.isError]
    · by_cases hamt : 0 < l.amount
      · exact absurd ⟨hp, hl, hamt⟩ hg
      · simp [hp, hl, not_lt.mp hamt, Response.isError]
  · simp [hp, Response.isError]

/-- With a transfer guard violated, `acceptLCTransfer` returns an error. -/
theorem acceptLCTransfer_guard_error (env : Env) (o c : String) (s : Ledger) (id : String)
    (l : LetterOfCredit) (h : s.lc id = some l)
    (ha : admitted env env.authenticateLenderOrg o c) (hg : ¬ transferGuards s id l) :
    (acceptLCTransfer env o c [id] s).1.isError = true := by
  unfold acceptLCTransfer
  rw [if_neg (admitted_not_denied ha)]
  simp only [h]
  by_cases hp : s.payment id = ""
  · by_cases hl : s.shipmentLocation id = ""
    · simp [hp, hl, Response.isError]
    · by_cases hamt : 0 < l.amount
      · exact absurd ⟨hp, hl, hamt⟩ hg
      · simp [hp, hl, not_lt.mp hamt, Response.isError]
  · simp [hp, Response.isError]

/-- C5 (amended): on a letter of credit whose status is at or past the target of
the transition, an admitted caller with a well-formed argument list gets a
success and an unchanged ledger from `issueLC` (target `ISSUED`) and `acceptLC`
(target `ACCEPTED`); from `requestLCTransfer`, `issueLCTransfer` and
`acceptLCTransfer` (targets `TRANSFER_REQUESTED`, `TRANSFER_ISSUED`,
`TRANSFER_ACCEPTED`) it gets that when no payment request is pending, a
shipment location is recorded and the amount is positive, and otherwise an
error and an unchanged ledger. -/
theorem C5_duplicate_call_tolerance (env : Env) (o c : String) (s : Ledger) (id : String)
    (l : LetterOfCredit) (h : s.lc id = some l) :
    (admitted env env.authenticateImporterOrg o c → Status.ISSUED.rank ≤ l.status.rank →
        ∀ lcId expiry documents,
          issueLC env o c (id :: lcId :: expiry :: documents) s = (.success .nil, s))
    ∧ (admitted env env.authenticateExporterOrg o c → Status.ACCEPTED.rank ≤ l.status.rank →
        acceptLC env o c [id] s = (.success .nil, s))
    ∧ (admitted env env.authenticateExporterOrg o c →
        Status.TRANSFER_REQUESTED.rank ≤ l.status.rank →
        ∀ rate, env.parseFloat rate ≠ none →
          (transferGuards s id l → requestLCTransfer env o c [id, rate] s = (.success .nil, s))
          ∧ (¬ transferGuards s id l →
              (requestLCTransfer env o c [id, rate] s).1.isError = true
              ∧ (requestLCTransfer env o c [id, rate] s).2 = s))
    ∧ (admitted env env.authenticateExporterOrg o c →
        Status.TRANSFER_ISSUED.rank ≤ l.status.rank →
          (transferGuards s id l → issueLCTransfer env o c [id] s = (.success .nil, s))
          ∧ (¬ transferGuards s id l →
              (issueLCTransfer env o c [id] s).1.isError = true
              ∧ (issueLCTransfer env o c [id] s).2 = s))
    ∧ (admitted env env.authenticateLenderOrg o c →
        Status.TRANSFER_ACCEPTED.rank ≤ l.status.rank →
          (transferGuards s id l → acceptLCTransfer env o c [id] s = (.success .nil, s))
          ∧ (¬ transferGuards s id l →
              (acceptLCTransfer env o c [id] s).1.isError = true
              ∧ (acceptLCTransfer env o c [id] s).2 = s)) := by
  refine ⟨?_, ?_, ?_, ?_, ?_⟩
  · intro ha hr lcId expiry documents
    unfold issueLC
    rw [if_neg (admitted_not_denied ha)]
    simp only [h]
    cases hst : l.status <;> simp_all [Status.rank]
  · intro ha hr
    unfold acceptLC
    rw [if_neg (admitted_not_denied ha)]
    simp only [h]
    cases hst : l.status <;> simp_all [Status.rank]
  · intro ha hr rate hrate
    obtain ⟨d, hd⟩ := Option.ne_none_iff_exists'.mp hrate
    constructor
    · rintro ⟨hp, hl, hamt⟩
      unfold requestLCTransfer
      rw [if_neg (admitted_not_denied ha)]
      simp only [h, hd]
      rw [if_neg (by simp [hp]), if_neg hl, if_neg (by omega)]
      cases hst : l.status <;> simp_all [Status.rank]
    · intro hg
      have he := requestLCTransfer_guard_error env o c s id rate l d h ha hd hg
      exact ⟨he, requestLCTransfer_error_ledger env o c _ s he⟩
  · intro ha hr
    constructor
    · rintro ⟨hp, hl, hamt⟩
      unfold issueLCTransfer
      rw [if_neg (admitted_not_denied ha)]
      simp only [h]
      rw [if_neg (by simp [hp]), if_neg hl, if_neg (by omega)]
      cases hst : l.status <;> simp_all [Status.rank]
    · intro hg
      have he := issueLCTransfer_guard_error env o c s id l h ha hg
      exact ⟨he, issueLCTransfer_error_ledger env o c _ s he⟩
  · intro ha hr
    constructor
    · rintro ⟨hp, hl, hamt⟩
      unfold acceptLCTransfer
      rw [if_neg (admitted_not_denied ha)]
      simp only [h]
      rw [if_neg (by simp [hp]), if_neg hl, if_neg (by omega)]
      cases hst : l.status <;> simp_all [Status.rank]
    · intro hg
      have he := acceptLCTransfer_guard_error env o c s id l h ha hg
      exact ⟨he, acceptLCTransfer_error_ledger env o c _ s he⟩

/-- Witness for C5 (amended): after the transfer of the letter of credit of `T1`
its status is `TRANSFER_ACCEPTED`, the guards hold, and a repeated
`acceptLCTransfer` by the Lender succeeds and leaves the ledger as it is. -/
theorem C5_duplicate_call_tolerance_witness :
    transferredLedger.lc "T1"
        = some ⟨"lc1", "12/31/2030", "FinanceCo", 1000, ["E/L", "B/L"], .TRANSFER_ACCEPTED,
            ⟨13421773, 27⟩, false⟩
    ∧ acceptLCTransfer refEnv "LenderOrgMSP" "ca.lenderorg.trade.com" ["T1"] transferredLedger
        = (.success .nil, transferredLedger) :=
  ⟨by decide,
   ((C5_duplicate_call_tolerance refEnv "LenderOrgMSP" "ca.lenderorg.trade.com"
      transferredLedger "T1"
      ⟨"lc1", "12/31/2030", "FinanceCo", 1000, ["E/L", "B/L"], .TRANSFER_ACCEPTED,
        ⟨13421773, 27⟩, false⟩
      (by decide)).2.2.2.2 (Or.inr (by decide)) (by decide)).1
      ⟨by decide, by decide, by decide⟩⟩

/-- Counterexample to C5 as stated: after the transfer of the letter of credit
of `T1` the Lender requests the payment; the status is `TRANSFER_ACCEPTED`, the
target of `acceptLCTransfer`, and yet `acceptLCTransfer` by the Lender returns
an error, because a payment request is pending. -/
theorem C5_counterexample :
    ((Invoke refEnv lenderTx "requestPayment" ["T1"] transferredLedger).2.lc "T1").map
        (fun l => l.status) = some Status.TRANSFER_ACCEPTED
    ∧ (Invoke refEnv lenderTx "acceptLCTransfer" ["T1"]
        (Invoke refEnv lenderTx "requestPayment" ["T1"] transferredLedger).2).1
      = .error "Payment request pending" := by
  decide

/-! ## Settlement -/

/-- A response is a success or an error, never both. -/
theorem Response.not_isError_of_isSuccess {r : Response} (h : r.isSuccess = true) :
    ¬ r.isError = true := by
  cases r <;> simp [Response.isSuccess, Response.isError] at h ⊢

/-- C6 (amended): a successful `makePayment` for a trade adds the computed
payment amount `p` to the paid amount of the trade agreement, subtracts it
from the amount of the letter of credit and from the Importer balance
(whatever that balance is), adds it to the Exporter balance when the
beneficiary is the Exporter identity and otherwise to the Lender balance, the
beneficiary then being the Lender identity, and deletes the payment request
marker, each sum and difference being the one of the 64-bit type `int`, which
is the exact one whenever the exact result is inside the range of `int`; and
when the beneficiary is neither identity `makePayment` returns an error and
writes nothing. -/
theorem C6_makePayment_settlement (env : Env) (o c id date : String) (s : Ledger)
    (t : TradeAgreement) (l : LetterOfCredit) (eb ib lb : Int)
    (ht : s.trade id = some t) (hl : s.lc id = some l)
    (heb : s.expBal = some eb) (hib : s.impBal = some ib) (hlb : s.lenBal = some lb) :
    ((makePayment env o c [id, date] s).1.isSuccess = true →
      ∃ p, computePaymentAmount env s id date t = .ok p
        ∧ (makePayment env o c [id, date] s).2.trade id
            = some { t with payment := intAdd t.payment p }
        ∧ (makePayment env o c [id, date] s).2.lc id
            = some { l with amount := intSub l.amount p }
        ∧ (makePayment env o c [id, date] s).2.impBal = some (intSub ib p)
        ∧ (l.beneficiary = s.exp →
            (makePayment env o c [id, date] s).2.expBal = some (intAdd eb p)
            ∧ (makePayment env o c [id, date] s).2.lenBal = some lb)
        ∧ (l.beneficiary ≠ s.exp →
            l.beneficiary = s.len
            ∧ (makePayment env o c [id, date] s).2.lenBal = some (intAdd lb p)
            ∧ (makePayment env o c [id, date] s).2.expBal = some eb)
        ∧ (makePayment env o c [id, date] s).2.payment id = ""
        ∧ (inInt64 (t.payment + p) → intAdd t.payment p = t.payment + p)
        ∧ (inInt64 (l.amount - p) → intSub l.amount p = l.amount - p)
        ∧ (inInt64 (ib - p) → intSub ib p = ib - p)
        ∧ (inInt64 (eb + p) → intAdd eb p = eb + p)
        ∧ (inInt64 (lb + p) → intAdd lb p = lb + p))
    ∧ (l.beneficiary ≠ s.exp → l.beneficiary ≠ s.len →
        (makePayment env o c [id, date] s).1.isError = true
        ∧ (makePayment env o c [id, date] s).2 = s) := by
  rcases makePayment_cases env o c [id, date] s with ⟨he, hs⟩ | ⟨id0, date0, t0, l0, eb0, ib0,
    lb0, p, hargs, _, ht0, hl0, _, _, heb0, hib0, hlb0, hc, hcase⟩
  · exact ⟨fun h => absurd he (Response.not_isError_of_isSuccess h), fun _ _ => ⟨he, hs⟩⟩
  · cases hargs
    rw [ht] at ht0
    rw [hl] at hl0
    rw [heb] at heb0
    rw [hib] at hib0
    rw [hlb] at hlb0
    cases ht0
    cases hl0
    cases heb0
    cases hib0
    cases hlb0
    rcases hcase with ⟨hb, h1⟩ | ⟨hb, hb', h1⟩
    · refine ⟨fun _ => ⟨p, hc, ?_, ?_, ?_, fun _ => ⟨?_, ?_⟩, fun hne => absurd hb hne, ?_,
        intAdd_of_inInt64, intSub_of_inInt64, intSub_of_inInt64, intAdd_of_inInt64,
        intAdd_of_inInt64⟩, fun hne _ => absurd hb hne⟩
      all_goals rw [h1]
      all_goals simp [settlePayment, Ledger.delPayment, Ledger.putLC, Ledger.putTrade]
    · refine ⟨fun _ => ⟨p, hc, ?_, ?_, ?_, fun he => absurd he hb, fun _ => ⟨hb', ?_, ?_⟩, ?_,
        intAdd_of_inInt64, intSub_of_inInt64, intSub_of_inInt64, intAdd_of_inInt64,
        intAdd_of_inInt64⟩, fun _ hne => absurd hb' hne⟩
      all_goals rw [h1]
      all_goals simp [settlePayment, Ledger.delPayment, Ledger.putLC, Ledger.putTrade]

/-- The ledger on which the first installment of `T1` is due: the shipment is
prepared and the Exporter has requested the payment. -/
def installmentDueLedger : Ledger :=
  (Invoke refEnv exporterTx "requestPayment" ["T1"] preparedLedger).2

/-- Witness for C6 (amended): the first installment of `T1` on the ledger where
it is due; the payment is 500, the beneficiary is the Exporter, and the
Importer balance falls from 200000 to 199500. -/
theorem C6_makePayment_settlement_witness :
    installmentDueLedger.trade "T1" = some ⟨1000, "widgets", .ACCEPTED, 0⟩
    ∧ installmentDueLedger.lc "T1"
        = some ⟨"lc1", "12/31/2030", "LumberInc", 1000, ["E/L", "B/L"], .ACCEPTED, ⟨0, 0⟩, false⟩
    ∧ installmentDueLedger.expBal = some 100000
    ∧ installmentDueLedger.impBal = some 200000
    ∧ installmentDueLedger.lenBal = some 300000
    ∧ (makePayment refEnv "ImporterOrgMSP" "ca.importerorg.trade.com" ["T1", "01/15/2020"]
        installmentDueLedger).1.isSuccess = true
    ∧ (makePayment refEnv "ImporterOrgMSP" "ca.importerorg.trade.com" ["T1", "01/15/2020"]
        installmentDueLedger).2.impBal = some 199500
    ∧ ∃ p, computePaymentAmount refEnv installmentDueLedger "T1" "01/15/2020"
              ⟨1000, "widgets", .ACCEPTED, 0⟩ = .ok p
        ∧ (makePayment refEnv "ImporterOrgMSP" "ca.importerorg.trade.com" ["T1", "01/15/2020"]
            installmentDueLedger).2.impBal = some (intSub 200000 p) :=
  ⟨by decide, by decide, by decide, by decide, by decide, by decide, by decide,
   let ⟨p, hp, _, _, hi, _⟩ :=
     (C6_makePayment_settlement refEnv "ImporterOrgMSP" "ca.importerorg.trade.com" "T1"
        "01/15/2020" installmentDueLedger ⟨1000, "widgets", .ACCEPTED, 0⟩
        ⟨"lc1", "12/31/2030", "LumberInc", 1000, ["E/L", "B/L"], .ACCEPTED, ⟨0, 0⟩, false⟩
        100000 200000 300000 (by decide) (by decide) (by decide) (by decide) (by decide)).1
        (by decide)
   ⟨p, hp, hi⟩⟩

/-- The bootstrapped ledger of a network whose Exporter bank balance is the
largest value of type `int`. -/
def edgeGenesis : Ledger :=
  (Init refEnv ["LumberInc", "LumberBank", "9223372036854775807", "WoodenToys", "ToyBank",
    "200000", "FinanceCo", "FinanceBank", "300000", "UniversalFrieght", "ForestryDepartment"]
    Ledger.empty).2

/-- Counterexample to C6 as stated.  The Exporter bank balance is
9223372036854775807 at the bootstrap; trade `T1` of amount 1000 is brought to
the first installment, the beneficiary of its letter of credit being the
Exporter.  `makePayment` succeeds and pays 500: the Importer balance falls by
500, and the Exporter balance, to which 500 is added in the type `int`, is
-9223372036854775309 and not 9223372036854776307. -/
theorem C6_counterexample :
    (run refEnv (shipmentPrefixCalls ++ firstInstallmentCalls.take 1) edgeGenesis).expBal
        = some 9223372036854775807
    ∧ (run refEnv (shipmentPrefixCalls ++ firstInstallmentCalls.take 1) edgeGenesis).impBal
        = some 200000
    ∧ ((run refEnv (shipmentPrefixCalls ++ firstInstallmentCalls.take 1) edgeGenesis).lc
        "T1").map (fun l => l.beneficiary) = some "LumberInc"
    ∧ (run refEnv (shipmentPrefixCalls ++ firstInstallmentCalls.take 1) edgeGenesis).exp
        = "LumberInc"
    ∧ (Invoke refEnv importerTx "makePayment" ["T1", "01/15/2020"]
        (run refEnv (shipmentPrefixCalls ++ firstInstallmentCalls.take 1) edgeGenesis)).1
        = .success .nil
    ∧ (Invoke refEnv importerTx "makePayment" ["T1", "01/15/2020"]
        (run refEnv (shipmentPrefixCalls ++ firstInstallmentCalls.take 1)
          edgeGenesis)).2.trade "T1" = some ⟨1000, "widgets", .ACCEPTED, 500⟩
    ∧ (Invoke refEnv importerTx "makePayment" ["T1", "01/15/2020"]
        (run refEnv (shipmentPrefixCalls ++ firstInstallmentCalls.take 1)
          edgeGenesis)).2.impBal = some 199500
    ∧ (Invoke refEnv importerTx "makePayment" ["T1", "01/15/2020"]
        (run refEnv (shipmentPrefixCalls ++ firstInstallmentCalls.take 1)
          edgeGenesis)).2.expBal = some (-9223372036854775309)
    ∧ ¬ ((-9223372036854775309 : Int) = 9223372036854775807 + 500) := by
  decide

/-- C7: while the shipment of a trade is at `SOURCE`, the payment amount that
`makePayment` computes is half the trade amount by integer division (the
quotient truncated toward zero), whatever the payment date argument; a
successful `makePayment` adds it to the paid amount and subtracts it from the
amount of the letter of credit and from the Importer balance, in the 64-bit
arithmetic of `int` (the exact sum and differences whenever these are inside
the range of `int`), and the result does not depend on the date. -/
theorem C7_first_installment (env : Env) (o c id date : String) (s : Ledger)
    (t : TradeAgreement) (ht : s.trade id = some t) (hsrc : s.shipmentLocation id = SOURCE)
    (hs : (makePayment env o c [id, date] s).1.isSuccess = true) :
    (∀ date', computePaymentAmount env s id date' t = .ok (Int.tdiv t.amount 2))
    ∧ (makePayment env o c [id, date] s).2.trade id
        = some { t with payment := intAdd t.payment (Int.tdiv t.amount 2) }
    ∧ (∃ l, s.lc id = some l
        ∧ (makePayment env o c [id, date] s).2.lc id
          = some { l with amount := intSub l.amount (Int.tdiv t.amount 2) }
        ∧ (inInt64 (l.amount - Int.tdiv t.amount 2) →
            intSub l.amount (Int.tdiv t.amount 2) = l.amount - Int.tdiv t.amount 2))
    ∧ (∃ ib, s.impBal = some ib
        ∧ (makePayment env o c [id, date] s).2.impBal
          = some (intSub ib (Int.tdiv t.amount 2))
        ∧ (inInt64 (ib - Int.tdiv t.amount 2) →
            intSub ib (Int.tdiv t.amount 2) = ib - Int.tdiv t.amount 2))
    ∧ (inInt64 (t.payment + Int.tdiv t.amount 2) →
        intAdd t.payment (Int.tdiv t.amount 2) = t.payment + Int.tdiv t.amount 2)
    ∧ ∀ date', makePayment env o c [id, date'] s = makePayment env o c [id, date] s := by
  have hdate : ∀ d1 d2, makePayment env o c [id, d1] s = makePayment env o c [id, d2] s := by
    intro d1 d2
    unfold makePayment
    simp only [computePaymentAmount, hsrc, if_true]
  have hamount : ∀ date', computePaymentAmount env s id date' t
      = .ok (Int.tdiv t.amount 2) := by
    intro date'
    unfold computePaymentAmount
    rw [if_pos hsrc]
  rcases makePayment_cases env o c [id, date] s with ⟨he, _⟩ | ⟨id0, date0, t0, l0, eb0, ib0,
    lb0, p, hargs, _, ht0, hl0, _, _, _, hib0, _, hc, hcase⟩
  · exact absurd he (Response.not_isError_of_isSuccess hs)
  · cases hargs
    rw [ht] at ht0
    cases ht0
    have hp : p = Int.tdiv t.amount 2 := by
      rw [hamount] at hc
      cases hc
      rfl
    subst hp
    refine ⟨hamount, ?_, ⟨l0, hl0, ?_, intSub_of_inInt64⟩, ⟨ib0, hib0, ?_, intSub_of_inInt64⟩,
      intAdd_of_inInt64, fun date' => hdate date' date⟩
    all_goals rcases hcase with ⟨_, h1⟩ | ⟨_, _, h1⟩
    all_goals rw [h1]
    all_goals simp [settlePayment, Ledger.delPayment, Ledger.putLC, Ledger.putTrade]

/-- Witness for C7: trade `T1` of amount 1000 with nothing paid and the shipment
at `SOURCE`; `makePayment` with a text that is no date succeeds, moves 500 and
the paid amount becomes 500. -/
theorem C7_first_installment_witness :
    installmentDueLedger.trade "T1" = some ⟨1000, "widgets", .ACCEPTED, 0⟩
    ∧ installmentDueLedger.shipmentLocation "T1" = SOURCE
    ∧ (makePayment refEnv "ImporterOrgMSP" "ca.importerorg.trade.com" ["T1", "any day"]
        installmentDueLedger).1.isSuccess = true
    ∧ (makePayment refEnv "ImporterOrgMSP" "ca.importerorg.trade.com" ["T1", "any day"]
        installmentDueLedger).2.trade "T1"
      = some ⟨1000, "widgets", .ACCEPTED, intAdd 0 (Int.tdiv 1000 2)⟩
    ∧ intAdd 0 (Int.tdiv 1000 2) = 500
    ∧ (makePayment refEnv "ImporterOrgMSP" "ca.importerorg.trade.com" ["T1", "any day"]
        installmentDueLedger).2.impBal = some 199500
    ∧ (makePayment refEnv "ImporterOrgMSP" "ca.importerorg.trade.com" ["T1", "any day"]
        installmentDueLedger).2.expBal = some 100500 :=
  ⟨by decide, by decide, by decide,
   (C7_first_installment refEnv "ImporterOrgMSP" "ca.importerorg.trade.com" "T1" "any day"
      installmentDueLedger ⟨1000, "widgets", .ACCEPTED, 0⟩ (by decide) (by decide)
      (by decide)).2.1,
   by decide, by decide, by decide⟩

/-- The calls that take a trade `T3` of amount 100 from the request to a pending
payment request with the shipment arrived at `DESTINATION` on 1 January 2020,
nothing having been paid. -/
def smallTradeCalls : List Call :=
  [⟨importerTx, "requestTrade", ["T3", "100", "widgets"]⟩,
   ⟨exporterTx, "acceptTrade", ["T3"]⟩,
   ⟨importerTx, "requestLC", ["T3"]⟩,
   ⟨importerTx, "issueLC", ["T3", "lc3", "12/31/2030"]⟩,
   ⟨exporterTx, "acceptLC", ["T3"]⟩,
   ⟨exporterTx, "requestEL", ["T3"]⟩,
   ⟨regulatorTx, "issueEL", ["T3", "el3", "12/31/2030"]⟩,
   ⟨exporterTx, "prepareShipment", ["T3"]⟩,
   ⟨carrierTx, "updateShipmentLocation", ["T3", "DESTINATION", "01/01/2020"]⟩,
   ⟨exporterTx, "requestPayment", ["T3"]⟩]

/-- C8 (the code at the failing input): with the arrival on 1 January 2020 and
the payment on 31 March 2020, ninety days later, the hours are 2160 and the
surcharge is 1; the `float32` sum `1.0 + 0.05 * surcharge` is
`4404019 / 2^22`, just below 1.05, the `float32` product with 100 is just below
105, and `makePayment` pays 104 of the remaining 100 plus fee, not 105.  On
1 March 2020, sixty days after arrival, the surcharge is 0 and the payment is
the remaining 100. -/
theorem C8_late_payment_of_100_pays_104 :
    timeParse "01/01/2020" = some 18262
    ∧ timeParse "03/31/2020" = some 18352
    ∧ hoursBetween 18262 18352 = ⟨2160, 0⟩
    ∧ surcharge 18262 18352 = .fin ⟨1, 0⟩
    ∧ f32Add (f32Const 1 1) (f32Mul (f32Const 5 100) (surcharge 18262 18352))
        = .fin ⟨4404019, 22⟩
    ∧ f32Mul (f32OfInt 100) (.fin ⟨4404019, 22⟩) = .fin ⟨13762559, 17⟩
    ∧ latePaymentAmount 100 0 18262 18352 = 104
    ∧ (Invoke refEnv importerTx "makePayment" ["T3", "03/31/2020"]
        (run refEnv smallTradeCalls genesis)).1 = .success .nil
    ∧ (Invoke refEnv importerTx "makePayment" ["T3", "03/31/2020"]
        (run refEnv smallTradeCalls genesis)).2.trade "T3"
      = some ⟨100, "widgets", .ACCEPTED, 104⟩
    ∧ timeParse "03/01/2020" = some 18322
    ∧ surcharge 18262 18322 = .fin ⟨0, 0⟩
    ∧ (Invoke refEnv importerTx "makePayment" ["T3", "03/01/2020"]
        (run refEnv smallTradeCalls genesis)).2.trade "T3"
      = some ⟨100, "widgets", .ACCEPTED, 100⟩ := by
  decide

/-- With a pending advance payment request, a letter of credit in status
`TRANSFER_ACCEPTED` whose beneficiary is the Lender identity, a recorded
shipment location and both balances present, `makeAdvancePayment` by an
admitted caller succeeds; the payment amount is added to the Exporter balance
and subtracted from the Lender balance in the arithmetic of `int`, the letter
of credit differs from before only in `advancePaymentSettlement`, which is
true, and the marker is deleted. -/
theorem makeAdvancePayment_settlement (env : Env) (o c id : String) (s : Ledger)
    (l : LetterOfCredit) (eb lb : Int) (ha : admitted env env.authenticateLenderOrg o c)
    (hm : s.advancePayment id ≠ "") (hl : s.lc id = some l)
    (hst : l.status = .TRANSFER_ACCEPTED) (hb : l.beneficiary = s.len)
    (hloc : s.shipmentLocation id ≠ "") (heb : s.expBal = some eb) (hlb : s.lenBal = some lb) :
    (makeAdvancePayment env o c [id] s).1 = .success .nil
    ∧ (makeAdvancePayment env o c [id] s).2.expBal
        = some (intAdd eb (advancePaymentAmount l))
    ∧ (makeAdvancePayment env o c [id] s).2.lenBal
        = some (intSub lb (advancePaymentAmount l))
    ∧ (makeAdvancePayment env o c [id] s).2.lc id
        = some { l with advancePaymentSettlement := true }
    ∧ (makeAdvancePayment env o c [id] s).2.advancePayment id = "" := by
  have h1 : makeAdvancePayment env o c [id] s
      = (.success .nil,
          settleAdvancePayment s id { l with advancePaymentSettlement := true }
            (intAdd eb (advancePaymentAmount l)) (intSub lb (advancePaymentAmount l))) := by
    unfold makeAdvancePayment
    rw [if_neg (admitted_not_denied ha)]
    simp only [hl, heb, hlb]
    rw [if_neg hm, if_neg (by simp [hst]), if_neg (by simp [hb]), if_neg hloc]
  rw [h1]
  refine ⟨rfl, ?_, ?_, ?_, ?_⟩
  all_goals simp [settleAdvancePayment, Ledger.delAdvancePayment, Ledger.putLC]

/-- The ledger on which the advance payment of `T1` is due: the letter of credit
has been transferred at a discount rate of 0.1 and the Exporter has requested
the advance payment. -/
def advanceDueLedger : Ledger :=
  (Invoke refEnv exporterTx "requestAdvancePayment" ["T1"] transferredLedger).2

/-- The calls, after `shipmentPrefixCalls`, that transfer the letter of credit
of `T1` at the given discount rate and settle the advance payment. -/
def advanceAtRateCalls (rate : String) : List Call :=
  [⟨exporterTx, "requestLCTransfer", ["T1", rate]⟩,
   ⟨exporterTx, "issueLCTransfer", ["T1"]⟩,
   ⟨lenderTx, "acceptLCTransfer", ["T1"]⟩,
   ⟨exporterTx, "requestAdvancePayment", ["T1"]⟩,
   ⟨lenderTx, "makeAdvancePayment", ["T1"]⟩]

/-- The calls that take a trade `T2` of amount 300 from the request to a pending
advance payment request, the letter of credit having been transferred to the
Lender at the discount rate `0.22`. -/
def discountedTradeCalls : List Call :=
  [⟨importerTx, "requestTrade", ["T2", "300", "widgets"]⟩,
   ⟨exporterTx, "acceptTrade", ["T2"]⟩,
   ⟨importerTx, "requestLC", ["T2"]⟩,
   ⟨importerTx, "issueLC", ["T2", "lc2", "12/31/2030"]⟩,
   ⟨exporterTx, "acceptLC", ["T2"]⟩,
   ⟨exporterTx, "requestEL", ["T2"]⟩,
   ⟨regulatorTx, "issueEL", ["T2", "el2", "12/31/2030"]⟩,
   ⟨exporterTx, "prepareShipment", ["T2"]⟩,
   ⟨exporterTx, "requestLCTransfer", ["T2", "0.22"]⟩,
   ⟨exporterTx, "issueLCTransfer", ["T2"]⟩,
   ⟨lenderTx, "acceptLCTransfer", ["T2"]⟩,
   ⟨exporterTx, "requestAdvancePayment", ["T2"]⟩]

/-- C9 (the code at the failing input): the letter of credit of `T2`, of amount
300, has been transferred at the discount rate `0.22` and the advance payment
is requested; the stored rate is the `float32` nearest to 0.22, which is
`7381975 / 2^25`; the `float32` difference `1.0 - rate` is `3271557 / 2^22`,
just below 0.78, its `float32` product with 300 is `15335423 / 2^16`, just
below 234, and `makeAdvancePayment` moves 233 from the Lender balance to the
Exporter balance, where `(1 - rate) * 300` truncated is 234, for the stored
rate as well as for the rate 0.22.  For the letter of credit of `T1`, of
amount 1000, transferred at the rate `0.1`, the amount moved is 900. -/
theorem C9_advance_payment_of_234_pays_233 :
    (run refEnv discountedTradeCalls genesis).lc "T2"
        = some ⟨"lc2", "12/31/2030", "FinanceCo", 300, [], .TRANSFER_ACCEPTED,
            ⟨7381975, 25⟩, false⟩
    ∧ (run refEnv discountedTradeCalls genesis).advancePayment "T2" ≠ ""
    ∧ f32Sub (f32Const 1 1) (.fin ⟨7381975, 25⟩) = .fin ⟨3271557, 22⟩
    ∧ f32Mul (.fin ⟨3271557, 22⟩) (f32OfInt 300) = .fin ⟨15335423, 16⟩
    ∧ advancePaymentAmount
        ⟨"lc2", "12/31/2030", "FinanceCo", 300, [], .TRANSFER_ACCEPTED, ⟨7381975, 25⟩, false⟩
      = 233
    ∧ (Invoke refEnv lenderTx "makeAdvancePayment" ["T2"]
        (run refEnv discountedTradeCalls genesis)).1 = .success .nil
    ∧ (Invoke refEnv lenderTx "makeAdvancePayment" ["T2"]
        (run refEnv discountedTradeCalls genesis)).2.expBal = some 100233
    ∧ (Invoke refEnv lenderTx "makeAdvancePayment" ["T2"]
        (run refEnv discountedTradeCalls genesis)).2.lenBal = some 299767
    ∧ Int.tdiv ((2 ^ 25 - 7381975) * 300) (2 ^ 25) = 234
    ∧ Int.tdiv ((100 - 22) * 300) 100 = 234
    ∧ (run refEnv (advanceAtRateCalls "0.1") preparedLedger).expBal = some 100900
    ∧ (run refEnv (advanceAtRateCalls "0.1") preparedLedger).lenBal = some 299100 := by
  decide

/-! ## The trade agreement manager -/

/-- Across any dispatched function other than `requestTrade` a trade agreement
in status `ACCEPTED` persists and stays in status `ACCEPTED`. -/
theorem trade_accepted_stays_except_requestTrade (env : Env) (tx : Tx) (fn : String)
    (args : List String) (s : Ledger) (id : String) (t : TradeAgreement)
    (h : s.trade id = some t) (hst : t.status = .ACCEPTED) (hfn : fn ≠ "requestTrade") :
    ∃ t', (Invoke env tx fn args s).2.trade id = some t' ∧ t'.status = .ACCEPTED := by
  by_cases hmp : fn = "makePayment"
  · subst hmp
    refine Invoke_makePayment
      (P := fun r => ∃ t', r.2.trade id = some t' ∧ t'.status = .ACCEPTED)
      env tx args s (fun o c => ?_) ⟨t, h, hst⟩
    rcases makePayment_trade env o c args s id t h with h1 | ⟨_, _, _, _, h1, _⟩
    · exact ⟨t, h1, hst⟩
    · exact ⟨_, h1, hst⟩
  · obtain ⟨t', h1, _, _, _, hk⟩ := Invoke_tradeKeep env tx fn args s hfn hmp id t h
    exact ⟨t', h1, hk hst⟩

/-- C11 (the code at the failing input): after the first installment the trade
agreement of `T1` is in status `ACCEPTED` with 500 paid of 1000; the Importer
calls `requestTrade` for `T1` again, the call succeeds and the stored trade
agreement is in status `REQUESTED` with nothing paid. -/
theorem C11_requestTrade_regresses_status :
    (run refEnv firstInstallmentCalls preparedLedger).trade "T1"
        = some ⟨1000, "widgets", .ACCEPTED, 500⟩
    ∧ (Invoke refEnv importerTx "requestTrade" ["T1", "1000", "widgets"]
        (run refEnv firstInstallmentCalls preparedLedger)).1 = .success .nil
    ∧ (Invoke refEnv importerTx "requestTrade" ["T1", "1000", "widgets"]
        (run refEnv firstInstallmentCalls preparedLedger)).2.trade "T1"
      = some ⟨1000, "widgets", .REQUESTED, 0⟩ := by
  decide

/-- The trade limit that `requestTrade` applies: the custom attribute
`tradelimit` read as an integer when the attribute is found, 1000000 when it
is not; `none` when the attribute is found and is no integer. -/
def tradeLimit (env : Env) (tradelimitAttr : Option String) : Option Int :=
  match tradelimitAttr with
  | some value => env.atoi value
  | none => some 1000000

/-- The function `requestTrade` for an admitted caller with three arguments, in
terms of `tradeLimit`. -/
theorem requestTrade_admitted (env : Env) (lim : Option String) (o c id amountArg description : String)
    (s : Ledger) (ha : ¬ ((!env.testMode && !env.authenticateImporterOrg o c) = true)) :
    requestTrade env lim o c [id, amountArg, description] s
      = match tradeLimit env lim with
        | none => (.error "tradelimit is not an integer", s)
        | some tradelimit =>
          match env.atoi amountArg with
          | none => (.error "Amount is not an integer", s)
          | some amount =>
            if amount > tradelimit then
              (.error "Caller trade limit authorization exceeded. Access denied.", s)
            else (.success .nil, s.putTrade id ⟨amount, description, .REQUESTED, 0⟩) := by
  unfold requestTrade tradeLimit
  cases lim with
  | none => simp only [if_neg ha]
  | some v =>
    dsimp only
    cases hv : env.atoi v with
    | none => rfl
    | some l => simp only [if_neg ha]

/-- C12 (amended): `requestTrade` with an amount argument that is no integer
returns an error and writes nothing, whoever calls; an amount that is an
integer is not rejected for being zero or negative: for an admitted caller it
is stored like any other amount that does not exceed the trade limit. -/
theorem C12_requestTrade_amount_check (env : Env) (lim : Option String)
    (o c id amountArg description : String) (s : Ledger) :
    (env.atoi amountArg = none →
        (requestTrade env lim o c [id, amountArg, description] s).1.isError = true
        ∧ (requestTrade env lim o c [id, amountArg, description] s).2 = s)
    ∧ (∀ amount limit, env.atoi amountArg = some amount → amount ≤ 0 →
        admitted env env.authenticateImporterOrg o c → tradeLimit env lim = some limit →
        amount ≤ limit →
        requestTrade env lim o c [id, amountArg, description] s
          = (.success .nil, s.putTrade id ⟨amount, description, .REQUESTED, 0⟩)) := by
  constructor
  · intro hnone
    have he : (requestTrade env lim o c [id, amountArg, description] s).1.isError = true := by
      unfold requestTrade
      repeat' split
      all_goals first
        | rfl
        | simp_all
    exact ⟨he, requestTrade_error_ledger env lim o c _ s he⟩
  · intro amount limit hamt _ ha hlim hle
    rw [requestTrade_admitted env lim o c id amountArg description s (admitted_not_denied ha)]
    simp only [hlim, hamt]
    rw [if_neg (by omega)]

/-- Witness for C12 (amended): on the bootstrapped ledger the Importer requests
trade `T2` with the amount `-5`; the call succeeds and the trade agreement is
stored. -/
theorem C12_requestTrade_amount_check_witness :
    refEnv.atoi "-5" = some (-5)
    ∧ requestTrade refEnv none "ImporterOrgMSP" "ca.importerorg.trade.com"
        ["T2", "-5", "widgets"] genesis
      = (.success .nil, genesis.putTrade "T2" ⟨-5, "widgets", .REQUESTED, 0⟩) :=
  ⟨by decide,
   (C12_requestTrade_amount_check refEnv none "ImporterOrgMSP" "ca.importerorg.trade.com" "T2"
      "-5" "widgets" genesis).2 (-5) 1000000 (by decide) (by decide) (Or.inr (by decide)) rfl
      (by decide)⟩

/-- Counterexample to C12 as stated: on the bootstrapped ledger the Importer
calls `requestTrade` with the amount `0` and with the amount `-5`; both calls
succeed and store a trade agreement of that amount. -/
theorem C12_counterexample :
    (Invoke refEnv importerTx "requestTrade" ["T2", "0", "widgets"] genesis).1 = .success .nil
    ∧ (Invoke refEnv importerTx "requestTrade" ["T2", "0", "widgets"] genesis).2.trade "T2"
        = some ⟨0, "widgets", .REQUESTED, 0⟩
    ∧ (Invoke refEnv importerTx "requestTrade" ["T2", "-5", "widgets"] genesis).1
        = .success .nil
    ∧ (Invoke refEnv importerTx "requestTrade" ["T2", "-5", "widgets"] genesis).2.trade "T2"
        = some ⟨-5, "widgets", .REQUESTED, 0⟩ := by
  decide

/-- C13: for an admitted Importer caller with the three arguments id, amount and
description, the amount being an integer, the trade limit is the `tradelimit`
attribute when it is found and 1000000 when it is not; above the limit
`requestTrade` returns an error and writes nothing; at or below the limit it
succeeds, writes only the trade agreement of `id`, and that trade agreement has
the amount, the description, status `REQUESTED` and nothing paid. -/
theorem C13_requestTrade_limit_and_creation (env : Env) (lim : Option String)
    (o c id amountArg description : String) (s : Ledger) (amount limit : Int)
    (ha : admitted env env.authenticateImporterOrg o c)
    (hamt : env.atoi amountArg = some amount)
    (hlim : (lim = none ∧ limit = 1000000) ∨ (∃ value, lim = some value ∧ env.atoi value = some limit)) :
    (limit < amount →
        (requestTrade env lim o c [id, amountArg, description] s).1.isError = true
        ∧ (requestTrade env lim o c [id, amountArg, description] s).2 = s)
    ∧ (amount ≤ limit →
        requestTrade env lim o c [id, amountArg, description] s
          = (.success .nil, s.putTrade id ⟨amount, description, .REQUESTED, 0⟩)
        ∧ (requestTrade env lim o c [id, amountArg, description] s).2.trade id
          = some ⟨amount, description, .REQUESTED, 0⟩) := by
  have hl : tradeLimit env lim = some limit := by
    rcases hlim with ⟨h1, h2⟩ | ⟨v, h1, h2⟩
    · subst h1 h2
      rfl
    · subst h1
      exact h2
  have hr := requestTrade_admitted env lim o c id amountArg description s (admitted_not_denied ha)
  simp only [hl, hamt] at hr
  constructor
  · intro hgt
    rw [if_pos (by omega)] at hr
    rw [hr]
    exact ⟨rfl, rfl⟩
  · intro hle
    rw [if_neg (by omega)] at hr
    rw [hr]
    exact ⟨rfl, by simp [Ledger.putTrade]⟩

/-- Witness for C13: with the attribute `tradelimit` at 500 the amount 1000 is
rejected and the ledger is as before, and without the attribute the amount
1000 is stored. -/
theorem C13_requestTrade_limit_and_creation_witness :
    (requestTrade refEnv (some "500") "ImporterOrgMSP" "ca.importerorg.trade.com"
        ["T1", "1000", "widgets"] genesis).1.isError = true
    ∧ (requestTrade refEnv (some "500") "ImporterOrgMSP" "ca.importerorg.trade.com"
        ["T1", "1000", "widgets"] genesis).2 = genesis
    ∧ (requestTrade refEnv none "ImporterOrgMSP" "ca.importerorg.trade.com"
        ["T1", "1000", "widgets"] genesis).2.trade "T1"
      = some ⟨1000, "widgets", .REQUESTED, 0⟩ :=
  ⟨((C13_requestTrade_limit_and_creation refEnv (some "500") "ImporterOrgMSP"
      "ca.importerorg.trade.com" "T1" "1000" "widgets" genesis 1000 500 (Or.inr (by decide))
      (by decide) (Or.inr ⟨"500", rfl, by decide⟩)).1 (by decide)).1,
   ((C13_requestTrade_limit_and_creation refEnv (some "500") "ImporterOrgMSP"
      "ca.importerorg.trade.com" "T1" "1000" "widgets" genesis 1000 500 (Or.inr (by decide))
      (by decide) (Or.inr ⟨"500", rfl, by decide⟩)).1 (by decide)).2,
   ((C13_requestTrade_limit_and_creation refEnv none "ImporterOrgMSP"
      "ca.importerorg.trade.com" "T1" "1000" "widgets" genesis 1000 1000000 (Or.inr (by decide))
      (by decide) (Or.inl ⟨rfl, rfl⟩)).2 (by decide)).2⟩
/-- C14: for an admitted Exporter caller with the one argument `id`,
`acceptTrade` succeeds exactly when a trade agreement is stored for `id`; with
none stored it returns an error and the ledger is as before (no record
appears); with one stored it succeeds, writes nothing but the trade agreement
of `id`, which comes to status `ACCEPTED` with amount, description of goods
and payment as before; a trade agreement that is `ACCEPTED` already leaves the
whole ledger as it was. -/
theorem C14_acceptTrade (env : Env) (o c id : String) (s : Ledger)
    (ha : admitted env env.authenticateExporterOrg o c) :
    ((acceptTrade env o c [id] s).1.isSuccess = true ↔ ∃ t, s.trade id = some t)
    ∧ (s.trade id = none →
        (acceptTrade env o c [id] s).1.isError = true ∧ (acceptTrade env o c [id] s).2 = s)
    ∧ (∀ t, s.trade id = some t →
        (acceptTrade env o c [id] s).1 = .success .nil
        ∧ (acceptTrade env o c [id] s).2.trade id = some { t with status := .ACCEPTED }
        ∧ (∀ k, k ≠ id → (acceptTrade env o c [id] s).2.trade k = s.trade k)
        ∧ (acceptTrade env o c [id] s).2.lc = s.lc
        ∧ (t.status = .ACCEPTED → (acceptTrade env o c [id] s).2 = s)) := by
  have hne := admitted_not_denied ha
  cases h : s.trade id with
  | none =>
    have hr : acceptTrade env o c [id] s = (.error "No record found for trade ID", s) := by
      unfold acceptTrade
      rw [if_neg hne]
      simp only [h]
    rw [hr]
    simp [Response.isSuccess, Response.isError]
  | some t =>
    by_cases hst : t.status = .ACCEPTED
    · have hr : acceptTrade env o c [id] s = (.success .nil, s) := by
        unfold acceptTrade
        rw [if_neg hne]
        simp only [h, if_pos hst]
      rw [hr]
      refine ⟨by simp [Response.isSuccess], by simp, ?_⟩
      intro t' ht'
      cases ht'
      refine ⟨rfl, ?_, fun _ _ => rfl, rfl, fun _ => rfl⟩
      rw [h]
      cases t
      simp_all
    · have hr : acceptTrade env o c [id] s
          = (.success .nil, s.putTrade id { t with status := .ACCEPTED }) := by
        unfold acceptTrade
        rw [if_neg hne]
        simp only [h, if_neg hst]
      rw [hr]
      refine ⟨by simp [Response.isSuccess], by simp, ?_⟩
      intro t' ht'
      cases ht'
      refine ⟨rfl, by simp [Ledger.putTrade], fun k hk => by simp [Ledger.putTrade, hk], rfl,
        fun hc => absurd hc hst⟩

/-- Witness for C14: on the bootstrapped ledger with trade `T1` requested for
1000, the Exporter accepts; the trade agreement keeps amount 1000, description
and payment 0 and is `ACCEPTED`. -/
theorem C14_acceptTrade_witness :
    (acceptTrade refEnv "ExporterOrgMSP" "ca.exporterorg.trade.com" ["T1"]
        (genesis.putTrade "T1" ⟨1000, "widgets", .REQUESTED, 0⟩)).1 = .success .nil
    ∧ (acceptTrade refEnv "ExporterOrgMSP" "ca.exporterorg.trade.com" ["T1"]
        (genesis.putTrade "T1" ⟨1000, "widgets", .REQUESTED, 0⟩)).2.trade "T1"
      = some ⟨1000, "widgets", .ACCEPTED, 0⟩ :=
  ⟨((C14_acceptTrade refEnv "ExporterOrgMSP" "ca.exporterorg.trade.com" "T1"
      (genesis.putTrade "T1" ⟨1000, "widgets", .REQUESTED, 0⟩) (Or.inr (by decide))).2.2
      ⟨1000, "widgets", .REQUESTED, 0⟩ (by decide)).1,
   ((C14_acceptTrade refEnv "ExporterOrgMSP" "ca.exporterorg.trade.com" "T1"
      (genesis.putTrade "T1" ⟨1000, "widgets", .REQUESTED, 0⟩) (Or.inr (by decide))).2.2
      ⟨1000, "widgets", .REQUESTED, 0⟩ (by decide)).2.1⟩

/-- The calls of the example of `requestLC`: the Importer requests trade `T1`
for 1000 of widgets, the Exporter accepts it, the Importer requests the letter
of credit. -/
def requestLCExampleCalls : List Call :=
  [⟨importerTx, "requestTrade", ["T1", "1000", "widgets"]⟩,
   ⟨exporterTx, "acceptTrade", ["T1"]⟩,
   ⟨importerTx, "requestLC", ["T1"]⟩]

/-- C15: for an admitted Importer caller with the one argument `id`,
`requestLC` succeeds exactly when a trade agreement is stored for `id` in
status `ACCEPTED`; on success the letter of credit stored for `id` has the
stored Exporter identity as beneficiary, the amount of the trade, status
`REQUESTED`, empty id, expiration date and documents, discount rate 0 and
advance payment not settled; with a trade agreement in status `REQUESTED` the
call returns an error and the ledger is as before; and the example run
`requestTrade(T1, 1000, widgets)`, `acceptTrade(T1)`, `requestLC(T1)` from the
bootstrapped ledger stores a letter of credit of amount 1000 for the Exporter
in status `REQUESTED`. -/
theorem C15_requestLC (env : Env) (o c id : String) (s : Ledger)
    (ha : admitted env env.authenticateImporterOrg o c) :
    ((requestLC env o c [id] s).1.isSuccess = true
        ↔ ∃ t, s.trade id = some t ∧ t.status = .ACCEPTED)
    ∧ (∀ t, s.trade id = some t → t.status = .ACCEPTED →
        (requestLC env o c [id] s).1 = .success .nil
        ∧ (requestLC env o c [id] s).2.lc id
          = some ⟨"", "", s.exp, t.amount, [], .REQUESTED, ⟨0, 0⟩, false⟩)
    ∧ (∀ t, s.trade id = some t → t.status = .REQUESTED →
        (requestLC env o c [id] s).1.isError = true ∧ (requestLC env o c [id] s).2 = s)
    ∧ (run refEnv requestLCExampleCalls genesis).lc "T1"
        = some ⟨"", "", "LumberInc", 1000, [], .REQUESTED, ⟨0, 0⟩, false⟩ := by
  have hne := admitted_not_denied ha
  refine ⟨?_, ?_, ?_, by decide⟩
  · cases h : s.trade id with
    | none =>
      have hr : requestLC env o c [id] s = (.error "No record found for trade ID", s) := by
        unfold requestLC
        rw [if_neg hne]
        simp only [h]
      rw [hr]
      simp [Response.isSuccess]
    | some t =>
      by_cases hst : t.status = .ACCEPTED
      · have hr : (requestLC env o c [id] s).1 = .success .nil := by
          unfold requestLC
          rw [if_neg hne]
          simp only [h, hst, ne_eq, not_true_eq_false, if_false]
        rw [hr]
        simp [Response.isSuccess, hst]
      · have hr : requestLC env o c [id] s
            = (.error "Trade has not been accepted by the parties", s) := by
          unfold requestLC
          rw [if_neg hne]
          simp only [h, ne_eq, hst, not_false_eq_true, if_true]
        rw [hr]
        simp [Response.isSuccess, hst]
  · intro t h hst
    have hr : requestLC env o c [id] s
        = (.success .nil,
            s.putLC id ⟨"", "", s.exp, t.amount, [], .REQUESTED, ⟨0, 0⟩, false⟩) := by
      unfold requestLC
      rw [if_neg hne]
      simp only [h, hst, ne_eq, not_true_eq_false, if_false]
    rw [hr]
    exact ⟨rfl, by simp [Ledger.putLC]⟩
  · intro t h hst
    have hr : requestLC env o c [id] s
        = (.error "Trade has not been accepted by the parties", s) := by
      unfold requestLC
      rw [if_neg hne]
      simp only [h, hst, ne_eq]
      rfl
    rw [hr]
    exact ⟨rfl, rfl⟩

/-- Witness for C15: on the bootstrapped ledger with trade `T1` accepted for
1000, the Importer requests the letter of credit; it is stored with amount
1000 for `LumberInc` in status `REQUESTED`. -/
theorem C15_requestLC_witness :
    (requestLC refEnv "ImporterOrgMSP" "ca.importerorg.trade.com" ["T1"]
        (genesis.putTrade "T1" ⟨1000, "widgets", .ACCEPTED, 0⟩)).2.lc "T1"
      = some ⟨"", "", "LumberInc", 1000, [], .REQUESTED, ⟨0, 0⟩, false⟩ :=
  ((C15_requestLC refEnv "ImporterOrgMSP" "ca.importerorg.trade.com" "T1"
      (genesis.putTrade "T1" ⟨1000, "widgets", .ACCEPTED, 0⟩) (Or.inr (by decide))).2.1
      ⟨1000, "widgets", .ACCEPTED, 0⟩ (by decide) rfl).2

/-- C16: for an admitted caller of `issueLC` with arguments trade id, L/C id,
expiry and then documents, on a stored letter of credit: in status `ISSUED`,
`ACCEPTED`, `TRANSFER_REQUESTED`, `TRANSFER_ISSUED` or `TRANSFER_ACCEPTED` the
call succeeds and the ledger is as before, whatever the L/C id, expiry and
documents given; in status `REQUESTED` the call succeeds and the letter of
credit gets the L/C id, the expiry, the documents in order and status
`ISSUED`, with beneficiary, amount, discount rate and advance payment
settlement as before. -/
theorem C16_issueLC (env : Env) (o c id lcId expiry : String) (documents : List String)
    (s : Ledger) (l : LetterOfCredit)
    (ha : admitted env env.authenticateImporterOrg o c) (h : s.lc id = some l) :
    (l.status ≠ .REQUESTED →
        issueLC env o c (id :: lcId :: expiry :: documents) s = (.success .nil, s))
    ∧ (l.status = .REQUESTED →
        (issueLC env o c (id :: lcId :: expiry :: documents) s).1 = .success .nil
        ∧ (issueLC env o c (id :: lcId :: expiry :: documents) s).2.lc id
          = some ⟨lcId, expiry, l.beneficiary, l.amount, documents, .ISSUED, l.discountRate,
              l.advancePaymentSettlement⟩) := by
  have hne := admitted_not_denied ha
  constructor
  · intro hst
    unfold issueLC
    rw [if_neg hne]
    simp only [h]
    cases hs : l.status <;> simp_all
  · intro hst
    have hr : issueLC env o c (id :: lcId :: expiry :: documents) s
        = (.success .nil, s.putLC id { l with
            id := lcId, expirationDate := expiry, documents := documents, status := .ISSUED }) := by
      unfold issueLC
      rw [if_neg hne]
      simp only [h]
      simp [hst]
    rw [hr]
    exact ⟨rfl, by simp [Ledger.putLC]⟩

/-- Witness for C16: on the example ledger with the letter of credit of `T1`
requested, the Importer issues it as `LC1` with expiry and two documents. -/
theorem C16_issueLC_witness :
    (issueLC refEnv "ImporterOrgMSP" "ca.importerorg.trade.com"
        ["T1", "LC1", "12/31/2030", "E/L", "B/L"] (run refEnv requestLCExampleCalls genesis)).2.lc
        "T1"
      = some ⟨"LC1", "12/31/2030", "LumberInc", 1000, ["E/L", "B/L"], .ISSUED, ⟨0, 0⟩, false⟩ :=
  ((C16_issueLC refEnv "ImporterOrgMSP" "ca.importerorg.trade.com" "T1" "LC1" "12/31/2030"
      ["E/L", "B/L"] (run refEnv requestLCExampleCalls genesis)
      ⟨"", "", "LumberInc", 1000, [], .REQUESTED, ⟨0, 0⟩, false⟩ (Or.inr (by decide))
      (by decide)).2 rfl).2

/-- C17: for an admitted caller of `acceptLC` with one argument on a stored
letter of credit: in status `REQUESTED` the call returns an error and the
ledger is as before; in status `ACCEPTED` or one of the transfer statuses it
succeeds and the ledger is as before; in status `ISSUED` it succeeds and the
letter of credit is the one before with status `ACCEPTED`. -/
theorem C17_acceptLC (env : Env) (o c id : String) (s : Ledger) (l : LetterOfCredit)
    (ha : admitted env env.authenticateExporterOrg o c) (h : s.lc id = some l) :
    (l.status = .REQUESTED →
        (acceptLC env o c [id] s).1.isError = true ∧ (acceptLC env o c [id] s).2 = s)
    ∧ (l.status = .ACCEPTED ∨ l.status = .TRANSFER_REQUESTED ∨ l.status = .TRANSFER_ISSUED
          ∨ l.status = .TRANSFER_ACCEPTED →
        acceptLC env o c [id] s = (.success .nil, s))
    ∧ (l.status = .ISSUED →
        (acceptLC env o c [id] s).1 = .success .nil
        ∧ (acceptLC env o c [id] s).2.lc id = some { l with status := .ACCEPTED }
        ∧ (∀ k, k ≠ id → (acceptLC env o c [id] s).2.lc k = s.lc k)) := by
  have hne := admitted_not_denied ha
  refine ⟨?_, ?_, ?_⟩
  · intro hst
    have hr : acceptLC env o c [id] s = (.error "L/C not issued yet", s) := by
      unfold acceptLC
      rw [if_neg hne]
      simp only [h]
      simp [hst]
    rw [hr]
    exact ⟨rfl, rfl⟩
  · intro hst
    unfold acceptLC
    rw [if_neg hne]
    simp only [h]
    rcases hst with hst | hst | hst | hst <;> simp [hst]
  · intro hst
    have hr : acceptLC env o c [id] s
        = (.success .nil, s.putLC id { l with status := .ACCEPTED }) := by
      unfold acceptLC
      rw [if_neg hne]
      simp only [h]
      simp [hst]
    rw [hr]
    exact ⟨rfl, by simp [Ledger.putLC], fun k hk => by simp [Ledger.putLC, hk]⟩

/-- Witness for C17: on the example ledger the letter of credit of `T1` is
still `REQUESTED`, so `acceptLC` by the Exporter returns an error and the
ledger is as before. -/
theorem C17_acceptLC_witness :
    (acceptLC refEnv "ExporterOrgMSP" "ca.exporterorg.trade.com" ["T1"]
        (run refEnv requestLCExampleCalls genesis)).1.isError = true
    ∧ (acceptLC refEnv "ExporterOrgMSP" "ca.exporterorg.trade.com" ["T1"]
        (run refEnv requestLCExampleCalls genesis)).2 = run refEnv requestLCExampleCalls genesis :=
  (C17_acceptLC refEnv "ExporterOrgMSP" "ca.exporterorg.trade.com" "T1"
      (run refEnv requestLCExampleCalls genesis)
      ⟨"", "", "LumberInc", 1000, [], .REQUESTED, ⟨0, 0⟩, false⟩ (Or.inr (by decide))
      (by decide)).1 rfl
/-! ## The transfer of the letter of credit -/

/-- C18 (amended): for an admitted Exporter caller of `requestLCTransfer` with
arguments trade id and discount rate on a stored letter of credit, with no
payment request pending, a shipment location recorded, a positive amount and
a rate that parses: in status `REQUESTED` or `ISSUED` the call returns an
error and the ledger is as before; in a transfer status it succeeds and the
ledger is as before; in status `ACCEPTED`, when the parsed rate is a finite
number within the range of `float32`, it succeeds and the letter of credit
gets the stored Lender identity as beneficiary, the parsed rate converted to
`float32` as discount rate and status `TRANSFER_REQUESTED`, with id,
expiration date, documents, amount and advance payment settlement as before;
in status `ACCEPTED`, when the parsed rate is not finite or is beyond the
range of `float32`, the call returns an error and the ledger is as before. -/
theorem C18_requestLCTransfer (env : Env) (o c id rate : String) (s : Ledger)
    (l : LetterOfCredit) (d : Option Flt)
    (ha : admitted env env.authenticateExporterOrg o c) (h : s.lc id = some l)
    (hg : transferGuards s id l) (hd : env.parseFloat rate = some d) :
    (l.status = .REQUESTED ∨ l.status = .ISSUED →
        (requestLCTransfer env o c [id, rate] s).1.isError = true
        ∧ (requestLCTransfer env o c [id, rate] s).2 = s)
    ∧ (l.status = .TRANSFER_REQUESTED ∨ l.status = .TRANSFER_ISSUED
          ∨ l.status = .TRANSFER_ACCEPTED →
        requestLCTransfer env o c [id, rate] s = (.success .nil, s))
    ∧ (∀ r, l.status = .ACCEPTED → d.bind f32OfF64 = some r →
        (requestLCTransfer env o c [id, rate] s).1 = .success .nil
        ∧ (requestLCTransfer env o c [id, rate] s).2.lc id
          = some ⟨l.id, l.expirationDate, s.len, l.amount, l.documents, .TRANSFER_REQUESTED, r,
              l.advancePaymentSettlement⟩
        ∧ (∀ k, k ≠ id → (requestLCTransfer env o c [id, rate] s).2.lc k = s.lc k))
    ∧ (l.status = .ACCEPTED → d.bind f32OfF64 = none →
        (requestLCTransfer env o c [id, rate] s).1.isError = true
        ∧ (requestLCTransfer env o c [id, rate] s).2 = s) := by
  have hne := admitted_not_denied ha
  obtain ⟨hp, hl, hamt⟩ := hg
  have hamt' : ¬ l.amount ≤ 0 := not_le.mpr hamt
  refine ⟨?_, ?_, ?_, ?_⟩
  · intro hst
    have hr : requestLCTransfer env o c [id, rate] s = (.error "L/C not accepted yet", s) := by
      unfold requestLCTransfer
      rw [if_neg hne]
      simp only [h, hd]
      simp [hp, hl, hamt', hst]
    rw [hr]
    exact ⟨rfl, rfl⟩
  · intro hst
    unfold requestLCTransfer
    rw [if_neg hne]
    simp only [h, hd]
    rcases hst with hst | hst | hst <;> simp [hp, hl, hamt', hst]
  · intro r hst hr32
    have hr : requestLCTransfer env o c [id, rate] s
        = (.success .nil, s.putLC id { l with
            beneficiary := s.len, discountRate := r, status := .TRANSFER_REQUESTED }) := by
      unfold requestLCTransfer
      rw [if_neg hne]
      simp only [h, hd]
      simp [hp, hl, hamt', hst, hr32]
    rw [hr]
    exact ⟨rfl, by simp [Ledger.putLC], fun k hk => by simp [Ledger.putLC, hk]⟩
  · intro hst hr32
    have hr : requestLCTransfer env o c [id, rate] s
        = (.error "Error marshaling L/C structure", s) := by
      unfold requestLCTransfer
      rw [if_neg hne]
      simp only [h, hd]
      simp [hp, hl, hamt', hst, hr32]
    rw [hr]
    exact ⟨rfl, rfl⟩

/-- Witness for C18 (amended): on the ledger with the shipment of `T1` accepted
by the Carrier, the letter of credit is `ACCEPTED` with amount 1000; with the
rate `0.5` the Exporter gets the transfer requested for `FinanceCo` at the
rate one half. -/
theorem C18_requestLCTransfer_witness :
    (requestLCTransfer refEnv "ExporterOrgMSP" "ca.exporterorg.trade.com" ["T1", "0.5"]
        preparedLedger).1 = .success .nil
    ∧ (requestLCTransfer refEnv "ExporterOrgMSP" "ca.exporterorg.trade.com" ["T1", "0.5"]
        preparedLedger).2.lc "T1"
      = some ⟨"lc1", "12/31/2030", "FinanceCo", 1000, ["E/L", "B/L"], .TRANSFER_REQUESTED,
          ⟨1, 1⟩, false⟩ :=
  ⟨((C18_requestLCTransfer refEnv "ExporterOrgMSP" "ca.exporterorg.trade.com" "T1" "0.5"
      preparedLedger ⟨"lc1", "12/31/2030", "LumberInc", 1000, ["E/L", "B/L"], .ACCEPTED, ⟨0, 0⟩,
        false⟩ (some ⟨1, 1⟩) (Or.inr (by decide)) (by decide)
      ⟨by decide, by decide, by decide⟩ (by decide)).2.2.1 ⟨1, 1⟩ rfl (by decide)).1,
   ((C18_requestLCTransfer refEnv "ExporterOrgMSP" "ca.exporterorg.trade.com" "T1" "0.5"
      preparedLedger ⟨"lc1", "12/31/2030", "LumberInc", 1000, ["E/L", "B/L"], .ACCEPTED, ⟨0, 0⟩,
        false⟩ (some ⟨1, 1⟩) (Or.inr (by decide)) (by decide)
      ⟨by decide, by decide, by decide⟩ (by decide)).2.2.1 ⟨1, 1⟩ rfl (by decide)).2.1⟩

/-- Counterexample to C18 as stated: on the ledger with the shipment of `T1`
accepted by the Carrier, no payment request is pending, the shipment location
is recorded, and the letter of credit is `ACCEPTED` with amount 1000. The rate
`NaN` parses, and so does the decimal literal of ten to the power 39, which
is beyond the range of `float32`; with either rate `requestLCTransfer` by the
Exporter returns the error of the failed encoding and the letter of credit is
as before. -/
theorem C18_counterexample :
    preparedLedger.payment "T1" = ""
    ∧ preparedLedger.shipmentLocation "T1" = SOURCE
    ∧ preparedLedger.lc "T1"
        = some ⟨"lc1", "12/31/2030", "LumberInc", 1000, ["E/L", "B/L"], .ACCEPTED, ⟨0, 0⟩, false⟩
    ∧ refEnv.parseFloat "NaN" = some none
    ∧ (refEnv.parseFloat "1000000000000000000000000000000000000000").isSome = true
    ∧ (Invoke refEnv exporterTx "requestLCTransfer" ["T1", "NaN"] preparedLedger).1
        = .error "Error marshaling L/C structure"
    ∧ (Invoke refEnv exporterTx "requestLCTransfer" ["T1", "NaN"] preparedLedger).2.lc "T1"
        = preparedLedger.lc "T1"
    ∧ (Invoke refEnv exporterTx "requestLCTransfer"
          ["T1", "1000000000000000000000000000000000000000"] preparedLedger).1
        = .error "Error marshaling L/C structure"
    ∧ (Invoke refEnv exporterTx "requestLCTransfer"
          ["T1", "1000000000000000000000000000000000000000"] preparedLedger).2.lc "T1"
        = preparedLedger.lc "T1" := by
  decide

/-- C19: for admitted callers on a stored letter of credit, with no payment
request pending, a shipment location recorded and a positive amount:
`issueLCTransfer` returns an error and leaves the ledger as before in status
`REQUESTED`, `ISSUED` or `ACCEPTED`, succeeds and leaves the ledger as before
in status `TRANSFER_ISSUED` or `TRANSFER_ACCEPTED`, and in status
`TRANSFER_REQUESTED` succeeds and stores the letter of credit with the status
alone changed, to `TRANSFER_ISSUED`; `acceptLCTransfer` returns an error and
leaves the ledger as before in status `REQUESTED`, `ISSUED`, `ACCEPTED` or
`TRANSFER_REQUESTED`, succeeds and leaves the ledger as before in status
`TRANSFER_ACCEPTED`, and in status `TRANSFER_ISSUED` succeeds and stores the
letter of credit with the status alone changed, to `TRANSFER_ACCEPTED`. -/
theorem C19_issue_and_accept_LCTransfer (env : Env) (o c id : String) (s : Ledger)
    (l : LetterOfCredit) (h : s.lc id = some l) (hg : transferGuards s id l) :
    (admitted env env.authenticateExporterOrg o c →
      (l.status = .REQUESTED ∨ l.status = .ISSUED ∨ l.status = .ACCEPTED →
          (issueLCTransfer env o c [id] s).1.isError = true
          ∧ (issueLCTransfer env o c [id] s).2 = s)
      ∧ (l.status = .TRANSFER_ISSUED ∨ l.status = .TRANSFER_ACCEPTED →
          issueLCTransfer env o c [id] s = (.success .nil, s))
      ∧ (l.status = .TRANSFER_REQUESTED →
          issueLCTransfer env o c [id] s
            = (.success .nil, s.putLC id { l with status := .TRANSFER_ISSUED })
          ∧ (issueLCTransfer env o c [id] s).2.lc id
            = some { l with status := .TRANSFER_ISSUED }))
    ∧ (admitted env env.authenticateLenderOrg o c →
      (l.status = .REQUESTED ∨ l.status = .ISSUED ∨ l.status = .ACCEPTED
            ∨ l.status = .TRANSFER_REQUESTED →
          (acceptLCTransfer env o c [id] s).1.isError = true
          ∧ (acceptLCTransfer env o c [id] s).2 = s)
      ∧ (l.status = .TRANSFER_ACCEPTED →
          acceptLCTransfer env o c [id] s = (.success .nil, s))
      ∧ (l.status = .TRANSFER_ISSUED →
          acceptLCTransfer env o c [id] s
            = (.success .nil, s.putLC id { l with status := .TRANSFER_ACCEPTED })
          ∧ (acceptLCTransfer env o c [id] s).2.lc id
            = some { l with status := .TRANSFER_ACCEPTED })) := by
  obtain ⟨hp, hl, hamt⟩ := hg
  have hamt' : ¬ l.amount ≤ 0 := not_le.mpr hamt
  constructor
  · intro ha
    have hne := admitted_not_denied ha
    refine ⟨?_, ?_, ?_⟩
    · intro hst
      have hr : issueLCTransfer env o c [id] s
          = (.error "L/C transfer not requested yet", s) := by
        unfold issueLCTransfer
        rw [if_neg hne]
        simp only [h]
        simp [hp, hl, hamt', hst]
      rw [hr]
      exact ⟨rfl, rfl⟩
    · intro hst
      unfold issueLCTransfer
      rw [if_neg hne]
      simp only [h]
      rcases hst with hst | hst <;> simp [hp, hl, hamt', hst]
    · intro hst
      have hr : issueLCTransfer env o c [id] s
          = (.success .nil, s.putLC id { l with status := .TRANSFER_ISSUED }) := by
        unfold issueLCTransfer
        rw [if_neg hne]
        simp only [h]
        simp [hp, hl, hamt', hst]
      rw [hr]
      exact ⟨rfl, by simp [Ledger.putLC]⟩
  · intro ha
    have hne := admitted_not_denied ha
    refine ⟨?_, ?_, ?_⟩
    · intro hst
      have hr : acceptLCTransfer env o c [id] s
          = (.error "L/C transfer not requested yet", s) := by
        unfold acceptLCTransfer
        rw [if_neg hne]
        simp only [h]
        simp [hp, hl, hamt', hst]
      rw [hr]
      exact ⟨rfl, rfl⟩
    · intro hst
      unfold acceptLCTransfer
      rw [if_neg hne]
      simp only [h]
      simp [hp, hl, hamt', hst]
    · intro hst
      have hr : acceptLCTransfer env o c [id] s
          = (.success .nil, s.putLC id { l with status := .TRANSFER_ACCEPTED }) := by
        unfold acceptLCTransfer
        rw [if_neg hne]
        simp only [h]
        simp [hp, hl, hamt', hst]
      rw [hr]
      exact ⟨rfl, by simp [Ledger.putLC]⟩

/-- Witness for C19: on the ledger with the shipment of `T1` accepted by the
Carrier the letter of credit is `ACCEPTED`, so `issueLCTransfer` by the
Exporter returns an error and leaves the ledger as before. -/
theorem C19_issue_and_accept_LCTransfer_witness :
    (issueLCTransfer refEnv "ExporterOrgMSP" "ca.exporterorg.trade.com" ["T1"]
        preparedLedger).1.isError = true
    ∧ (issueLCTransfer refEnv "ExporterOrgMSP" "ca.exporterorg.trade.com" ["T1"]
        preparedLedger).2 = preparedLedger :=
  ((C19_issue_and_accept_LCTransfer refEnv "ExporterOrgMSP" "ca.exporterorg.trade.com" "T1"
      preparedLedger ⟨"lc1", "12/31/2030", "LumberInc", 1000, ["E/L", "B/L"], .ACCEPTED, ⟨0, 0⟩,
        false⟩ (by decide) ⟨by decide, by decide, by decide⟩).1 (Or.inr (by decide))).1
    (Or.inr (Or.inr rfl))

/-- C20: for each of `requestLCTransfer`, `issueLCTransfer` and
`acceptLCTransfer`, for every caller and every stored letter of credit
whatever its status: if a payment request is pending for the trade, or no
shipment location is recorded for it, or the amount of the letter of credit
is zero or negative, the call returns an error and the ledger, the letter of
credit included, is as before. -/
theorem C20_transfer_preconditions (env : Env) (o c id rate : String) (s : Ledger)
    (l : LetterOfCredit) (h : s.lc id = some l)
    (hg : s.payment id ≠ "" ∨ s.shipmentLocation id = "" ∨ l.amount ≤ 0) :
    ((requestLCTransfer env o c [id, rate] s).1.isError = true
      ∧ (requestLCTransfer env o c [id, rate] s).2 = s
      ∧ (requestLCTransfer env o c [id, rate] s).2.lc id = some l)
    ∧ ((issueLCTransfer env o c [id] s).1.isError = true
      ∧ (issueLCTransfer env o c [id] s).2 = s
      ∧ (issueLCTransfer env o c [id] s).2.lc id = some l)
    ∧ ((acceptLCTransfer env o c [id] s).1.isError = true
      ∧ (acceptLCTransfer env o c [id] s).2 = s
      ∧ (acceptLCTransfer env o c [id] s).2.lc id = some l) := by
  have h1 : (requestLCTransfer env o c [id, rate] s).1.isError = true := by
    unfold requestLCTransfer
    split
    · rfl
    · simp only [h]
      by_cases hp : s.payment id = ""
      · by_cases hl : s.shipmentLocation id = ""
        · simp [hp, hl, Response.isError]
        · have hamt : l.amount ≤ 0 := by
            rcases hg with hg | hg | hg
            · exact absurd hp hg
            · exact absurd hg hl
            · exact hg
          cases hd : env.parseFloat rate <;> simp [hp, hl, hamt, Response.isError]
      · simp [hp, Response.isError]
  have h2 : (issueLCTransfer env o c [id] s).1.isError = true := by
    unfold issueLCTransfer
    split
    · rfl
    · simp only [h]
      by_cases hp : s.payment id = ""
      · by_cases hl : s.shipmentLocation id = ""
        · simp [hp, hl, Response.isError]
        · have hamt : l.amount ≤ 0 := by
            rcases hg with hg | hg | hg
            · exact absurd hp hg
            · exact absurd hg hl
            · exact hg
          simp [hp, hl, hamt, Response.isError]
      · simp [hp, Response.isError]
  have h3 : (acceptLCTransfer env o c [id] s).1.isError = true := by
    unfold acceptLCTransfer
    split
    · rfl
    · simp only [h]
      by_cases hp : s.payment id = ""
      · by_cases hl : s.shipmentLocation id = ""
        · simp [hp, hl, Response.isError]
        · have hamt : l.amount ≤ 0 := by
            rcases hg with hg | hg | hg
            · exact absurd hp hg
            · exact absurd hg hl
            · exact hg
          simp [hp, hl, hamt, Response.isError]
      · simp [hp, Response.isError]
  have e1 := requestLCTransfer_error_ledger env o c [id, rate] s h1
  have e2 := issueLCTransfer_error_ledger env o c [id] s h2
  have e3 := acceptLCTransfer_error_ledger env o c [id] s h3
  exact ⟨⟨h1, e1, by rw [e1]; exact h⟩, ⟨h2, e2, by rw [e2]; exact h⟩,
    ⟨h3, e3, by rw [e3]; exact h⟩⟩

/-- Witness for C20: right after `acceptLC` no shipment location is recorded for
`T1`, so `requestLCTransfer` by the Exporter returns an error and the letter
of credit is as before. -/
theorem C20_transfer_preconditions_witness :
    (run refEnv (shipmentPrefixCalls.take 5) genesis).shipmentLocation "T1" = ""
    ∧ (requestLCTransfer refEnv "ExporterOrgMSP" "ca.exporterorg.trade.com" ["T1", "0.1"]
        (run refEnv (shipmentPrefixCalls.take 5) genesis)).1.isError = true
    ∧ (requestLCTransfer refEnv "ExporterOrgMSP" "ca.exporterorg.trade.com" ["T1", "0.1"]
        (run refEnv (shipmentPrefixCalls.take 5) genesis)).2.lc "T1"
      = some ⟨"lc1", "12/31/2030", "LumberInc", 1000, ["E/L", "B/L"], .ACCEPTED, ⟨0, 0⟩, false⟩ :=
  ⟨by decide,
   (C20_transfer_preconditions refEnv "ExporterOrgMSP" "ca.exporterorg.trade.com" "T1" "0.1"
      (run refEnv (shipmentPrefixCalls.take 5) genesis)
      ⟨"lc1", "12/31/2030", "LumberInc", 1000, ["E/L", "B/L"], .ACCEPTED, ⟨0, 0⟩, false⟩
      (by decide) (Or.inr (Or.inl (by decide)))).1.1,
   (C20_transfer_preconditions refEnv "ExporterOrgMSP" "ca.exporterorg.trade.com" "T1" "0.1"
      (run refEnv (shipmentPrefixCalls.take 5) genesis)
      ⟨"lc1", "12/31/2030", "LumberInc", 1000, ["E/L", "B/L"], .ACCEPTED, ⟨0, 0⟩, false⟩
      (by decide) (Or.inr (Or.inl (by decide)))).1.2.2⟩

/-! ## Payment requests -/

/-- The first access check of `requestPayment`: a member of the Exporter or of
the Lender organisation. -/
def authenticatePaymentRequestor (env : Env) (o c : String) : Bool :=
  env.authenticateExporterOrg o c || env.authenticateLenderOrg o c

/-- C21: when `requestPayment(id)` succeeds, a `requestPayment(id)` that follows
immediately, by the same or another caller that passes the access check,
succeeds as well and leaves the ledger as the first call left it; on that
ledger the payment request marker of the trade is set, and the markers of
the other trades are those from before the first call. -/
theorem C21_requestPayment_twice (env : Env) (o c o2 c2 id : String) (s : Ledger)
    (hs : (requestPayment env o c [id] s).1.isSuccess = true)
    (ha : admitted env (authenticatePaymentRequestor env) o2 c2) :
    requestPayment env o2 c2 [id] (requestPayment env o c [id] s).2
      = (.success .nil, (requestPayment env o c [id] s).2)
    ∧ (requestPayment env o c [id] s).2.payment id ≠ ""
    ∧ (∀ k, k ≠ id → (requestPayment env o c [id] s).2.payment k = s.payment k) := by
  have hne : ¬ ((!env.testMode && !(env.authenticateExporterOrg o2 c2
      || env.authenticateLenderOrg o2 c2)) = true) := admitted_not_denied ha
  rcases requestPayment_cases env o c [id] s with ⟨he, _⟩ | ⟨id0, t, l, hargs, _, ht, hl, hloc,
    ⟨hp, h1⟩ | ⟨_, h1⟩⟩
  · exact absurd hs (by
      cases hresp : (requestPayment env o c [id] s).1 <;>
        simp [hresp, Response.isSuccess, Response.isError] at he ⊢)
  · cases hargs
    rw [h1]
    refine ⟨?_, hp, fun _ _ => rfl⟩
    unfold requestPayment
    rw [if_neg hne]
    simp only [ht, hl]
    rw [if_neg hloc, if_pos hp]
  · cases hargs
    rw [h1]
    refine ⟨?_, by simp [Ledger.putPayment, requestedBytes],
      fun k hk => by simp [Ledger.putPayment, hk]⟩
    unfold requestPayment
    rw [if_neg hne]
    have ht1 : (s.putPayment id requestedBytes).trade id = some t := ht
    have hl1 : (s.putPayment id requestedBytes).lc id = some l := hl
    have hloc1 : ¬ (s.putPayment id requestedBytes).shipmentLocation id = "" := hloc
    have hp1 : (s.putPayment id requestedBytes).payment id ≠ "" := by
      simp [Ledger.putPayment, requestedBytes]
    simp only [ht1, hl1]
    rw [if_neg hloc1, if_pos hp1]

/-- Witness for C21: on the ledger with the shipment of `T1` accepted by the
Carrier, the Exporter requests the payment twice. -/
theorem C21_requestPayment_twice_witness :
    (requestPayment refEnv "ExporterOrgMSP" "ca.exporterorg.trade.com" ["T1"]
        preparedLedger).1.isSuccess = true
    ∧ requestPayment refEnv "ExporterOrgMSP" "ca.exporterorg.trade.com" ["T1"]
        (requestPayment refEnv "ExporterOrgMSP" "ca.exporterorg.trade.com" ["T1"]
          preparedLedger).2
      = (.success .nil,
          (requestPayment refEnv "ExporterOrgMSP" "ca.exporterorg.trade.com" ["T1"]
            preparedLedger).2) :=
  ⟨by decide,
   (C21_requestPayment_twice refEnv "ExporterOrgMSP" "ca.exporterorg.trade.com"
      "ExporterOrgMSP" "ca.exporterorg.trade.com" "T1" preparedLedger (by decide)
      (Or.inr (by decide))).1⟩

/-- The match of the caller with the beneficiary that `requestPayment` checks
last: a member of the Exporter organisation while the beneficiary is the stored
Exporter identity, or a member of the Lender organisation while the
beneficiary is the stored Lender identity. -/
def requestorMatchesBeneficiary (env : Env) (o c : String) (s : Ledger)
    (l : LetterOfCredit) : Prop :=
  (env.authenticateExporterOrg o c = true ∧ l.beneficiary = s.exp)
    ∨ (env.authenticateLenderOrg o c = true ∧ l.beneficiary = s.len)

/-- C22: with a trade agreement and a letter of credit stored, a shipment
location recorded and no payment request pending, outside test mode:
`requestPayment` returns an error and leaves the ledger as before (no marker
is set) if everything has been paid, or if the shipment is at `SOURCE` and
something has been paid, or if the status of the letter of credit is neither
`ACCEPTED` nor `TRANSFER_ACCEPTED`, or if the caller does not match the
beneficiary; in every other case it succeeds and the ledger is the one before
with the marker of the trade set. -/
theorem C22_requestPayment_guards (env : Env) (o c id : String) (s : Ledger)
    (t : TradeAgreement) (l : LetterOfCredit)
    (hmode : env.testMode = false)
    (ht : s.trade id = some t) (hl : s.lc id = some l)
    (hloc : s.shipmentLocation id ≠ "") (hp : s.payment id = "") :
    ((t.payment = t.amount
        ∨ (s.shipmentLocation id = SOURCE ∧ t.payment ≠ 0)
        ∨ ¬ (l.status = .ACCEPTED ∨ l.status = .TRANSFER_ACCEPTED)
        ∨ ¬ requestorMatchesBeneficiary env o c s l) →
      (requestPayment env o c [id] s).1.isError = true
      ∧ (requestPayment env o c [id] s).2 = s
      ∧ (requestPayment env o c [id] s).2.payment id = "")
    ∧ (¬ (t.payment = t.amount
        ∨ (s.shipmentLocation id = SOURCE ∧ t.payment ≠ 0)
        ∨ ¬ (l.status = .ACCEPTED ∨ l.status = .TRANSFER_ACCEPTED)
        ∨ ¬ requestorMatchesBeneficiary env o c s l) →
      requestPayment env o c [id] s = (.success .nil, s.putPayment id requestedBytes)
      ∧ (requestPayment env o c [id] s).2.payment id = requestedBytes) := by
  constructor
  · intro hfail
    have he : (requestPayment env o c [id] s).1.isError = true := by
      unfold requestPayment
      split
      · rfl
      · simp only [ht, hl]
        rw [if_neg hloc, if_neg (not_not.mpr hp)]
        by_cases h1 : t.amount = t.payment
        · rw [if_pos h1]
          rfl
        · rw [if_neg h1]
          by_cases h2 : s.shipmentLocation id = SOURCE ∧ t.payment ≠ 0
          · rw [if_pos h2]
            rfl
          · rw [if_neg h2]
            by_cases h3 : l.status = .ACCEPTED ∨ l.status = .TRANSFER_ACCEPTED
            · rw [if_neg (not_not.mpr h3)]
              have h4 : ¬ requestorMatchesBeneficiary env o c s l := by
                rcases hfail with h | h | h | h
                · exact absurd h.symm h1
                · exact absurd h h2
                · exact absurd h3 h
                · exact h
              rw [if_pos]
              · rfl
              · unfold requestorMatchesBeneficiary at h4
                cases hE : env.authenticateExporterOrg o c <;>
                  cases hL : env.authenticateLenderOrg o c <;>
                  simp_all
            · rw [if_pos h3]
              rfl
    have hs := requestPayment_error_ledger env o c [id] s he
    exact ⟨he, hs, by rw [hs]; exact hp⟩
  · intro hok
    have h1 : ¬ t.payment = t.amount := fun h => hok (Or.inl h)
    have h2 : ¬ (s.shipmentLocation id = SOURCE ∧ t.payment ≠ 0) :=
      fun h => hok (Or.inr (Or.inl h))
    have h3 : l.status = .ACCEPTED ∨ l.status = .TRANSFER_ACCEPTED :=
      by_contra fun h => hok (Or.inr (Or.inr (Or.inl h)))
    have h4 : requestorMatchesBeneficiary env o c s l :=
      by_contra fun h => hok (Or.inr (Or.inr (Or.inr h)))
    have hr : requestPayment env o c [id] s
        = (.success .nil, s.putPayment id requestedBytes) := by
      have hfirst : ¬ ((!env.testMode && !(env.authenticateExporterOrg o c
          || env.authenticateLenderOrg o c)) = true) := by
        rcases h4 with ⟨h, _⟩ | ⟨h, _⟩ <;> simp [h]
      unfold requestPayment
      rw [if_neg hfirst]
      simp only [ht, hl]
      rw [if_neg hloc, if_neg (not_not.mpr hp), if_neg (fun h => h1 h.symm), if_neg h2,
        if_neg (not_not.mpr h3), if_neg]
      unfold requestorMatchesBeneficiary at h4
      rcases h4 with ⟨h, hb⟩ | ⟨h, hb⟩ <;> simp [h, hb]
    rw [hr]
    exact ⟨rfl, by simp [Ledger.putPayment]⟩

/-- Witness for C22: on the ledger with the shipment of `T1` accepted by the
Carrier the beneficiary is the Exporter; a member of the Lender organisation
does not match it and gets an error. -/
theorem C22_requestPayment_guards_witness :
    (requestPayment refEnv "LenderOrgMSP" "ca.lenderorg.trade.com" ["T1"]
        preparedLedger).1.isError = true
    ∧ (requestPayment refEnv "LenderOrgMSP" "ca.lenderorg.trade.com" ["T1"]
        preparedLedger).2 = preparedLedger
    ∧ (requestPayment refEnv "LenderOrgMSP" "ca.lenderorg.trade.com" ["T1"]
        preparedLedger).2.payment "T1" = "" :=
  (C22_requestPayment_guards refEnv "LenderOrgMSP" "ca.lenderorg.trade.com" "T1" preparedLedger
      ⟨1000, "widgets", .ACCEPTED, 0⟩
      ⟨"lc1", "12/31/2030", "LumberInc", 1000, ["E/L", "B/L"], .ACCEPTED, ⟨0, 0⟩, false⟩
      rfl (by decide) (by decide) (by decide) (by decide)).1
    (Or.inr (Or.inr (Or.inr (by
      unfold requestorMatchesBeneficiary
      decide))))

/-- C23: with no payment request pending for a trade, `makePayment` for that
trade returns an error, for an admitted caller the error `No payment
request found`, and leaves the whole ledger, so every balance, trade
agreement and letter of credit, as before; with no advance payment request
pending, `makeAdvancePayment` returns an error, for an admitted caller the
error `No advance payment request found`, and leaves the ledger as before;
and a `makePayment` right after a successful one returns an error and leaves
the ledger as the first one left it. -/
theorem C23_settlement_needs_request (env : Env) (o c id date : String) (s : Ledger) :
    (s.payment id = "" →
      (makePayment env o c [id, date] s).1.isError = true
      ∧ (makePayment env o c [id, date] s).2 = s
      ∧ (admitted env env.authenticateImporterOrg o c →
          (makePayment env o c [id, date] s).1 = .error "No payment request found"))
    ∧ (s.advancePayment id = "" →
      (makeAdvancePayment env o c [id] s).1.isError = true
      ∧ (makeAdvancePayment env o c [id] s).2 = s
      ∧ (admitted env env.authenticateLenderOrg o c →
          (makeAdvancePayment env o c [id] s).1 = .error "No advance payment request found"))
    ∧ (∀ o2 c2 date2, (makePayment env o c [id, date] s).1.isSuccess = true →
      (makePayment env o2 c2 [id, date2] (makePayment env o c [id, date] s).2).1.isError = true
      ∧ (makePayment env o2 c2 [id, date2] (makePayment env o c [id, date] s).2).2
        = (makePayment env o c [id, date] s).2) := by
  have key : ∀ (o1 c1 d1 : String) (s1 : Ledger), s1.payment id = "" →
      (makePayment env o1 c1 [id, d1] s1).1.isError = true
      ∧ (¬ ((!env.testMode && !env.authenticateImporterOrg o1 c1) = true) →
          (makePayment env o1 c1 [id, d1] s1).1 = .error "No payment request found") := by
    intro o1 c1 d1 s1 hp
    unfold makePayment
    split
    · exact ⟨rfl, fun h => absurd ‹_› h⟩
    · simp only
      rw [if_pos hp]
      exact ⟨rfl, fun _ => rfl⟩
  refine ⟨?_, ?_, ?_⟩
  · intro hp
    have he := (key o c date s hp).1
    exact ⟨he, makePayment_error_ledger env o c _ s he,
      fun ha => (key o c date s hp).2 (admitted_not_denied ha)⟩
  · intro hp
    have hk : (makeAdvancePayment env o c [id] s).1.isError = true
        ∧ (¬ ((!env.testMode && !env.authenticateLenderOrg o c) = true) →
          (makeAdvancePayment env o c [id] s).1
            = .error "No advance payment request found") := by
      unfold makeAdvancePayment
      split
      · exact ⟨rfl, fun h => absurd ‹_› h⟩
      · simp only
        rw [if_pos hp]
        exact ⟨rfl, fun _ => rfl⟩
    exact ⟨hk.1, makeAdvancePayment_error_ledger env o c _ s hk.1,
      fun ha => hk.2 (admitted_not_denied ha)⟩
  · intro o2 c2 date2 hs
    have hp : (makePayment env o c [id, date] s).2.payment id = "" := by
      rcases makePayment_cases env o c [id, date] s with ⟨he, _⟩ | ⟨id0, d0, t, l, eb, ib, lb, p,
        hargs, _, _, _, _, _, _, _, _, _, ⟨_, h1⟩ | ⟨_, _, h1⟩⟩
      · exact absurd he (Response.not_isError_of_isSuccess hs)
      · cases hargs
        rw [h1]
        simp [settlePayment, Ledger.delPayment]
      · cases hargs
        rw [h1]
        simp [settlePayment, Ledger.delPayment]
    have he := (key o2 c2 date2 _ hp).1
    exact ⟨he, makePayment_error_ledger env o2 c2 _ _ he⟩

/-- Witness for C23: on the ledger where the first installment of `T1` is due
the Importer pays; a second `makePayment` right after it returns an error. -/
theorem C23_settlement_needs_request_witness :
    (makePayment refEnv "ImporterOrgMSP" "ca.importerorg.trade.com" ["T1", "01/15/2020"]
        installmentDueLedger).1.isSuccess = true
    ∧ (makePayment refEnv "ImporterOrgMSP" "ca.importerorg.trade.com" ["T1", "01/16/2020"]
        (makePayment refEnv "ImporterOrgMSP" "ca.importerorg.trade.com" ["T1", "01/15/2020"]
          installmentDueLedger).2).1.isError = true :=
  ⟨by decide,
   ((C23_settlement_needs_request refEnv "ImporterOrgMSP" "ca.importerorg.trade.com" "T1"
      "01/15/2020" installmentDueLedger).2.2 "ImporterOrgMSP" "ca.importerorg.trade.com"
      "01/16/2020" (by decide)).1⟩

/-- C24: for an admitted Exporter caller of `requestAdvancePayment` on a trade
with a stored letter of credit: with the advance payment request marker
already set the call succeeds and the ledger is as before; otherwise the call
succeeds exactly when the status is `TRANSFER_ACCEPTED`, the beneficiary is
the stored Lender identity and the advance payment is not settled, the ledger
then being the one before with the marker set; in every other case it returns
an error and the ledger is as before, the marker not set. -/
theorem C24_requestAdvancePayment (env : Env) (o c id : String) (s : Ledger)
    (l : LetterOfCredit) (ha : admitted env env.authenticateExporterOrg o c)
    (h : s.lc id = some l) :
    (s.advancePayment id ≠ "" → requestAdvancePayment env o c [id] s = (.success .nil, s))
    ∧ (s.advancePayment id = "" →
      ((requestAdvancePayment env o c [id] s).1.isSuccess = true
        ↔ (l.status = .TRANSFER_ACCEPTED ∧ l.beneficiary = s.len
            ∧ l.advancePaymentSettlement = false))
      ∧ (l.status = .TRANSFER_ACCEPTED ∧ l.beneficiary = s.len
            ∧ l.advancePaymentSettlement = false →
          requestAdvancePayment env o c [id] s
            = (.success .nil, s.putAdvancePayment id requestedBytes)
          ∧ (requestAdvancePayment env o c [id] s).2.advancePayment id = requestedBytes)
      ∧ (¬ (l.status = .TRANSFER_ACCEPTED ∧ l.beneficiary = s.len
            ∧ l.advancePaymentSettlement = false) →
          (requestAdvancePayment env o c [id] s).1.isError = true
          ∧ (requestAdvancePayment env o c [id] s).2 = s
          ∧ (requestAdvancePayment env o c [id] s).2.advancePayment id = "")) := by
  have hne := admitted_not_denied ha
  constructor
  · intro hm
    unfold requestAdvancePayment
    rw [if_neg hne]
    simp only [h]
    rw [if_pos hm]
  · intro hm
    have hok : l.status = .TRANSFER_ACCEPTED ∧ l.beneficiary = s.len
          ∧ l.advancePaymentSettlement = false →
        requestAdvancePayment env o c [id] s
          = (.success .nil, s.putAdvancePayment id requestedBytes) := by
      rintro ⟨h1, h2, h3⟩
      unfold requestAdvancePayment
      rw [if_neg hne]
      simp only [h]
      rw [if_neg (not_not.mpr hm), if_neg (not_not.mpr h1), if_neg (not_not.mpr h2),
        if_neg (by simp [h3])]
    have hbad : ¬ (l.status = .TRANSFER_ACCEPTED ∧ l.beneficiary = s.len
          ∧ l.advancePaymentSettlement = false) →
        (requestAdvancePayment env o c [id] s).1.isError = true := by
      intro hn
      unfold requestAdvancePayment
      rw [if_neg hne]
      simp only [h]
      rw [if_neg (not_not.mpr hm)]
      by_cases h1 : l.status = .TRANSFER_ACCEPTED
      · rw [if_neg (not_not.mpr h1)]
        by_cases h2 : l.beneficiary = s.len
        · rw [if_neg (not_not.mpr h2)]
          have h3 : l.advancePaymentSettlement = true := by
            cases h3 : l.advancePaymentSettlement
            · exact absurd ⟨h1, h2, h3⟩ hn
            · rfl
          rw [if_pos h3]
          rfl
        · rw [if_pos h2]
          rfl
      · rw [if_pos h1]
        rfl
    refine ⟨⟨fun hsucc => ?_, fun hc => ?_⟩, fun hc => ?_, fun hn => ?_⟩
    · by_contra hn
      exact Response.not_isError_of_isSuccess hsucc (hbad hn)
    · rw [hok hc]
      rfl
    · rw [hok hc]
      exact ⟨rfl, by simp [Ledger.putAdvancePayment]⟩
    · have he := hbad hn
      have hs := requestAdvancePayment_error_ledger env o c [id] s he
      exact ⟨he, hs, by rw [hs]; exact hm⟩

/-- Witness for C24: on the ledger with the letter of credit of `T1`
transferred to the Lender, the Exporter requests the advance payment and the
marker is set. -/
theorem C24_requestAdvancePayment_witness :
    transferredLedger.advancePayment "T1" = ""
    ∧ (requestAdvancePayment refEnv "ExporterOrgMSP" "ca.exporterorg.trade.com" ["T1"]
        transferredLedger).1.isSuccess = true
    ∧ (requestAdvancePayment refEnv "ExporterOrgMSP" "ca.exporterorg.trade.com" ["T1"]
        transferredLedger).2.advancePayment "T1" = requestedBytes :=
  ⟨by decide,
   ((C24_requestAdvancePayment refEnv "ExporterOrgMSP" "ca.exporterorg.trade.com" "T1"
      transferredLedger
      ⟨"lc1", "12/31/2030", "FinanceCo", 1000, ["E/L", "B/L"], .TRANSFER_ACCEPTED,
        ⟨13421773, 27⟩, false⟩ (Or.inr (by decide)) (by decide)).2 (by decide)).1.2
      ⟨rfl, by decide, rfl⟩,
   (((C24_requestAdvancePayment refEnv "ExporterOrgMSP" "ca.exporterorg.trade.com" "T1"
      transferredLedger
      ⟨"lc1", "12/31/2030", "FinanceCo", 1000, ["E/L", "B/L"], .TRANSFER_ACCEPTED,
        ⟨13421773, 27⟩, false⟩ (Or.inr (by decide)) (by decide)).2 (by decide)).2.1
      ⟨rfl, by decide, rfl⟩).2⟩

/-! ## Access control -/

/-- The access check of each dispatched function, as a predicate of the
organisation and the certificate issuer of the caller; `none` for a name that
`Invoke` does not dispatch and for `getAccountBalance` without an entity
`exporter`, `importer` or `lender`, where the call fails before any check. -/
def roleCheck (env : Env) (function : String) (args : List String) :
    Option (String → String → Bool) :=
  if function = "requestTrade" then some env.authenticateImporterOrg
  else if function = "acceptTrade" then some env.authenticateExporterOrg
  else if function = "requestLC" then some env.authenticateImporterOrg
  else if function = "issueLC" then some env.authenticateImporterOrg
  else if function = "acceptLC" then some env.authenticateExporterOrg
  else if function = "requestLCTransfer" then some env.authenticateExporterOrg
  else if function = "issueLCTransfer" then some env.authenticateExporterOrg
  else if function = "acceptLCTransfer" then some env.authenticateLenderOrg
  else if function = "requestEL" then some env.authenticateExporterOrg
  else if function = "issueEL" then some env.authenticateRegulatorOrg
  else if function = "prepareShipment" then some env.authenticateExporterOrg
  else if function = "acceptShipmentAndIssueBL" then some env.authenticateCarrierOrg
  else if function = "requestAdvancePayment" then some env.authenticateExporterOrg
  else if function = "makeAdvancePayment" then some env.authenticateLenderOrg
  else if function = "requestPayment" then
    some fun o c => env.authenticateExporterOrg o c || env.authenticateLenderOrg o c
  else if function = "makePayment" then some env.authenticateImporterOrg
  else if function = "updateShipmentLocation" then some env.authenticateCarrierOrg
  else if function = "getTradeStatus" then
    some fun o c => env.authenticateImporterOrg o c || env.authenticateExporterOrg o c
      || env.authenticateExportingEntityOrg o c
  else if function = "getLCStatus" then
    some fun o c => env.authenticateImporterOrg o c || env.authenticateExporterOrg o c
      || env.authenticateLenderOrg o c
  else if function = "getELStatus" then
    some fun o c => env.authenticateExporterOrg o c || env.authenticateRegulatorOrg o c
  else if function = "getShipmentLocation" then
    some fun o c => env.authenticateImporterOrg o c || env.authenticateExporterOrg o c
      || env.authenticateLenderOrg o c || env.authenticateCarrierOrg o c
  else if function = "getArrivalDate" then
    some fun o c => env.authenticateImporterOrg o c || env.authenticateExporterOrg o c
      || env.authenticateLenderOrg o c || env.authenticateCarrierOrg o c
  else if function = "getBillOfLading" then
    some fun o c => env.authenticateImporterOrg o c || env.authenticateExporterOrg o c
      || env.authenticateExportingEntityOrg o c || env.authenticateCarrierOrg o c
  else if function = "getAccountBalance" then
    match args with
    | [_, entityArg] =>
      if env.toLower entityArg = "exporter" then
        some fun o c => env.authenticateExporterOrg o c
          || env.authenticateExportingEntityOrg o c
      else if env.toLower entityArg = "importer" then some env.authenticateImporterOrg
      else if env.toLower entityArg = "lender" then some env.authenticateLenderOrg
      else none
    | _ => none
  else none

/-- Outside test mode with the creator extracted, `Invoke` is the dispatch for
that creator. -/
theorem Invoke_of_creator (env : Env) (tx : Tx) (o c fn : String) (args : List String)
    (s : Ledger) (hmode : env.testMode = false) (hcreator : tx.creator = some (o, c)) :
    Invoke env tx fn args s = dispatch env tx o c fn args s := by
  unfold Invoke
  simp [hmode, hcreator]

/-- C25: with test mode off, for every dispatched function, transition or
query, and every caller whose organisation and certificate issuer do not
satisfy the access check of that function, `Invoke` returns an error and
leaves the ledger as before, whatever the arguments and the ledger. -/
theorem C25_access_control (env : Env) (tx : Tx) (o c fn : String) (args : List String)
    (s : Ledger) (p : String → String → Bool)
    (hmode : env.testMode = false) (hcreator : tx.creator = some (o, c))
    (hcheck : roleCheck env fn args = some p) (hrole : p o c = false) :
    (Invoke env tx fn args s).1.isError = true ∧ (Invoke env tx fn args s).2 = s := by
  rw [Invoke_of_creator env tx o c fn args s hmode hcreator]
  refine dispatch_cases (P := fun r => r.1.isError = true ∧ r.2 = s) env tx o c fn args s
    ?_ ?_ ?_ ?_ ?_ ?_ ?_ ?_ ?_ ?_ ?_ ?_ ?_ ?_ ?_ ?_ ?_ ?_ ?_ ?_ ?_ ?_ ?_ ?_ ?_
  · intro hfn
    subst hfn
    simp only [roleCheck, String.reduceEq, if_true, if_false, Option.some.injEq] at hcheck
    subst hcheck
    have he : (requestTrade env tx.tradelimit o c args s).1.isError = true := by
      unfold requestTrade
      split
      · rfl
      · rw [if_pos (by simp [hmode, hrole])]
        rfl
    exact ⟨he, requestTrade_error_ledger env _ o c args s he⟩
  · intro hfn
    subst hfn
    simp only [roleCheck, String.reduceEq, if_true, if_false, Option.some.injEq] at hcheck
    subst hcheck
    have he : (acceptTrade env o c args s).1.isError = true := by
      unfold acceptTrade
      rw [if_pos (by simp_all)]
      rfl
    exact ⟨he, acceptTrade_error_ledger env o c args s he⟩
  · intro hfn
    subst hfn
    simp only [roleCheck, String.reduceEq, if_true, if_false, Option.some.injEq] at hcheck
    subst hcheck
    have he : (requestLC env o c args s).1.isError = true := by
      unfold requestLC
      rw [if_pos (by simp_all)]
      rfl
    exact ⟨he, requestLC_error_ledger env o c args s he⟩
  · intro hfn
    subst hfn
    simp only [roleCheck, String.reduceEq, if_true, if_false, Option.some.injEq] at hcheck
    subst hcheck
    have he : (issueLC env o c args s).1.isError = true := by
      unfold issueLC
      rw [if_pos (by simp_all)]
      rfl
    exact ⟨he, issueLC_error_ledger env o c args s he⟩
  · intro hfn
    subst hfn
    simp only [roleCheck, String.reduceEq, if_true, if_false, Option.some.injEq] at hcheck
    subst hcheck
    have he : (acceptLC env o c args s).1.isError = true := by
      unfold acceptLC
      rw [if_pos (by simp_all)]
      rfl
    exact ⟨he, acceptLC_error_ledger env o c args s he⟩
  · intro hfn
    subst hfn
    simp only [roleCheck, String.reduceEq, if_true, if_false, Option.some.injEq] at hcheck
    subst hcheck
    have he : (requestLCTransfer env o c args s).1.isError = true := by
      unfold requestLCTransfer
      rw [if_pos (by simp_all)]
      rfl
    exact ⟨he, requestLCTransfer_error_ledger env o c args s he⟩
  · intro hfn
    subst hfn
    simp only [roleCheck, String.reduceEq, if_true, if_false, Option.some.injEq] at hcheck
    subst hcheck
    have he : (issueLCTransfer env o c args s).1.isError = true := by
      unfold issueLCTransfer
      rw [if_pos (by simp_all)]
      rfl
    exact ⟨he, issueLCTransfer_error_ledger env o c args s he⟩
  · intro hfn
    subst hfn
    simp only [roleCheck, String.reduceEq, if_true, if_false, Option.some.injEq] at hcheck
    subst hcheck
    have he : (acceptLCTransfer env o c args s).1.isError = true := by
      unfold acceptLCTransfer
      rw [if_pos (by simp_all)]
      rfl
    exact ⟨he, acceptLCTransfer_error_ledger env o c args s he⟩
  · intro hfn
    subst hfn
    simp only [roleCheck, String.reduceEq, if_true, if_false, Option.some.injEq] at hcheck
    subst hcheck
    have he : (requestEL env o c args s).1.isError = true := by
      unfold requestEL
      rw [if_pos (by simp_all)]
      rfl
    exact ⟨he, requestEL_error_ledger env o c args s he⟩
  · intro hfn
    subst hfn
    simp only [roleCheck, String.reduceEq, if_true, if_false, Option.some.injEq] at hcheck
    subst hcheck
    have he : (issueEL env o c args s).1.isError = true := by
      unfold issueEL
      rw [if_pos (by simp_all)]
      rfl
    exact ⟨he, issueEL_error_ledger env o c args s he⟩
  · intro hfn
    subst hfn
    simp only [roleCheck, String.reduceEq, if_true, if_false, Option.some.injEq] at hcheck
    subst hcheck
    have he : (prepareShipment env o c args s).1.isError = true := by
      unfold prepareShipment
      rw [if_pos (by simp_all)]
      rfl
    exact ⟨he, prepareShipment_error_ledger env o c args s he⟩
  · intro hfn
    subst hfn
    simp only [roleCheck, String.reduceEq, if_true, if_false, Option.some.injEq] at hcheck
    subst hcheck
    have he : (acceptShipmentAndIssueBL env o c args s).1.isError = true := by
      unfold acceptShipmentAndIssueBL
      rw [if_pos (by simp_all)]
      rfl
    exact ⟨he, acceptShipmentAndIssueBL_error_ledger env o c args s he⟩
  · intro hfn
    subst hfn
    simp only [roleCheck, String.reduceEq, if_true, if_false, Option.some.injEq] at hcheck
    subst hcheck
    have he : (requestAdvancePayment env o c args s).1.isError = true := by
      unfold requestAdvancePayment
      rw [if_pos (by simp_all)]
      rfl
    exact ⟨he, requestAdvancePayment_error_ledger env o c args s he⟩
  · intro hfn
    subst hfn
    simp only [roleCheck, String.reduceEq, if_true, if_false, Option.some.injEq] at hcheck
    subst hcheck
    have he : (makeAdvancePayment env o c args s).1.isError = true := by
      unfold makeAdvancePayment
      rw [if_pos (by simp_all)]
      rfl
    exact ⟨he, makeAdvancePayment_error_ledger env o c args s he⟩
  · intro hfn
    subst hfn
    simp only [roleCheck, String.reduceEq, if_true, if_false, Option.some.injEq] at hcheck
    subst hcheck
    have he : (requestPayment env o c args s).1.isError = true := by
      unfold requestPayment
      rw [if_pos (by simp_all)]
      rfl
    exact ⟨he, requestPayment_error_ledger env o c args s he⟩
  · intro hfn
    subst hfn
    simp only [roleCheck, String.reduceEq, if_true, if_false, Option.some.injEq] at hcheck
    subst hcheck
    have he : (makePayment env o c args s).1.isError = true := by
      unfold makePayment
      rw [if_pos (by simp_all)]
      rfl
    exact ⟨he, makePayment_error_ledger env o c args s he⟩
  · intro hfn
    subst hfn
    simp only [roleCheck, String.reduceEq, if_true, if_false, Option.some.injEq] at hcheck
    subst hcheck
    have he : (updateShipmentLocation env o c args s).1.isError = true := by
      unfold updateShipmentLocation
      rw [if_pos (by simp_all)]
      rfl
    exact ⟨he, updateShipmentLocation_error_ledger env o c args s he⟩
  · intro hfn
    subst hfn
    simp only [roleCheck, String.reduceEq, if_true, if_false, Option.some.injEq] at hcheck
    subst hcheck
    have he : (getTradeStatus env o c args s).1.isError = true := by
      unfold getTradeStatus
      rw [if_pos (by simp_all)]
      rfl
    exact ⟨he, getTradeStatus_ledger env o c args s⟩
  · intro hfn
    subst hfn
    simp only [roleCheck, String.reduceEq, if_true, if_false, Option.some.injEq] at hcheck
    subst hcheck
    have he : (getLCStatus env o c args s).1.isError = true := by
      unfold getLCStatus
      rw [if_pos (by simp_all)]
      rfl
    exact ⟨he, getLCStatus_ledger env o c args s⟩
  · intro hfn
    subst hfn
    simp only [roleCheck, String.reduceEq, if_true, if_false, Option.some.injEq] at hcheck
    subst hcheck
    have he : (getELStatus env o c args s).1.isError = true := by
      unfold getELStatus
      rw [if_pos (by simp_all)]
      rfl
    exact ⟨he, getELStatus_ledger env o c args s⟩
  · intro hfn
    subst hfn
    simp only [roleCheck, String.reduceEq, if_true, if_false, Option.some.injEq] at hcheck
    subst hcheck
    have he : (getShipmentLocation env o c args s).1.isError = true := by
      unfold getShipmentLocation
      rw [if_pos (by simp_all)]
      rfl
    exact ⟨he, getShipmentLocation_ledger env o c args s⟩
  · intro hfn
    subst hfn
    simp only [roleCheck, String.reduceEq, if_true, if_false, Option.some.injEq] at hcheck
    subst hcheck
    have he : (getArrivalDate env o c args s).1.isError = true := by
      unfold getArrivalDate
      rw [if_pos (by simp_all)]
      rfl
    exact ⟨he, getArrivalDate_ledger env o c args s⟩
  · intro hfn
    subst hfn
    simp only [roleCheck, String.reduceEq, if_true, if_false, Option.some.injEq] at hcheck
    subst hcheck
    have he : (getBillOfLading env o c args s).1.isError = true := by
      unfold getBillOfLading
      rw [if_pos (by simp_all)]
      rfl
    exact ⟨he, getBillOfLading_ledger env o c args s⟩
  · intro hfn
    subst hfn
    simp only [roleCheck, String.reduceEq, if_true, if_false] at hcheck
    refine ⟨?_, getAccountBalance_ledger env o c args s⟩
    unfold getAccountBalance
    split
    · rename_i entityArg
      dsimp only at hcheck ⊢
      by_cases h1 : env.toLower entityArg = "exporter"
      · rw [if_pos h1] at hcheck ⊢
        cases hcheck
        rw [if_pos (by simp_all)]
        rfl
      · rw [if_neg h1] at hcheck ⊢
        by_cases h2 : env.toLower entityArg = "importer"
        · rw [if_pos h2] at hcheck ⊢
          cases hcheck
          rw [if_pos (by simp_all)]
          rfl
        · rw [if_neg h2] at hcheck ⊢
          by_cases h3 : env.toLower entityArg = "lender"
          · rw [if_pos h3] at hcheck ⊢
            cases hcheck
            rw [if_pos (by simp_all)]
            rfl
          · rw [if_neg h3] at hcheck
            cases hcheck
    · rfl
  · exact ⟨rfl, rfl⟩

/-- Witness for C25: a member of the Exporter organisation calls `requestTrade`,
which checks for the Importer organisation. -/
theorem C25_access_control_witness :
    (Invoke refEnv exporterTx "requestTrade" ["T1", "1000", "widgets"] genesis).1.isError = true
    ∧ (Invoke refEnv exporterTx "requestTrade" ["T1", "1000", "widgets"] genesis).2 = genesis :=
  C25_access_control refEnv exporterTx "ExporterOrgMSP" "ca.exporterorg.trade.com"
    "requestTrade" ["T1", "1000", "widgets"] genesis refEnv.authenticateImporterOrg rfl rfl
    (by simp [roleCheck]) (by decide)

/-! ## The export license -/

/-- C28: for an admitted Exporter caller of `requestEL` with the one argument
`id` on a trade with a stored letter of credit: with a status other than
`ACCEPTED`, the transfer statuses included, the call returns an error and the
ledger is as before, so no export license is written; with status `ACCEPTED`
and no trade agreement it returns an error and the ledger is as before; with
status `ACCEPTED` and a trade agreement it succeeds and stores for `id` the
export license with empty id and expiration date, the stored Exporter
identity, the stored Carrier identity, the description of goods of the trade,
the stored Regulatory Authority identity as approver and status
`REQUESTED`. -/
theorem C28_requestEL (env : Env) (o c id : String) (s : Ledger) (l : LetterOfCredit)
    (ha : admitted env env.authenticateExporterOrg o c) (h : s.lc id = some l) :
    (l.status ≠ .ACCEPTED →
      (requestEL env o c [id] s).1.isError = true ∧ (requestEL env o c [id] s).2 = s)
    ∧ (l.status = .ACCEPTED → s.trade id = none →
      (requestEL env o c [id] s).1.isError = true ∧ (requestEL env o c [id] s).2 = s)
    ∧ (∀ t, l.status = .ACCEPTED → s.trade id = some t →
      requestEL env o c [id] s
        = (.success .nil,
            s.putEL id ⟨"", "", s.exp, s.car, t.descriptionOfGoods, s.ra, .REQUESTED⟩)
      ∧ (requestEL env o c [id] s).2.el id
        = some ⟨"", "", s.exp, s.car, t.descriptionOfGoods, s.ra, .REQUESTED⟩) := by
  have hne := admitted_not_denied ha
  refine ⟨?_, ?_, ?_⟩
  · intro hst
    have hr : requestEL env o c [id] s = (.error "L/C not accepted yet", s) := by
      unfold requestEL
      rw [if_neg hne]
      simp only [h]
      rw [if_pos hst]
    rw [hr]
    exact ⟨rfl, rfl⟩
  · intro hst ht
    have hr : requestEL env o c [id] s = (.error "No record found for trade ID", s) := by
      unfold requestEL
      rw [if_neg hne]
      simp only [h]
      rw [if_neg (not_not.mpr hst)]
      simp only [ht]
    rw [hr]
    exact ⟨rfl, rfl⟩
  · intro t hst ht
    have hr : requestEL env o c [id] s
        = (.success .nil,
            s.putEL id ⟨"", "", s.exp, s.car, t.descriptionOfGoods, s.ra, .REQUESTED⟩) := by
      unfold requestEL
      rw [if_neg hne]
      simp only [h]
      rw [if_neg (not_not.mpr hst)]
      simp only [ht]
    rw [hr]
    exact ⟨rfl, by simp [Ledger.putEL]⟩

/-- Witness for C28: after `acceptLC` for trade `T1` the Exporter requests the
export license; it names `LumberInc`, `UniversalFrieght`, the goods `widgets`
and `ForestryDepartment`. -/
theorem C28_requestEL_witness :
    (requestEL refEnv "ExporterOrgMSP" "ca.exporterorg.trade.com" ["T1"]
        (run refEnv (shipmentPrefixCalls.take 5) genesis)).2.el "T1"
      = some ⟨"", "", "LumberInc", "UniversalFrieght", "widgets", "ForestryDepartment",
          .REQUESTED⟩ :=
  ((C28_requestEL refEnv "ExporterOrgMSP" "ca.exporterorg.trade.com" "T1"
      (run refEnv (shipmentPrefixCalls.take 5) genesis)
      ⟨"lc1", "12/31/2030", "LumberInc", 1000, ["E/L", "B/L"], .ACCEPTED, ⟨0, 0⟩, false⟩
      (Or.inr (by decide)) (by decide)).2.2 ⟨1000, "widgets", .ACCEPTED, 0⟩ rfl (by decide)).2

/-- C30: for an admitted Regulatory Authority caller of `issueEL` with
arguments trade id, license id and expiry on a stored export license: in
status `ISSUED` the call succeeds and the ledger is as before, whatever the
license id and the expiry given; otherwise it succeeds and the export license
gets the license id, the expiry and status `ISSUED`, with exporter, carrier,
description of goods and approver as before. -/
theorem C30_issueEL (env : Env) (o c id elId expiry : String) (s : Ledger) (e : ExportLicense)
    (ha : admitted env env.authenticateRegulatorOrg o c) (h : s.el id = some e) :
    (e.status = .ISSUED → issueEL env o c [id, elId, expiry] s = (.success .nil, s))
    ∧ (e.status ≠ .ISSUED →
      issueEL env o c [id, elId, expiry] s
        = (.success .nil,
            s.putEL id ⟨elId, expiry, e.exporter, e.carrier, e.descriptionOfGoods, e.approver,
              .ISSUED⟩)
      ∧ (issueEL env o c [id, elId, expiry] s).2.el id
        = some ⟨elId, expiry, e.exporter, e.carrier, e.descriptionOfGoods, e.approver,
            .ISSUED⟩) := by
  have hne := admitted_not_denied ha
  constructor
  · intro hst
    unfold issueEL
    rw [if_neg hne]
    simp only [h]
    rw [if_pos hst]
  · intro hst
    have hr : issueEL env o c [id, elId, expiry] s
        = (.success .nil,
            s.putEL id ⟨elId, expiry, e.exporter, e.carrier, e.descriptionOfGoods, e.approver,
              .ISSUED⟩) := by
      unfold issueEL
      rw [if_neg hne]
      simp only [h]
      rw [if_neg hst]
    rw [hr]
    exact ⟨rfl, by simp [Ledger.putEL]⟩

/-- Witness for C30: after `requestEL` for trade `T1` the Regulatory Authority
issues the export license as `el1`. -/
theorem C30_issueEL_witness :
    (issueEL refEnv "RegulatorOrgMSP" "ca.regulatororg.trade.com" ["T1", "el1", "12/31/2030"]
        (run refEnv (shipmentPrefixCalls.take 6) genesis)).2.el "T1"
      = some ⟨"el1", "12/31/2030", "LumberInc", "UniversalFrieght", "widgets",
          "ForestryDepartment", .ISSUED⟩ :=
  ((C30_issueEL refEnv "RegulatorOrgMSP" "ca.regulatororg.trade.com" "T1" "el1" "12/31/2030"
      (run refEnv (shipmentPrefixCalls.take 6) genesis)
      ⟨"", "", "LumberInc", "UniversalFrieght", "widgets", "ForestryDepartment", .REQUESTED⟩
      (Or.inr (by decide)) (by decide)).2 (by decide)).2

/-- The export licenses are not touched by `requestTrade`. -/
theorem requestTrade_el (env : Env) (lim : Option String) (o c : String) (args : List String)
    (s : Ledger) : (requestTrade env lim o c args s).2.el = s.el := by
  unfold requestTrade
  repeat' split
  all_goals rfl

/-- The export licenses are not touched by `acceptTrade`. -/
theorem acceptTrade_el (env : Env) (o c : String) (args : List String) (s : Ledger) :
    (acceptTrade env o c args s).2.el = s.el := by
  unfold acceptTrade
  repeat' split
  all_goals rfl

/-- The export licenses are not touched by `requestLC`. -/
theorem requestLC_el (env : Env) (o c : String) (args : List String) (s : Ledger) :
    (requestLC env o c args s).2.el = s.el := by
  unfold requestLC
  repeat' split
  all_goals rfl

/-- The export licenses are not touched by `issueLC`. -/
theorem issueLC_el (env : Env) (o c : String) (args : List String) (s : Ledger) :
    (issueLC env o c args s).2.el = s.el := by
  unfold issueLC
  repeat' split
  all_goals rfl

/-- The export licenses are not touched by `acceptLC`. -/
theorem acceptLC_el (env : Env) (o c : String) (args : List String) (s : Ledger) :
    (acceptLC env o c args s).2.el = s.el := by
  unfold acceptLC
  repeat' split
  all_goals rfl

/-- The export licenses are not touched by `requestLCTransfer`. -/
theorem requestLCTransfer_el (env : Env) (o c : String) (args : List String) (s : Ledger) :
    (requestLCTransfer env o c args s).2.el = s.el := by
  unfold requestLCTransfer
  repeat' split
  all_goals rfl

/-- The export licenses are not touched by `issueLCTransfer`. -/
theorem issueLCTransfer_el (env : Env) (o c : String) (args : List String) (s : Ledger) :
    (issueLCTransfer env o c args s).2.el = s.el := by
  unfold issueLCTransfer
  repeat' split
  all_goals rfl

/-- The export licenses are not touched by `acceptLCTransfer`. -/
theorem acceptLCTransfer_el (env : Env) (o c : String) (args : List String) (s : Ledger) :
    (acceptLCTransfer env o c args s).2.el = s.el := by
  unfold acceptLCTransfer
  repeat' split
  all_goals rfl

/-- The export licenses are not touched by `prepareShipment`. -/
theorem prepareShipment_el (env : Env) (o c : String) (args : List String) (s : Ledger) :
    (prepareShipment env o c args s).2.el = s.el := by
  unfold prepareShipment
  repeat' split
  all_goals rfl

/-- The export licenses are not touched by `acceptShipmentAndIssueBL`. -/
theorem acceptShipmentAndIssueBL_el (env : Env) (o c : String) (args : List String) (s : Ledger) :
    (acceptShipmentAndIssueBL env o c args s).2.el = s.el := by
  unfold acceptShipmentAndIssueBL
  repeat' split
  all_goals rfl

/-- The export licenses are not touched by `requestAdvancePayment`. -/
theorem requestAdvancePayment_el (env : Env) (o c : String) (args : List String) (s : Ledger) :
    (requestAdvancePayment env o c args s).2.el = s.el := by
  unfold requestAdvancePayment
  repeat' split
  all_goals rfl

/-- The export licenses are not touched by `makeAdvancePayment`. -/
theorem makeAdvancePayment_el (env : Env) (o c : String) (args : List String) (s : Ledger) :
    (makeAdvancePayment env o c args s).2.el = s.el := by
  unfold makeAdvancePayment
  repeat' split
  all_goals rfl

/-- The export licenses are not touched by `requestPayment`. -/
theorem requestPayment_el (env : Env) (o c : String) (args : List String) (s : Ledger) :
    (requestPayment env o c args s).2.el = s.el := by
  unfold requestPayment
  repeat' split
  all_goals rfl

/-- The export licenses are not touched by `makePayment`. -/
theorem makePayment_el (env : Env) (o c : String) (args : List String) (s : Ledger) :
    (makePayment env o c args s).2.el = s.el := by
  unfold makePayment
  repeat' split
  all_goals rfl

/-- The export licenses are not touched by `updateShipmentLocation`. -/
theorem updateShipmentLocation_el (env : Env) (o c : String) (args : List String) (s : Ledger) :
    (updateShipmentLocation env o c args s).2.el = s.el := by
  unfold updateShipmentLocation
  repeat' split
  all_goals rfl

/-- An export license in status `ISSUED` is left as it is by `issueEL`. -/
theorem issueEL_el_issued (env : Env) (o c : String) (args : List String) (s : Ledger)
    (id : String) (e : ExportLicense) (h : s.el id = some e) (hst : e.status = .ISSUED) :
    (issueEL env o c args s).2.el id = some e := by
  unfold issueEL
  repeat' split
  all_goals first
    | exact h
    | (rename_i id0 _ _ _ e0 he0 hne0
       by_cases hid : id = id0
       · subst hid
         rw [h] at he0
         cases he0
         exact absurd hst hne0
       · simpa [Ledger.putEL, Function.update_noteq hid] using h)

/-- Across any dispatched function other than `requestEL` an export license in
status `ISSUED` stays as it is. -/
theorem el_issued_stays_except_requestEL (env : Env) (tx : Tx) (fn : String)
    (args : List String) (s : Ledger) (id : String) (e : ExportLicense)
    (h : s.el id = some e) (hst : e.status = .ISSUED) (hfn : fn ≠ "requestEL") :
    (Invoke env tx fn args s).2.el id = some e :=
  Invoke_cases (P := fun r => r.2.el id = some e) env tx fn args s
    (fun _ o c => (congrFun (requestTrade_el env _ o c args s) id).trans h)
    (fun _ o c => (congrFun (acceptTrade_el env o c args s) id).trans h)
    (fun _ o c => (congrFun (requestLC_el env o c args s) id).trans h)
    (fun _ o c => (congrFun (issueLC_el env o c args s) id).trans h)
    (fun _ o c => (congrFun (acceptLC_el env o c args s) id).trans h)
    (fun _ o c => (congrFun (requestLCTransfer_el env o c args s) id).trans h)
    (fun _ o c => (congrFun (issueLCTransfer_el env o c args s) id).trans h)
    (fun _ o c => (congrFun (acceptLCTransfer_el env o c args s) id).trans h)
    (fun hc => absurd hc hfn)
    (fun _ o c => issueEL_el_issued env o c args s id e h hst)
    (fun _ o c => (congrFun (prepareShipment_el env o c args s) id).trans h)
    (fun _ o c => (congrFun (acceptShipmentAndIssueBL_el env o c args s) id).trans h)
    (fun _ o c => (congrFun (requestAdvancePayment_el env o c args s) id).trans h)
    (fun _ o c => (congrFun (makeAdvancePayment_el env o c args s) id).trans h)
    (fun _ o c => (congrFun (requestPayment_el env o c args s) id).trans h)
    (fun _ o c => (congrFun (makePayment_el env o c args s) id).trans h)
    (fun _ o c => (congrFun (updateShipmentLocation_el env o c args s) id).trans h)
    (fun _ o c => (congrArg (fun r => r.el id) (getTradeStatus_ledger env o c args s)).trans h)
    (fun _ o c => (congrArg (fun r => r.el id) (getLCStatus_ledger env o c args s)).trans h)
    (fun _ o c => (congrArg (fun r => r.el id) (getELStatus_ledger env o c args s)).trans h)
    (fun _ o c => (congrArg (fun r => r.el id) (getShipmentLocation_ledger env o c args s)).trans h)
    (fun _ o c => (congrArg (fun r => r.el id) (getArrivalDate_ledger env o c args s)).trans h)
    (fun _ o c => (congrArg (fun r => r.el id) (getBillOfLading_ledger env o c args s)).trans h)
    (fun _ o c => (congrArg (fun r => r.el id) (getAccountBalance_ledger env o c args s)).trans h)
    (fun _ => h)

/-- C29 (the code at the failing input): on the ledger with the shipment of `T1`
accepted by the Carrier the export license of `T1` is in status `ISSUED`
and the letter of credit is `ACCEPTED`; the Exporter calls `requestEL` for
`T1` again, the call succeeds and the stored export license is a fresh one in
status `REQUESTED`, its id and expiration date empty. -/
theorem C29_requestEL_regresses_status :
    preparedLedger.el "T1"
        = some ⟨"el1", "12/31/2030", "LumberInc", "UniversalFrieght", "widgets",
            "ForestryDepartment", .ISSUED⟩
    ∧ (Invoke refEnv exporterTx "requestEL" ["T1"] preparedLedger).1 = .success .nil
    ∧ (Invoke refEnv exporterTx "requestEL" ["T1"] preparedLedger).2.el "T1"
        = some ⟨"", "", "LumberInc", "UniversalFrieght", "widgets", "ForestryDepartment",
            .REQUESTED⟩ := by
  decide

/-! ## Beneficiary and discount rate of the letter of credit -/

/-- A step that leaves the letters of credit alone, or rewrites the letter of
credit of one trade and keeps its beneficiary and its discount rate. -/
def LCRewrite (s s' : Ledger) : Prop :=
  s'.lc = s.lc
    ∨ ∃ id l l1, s.lc id = some l ∧ l1.beneficiary = l.beneficiary
        ∧ l1.discountRate = l.discountRate ∧ s'.lc = Function.update s.lc id (some l1)

/-- The step of `requestTrade` on the letters of credit. -/
theorem requestTrade_lcRewrite (env : Env) (lim : Option String) (o c : String)
    (args : List String) (s : Ledger) : LCRewrite s (requestTrade env lim o c args s).2 := by
  unfold requestTrade
  repeat' split
  all_goals exact Or.inl rfl

/-- The step of `acceptTrade` on the letters of credit. -/
theorem acceptTrade_lcRewrite (env : Env) (o c : String) (args : List String) (s : Ledger) :
    LCRewrite s (acceptTrade env o c args s).2 := by
  unfold acceptTrade
  repeat' split
  all_goals exact Or.inl rfl

/-- The step of `issueLC` on the letters of credit. -/
theorem issueLC_lcRewrite (env : Env) (o c : String) (args : List String) (s : Ledger) :
    LCRewrite s (issueLC env o c args s).2 := by
  unfold issueLC
  repeat' split
  all_goals first
    | exact Or.inl rfl
    | (refine Or.inr ⟨_, ‹LetterOfCredit›, _, ‹_›, ?_, ?_, rfl⟩ <;> rfl)

/-- The step of `acceptLC` on the letters of credit. -/
theorem acceptLC_lcRewrite (env : Env) (o c : String) (args : List String) (s : Ledger) :
    LCRewrite s (acceptLC env o c args s).2 := by
  unfold acceptLC
  repeat' split
  all_goals first
    | exact Or.inl rfl
    | (refine Or.inr ⟨_, ‹LetterOfCredit›, _, ‹_›, ?_, ?_, rfl⟩ <;> rfl)

/-- The step of `issueLCTransfer` on the letters of credit. -/
theorem issueLCTransfer_lcRewrite (env : Env) (o c : String) (args : List String) (s : Ledger) :
    LCRewrite s (issueLCTransfer env o c args s).2 := by
  unfold issueLCTransfer
  repeat' split
  all_goals first
    | exact Or.inl rfl
    | (refine Or.inr ⟨_, ‹LetterOfCredit›, _, ‹_›, ?_, ?_, rfl⟩ <;> rfl)

/-- The step of `acceptLCTransfer` on the letters of credit. -/
theorem acceptLCTransfer_lcRewrite (env : Env) (o c : String) (args : List String) (s : Ledger) :
    LCRewrite s (acceptLCTransfer env o c args s).2 := by
  unfold acceptLCTransfer
  repeat' split
  all_goals first
    | exact Or.inl rfl
    | (refine Or.inr ⟨_, ‹LetterOfCredit›, _, ‹_›, ?_, ?_, rfl⟩ <;> rfl)

/-- The step of `requestEL` on the letters of credit. -/
theorem requestEL_lcRewrite (env : Env) (o c : String) (args : List String) (s : Ledger) :
    LCRewrite s (requestEL env o c args s).2 := by
  unfold requestEL
  repeat' split
  all_goals exact Or.inl rfl

/-- The step of `issueEL` on the letters of credit. -/
theorem issueEL_lcRewrite (env : Env) (o c : String) (args : List String) (s : Ledger) :
    LCRewrite s (issueEL env o c args s).2 := by
  unfold issueEL
  repeat' split
  all_goals exact Or.inl rfl

/-- The step of `prepareShipment` on the letters of credit. -/
theorem prepareShipment_lcRewrite (env : Env) (o c : String) (args : List String) (s : Ledger) :
    LCRewrite s (prepareShipment env o c args s).2 := by
  unfold prepareShipment
  repeat' split
  all_goals exact Or.inl rfl

/-- The step of `acceptShipmentAndIssueBL` on the letters of credit. -/
theorem acceptShipmentAndIssueBL_lcRewrite (env : Env) (o c : String) (args : List String) (s : Ledger) :
    LCRewrite s (acceptShipmentAndIssueBL env o c args s).2 := by
  unfold acceptShipmentAndIssueBL
  repeat' split
  all_goals exact Or.inl rfl

/-- The step of `requestAdvancePayment` on the letters of credit. -/
theorem requestAdvancePayment_lcRewrite (env : Env) (o c : String) (args : List String) (s : Ledger) :
    LCRewrite s (requestAdvancePayment env o c args s).2 := by
  unfold requestAdvancePayment
  repeat' split
  all_goals exact Or.inl rfl

/-- The step of `makeAdvancePayment` on the letters of credit. -/
theorem makeAdvancePayment_lcRewrite (env : Env) (o c : String) (args : List String) (s : Ledger) :
    LCRewrite s (makeAdvancePayment env o c args s).2 := by
  unfold makeAdvancePayment
  repeat' split
  all_goals first
    | exact Or.inl rfl
    | (refine Or.inr ⟨_, ‹LetterOfCredit›, _, ‹_›, ?_, ?_, rfl⟩ <;> rfl)

/-- The step of `requestPayment` on the letters of credit. -/
theorem requestPayment_lcRewrite (env : Env) (o c : String) (args : List String) (s : Ledger) :
    LCRewrite s (requestPayment env o c args s).2 := by
  unfold requestPayment
  repeat' split
  all_goals exact Or.inl rfl

/-- The step of `makePayment` on the letters of credit. -/
theorem makePayment_lcRewrite (env : Env) (o c : String) (args : List String) (s : Ledger) :
    LCRewrite s (makePayment env o c args s).2 := by
  unfold makePayment
  repeat' split
  all_goals first
    | exact Or.inl rfl
    | (refine Or.inr ⟨_, ‹LetterOfCredit›, _, ‹_›, ?_, ?_, rfl⟩ <;> rfl)

/-- The step of `updateShipmentLocation` on the letters of credit. -/
theorem updateShipmentLocation_lcRewrite (env : Env) (o c : String) (args : List String) (s : Ledger) :
    LCRewrite s (updateShipmentLocation env o c args s).2 := by
  unfold updateShipmentLocation
  repeat' split
  all_goals exact Or.inl rfl

/-- The step of `requestLC` on the letters of credit: none, or a fresh letter of
credit for the Exporter at discount rate 0. -/
theorem requestLC_lc_shape (env : Env) (o c : String) (args : List String) (s : Ledger) :
    (requestLC env o c args s).2.lc = s.lc
    ∨ ∃ id t, s.trade id = some t
        ∧ (requestLC env o c args s).2.lc
          = Function.update s.lc id
              (some ⟨"", "", s.exp, t.amount, [], .REQUESTED, ⟨0, 0⟩, false⟩) := by
  unfold requestLC
  repeat' split
  all_goals first
    | exact Or.inl rfl
    | exact Or.inr ⟨_, _, ‹_›, rfl⟩

/-- The step of `requestLCTransfer` on the letters of credit: none, or the
letter of credit of the trade goes from `ACCEPTED` to `TRANSFER_REQUESTED`
with the Lender as beneficiary and the parsed rate, converted to `float32`,
as discount rate. -/
theorem requestLCTransfer_lc_shape (env : Env) (o c : String) (args : List String)
    (s : Ledger) :
    (requestLCTransfer env o c args s).2.lc = s.lc
    ∨ ∃ id rateArg l d r, args = [id, rateArg] ∧ s.lc id = some l ∧ l.status = .ACCEPTED
        ∧ env.parseFloat rateArg = some d ∧ d.bind f32OfF64 = some r
        ∧ (requestLCTransfer env o c args s).2.lc
          = Function.update s.lc id
              (some { l with
                beneficiary := s.len, discountRate := r, status := .TRANSFER_REQUESTED }) := by
  unfold requestLCTransfer
  repeat' split
  all_goals first
    | exact Or.inl rfl
    | (refine Or.inr ⟨_, _, _, _, _, rfl, ‹_›, ?_, ‹_›, ‹_›, rfl⟩
       cases hst : LetterOfCredit.status ‹LetterOfCredit› <;> simp_all)

/-- The step of any dispatched function on the letters of credit. -/
theorem Invoke_lc_shape (env : Env) (tx : Tx) (fn : String) (args : List String) (s : Ledger) :
    LCRewrite s (Invoke env tx fn args s).2
    ∨ (fn = "requestLC" ∧ ∃ id t, s.trade id = some t
        ∧ (Invoke env tx fn args s).2.lc
          = Function.update s.lc id
              (some ⟨"", "", s.exp, t.amount, [], .REQUESTED, ⟨0, 0⟩, false⟩))
    ∨ (fn = "requestLCTransfer" ∧ ∃ id rateArg l d r, args = [id, rateArg]
        ∧ s.lc id = some l ∧ l.status = .ACCEPTED
        ∧ env.parseFloat rateArg = some d ∧ d.bind f32OfF64 = some r
        ∧ (Invoke env tx fn args s).2.lc
          = Function.update s.lc id
              (some { l with
                beneficiary := s.len, discountRate := r, status := .TRANSFER_REQUESTED })) :=
  Invoke_cases
    (P := fun x => LCRewrite s x.2
      ∨ (fn = "requestLC" ∧ ∃ id t, s.trade id = some t
          ∧ x.2.lc
            = Function.update s.lc id
                (some ⟨"", "", s.exp, t.amount, [], .REQUESTED, ⟨0, 0⟩, false⟩))
      ∨ (fn = "requestLCTransfer" ∧ ∃ id rateArg l d r, args = [id, rateArg]
          ∧ s.lc id = some l ∧ l.status = .ACCEPTED
          ∧ env.parseFloat rateArg = some d ∧ d.bind f32OfF64 = some r
          ∧ x.2.lc
            = Function.update s.lc id
                (some { l with
                  beneficiary := s.len, discountRate := r, status := .TRANSFER_REQUESTED })))
    env tx fn args s
    (fun _ o c => Or.inl (requestTrade_lcRewrite env _ o c args s))
    (fun _ o c => Or.inl (acceptTrade_lcRewrite env o c args s))
    (fun hfn o c => (requestLC_lc_shape env o c args s).elim (fun h => Or.inl (Or.inl h))
      (fun h => Or.inr (Or.inl ⟨hfn, h⟩)))
    (fun _ o c => Or.inl (issueLC_lcRewrite env o c args s))
    (fun _ o c => Or.inl (acceptLC_lcRewrite env o c args s))
    (fun hfn o c => (requestLCTransfer_lc_shape env o c args s).elim
      (fun h => Or.inl (Or.inl h)) (fun h => Or.inr (Or.inr ⟨hfn, h⟩)))
    (fun _ o c => Or.inl (issueLCTransfer_lcRewrite env o c args s))
    (fun _ o c => Or.inl (acceptLCTransfer_lcRewrite env o c args s))
    (fun _ o c => Or.inl (requestEL_lcRewrite env o c args s))
    (fun _ o c => Or.inl (issueEL_lcRewrite env o c args s))
    (fun _ o c => Or.inl (prepareShipment_lcRewrite env o c args s))
    (fun _ o c => Or.inl (acceptShipmentAndIssueBL_lcRewrite env o c args s))
    (fun _ o c => Or.inl (requestAdvancePayment_lcRewrite env o c args s))
    (fun _ o c => Or.inl (makeAdvancePayment_lcRewrite env o c args s))
    (fun _ o c => Or.inl (requestPayment_lcRewrite env o c args s))
    (fun _ o c => Or.inl (makePayment_lcRewrite env o c args s))
    (fun _ o c => Or.inl (updateShipmentLocation_lcRewrite env o c args s))
    (fun _ o c => Or.inl (Or.inl (congrArg Ledger.lc (getTradeStatus_ledger env o c args s))))
    (fun _ o c => Or.inl (Or.inl (congrArg Ledger.lc (getLCStatus_ledger env o c args s))))
    (fun _ o c => Or.inl (Or.inl (congrArg Ledger.lc (getELStatus_ledger env o c args s))))
    (fun _ o c =>
      Or.inl (Or.inl (congrArg Ledger.lc (getShipmentLocation_ledger env o c args s))))
    (fun _ o c => Or.inl (Or.inl (congrArg Ledger.lc (getArrivalDate_ledger env o c args s))))
    (fun _ o c => Or.inl (Or.inl (congrArg Ledger.lc (getBillOfLading_ledger env o c args s))))
    (fun _ o c =>
      Or.inl (Or.inl (congrArg Ledger.lc (getAccountBalance_ledger env o c args s))))
    (fun _ => Or.inl (Or.inl rfl))

/-- Across any dispatched function other than `requestLC` a stored letter of
credit persists, and its beneficiary changes only when the function is
`requestLCTransfer` and moves the status from `ACCEPTED` to
`TRANSFER_REQUESTED`. -/
theorem lc_beneficiary_changes_only_on_transfer_request (env : Env) (tx : Tx) (fn : String)
    (args : List String) (s : Ledger) (id : String) (l : LetterOfCredit)
    (h : s.lc id = some l) (hfn : fn ≠ "requestLC") :
    ∃ l', (Invoke env tx fn args s).2.lc id = some l'
      ∧ (l'.beneficiary ≠ l.beneficiary →
          fn = "requestLCTransfer" ∧ l.status = .ACCEPTED
            ∧ l'.status = .TRANSFER_REQUESTED) := by
  rcases Invoke_lc_shape env tx fn args s with
    (heq | ⟨id0, l0, l1, h0, hb, _, hupd⟩) | ⟨hc, _⟩ | ⟨hc, id0, rateArg, l0, d, r, _, h0, hst, _,
      _, hupd⟩
  · exact ⟨l, by rw [heq]; exact h, fun hne => absurd rfl hne⟩
  · rw [hupd]
    by_cases hid : id = id0
    · subst hid
      rw [h] at h0
      cases h0
      exact ⟨l1, by simp, fun hne => absurd hb hne⟩
    · exact ⟨l, by simp [Function.update_noteq hid, h], fun hne => absurd rfl hne⟩
  · exact absurd hc hfn
  · rw [hupd]
    by_cases hid : id = id0
    · subst hid
      rw [h] at h0
      cases h0
      exact ⟨{ l with beneficiary := s.len, discountRate := r, status := .TRANSFER_REQUESTED },
        by simp, fun _ => ⟨hc, hst, rfl⟩⟩
    · exact ⟨l, by simp [Function.update_noteq hid, h], fun hne => absurd rfl hne⟩

/-- C26 (the code at the failing input): on the ledger with the letter of credit
of `T1` transferred, its beneficiary is the Lender `FinanceCo` and its status
`TRANSFER_ACCEPTED`; the Importer calls `requestLC` for `T1` again, the call
succeeds and the beneficiary of the stored letter of credit is the Exporter
`LumberInc`: the beneficiary has changed a second time, across a call that is
not `requestLCTransfer`. -/
theorem C26_requestLC_resets_beneficiary :
    (run refEnv (shipmentPrefixCalls.take 5) genesis).lc "T1"
        = some ⟨"lc1", "12/31/2030", "LumberInc", 1000, ["E/L", "B/L"], .ACCEPTED, ⟨0, 0⟩,
            false⟩
    ∧ transferredLedger.lc "T1"
        = some ⟨"lc1", "12/31/2030", "FinanceCo", 1000, ["E/L", "B/L"], .TRANSFER_ACCEPTED,
            ⟨13421773, 27⟩, false⟩
    ∧ (Invoke refEnv importerTx "requestLC" ["T1"] transferredLedger).1 = .success .nil
    ∧ (Invoke refEnv importerTx "requestLC" ["T1"] transferredLedger).2.lc "T1"
        = some ⟨"", "", "LumberInc", 1000, [], .REQUESTED, ⟨0, 0⟩, false⟩ := by
  decide

/-- Rounding to the nearest integer does not pass an integer bound. -/
theorem roundHalfEven_le {a : Int} {b : Nat} (n : Int) (hb : 0 < b) (h : a ≤ n * b) :
    roundHalfEven a b ≤ n := by
  have hb' : (0 : Int) < b := by exact_mod_cast hb
  have hr0 := Int.emod_nonneg a (ne_of_gt hb')
  have hr1 := Int.emod_lt_of_pos a hb'
  have hd := Int.ediv_add_emod a b
  have hq : a / (b : Int) ≤ n := by
    by_contra hlt
    push_neg at hlt
    have h1 : (n + 1) * (b : Int) ≤ (a / (b : Int)) * b :=
      Int.mul_le_mul_of_nonneg_right (by omega) (le_of_lt hb')
    nlinarith
  have hstrict : 0 < a % (b : Int) → a / (b : Int) + 1 ≤ n := by
    intro hpos
    by_contra hlt
    have hqn : a / (b : Int) = n := by omega
    rw [hqn] at hd
    nlinarith
  unfold roundHalfEven
  dsimp only
  split_ifs
  · exact hq
  · exact hstrict (by omega)
  · exact hq
  · exact hstrict (by omega)

/-- A non-negative numerator of at most half the denominator rounds to 0. -/
theorem roundHalfEven_eq_zero {a : Int} {b : Nat} (h0 : 0 ≤ a) (h : 2 * a ≤ b) :
    roundHalfEven a b = 0 := by
  rcases eq_or_lt_of_le h0 with ha | ha
  · subst ha
    unfold roundHalfEven
    simp
  · have hlt : a < (b : Int) := by omega
    have hq : a / (b : Int) = 0 := Int.ediv_eq_zero_of_lt h0 hlt
    have hr : a % (b : Int) = a := Int.emod_eq_of_lt h0 hlt
    unfold roundHalfEven
    dsimp only
    rw [hq, hr]
    split_ifs <;> omega

/-- Normalisation keeps a value at most 1. -/
theorem Flt.normalize_le_one (k : Nat) :
    ∀ {n : Int}, n ≤ 2 ^ k → (Flt.normalize n k).num ≤ 2 ^ (Flt.normalize n k).scale := by
  induction k with
  | zero => intro n h; simpa [Flt.normalize] using h
  | succ k ih =>
    intro n h
    unfold Flt.normalize
    split_ifs
    · refine ih ?_
      rw [pow_succ] at h
      omega
    · exact h

/-- Rounding a fraction between 0 and 1 gives a value at most 1. -/
theorem roundBin_le_one (prec : Nat) (emin : Int) {a : Int} {b : Nat} (hb : 0 < b)
    (h0 : 0 ≤ a) (h : a ≤ b) :
    (roundBin prec emin a b).num ≤ 2 ^ (roundBin prec emin a b).scale := by
  unfold roundBin
  dsimp only
  split_ifs with ha hq
  · simp
  · generalize (max (fracLog2 a.natAbs b) emin - ((prec : Int) - 1)).toNat = k
    cases k with
    | zero =>
      simp only [pow_zero, mul_one]
      exact roundHalfEven_le 1 hb (by simpa using h)
    | succ k =>
      have hz : roundHalfEven a (b * 2 ^ (k + 1)) = 0 := by
        refine roundHalfEven_eq_zero h0 ?_
        have h2 : (1 : Int) ≤ 2 ^ k := one_le_pow₀ (by norm_num)
        push_cast
        rw [pow_succ]
        nlinarith
      rw [hz]
      simp
  · refine Flt.normalize_le_one _ (roundHalfEven_le _ hb ?_)
    have h2 : (0 : Int) ≤ 2 ^ (-(max (fracLog2 a.natAbs b) emin - ((prec : Int) - 1))).toNat :=
      by positivity
    nlinarith

/-- The value lies between 0 and 1. -/
def Flt.inUnit (x : Flt) : Prop := 0 ≤ x.num ∧ x.num ≤ 2 ^ x.scale

/-- The conversion to `float32` keeps a value between 0 and 1. -/
theorem f32OfF64_inUnit {d r : Flt} (hd : d.inUnit) (h : f32OfF64 d = some r) : r.inUnit := by
  unfold f32OfF64 at h
  dsimp only at h
  split_ifs at h
  cases h
  exact ⟨roundBin_num_nonneg _ _ _ hd.1,
    roundBin_le_one _ _ (by positivity) hd.1 (by push_cast; exact hd.2)⟩

/-- Normalisation keeps a value at most a given integer. -/
theorem Flt.normalize_le (N : Int) (k : Nat) :
    ∀ {n : Int}, n ≤ N * 2 ^ k →
      (Flt.normalize n k).num ≤ N * 2 ^ (Flt.normalize n k).scale := by
  induction k with
  | zero => intro n h; simpa [Flt.normalize] using h
  | succ k ih =>
    intro n h
    unfold Flt.normalize
    split_ifs
    · refine ih ?_
      have h2 : n ≤ N * 2 ^ k * 2 := by
        rw [pow_succ, ← mul_assoc] at h
        exact h
      generalize N * 2 ^ k = M at h2 ⊢
      omega
    · exact h

/-- Rounding a fraction between 0 and a power of two gives a value at most that
power of two. -/
theorem roundBin_le_pow (prec : Nat) (emin : Int) (m : Nat) {a : Int} {b : Nat} (hb : 0 < b)
    (h0 : 0 ≤ a) (h : a ≤ 2 ^ m * b) :
    (roundBin prec emin a b).num ≤ 2 ^ m * 2 ^ (roundBin prec emin a b).scale := by
  have hbz : (0 : Int) < b := by exact_mod_cast hb
  unfold roundBin
  dsimp only
  split_ifs with ha hq
  · simp only [pow_zero, mul_one]
    positivity
  · generalize (max (fracLog2 a.natAbs b) emin - ((prec : Int) - 1)).toNat = k
    simp only [pow_zero, mul_one]
    rcases le_or_lt k m with hkm | hkm
    · have h1 : roundHalfEven a (b * 2 ^ k) ≤ 2 ^ (m - k) := by
        refine roundHalfEven_le _ (by positivity) ?_
        push_cast
        have h2 : (2 : Int) ^ (m - k) * ((b : Int) * 2 ^ k) = 2 ^ m * b := by
          rw [mul_comm (b : Int), ← mul_assoc, ← pow_add, Nat.sub_add_cancel hkm]
        rw [h2]
        exact h
      have h3 : (2 : Int) ^ (m - k) * 2 ^ k = 2 ^ m := by
        rw [← pow_add, Nat.sub_add_cancel hkm]
      rw [← h3]
      exact Int.mul_le_mul_of_nonneg_right h1 (by positivity)
    · have hz : roundHalfEven a (b * 2 ^ k) = 0 := by
        refine roundHalfEven_eq_zero h0 ?_
        push_cast
        have h2 : (2 : Int) ^ (m + 1) ≤ 2 ^ k :=
          pow_le_pow_right₀ (by norm_num) hkm
        have h3 : (2 : Int) ^ (m + 1) * b ≤ 2 ^ k * b :=
          Int.mul_le_mul_of_nonneg_right h2 (le_of_lt hbz)
        rw [pow_succ] at h3
        nlinarith
      rw [hz]
      simp only [zero_mul]
      positivity
  · refine Flt.normalize_le _ _ (roundHalfEven_le _ hb ?_)
    have h2 : (0 : Int) ≤ 2 ^ (-(max (fracLog2 a.natAbs b) emin - ((prec : Int) - 1))).toNat :=
      by positivity
    nlinarith

/-- A rounded value between 0 and `2^62` is inside the finite range of
`float32`. -/
theorem F32.ofRounded_of_le {z : Flt} (h0 : 0 ≤ z.num) (h : z.num ≤ 2 ^ 62 * 2 ^ z.scale) :
    F32.ofRounded z = .fin z := by
  unfold F32.ofRounded
  rw [if_neg]
  rintro ⟨hs, hm⟩
  rw [hs] at h
  have h1 : ((z.num.natAbs : Nat) : Int) = z.num := Int.natAbs_of_nonneg h0
  have h2 : maxF32 = (2 ^ 24 - 1) * 2 ^ 104 := rfl
  rw [h1, h2] at hm
  norm_num at h hm
  omega

/-- With a discount rate between 0 and 1 and an amount between 0 and `2^62` the
advance payment is not negative. -/
theorem advancePaymentAmount_nonneg {l : LetterOfCredit} (hr : l.discountRate.inUnit)
    (ha : 0 ≤ l.amount) (hb : l.amount ≤ 2 ^ 62) : 0 ≤ advancePaymentAmount l := by
  rcases l with ⟨lid, lexp, lben, lam, ldoc, lst, ⟨r, sc⟩, laps⟩
  have hr1 : 0 ≤ r := hr.1
  have hr2 : r ≤ 2 ^ sc := hr.2
  have ha0 : 0 ≤ lam := ha
  have hb0 : lam ≤ 2 ^ 62 := hb
  -- the difference `1.0 - rate`
  have e1 : f32Const 1 1 = .fin ⟨1, 0⟩ := by decide
  have e2 : f32Sub (.fin ⟨1, 0⟩) (.fin ⟨r, sc⟩)
      = F32.ofRounded (roundF32 (1 * 2 ^ sc - r * 2 ^ 0) (2 ^ (0 + sc))) := rfl
  have d0 : 0 ≤ (roundF32 (1 * 2 ^ sc - r * 2 ^ 0) (2 ^ (0 + sc))).num :=
    roundBin_num_nonneg _ _ _ (by simp only [one_mul, pow_zero, mul_one]; omega)
  have d1 : (roundF32 (1 * 2 ^ sc - r * 2 ^ 0) (2 ^ (0 + sc))).num
      ≤ 2 ^ (roundF32 (1 * 2 ^ sc - r * 2 ^ 0) (2 ^ (0 + sc))).scale :=
    roundBin_le_one _ _ (by positivity)
      (by simp only [one_mul, pow_zero, mul_one]; omega)
      (by push_cast; simp only [one_mul, pow_zero, mul_one, zero_add]; omega)
  -- the conversion `float32(amount)`
  have e3 : f32OfInt lam = F32.ofRounded (roundF32 lam 1) := rfl
  have a0 : 0 ≤ (roundF32 lam 1).num := roundBin_num_nonneg _ _ _ ha0
  have a1 : (roundF32 lam 1).num ≤ 2 ^ 62 * 2 ^ (roundF32 lam 1).scale :=
    roundBin_le_pow _ _ 62 (by norm_num) ha0 (by push_cast; omega)
  show 0 ≤ f32ToInt (f32Mul (f32Sub (f32Const 1 1) (.fin ⟨r, sc⟩)) (f32OfInt lam))
  rw [e1, e2, e3]
  generalize roundF32 (1 * 2 ^ sc - r * 2 ^ 0) (2 ^ (0 + sc)) = d at d0 d1 ⊢
  generalize roundF32 lam 1 = a at a0 a1 ⊢
  have hd : F32.ofRounded d = .fin d := by
    refine F32.ofRounded_of_le d0 (le_trans d1 ?_)
    have : (0 : Int) < 2 ^ d.scale := by positivity
    nlinarith
  rw [hd, F32.ofRounded_of_le a0 a1]
  -- the product
  have p0 : 0 ≤ (roundF32 (d.num * a.num) (2 ^ (d.scale + a.scale))).num :=
    roundBin_num_nonneg _ _ _ (Int.mul_nonneg d0 a0)
  have p1 : (roundF32 (d.num * a.num) (2 ^ (d.scale + a.scale))).num
      ≤ 2 ^ 62 * 2 ^ (roundF32 (d.num * a.num) (2 ^ (d.scale + a.scale))).scale := by
    refine roundBin_le_pow _ _ 62 (by positivity) (Int.mul_nonneg d0 a0) ?_
    push_cast
    rw [pow_add]
    have h1 : d.num * a.num ≤ 2 ^ d.scale * a.num :=
      Int.mul_le_mul_of_nonneg_right d1 a0
    have h2 : (2 : Int) ^ d.scale * a.num ≤ 2 ^ d.scale * (2 ^ 62 * 2 ^ a.scale) :=
      Int.mul_le_mul_of_nonneg_left a1 (by positivity)
    calc d.num * a.num ≤ 2 ^ d.scale * (2 ^ 62 * 2 ^ a.scale) := le_trans h1 h2
      _ = 2 ^ 62 * (2 ^ d.scale * 2 ^ a.scale) := by ring
  show 0 ≤ f32ToInt (F32.ofRounded (roundF32 (d.num * a.num) (2 ^ (d.scale + a.scale))))
  generalize roundF32 (d.num * a.num) (2 ^ (d.scale + a.scale)) = q at p0 p1 ⊢
  rw [F32.ofRounded_of_le p0 p1]
  have hq : 0 ≤ Int.tdiv q.num (2 ^ q.scale) := Int.tdiv_nonneg p0 (by positivity)
  have hq2 : Int.tdiv q.num (2 ^ q.scale) ≤ 2 ^ 62 := by
    rw [Int.tdiv_eq_ediv p0 (by positivity)]
    exact Int.ediv_le_of_le_mul (by positivity) p1
  show 0 ≤ (if inInt64 (Int.tdiv q.num (2 ^ q.scale)) then Int.tdiv q.num (2 ^ q.scale)
    else -(2 ^ 63))
  have hin : inInt64 (Int.tdiv q.num (2 ^ q.scale)) := by
    unfold inInt64
    generalize Int.tdiv q.num (2 ^ q.scale) = v at hq hq2
    omega
  rw [if_pos hin]
  exact hq

/-- With a discount rate between 0 and 1 and an amount that is not negative the
advance payment is not negative, unless the `float32` product is outside the
range of `int`, when it is the value `-2^63` of the conversion. -/
theorem advancePaymentAmount_nonneg_or_min {l : LetterOfCredit} (hr : l.discountRate.inUnit)
    (ha : 0 ≤ l.amount) : 0 ≤ advancePaymentAmount l ∨ advancePaymentAmount l = -(2 ^ 63) := by
  rcases l with ⟨lid, lexp, lben, lam, ldoc, lst, ⟨r, sc⟩, laps⟩
  have hr1 : 0 ≤ r := hr.1
  have hr2 : r ≤ 2 ^ sc := hr.2
  have ha0 : 0 ≤ lam := ha
  have e1 : f32Const 1 1 = .fin ⟨1, 0⟩ := by decide
  have e2 : f32Sub (.fin ⟨1, 0⟩) (.fin ⟨r, sc⟩)
      = F32.ofRounded (roundF32 (1 * 2 ^ sc - r * 2 ^ 0) (2 ^ (0 + sc))) := rfl
  have d0 : 0 ≤ (roundF32 (1 * 2 ^ sc - r * 2 ^ 0) (2 ^ (0 + sc))).num :=
    roundBin_num_nonneg _ _ _ (by simp only [one_mul, pow_zero, mul_one]; omega)
  have d1 : (roundF32 (1 * 2 ^ sc - r * 2 ^ 0) (2 ^ (0 + sc))).num
      ≤ 2 ^ (roundF32 (1 * 2 ^ sc - r * 2 ^ 0) (2 ^ (0 + sc))).scale :=
    roundBin_le_one _ _ (by positivity)
      (by simp only [one_mul, pow_zero, mul_one]; omega)
      (by push_cast; simp only [one_mul, pow_zero, mul_one, zero_add]; omega)
  have e3 : f32OfInt lam = F32.ofRounded (roundF32 lam 1) := rfl
  have a0 : 0 ≤ (roundF32 lam 1).num := roundBin_num_nonneg _ _ _ ha0
  show 0 ≤ f32ToInt (f32Mul (f32Sub (f32Const 1 1) (.fin ⟨r, sc⟩)) (f32OfInt lam))
    ∨ f32ToInt (f32Mul (f32Sub (f32Const 1 1) (.fin ⟨r, sc⟩)) (f32OfInt lam)) = -(2 ^ 63)
  rw [e1, e2, e3]
  generalize roundF32 (1 * 2 ^ sc - r * 2 ^ 0) (2 ^ (0 + sc)) = d at d0 d1 ⊢
  generalize roundF32 lam 1 = a at a0 ⊢
  have hd : F32.ofRounded d = .fin d := by
    refine F32.ofRounded_of_le d0 (le_trans d1 ?_)
    have : (0 : Int) < 2 ^ d.scale := by positivity
    nlinarith
  rw [hd]
  have hmul : ∀ b : Bool, f32ToInt (f32Mul (.fin d) (.inf b)) = -(2 ^ 63) := by
    intro b
    show f32ToInt (if d.num = 0 then F32.nan else F32.inf (decide (d.num < 0) != b))
      = -(2 ^ 63)
    by_cases hz : d.num = 0
    · rw [if_pos hz]
      rfl
    · rw [if_neg hz]
      rfl
  by_cases hover : a.scale = 0 ∧ maxF32 < a.num.natAbs
  · have ea : F32.ofRounded a = .inf (decide (a.num < 0)) := by
      unfold F32.ofRounded
      rw [if_pos hover]
    rw [ea]
    exact Or.inr (hmul _)
  · have ea : F32.ofRounded a = .fin a := by
      unfold F32.ofRounded
      rw [if_neg hover]
    rw [ea]
    have p0 : 0 ≤ (roundF32 (d.num * a.num) (2 ^ (d.scale + a.scale))).num :=
      roundBin_num_nonneg _ _ _ (Int.mul_nonneg d0 a0)
    show 0 ≤ f32ToInt (F32.ofRounded (roundF32 (d.num * a.num) (2 ^ (d.scale + a.scale))))
      ∨ f32ToInt (F32.ofRounded (roundF32 (d.num * a.num) (2 ^ (d.scale + a.scale))))
        = -(2 ^ 63)
    generalize roundF32 (d.num * a.num) (2 ^ (d.scale + a.scale)) = q at p0 ⊢
    by_cases hq : q.scale = 0 ∧ maxF32 < q.num.natAbs
    · have eq : F32.ofRounded q = .inf (decide (q.num < 0)) := by
        unfold F32.ofRounded
        rw [if_pos hq]
      rw [eq]
      exact Or.inr rfl
    · have eq : F32.ofRounded q = .fin q := by
        unfold F32.ofRounded
        rw [if_neg hq]
      rw [eq]
      show 0 ≤ (if inInt64 (Int.tdiv q.num (2 ^ q.scale)) then Int.tdiv q.num (2 ^ q.scale)
          else -(2 ^ 63))
        ∨ (if inInt64 (Int.tdiv q.num (2 ^ q.scale)) then Int.tdiv q.num (2 ^ q.scale)
          else -(2 ^ 63)) = -(2 ^ 63)
      by_cases hin : inInt64 (Int.tdiv q.num (2 ^ q.scale))
      · rw [if_pos hin]
        exact Or.inl (Int.tdiv_nonneg p0 (by positivity))
      · rw [if_neg hin]
        exact Or.inr rfl

/-- C27 (amended): across any dispatched function the discount rate of every
stored letter of credit lies between 0 and 1 afterwards, provided it did so
before and, when the function is `requestLCTransfer`, the rate argument
parses to a value between 0 and 1; `requestLCTransfer` makes no such check of
its own. For a stored letter of credit with an amount between 0 and `2^62`
the advance payment then is not negative; and for every amount that is not
negative it is not negative unless the `float32` product is outside the range
of `int`, when it is the value `-2^63` of the conversion. -/
theorem C27_discountRate_step (env : Env) (tx : Tx) (fn : String) (args : List String)
    (s : Ledger) (hinv : ∀ id l, s.lc id = some l → l.discountRate.inUnit)
    (hrate : ∀ id rateArg d, fn = "requestLCTransfer" → args = [id, rateArg] →
      env.parseFloat rateArg = some (some d) → d.inUnit) :
    (∀ id l, (Invoke env tx fn args s).2.lc id = some l → l.discountRate.inUnit)
    ∧ (∀ id l, (Invoke env tx fn args s).2.lc id = some l → 0 ≤ l.amount →
        l.amount ≤ 2 ^ 62 → 0 ≤ advancePaymentAmount l)
    ∧ (∀ id l, (Invoke env tx fn args s).2.lc id = some l → 0 ≤ l.amount →
        0 ≤ advancePaymentAmount l ∨ advancePaymentAmount l = -(2 ^ 63)) := by
  have key : ∀ id l, (Invoke env tx fn args s).2.lc id = some l → l.discountRate.inUnit := by
    intro id l hl
    rcases Invoke_lc_shape env tx fn args s with
      (heq | ⟨id0, l0, l1, h0, _, hd, hupd⟩) | ⟨_, id0, t, _, hupd⟩
        | ⟨hc, id0, rateArg, l0, d, r, hargs, h0, _, hparse, hr, hupd⟩
    · rw [heq] at hl
      exact hinv id l hl
    · rw [hupd] at hl
      by_cases hid : id = id0
      · subst hid
        simp only [Function.update_same, Option.some.injEq] at hl
        subst hl
        rw [hd]
        exact hinv id l0 h0
      · rw [Function.update_noteq hid] at hl
        exact hinv id l hl
    · rw [hupd] at hl
      by_cases hid : id = id0
      · subst hid
        simp only [Function.update_same, Option.some.injEq] at hl
        subst hl
        exact ⟨le_refl _, by norm_num⟩
      · rw [Function.update_noteq hid] at hl
        exact hinv id l hl
    · rw [hupd] at hl
      by_cases hid : id = id0
      · subst hid
        simp only [Function.update_same, Option.some.injEq] at hl
        subst hl
        cases d with
        | none => simp at hr
        | some d0 => exact f32OfF64_inUnit (hrate id rateArg d0 hc hargs hparse) hr
      · rw [Function.update_noteq hid] at hl
        exact hinv id l hl
  exact ⟨key, fun id l hl ha hb => advancePaymentAmount_nonneg (key id l hl) ha hb,
    fun id l hl ha => advancePaymentAmount_nonneg_or_min (key id l hl) ha⟩

/-- A ledger with one letter of credit, accepted, at discount rate 0, and the
shipment of its trade at `SOURCE`: the bootstrapped ledger with these two
records written. -/
def unitRateLedger : Ledger :=
  (genesis.putLC "T1"
    ⟨"lc1", "12/31/2030", "LumberInc", 1000, ["E/L", "B/L"], .ACCEPTED, ⟨0, 0⟩, false⟩).putShipmentLocation
    "T1" SOURCE

/-- Witness for C27 (amended): on a ledger whose only letter of credit has
discount rate 0 the Exporter requests the transfer at the rate `0.5`, and the
stored rate is one half. -/
theorem C27_discountRate_step_witness :
    (Invoke refEnv exporterTx "requestLCTransfer" ["T1", "0.5"] unitRateLedger).2.lc "T1"
      = some ⟨"lc1", "12/31/2030", "FinanceCo", 1000, ["E/L", "B/L"], .TRANSFER_REQUESTED,
          ⟨1, 1⟩, false⟩
    ∧ Flt.inUnit ⟨1, 1⟩ :=
  ⟨by decide,
   (C27_discountRate_step refEnv exporterTx "requestLCTransfer" ["T1", "0.5"] unitRateLedger
      (fun id l hl => by
        have h1 : unitRateLedger.lc = Function.update (fun _ => none) "T1"
            (some ⟨"lc1", "12/31/2030", "LumberInc", 1000, ["E/L", "B/L"], .ACCEPTED, ⟨0, 0⟩,
              false⟩) := rfl
        rw [h1] at hl
        by_cases hk : id = "T1"
        · subst hk
          simp only [Function.update_same, Option.some.injEq] at hl
          subst hl
          exact ⟨by decide, by decide⟩
        · rw [Function.update_noteq hk] at hl
          cases hl)
      (fun id rateArg d _ hargs hparse => by
        cases hargs
        have h2 : refEnv.parseFloat "0.5" = some (some ⟨1, 1⟩) := by decide
        rw [h2] at hparse
        cases hparse
        exact ⟨by decide, by decide⟩)).1 "T1"
      ⟨"lc1", "12/31/2030", "FinanceCo", 1000, ["E/L", "B/L"], .TRANSFER_REQUESTED, ⟨1, 1⟩,
        false⟩ (by decide)⟩

/-- Counterexample to C27 as stated. With the letter of credit of `T1` accepted
for 1000, the Exporter requests the transfer at the rate `2`: the call
succeeds and the stored rate is 2; the advance payment that follows is -1000,
the Exporter balance falls from 100000 to 99000 and the Lender balance rises
from 300000 to 301000. At the rate `-1` the stored rate is -1 and the advance
payment is 2000, twice the amount of the letter of credit. And at the rate 0
the `float32` product for the amount 16777219 is 16777220, and for the
amount 9223372036854775807 it is `2^63`, which the conversion to `int` takes
to -9223372036854775808. -/
theorem C27_counterexample :
    (Invoke refEnv exporterTx "requestLCTransfer" ["T1", "2"] preparedLedger).1 = .success .nil
    ∧ ((Invoke refEnv exporterTx "requestLCTransfer" ["T1", "2"] preparedLedger).2.lc "T1").map
        (fun l => l.discountRate) = some ⟨2, 0⟩
    ∧ (run refEnv (advanceAtRateCalls "2") preparedLedger).expBal = some 99000
    ∧ (run refEnv (advanceAtRateCalls "2") preparedLedger).lenBal = some 301000
    ∧ ((run refEnv (advanceAtRateCalls "-1") preparedLedger).lc "T1").map
        (fun l => (l.amount, l.discountRate, l.advancePaymentSettlement))
          = some (1000, ⟨-1, 0⟩, true)
    ∧ (run refEnv (advanceAtRateCalls "-1") preparedLedger).expBal = some 102000
    ∧ (run refEnv (advanceAtRateCalls "-1") preparedLedger).lenBal = some 298000
    ∧ advancePaymentAmount
        ⟨"lc1", "12/31/2030", "FinanceCo", 16777219, [], .TRANSFER_ACCEPTED, ⟨0, 0⟩, false⟩
      = 16777220
    ∧ advancePaymentAmount
        ⟨"lc1", "12/31/2030", "FinanceCo", 9223372036854775807, [], .TRANSFER_ACCEPTED,
          ⟨0, 0⟩, false⟩
      = -9223372036854775808 := by
  decide

/-! ## Shipment -/

/-- C31: for an admitted Exporter caller of `prepareShipment` with the one
argument `id`: with the shipment location `SOURCE` the call succeeds and the
ledger is as before; with any other location recorded it returns an error
and the ledger is as before; with no location recorded it succeeds exactly
when the export license of the trade is stored in status `ISSUED`, the ledger
then being the one before with the location `SOURCE` written, and with the
license in status `REQUESTED` it returns an error and the location stays
absent. -/
theorem C31_prepareShipment (env : Env) (o c id : String) (s : Ledger)
    (ha : admitted env env.authenticateExporterOrg o c) :
    (s.shipmentLocation id = SOURCE → prepareShipment env o c [id] s = (.success .nil, s))
    ∧ (s.shipmentLocation id ≠ "" → s.shipmentLocation id ≠ SOURCE →
        (prepareShipment env o c [id] s).1.isError = true
        ∧ (prepareShipment env o c [id] s).2 = s)
    ∧ (s.shipmentLocation id = "" →
        ((prepareShipment env o c [id] s).1.isSuccess = true
          ↔ ∃ e, s.el id = some e ∧ e.status = .ISSUED)
        ∧ (∀ e, s.el id = some e → e.status = .ISSUED →
            prepareShipment env o c [id] s = (.success .nil, s.putShipmentLocation id SOURCE)
            ∧ (prepareShipment env o c [id] s).2.shipmentLocation id = SOURCE)
        ∧ (∀ e, s.el id = some e → e.status = .REQUESTED →
            (prepareShipment env o c [id] s).1.isError = true
            ∧ (prepareShipment env o c [id] s).2 = s
            ∧ (prepareShipment env o c [id] s).2.shipmentLocation id = "")) := by
  have hne := admitted_not_denied ha
  refine ⟨?_, ?_, ?_⟩
  · intro hloc
    have hnz : s.shipmentLocation id ≠ "" := by
      rw [hloc]
      decide
    unfold prepareShipment
    rw [if_neg hne]
    simp only
    rw [if_pos hnz, if_pos hloc]
  · intro hnz hns
    have hr : prepareShipment env o c [id] s
        = (.error "Shipment past the preparation stage", s) := by
      unfold prepareShipment
      rw [if_neg hne]
      simp only
      rw [if_pos hnz, if_neg hns]
    rw [hr]
    exact ⟨rfl, rfl⟩
  · intro hz
    have hgood : ∀ e, s.el id = some e → e.status = .ISSUED →
        prepareShipment env o c [id] s
          = (.success .nil, s.putShipmentLocation id SOURCE) := by
      intro e he hst
      unfold prepareShipment
      rw [if_neg hne]
      simp only [he]
      rw [if_neg (not_not.mpr hz), if_neg (not_not.mpr hst)]
    have hbad : (¬ ∃ e, s.el id = some e ∧ e.status = .ISSUED) →
        (prepareShipment env o c [id] s).1.isError = true
        ∧ (prepareShipment env o c [id] s).2 = s := by
      intro hn
      cases he : s.el id with
      | none =>
        have hr : prepareShipment env o c [id] s
            = (.error "unexpected end of JSON input", s) := by
          unfold prepareShipment
          rw [if_neg hne]
          simp only [he]
          rw [if_neg (not_not.mpr hz)]
        rw [hr]
        exact ⟨rfl, rfl⟩
      | some e =>
        have hst : e.status ≠ .ISSUED := fun h => hn ⟨e, he, h⟩
        have hr : prepareShipment env o c [id] s = (.error "E/L not issued yet", s) := by
          unfold prepareShipment
          rw [if_neg hne]
          simp only [he]
          rw [if_neg (not_not.mpr hz), if_pos hst]
        rw [hr]
        exact ⟨rfl, rfl⟩
    refine ⟨⟨fun hs => ?_, fun ⟨e, he, hst⟩ => ?_⟩, fun e he hst => ?_, fun e he hst => ?_⟩
    · by_contra hn
      exact Response.not_isError_of_isSuccess hs (hbad hn).1
    · rw [hgood e he hst]
      rfl
    · rw [hgood e he hst]
      exact ⟨rfl, by simp [Ledger.putShipmentLocation]⟩
    · have hb := hbad (fun ⟨e', he', hst'⟩ => by
        rw [he] at he'
        cases he'
        rw [hst] at hst'
        cases hst')
      exact ⟨hb.1, hb.2, by rw [hb.2]; exact hz⟩

/-- Witness for C31: after `issueEL` for trade `T1` no location is recorded and
the export license is `ISSUED`; the Exporter prepares the shipment and the
location is `SOURCE`. -/
theorem C31_prepareShipment_witness :
    (run refEnv (shipmentPrefixCalls.take 7) genesis).shipmentLocation "T1" = ""
    ∧ (prepareShipment refEnv "ExporterOrgMSP" "ca.exporterorg.trade.com" ["T1"]
        (run refEnv (shipmentPrefixCalls.take 7) genesis)).2.shipmentLocation "T1" = SOURCE :=
  ⟨by decide,
   (((C31_prepareShipment refEnv "ExporterOrgMSP" "ca.exporterorg.trade.com" "T1"
      (run refEnv (shipmentPrefixCalls.take 7) genesis) (Or.inr (by decide))).2.2
      (by decide)).2.1
      ⟨"el1", "12/31/2030", "LumberInc", "UniversalFrieght", "widgets", "ForestryDepartment",
        .ISSUED⟩ (by decide) rfl).2⟩

/-- C32: for an admitted Carrier caller of `acceptShipmentAndIssueBL` with
arguments trade id, B/L id, expiry, source port and destination port: with no
shipment location recorded, or one other than `SOURCE`, the call returns an
error and the ledger is as before, so no bill of lading is written; with the
location `SOURCE` and a stored trade agreement it succeeds and stores for the
trade the bill of lading with the B/L id, the expiry, the stored Exporter and
Carrier identities, the description of goods and the amount of the trade
agreement, the stored identity of the bank of the Importer as beneficiary and
the two ports as given; the shipment locations are as before. -/
theorem C32_acceptShipmentAndIssueBL (env : Env)
    (o c id blId expiry sourcePort destinationPort : String) (s : Ledger)
    (ha : admitted env env.authenticateCarrierOrg o c) :
    (s.shipmentLocation id ≠ SOURCE →
        (acceptShipmentAndIssueBL env o c [id, blId, expiry, sourcePort, destinationPort]
          s).1.isError = true
        ∧ (acceptShipmentAndIssueBL env o c [id, blId, expiry, sourcePort, destinationPort]
          s).2 = s)
    ∧ (∀ t, s.shipmentLocation id = SOURCE → s.trade id = some t →
        acceptShipmentAndIssueBL env o c [id, blId, expiry, sourcePort, destinationPort] s
          = (.success .nil,
              s.putBL id ⟨blId, expiry, s.exp, s.car, t.descriptionOfGoods, t.amount, s.ib,
                sourcePort, destinationPort⟩)
        ∧ (acceptShipmentAndIssueBL env o c [id, blId, expiry, sourcePort, destinationPort]
            s).2.bl id
          = some ⟨blId, expiry, s.exp, s.car, t.descriptionOfGoods, t.amount, s.ib,
              sourcePort, destinationPort⟩
        ∧ (acceptShipmentAndIssueBL env o c [id, blId, expiry, sourcePort, destinationPort]
            s).2.shipmentLocation = s.shipmentLocation) := by
  have hne := admitted_not_denied ha
  constructor
  · intro hns
    have he : (acceptShipmentAndIssueBL env o c
        [id, blId, expiry, sourcePort, destinationPort] s).1.isError = true := by
      unfold acceptShipmentAndIssueBL
      rw [if_neg hne]
      simp only
      by_cases hz : s.shipmentLocation id = ""
      · rw [if_pos hz]
        rfl
      · rw [if_neg hz, if_pos hns]
        rfl
    exact ⟨he, acceptShipmentAndIssueBL_error_ledger env o c _ s he⟩
  · intro t hloc ht
    have hnz : ¬ s.shipmentLocation id = "" := by
      rw [hloc]
      decide
    have hr : acceptShipmentAndIssueBL env o c
        [id, blId, expiry, sourcePort, destinationPort] s
        = (.success .nil,
            s.putBL id ⟨blId, expiry, s.exp, s.car, t.descriptionOfGoods, t.amount, s.ib,
              sourcePort, destinationPort⟩) := by
      unfold acceptShipmentAndIssueBL
      rw [if_neg hne]
      simp only [ht]
      rw [if_neg hnz, if_neg (not_not.mpr hloc)]
    rw [hr]
    exact ⟨rfl, by simp [Ledger.putBL], rfl⟩

/-- Witness for C32: after `prepareShipment` for trade `T1` the Carrier accepts
the shipment and issues the bill of lading `bl1` from Mumbai to Rotterdam. -/
theorem C32_acceptShipmentAndIssueBL_witness :
    (acceptShipmentAndIssueBL refEnv "CarrierOrgMSP" "ca.carrierorg.trade.com"
        ["T1", "bl1", "12/31/2030", "Mumbai", "Rotterdam"]
        (run refEnv (shipmentPrefixCalls.take 8) genesis)).2.bl "T1"
      = some ⟨"bl1", "12/31/2030", "LumberInc", "UniversalFrieght", "widgets", 1000,
          "ToyBank", "Mumbai", "Rotterdam"⟩ :=
  ((C32_acceptShipmentAndIssueBL refEnv "CarrierOrgMSP" "ca.carrierorg.trade.com" "T1" "bl1"
      "12/31/2030" "Mumbai" "Rotterdam" (run refEnv (shipmentPrefixCalls.take 8) genesis)
      (Or.inr (by decide))).2 ⟨1000, "widgets", .ACCEPTED, 0⟩ (by decide) (by decide)).2.1

/-- C34: for an admitted Carrier caller of `updateShipmentLocation` with
arguments trade id, location and date on a trade whose shipment location is
recorded, whatever the location given: the call succeeds and the stored
location is the given one; the arrival date becomes the given date when the
location given is `DESTINATION` and differs from the current one, and the
arrival dates are as before when the location given is the current one or is
not `DESTINATION`. -/
theorem C34_updateShipmentLocation (env : Env) (o c id location date : String) (s : Ledger)
    (ha : admitted env env.authenticateCarrierOrg o c) (h : s.shipmentLocation id ≠ "") :
    (updateShipmentLocation env o c [id, location, date] s).1 = .success .nil
    ∧ (updateShipmentLocation env o c [id, location, date] s).2.shipmentLocation id = location
    ∧ (location = DESTINATION → s.shipmentLocation id ≠ location →
        (updateShipmentLocation env o c [id, location, date] s).2.arrivalDate id = date)
    ∧ (s.shipmentLocation id = location ∨ location ≠ DESTINATION →
        (updateShipmentLocation env o c [id, location, date] s).2.arrivalDate
          = s.arrivalDate) := by
  have hne := admitted_not_denied ha
  have hr : updateShipmentLocation env o c [id, location, date] s
      = (.success .nil,
          (if s.shipmentLocation id = location then s
            else if location = DESTINATION then s.putArrivalDate id date
            else s).putShipmentLocation id location) := by
    unfold updateShipmentLocation
    rw [if_neg hne]
    simp only
    rw [if_neg h]
  rw [hr]
  refine ⟨rfl, by simp [Ledger.putShipmentLocation], ?_, ?_⟩
  · intro hd hdiff
    simp only [if_neg hdiff, if_pos hd]
    simp [Ledger.putShipmentLocation, Ledger.putArrivalDate]
  · rintro (hsame | hnd)
    · simp only [if_pos hsame]
      rfl
    · by_cases hsame : s.shipmentLocation id = location
      · simp only [if_pos hsame]
        rfl
      · simp only [if_neg hsame, if_neg hnd]
        rfl

/-- Witness for C34: on the ledger with the shipment of `T1` at `SOURCE` the
Carrier reports the arrival at `DESTINATION` on 1 January 2020. -/
theorem C34_updateShipmentLocation_witness :
    (updateShipmentLocation refEnv "CarrierOrgMSP" "ca.carrierorg.trade.com"
        ["T1", "DESTINATION", "01/01/2020"] preparedLedger).2.shipmentLocation "T1"
      = "DESTINATION"
    ∧ (updateShipmentLocation refEnv "CarrierOrgMSP" "ca.carrierorg.trade.com"
        ["T1", "DESTINATION", "01/01/2020"] preparedLedger).2.arrivalDate "T1"
      = "01/01/2020" :=
  ⟨(C34_updateShipmentLocation refEnv "CarrierOrgMSP" "ca.carrierorg.trade.com" "T1"
      "DESTINATION" "01/01/2020" preparedLedger (Or.inr (by decide)) (by decide)).2.1,
   (C34_updateShipmentLocation refEnv "CarrierOrgMSP" "ca.carrierorg.trade.com" "T1"
      "DESTINATION" "01/01/2020" preparedLedger (Or.inr (by decide)) (by decide)).2.2.1 rfl
      (by decide)⟩

/-! ## Frames of the shipment records and the balances -/

/-- Across any dispatched function other than `prepareShipment` and
`updateShipmentLocation` the shipment locations are as before. -/
theorem Invoke_shipmentLocation (env : Env) (tx : Tx) (fn : String) (args : List String)
    (s : Ledger) (h0 : fn ≠ "prepareShipment") (h1 : fn ≠ "updateShipmentLocation") :
    (Invoke env tx fn args s).2.shipmentLocation = s.shipmentLocation :=
  Invoke_cases (P := fun r => r.2.shipmentLocation = s.shipmentLocation) env tx fn args s
    (fun _ o c => by
      show (requestTrade env tx.tradelimit o c args s).2.shipmentLocation = s.shipmentLocation
      unfold requestTrade
      repeat' split
      all_goals rfl)
    (fun _ o c => by
      show (acceptTrade env o c args s).2.shipmentLocation = s.shipmentLocation
      unfold acceptTrade
      repeat' split
      all_goals rfl)
    (fun _ o c => by
      show (requestLC env o c args s).2.shipmentLocation = s.shipmentLocation
      unfold requestLC
      repeat' split
      all_goals rfl)
    (fun _ o c => by
      show (issueLC env o c args s).2.shipmentLocation = s.shipmentLocation
      unfold issueLC
      repeat' split
      all_goals rfl)
    (fun _ o c => by
      show (acceptLC env o c args s).2.shipmentLocation = s.shipmentLocation
      unfold acceptLC
      repeat' split
      all_goals rfl)
    (fun _ o c => by
      show (requestLCTransfer env o c args s).2.shipmentLocation = s.shipmentLocation
      unfold requestLCTransfer
      repeat' split
      all_goals rfl)
    (fun _ o c => by
      show (issueLCTransfer env o c args s).2.shipmentLocation = s.shipmentLocation
      unfold issueLCTransfer
      repeat' split
      all_goals rfl)
    (fun _ o c => by
      show (acceptLCTransfer env o c args s).2.shipmentLocation = s.shipmentLocation
      unfold acceptLCTransfer
      repeat' split
      all_goals rfl)
    (fun _ o c => by
      show (requestEL env o c args s).2.shipmentLocation = s.shipmentLocation
      unfold requestEL
      repeat' split
      all_goals rfl)
    (fun _ o c => by
      show (issueEL env o c args s).2.shipmentLocation = s.shipmentLocation
      unfold issueEL
      repeat' split
      all_goals rfl)
    (fun h => absurd h h0)
    (fun _ o c => by
      show (acceptShipmentAndIssueBL env o c args s).2.shipmentLocation = s.shipmentLocation
      unfold acceptShipmentAndIssueBL
      repeat' split
      all_goals rfl)
    (fun _ o c => by
      show (requestAdvancePayment env o c args s).2.shipmentLocation = s.shipmentLocation
      unfold requestAdvancePayment
      repeat' split
      all_goals rfl)
    (fun _ o c => by
      show (makeAdvancePayment env o c args s).2.shipmentLocation = s.shipmentLocation
      unfold makeAdvancePayment
      repeat' split
      all_goals rfl)
    (fun _ o c => by
      show (requestPayment env o c args s).2.shipmentLocation = s.shipmentLocation
      unfold requestPayment
      repeat' split
      all_goals rfl)
    (fun _ o c => by
      show (makePayment env o c args s).2.shipmentLocation = s.shipmentLocation
      unfold makePayment
      repeat' split
      all_goals rfl)
    (fun h => absurd h h1)
    (fun _ o c => by
      show (getTradeStatus env o c args s).2.shipmentLocation = s.shipmentLocation
      rw [getTradeStatus_ledger])
    (fun _ o c => by
      show (getLCStatus env o c args s).2.shipmentLocation = s.shipmentLocation
      rw [getLCStatus_ledger])
    (fun _ o c => by
      show (getELStatus env o c args s).2.shipmentLocation = s.shipmentLocation
      rw [getELStatus_ledger])
    (fun _ o c => by
      show (getShipmentLocation env o c args s).2.shipmentLocation = s.shipmentLocation
      rw [getShipmentLocation_ledger])
    (fun _ o c => by
      show (getArrivalDate env o c args s).2.shipmentLocation = s.shipmentLocation
      rw [getArrivalDate_ledger])
    (fun _ o c => by
      show (getBillOfLading env o c args s).2.shipmentLocation = s.shipmentLocation
      rw [getBillOfLading_ledger])
    (fun _ o c => by
      show (getAccountBalance env o c args s).2.shipmentLocation = s.shipmentLocation
      rw [getAccountBalance_ledger])
    (fun _ => rfl)

/-- Across any dispatched function other than `acceptShipmentAndIssueBL` the
bills of lading are as before. -/
theorem Invoke_bl (env : Env) (tx : Tx) (fn : String) (args : List String)
    (s : Ledger) (h0 : fn ≠ "acceptShipmentAndIssueBL") :
    (Invoke env tx fn args s).2.bl = s.bl :=
  Invoke_cases (P := fun r => r.2.bl = s.bl) env tx fn args s
    (fun _ o c => by
      show (requestTrade env tx.tradelimit o c args s).2.bl = s.bl
      unfold requestTrade
      repeat' split
      all_goals rfl)
    (fun _ o c => by
      show (acceptTrade env o c args s).2.bl = s.bl
      unfold acceptTrade
      repeat' split
      all_goals rfl)
    (fun _ o c => by
      show (requestLC env o c args s).2.bl = s.bl
      unfold requestLC
      repeat' split
      all_goals rfl)
    (fun _ o c => by
      show (issueLC env o c args s).2.bl = s.bl
      unfold issueLC
      repeat' split
      all_goals rfl)
    (fun _ o c => by
      show (acceptLC env o c args s).2.bl = s.bl
      unfold acceptLC
      repeat' split
      all_goals rfl)
    (fun _ o c => by
      show (requestLCTransfer env o c args s).2.bl = s.bl
      unfold requestLCTransfer
      repeat' split
      all_goals rfl)
    (fun _ o c => by
      show (issueLCTransfer env o c args s).2.bl = s.bl
      unfold issueLCTransfer
      repeat' split
      all_goals rfl)
    (fun _ o c => by
      show (acceptLCTransfer env o c args s).2.bl = s.bl
      unfold acceptLCTransfer
      repeat' split
      all_goals rfl)
    (fun _ o c => by
      show (requestEL env o c args s).2.bl = s.bl
      unfold requestEL
      repeat' split
      all_goals rfl)
    (fun _ o c => by
      show (issueEL env o c args s).2.bl = s.bl
      unfold issueEL
      repeat' split
      all_goals rfl)
    (fun _ o c => by
      show (prepareShipment env o c args s).2.bl = s.bl
      unfold prepareShipment
      repeat' split
      all_goals rfl)
    (fun h => absurd h h0)
    (fun _ o c => by
      show (requestAdvancePayment env o c args s).2.bl = s.bl
      unfold requestAdvancePayment
      repeat' split
      all_goals rfl)
    (fun _ o c => by
      show (makeAdvancePayment env o c args s).2.bl = s.bl
      unfold makeAdvancePayment
      repeat' split
      all_goals rfl)
    (fun _ o c => by
      show (requestPayment env o c args s).2.bl = s.bl
      unfold requestPayment
      repeat' split
      all_goals rfl)
    (fun _ o c => by
      show (makePayment env o c args s).2.bl = s.bl
      unfold makePayment
      repeat' split
      all_goals rfl)
    (fun _ o c => by
      show (updateShipmentLocation env o c args s).2.bl = s.bl
      unfold updateShipmentLocation
      repeat' split
      all_goals rfl)
    (fun _ o c => by
      show (getTradeStatus env o c args s).2.bl = s.bl
      rw [getTradeStatus_ledger])
    (fun _ o c => by
      show (getLCStatus env o c args s).2.bl = s.bl
      rw [getLCStatus_ledger])
    (fun _ o c => by
      show (getELStatus env o c args s).2.bl = s.bl
      rw [getELStatus_ledger])
    (fun _ o c => by
      show (getShipmentLocation env o c args s).2.bl = s.bl
      rw [getShipmentLocation_ledger])
    (fun _ o c => by
      show (getArrivalDate env o c args s).2.bl = s.bl
      rw [getArrivalDate_ledger])
    (fun _ o c => by
      show (getBillOfLading env o c args s).2.bl = s.bl
      rw [getBillOfLading_ledger])
    (fun _ o c => by
      show (getAccountBalance env o c args s).2.bl = s.bl
      rw [getAccountBalance_ledger])
    (fun _ => rfl)

/-- Across any dispatched function other than `updateShipmentLocation` the
arrival dates are as before. -/
theorem Invoke_arrivalDate (env : Env) (tx : Tx) (fn : String) (args : List String)
    (s : Ledger) (h0 : fn ≠ "updateShipmentLocation") :
    (Invoke env tx fn args s).2.arrivalDate = s.arrivalDate :=
  Invoke_cases (P := fun r => r.2.arrivalDate = s.arrivalDate) env tx fn args s
    (fun _ o c => by
      show (requestTrade env tx.tradelimit o c args s).2.arrivalDate = s.arrivalDate
      unfold requestTrade
      repeat' split
      all_goals rfl)
    (fun _ o c => by
      show (acceptTrade env o c args s).2.arrivalDate = s.arrivalDate
      unfold acceptTrade
      repeat' split
      all_goals rfl)
    (fun _ o c => by
      show (requestLC env o c args s).2.arrivalDate = s.arrivalDate
      unfold requestLC
      repeat' split
      all_goals rfl)
    (fun _ o c => by
      show (issueLC env o c args s).2.arrivalDate = s.arrivalDate
      unfold issueLC
      repeat' split
      all_goals rfl)
    (fun _ o c => by
      show (acceptLC env o c args s).2.arrivalDate = s.arrivalDate
      unfold acceptLC
      repeat' split
      all_goals rfl)
    (fun _ o c => by
      show (requestLCTransfer env o c args s).2.arrivalDate = s.arrivalDate
      unfold requestLCTransfer
      repeat' split
      all_goals rfl)
    (fun _ o c => by
      show (issueLCTransfer env o c args s).2.arrivalDate = s.arrivalDate
      unfold issueLCTransfer
      repeat' split
      all_goals rfl)
    (fun _ o c => by
      show (acceptLCTransfer env o c args s).2.arrivalDate = s.arrivalDate
      unfold acceptLCTransfer
      repeat' split
      all_goals rfl)
    (fun _ o c => by
      show (requestEL env o c args s).2.arrivalDate = s.arrivalDate
      unfold requestEL
      repeat' split
      all_goals rfl)
    (fun _ o c => by
      show (issueEL env o c args s).2.arrivalDate = s.arrivalDate
      unfold issueEL
      repeat' split
      all_goals rfl)
    (fun _ o c => by
      show (prepareShipment env o c args s).2.arrivalDate = s.arrivalDate
      unfold prepareShipment
      repeat' split
      all_goals rfl)
    (fun _ o c => by
      show (acceptShipmentAndIssueBL env o c args s).2.arrivalDate = s.arrivalDate
      unfold acceptShipmentAndIssueBL
      repeat' split
      all_goals rfl)
    (fun _ o c => by
      show (requestAdvancePayment env o c args s).2.arrivalDate = s.arrivalDate
      unfold requestAdvancePayment
      repeat' split
      all_goals rfl)
    (fun _ o c => by
      show (makeAdvancePayment env o c args s).2.arrivalDate = s.arrivalDate
      unfold makeAdvancePayment
      repeat' split
      all_goals rfl)
    (fun _ o c => by
      show (requestPayment env o c args s).2.arrivalDate = s.arrivalDate
      unfold requestPayment
      repeat' split
      all_goals rfl)
    (fun _ o c => by
      show (makePayment env o c args s).2.arrivalDate = s.arrivalDate
      unfold makePayment
      repeat' split
      all_goals rfl)
    (fun h => absurd h h0)
    (fun _ o c => by
      show (getTradeStatus env o c args s).2.arrivalDate = s.arrivalDate
      rw [getTradeStatus_ledger])
    (fun _ o c => by
      show (getLCStatus env o c args s).2.arrivalDate = s.arrivalDate
      rw [getLCStatus_ledger])
    (fun _ o c => by
      show (getELStatus env o c args s).2.arrivalDate = s.arrivalDate
      rw [getELStatus_ledger])
    (fun _ o c => by
      show (getShipmentLocation env o c args s).2.arrivalDate = s.arrivalDate
      rw [getShipmentLocation_ledger])
    (fun _ o c => by
      show (getArrivalDate env o c args s).2.arrivalDate = s.arrivalDate
      rw [getArrivalDate_ledger])
    (fun _ o c => by
      show (getBillOfLading env o c args s).2.arrivalDate = s.arrivalDate
      rw [getBillOfLading_ledger])
    (fun _ o c => by
      show (getAccountBalance env o c args s).2.arrivalDate = s.arrivalDate
      rw [getAccountBalance_ledger])
    (fun _ => rfl)

/-- Across any dispatched function other than `makeAdvancePayment` and
`makePayment` the three balances are as before. -/
theorem Invoke_balances (env : Env) (tx : Tx) (fn : String) (args : List String)
    (s : Ledger) (h0 : fn ≠ "makeAdvancePayment") (h1 : fn ≠ "makePayment") :
    (Invoke env tx fn args s).2.expBal = s.expBal ∧ (Invoke env tx fn args s).2.impBal = s.impBal
      ∧ (Invoke env tx fn args s).2.lenBal = s.lenBal :=
  Invoke_cases (P := fun r => r.2.expBal = s.expBal ∧ r.2.impBal = s.impBal
      ∧ r.2.lenBal = s.lenBal) env tx fn args s
    (fun _ o c => by
      show (requestTrade env tx.tradelimit o c args s).2.expBal = s.expBal ∧ (requestTrade env tx.tradelimit o c args s).2.impBal = s.impBal
      ∧ (requestTrade env tx.tradelimit o c args s).2.lenBal = s.lenBal
      unfold requestTrade
      repeat' split
      all_goals exact ⟨rfl, rfl, rfl⟩)
    (fun _ o c => by
      show (acceptTrade env o c args s).2.expBal = s.expBal ∧ (acceptTrade env o c args s).2.impBal = s.impBal
      ∧ (acceptTrade env o c args s).2.lenBal = s.lenBal
      unfold acceptTrade
      repeat' split
      all_goals exact ⟨rfl, rfl, rfl⟩)
    (fun _ o c => by
      show (requestLC env o c args s).2.expBal = s.expBal ∧ (requestLC env o c args s).2.impBal = s.impBal
      ∧ (requestLC env o c args s).2.lenBal = s.lenBal
      unfold requestLC
      repeat' split
      all_goals exact ⟨rfl, rfl, rfl⟩)
    (fun _ o c => by
      show (issueLC env o c args s).2.expBal = s.expBal ∧ (issueLC env o c args s).2.impBal = s.impBal
      ∧ (issueLC env o c args s).2.lenBal = s.lenBal
      unfold issueLC
      repeat' split
      all_goals exact ⟨rfl, rfl, rfl⟩)
    (fun _ o c => by
      show (acceptLC env o c args s).2.expBal = s.expBal ∧ (acceptLC env o c args s).2.impBal = s.impBal
      ∧ (acceptLC env o c args s).2.lenBal = s.lenBal
      unfold acceptLC
      repeat' split
      all_goals exact ⟨rfl, rfl, rfl⟩)
    (fun _ o c => by
      show (requestLCTransfer env o c args s).2.expBal = s.expBal ∧ (requestLCTransfer env o c args s).2.impBal = s.impBal
      ∧ (requestLCTransfer env o c args s).2.lenBal = s.lenBal
      unfold requestLCTransfer
      repeat' split
      all_goals exact ⟨rfl, rfl, rfl⟩)
    (fun _ o c => by
      show (issueLCTransfer env o c args s).2.expBal = s.expBal ∧ (issueLCTransfer env o c args s).2.impBal = s.impBal
      ∧ (issueLCTransfer env o c args s).2.lenBal = s.lenBal
      unfold issueLCTransfer
      repeat' split
      all_goals exact ⟨rfl, rfl, rfl⟩)
    (fun _ o c => by
      show (acceptLCTransfer env o c args s).2.expBal = s.expBal ∧ (acceptLCTransfer env o c args s).2.impBal = s.impBal
      ∧ (acceptLCTransfer env o c args s).2.lenBal = s.lenBal
      unfold acceptLCTransfer
      repeat' split
      all_goals exact ⟨rfl, rfl, rfl⟩)
    (fun _ o c => by
      show (requestEL env o c args s).2.expBal = s.expBal ∧ (requestEL env o c args s).2.impBal = s.impBal
      ∧ (requestEL env o c args s).2.lenBal = s.lenBal
      unfold requestEL
      repeat' split
      all_goals exact ⟨rfl, rfl, rfl⟩)
    (fun _ o c => by
      show (issueEL env o c args s).2.expBal = s.expBal ∧ (issueEL env o c args s).2.impBal = s.impBal
      ∧ (issueEL env o c args s).2.lenBal = s.lenBal
      unfold issueEL
      repeat' split
      all_goals exact ⟨rfl, rfl, rfl⟩)
    (fun _ o c => by
      show (prepareShipment env o c args s).2.expBal = s.expBal ∧ (prepareShipment env o c args s).2.impBal = s.impBal
      ∧ (prepareShipment env o c args s).2.lenBal = s.lenBal
      unfold prepareShipment
      repeat' split
      all_goals exact ⟨rfl, rfl, rfl⟩)
    (fun _ o c => by
      show (acceptShipmentAndIssueBL env o c args s).2.expBal = s.expBal ∧ (acceptShipmentAndIssueBL env o c args s).2.impBal = s.impBal
      ∧ (acceptShipmentAndIssueBL env o c args s).2.lenBal = s.lenBal
      unfold acceptShipmentAndIssueBL
      repeat' split
      all_goals exact ⟨rfl, rfl, rfl⟩)
    (fun _ o c => by
      show (requestAdvancePayment env o c args s).2.expBal = s.expBal ∧ (requestAdvancePayment env o c args s).2.impBal = s.impBal
      ∧ (requestAdvancePayment env o c args s).2.lenBal = s.lenBal
      unfold requestAdvancePayment
      repeat' split
      all_goals exact ⟨rfl, rfl, rfl⟩)
    (fun h => absurd h h0)
    (fun _ o c => by
      show (requestPayment env o c args s).2.expBal = s.expBal ∧ (requestPayment env o c args s).2.impBal = s.impBal
      ∧ (requestPayment env o c args s).2.lenBal = s.lenBal
      unfold requestPayment
      repeat' split
      all_goals exact ⟨rfl, rfl, rfl⟩)
    (fun h => absurd h h1)
    (fun _ o c => by
      show (updateShipmentLocation env o c args s).2.expBal = s.expBal ∧ (updateShipmentLocation env o c args s).2.impBal = s.impBal
      ∧ (updateShipmentLocation env o c args s).2.lenBal = s.lenBal
      unfold updateShipmentLocation
      repeat' split
      all_goals exact ⟨rfl, rfl, rfl⟩)
    (fun _ o c => by
      show (getTradeStatus env o c args s).2.expBal = s.expBal ∧ (getTradeStatus env o c args s).2.impBal = s.impBal
      ∧ (getTradeStatus env o c args s).2.lenBal = s.lenBal
      rw [getTradeStatus_ledger]
      exact ⟨rfl, rfl, rfl⟩)
    (fun _ o c => by
      show (getLCStatus env o c args s).2.expBal = s.expBal ∧ (getLCStatus env o c args s).2.impBal = s.impBal
      ∧ (getLCStatus env o c args s).2.lenBal = s.lenBal
      rw [getLCStatus_ledger]
      exact ⟨rfl, rfl, rfl⟩)
    (fun _ o c => by
      show (getELStatus env o c args s).2.expBal = s.expBal ∧ (getELStatus env o c args s).2.impBal = s.impBal
      ∧ (getELStatus env o c args s).2.lenBal = s.lenBal
      rw [getELStatus_ledger]
      exact ⟨rfl, rfl, rfl⟩)
    (fun _ o c => by
      show (getShipmentLocation env o c args s).2.expBal = s.expBal ∧ (getShipmentLocation env o c args s).2.impBal = s.impBal
      ∧ (getShipmentLocation env o c args s).2.lenBal = s.lenBal
      rw [getShipmentLocation_ledger]
      exact ⟨rfl, rfl, rfl⟩)
    (fun _ o c => by
      show (getArrivalDate env o c args s).2.expBal = s.expBal ∧ (getArrivalDate env o c args s).2.impBal = s.impBal
      ∧ (getArrivalDate env o c args s).2.lenBal = s.lenBal
      rw [getArrivalDate_ledger]
      exact ⟨rfl, rfl, rfl⟩)
    (fun _ o c => by
      show (getBillOfLading env o c args s).2.expBal = s.expBal ∧ (getBillOfLading env o c args s).2.impBal = s.impBal
      ∧ (getBillOfLading env o c args s).2.lenBal = s.lenBal
      rw [getBillOfLading_ledger]
      exact ⟨rfl, rfl, rfl⟩)
    (fun _ o c => by
      show (getAccountBalance env o c args s).2.expBal = s.expBal ∧ (getAccountBalance env o c args s).2.impBal = s.impBal
      ∧ (getAccountBalance env o c args s).2.lenBal = s.lenBal
      rw [getAccountBalance_ledger]
      exact ⟨rfl, rfl, rfl⟩)
    (fun _ => by exact ⟨rfl, rfl, rfl⟩)

/-- With no shipment location recorded for a trade, `prepareShipment` leaves it
absent or records `SOURCE`. -/
theorem prepareShipment_location_absent (env : Env) (o c : String) (args : List String)
    (s : Ledger) (id : String) (h : s.shipmentLocation id = "") :
    (prepareShipment env o c args s).2.shipmentLocation id = ""
    ∨ (prepareShipment env o c args s).2.shipmentLocation id = SOURCE := by
  unfold prepareShipment
  repeat' split
  all_goals first
    | exact Or.inl h
    | skip
  rename_i id0 _ _ _ _ _
  by_cases hid : id = id0
  · subst hid
    exact Or.inr (by simp [Ledger.putShipmentLocation])
  · exact Or.inl (by simpa [Ledger.putShipmentLocation, Function.update_noteq hid] using h)

/-- With no shipment location recorded for a trade, `updateShipmentLocation`
leaves it absent. -/
theorem updateShipmentLocation_location_absent (env : Env) (o c : String)
    (args : List String) (s : Ledger) (id : String) (h : s.shipmentLocation id = "") :
    (updateShipmentLocation env o c args s).2.shipmentLocation id = "" := by
  unfold updateShipmentLocation
  split
  · exact h
  · split
    · rename_i id0 location date
      split
      · exact h
      · rename_i hnz
        have hid : id ≠ id0 := fun hc => hnz (hc ▸ h)
        have hs1 : (if s.shipmentLocation id0 = location then s
            else if location = DESTINATION then s.putArrivalDate id0 date
            else s).shipmentLocation = s.shipmentLocation := by
          split_ifs <;> rfl
        show Function.update (if s.shipmentLocation id0 = location then s
            else if location = DESTINATION then s.putArrivalDate id0 date
            else s).shipmentLocation id0 location id = ""
        rw [Function.update_noteq hid, hs1]
        exact h
    · exact h

/-- C40: for a trade with no shipment location recorded, every caller and every
location and date, `updateShipmentLocation` returns an error, for an
admitted caller the error `Shipment not prepared yet`, and leaves the ledger
as before, so neither a location nor an arrival date is recorded; and when
any dispatched function leaves a location recorded for such a trade, the
function is `prepareShipment` and the location is `SOURCE`. -/
theorem C40_updateShipmentLocation_cannot_start (env : Env) (tx : Tx) (fn : String)
    (args : List String) (o c id location date : String) (s : Ledger)
    (h : s.shipmentLocation id = "") :
    (updateShipmentLocation env o c [id, location, date] s).1.isError = true
    ∧ (updateShipmentLocation env o c [id, location, date] s).2 = s
    ∧ (admitted env env.authenticateCarrierOrg o c →
        (updateShipmentLocation env o c [id, location, date] s).1
          = .error "Shipment not prepared yet")
    ∧ ((Invoke env tx fn args s).2.shipmentLocation id ≠ "" →
        fn = "prepareShipment" ∧ (Invoke env tx fn args s).2.shipmentLocation id = SOURCE) := by
  have hk : (updateShipmentLocation env o c [id, location, date] s).1.isError = true
      ∧ (¬ ((!env.testMode && !env.authenticateCarrierOrg o c) = true) →
        (updateShipmentLocation env o c [id, location, date] s).1
          = .error "Shipment not prepared yet") := by
    unfold updateShipmentLocation
    split
    · exact ⟨rfl, fun hn => absurd ‹_› hn⟩
    · simp only
      rw [if_pos h]
      exact ⟨rfl, fun _ => rfl⟩
  refine ⟨hk.1, updateShipmentLocation_error_ledger env o c _ s hk.1,
    fun ha => hk.2 (admitted_not_denied ha), ?_⟩
  intro hnz
  by_cases hp : fn = "prepareShipment"
  · subst hp
    refine ⟨rfl, ?_⟩
    revert hnz
    refine Invoke_prepareShipment
      (P := fun r => r.2.shipmentLocation id ≠ "" → r.2.shipmentLocation id = SOURCE)
      env tx args s (fun o1 c1 hne => ?_) (fun hne => absurd h hne)
    rcases prepareShipment_location_absent env o1 c1 args s id h with h1 | h1
    · exact absurd h1 hne
    · exact h1
  · by_cases hu : fn = "updateShipmentLocation"
    · subst hu
      exact absurd (Invoke_updateShipmentLocation
        (P := fun r => r.2.shipmentLocation id = "") env tx args s
        (fun o1 c1 => updateShipmentLocation_location_absent env o1 c1 args s id h) h) hnz
    · exact absurd (by rw [Invoke_shipmentLocation env tx fn args s hp hu]; exact h) hnz

/-- Witness for C40: on the bootstrapped ledger no location is recorded for
`T1`; the Carrier reports a location and gets the error. -/
theorem C40_updateShipmentLocation_cannot_start_witness :
    (updateShipmentLocation refEnv "CarrierOrgMSP" "ca.carrierorg.trade.com"
        ["T1", "DESTINATION", "01/01/2020"] genesis).1 = .error "Shipment not prepared yet"
    ∧ (updateShipmentLocation refEnv "CarrierOrgMSP" "ca.carrierorg.trade.com"
        ["T1", "DESTINATION", "01/01/2020"] genesis).2 = genesis :=
  ⟨(C40_updateShipmentLocation_cannot_start refEnv carrierTx "updateShipmentLocation"
      ["T1", "DESTINATION", "01/01/2020"] "CarrierOrgMSP" "ca.carrierorg.trade.com" "T1"
      "DESTINATION" "01/01/2020" genesis (by decide)).2.2.1 (Or.inr (by decide)),
   (C40_updateShipmentLocation_cannot_start refEnv carrierTx "updateShipmentLocation"
      ["T1", "DESTINATION", "01/01/2020"] "CarrierOrgMSP" "ca.carrierorg.trade.com" "T1"
      "DESTINATION" "01/01/2020" genesis (by decide)).2.1⟩

/-! ## The bill of lading and the arrival date -/

/-- Once the shipment of a trade is not at `SOURCE`, `acceptShipmentAndIssueBL`
leaves the bill of lading of that trade as it is. -/
theorem acceptShipmentAndIssueBL_bl_shipped (env : Env) (o c : String) (args : List String)
    (s : Ledger) (id : String) (h : s.shipmentLocation id ≠ SOURCE) :
    (acceptShipmentAndIssueBL env o c args s).2.bl id = s.bl id := by
  unfold acceptShipmentAndIssueBL
  repeat' split
  all_goals first
    | rfl
    | skip
  rename_i id0 _ _ _ _ _ hsrc _ _ _
  have hid : id ≠ id0 := fun hc => h (hc ▸ not_not.mp hsrc)
  simp [Ledger.putBL, Function.update_noteq hid]

/-- The bill of lading of a trade is left as it is by every dispatched function
other than `acceptShipmentAndIssueBL`, and by every dispatched function once
the shipment of the trade is not at `SOURCE`. -/
theorem bl_stays_except_acceptShipmentAndIssueBL (env : Env) (tx : Tx) (fn : String)
    (args : List String) (s : Ledger) (id : String)
    (h : fn ≠ "acceptShipmentAndIssueBL" ∨ s.shipmentLocation id ≠ SOURCE) :
    (Invoke env tx fn args s).2.bl id = s.bl id := by
  by_cases hfn : fn = "acceptShipmentAndIssueBL"
  · subst hfn
    rcases h with h | h
    · exact absurd rfl h
    · exact Invoke_acceptShipmentAndIssueBL (P := fun r => r.2.bl id = s.bl id) env tx args s
        (fun o c => acceptShipmentAndIssueBL_bl_shipped env o c args s id h) rfl
  · rw [Invoke_bl env tx fn args s hfn]

/-- C33 (the code at the failing input): on the ledger with the shipment of `T1`
accepted by the Carrier the bill of lading `bl1` from Mumbai to Rotterdam is
stored and the shipment is still at `SOURCE`; the Carrier calls
`acceptShipmentAndIssueBL` for `T1` again with another B/L id, expiry and
ports, the call succeeds and the stored bill of lading is the new one. -/
theorem C33_bill_of_lading_overwritten :
    preparedLedger.bl "T1"
        = some ⟨"bl1", "12/31/2030", "LumberInc", "UniversalFrieght", "widgets", 1000,
            "ToyBank", "Mumbai", "Rotterdam"⟩
    ∧ preparedLedger.shipmentLocation "T1" = SOURCE
    ∧ (Invoke refEnv carrierTx "acceptShipmentAndIssueBL"
        ["T1", "bl2", "01/31/2031", "Chennai", "Hamburg"] preparedLedger).1 = .success .nil
    ∧ (Invoke refEnv carrierTx "acceptShipmentAndIssueBL"
        ["T1", "bl2", "01/31/2031", "Chennai", "Hamburg"] preparedLedger).2.bl "T1"
        = some ⟨"bl2", "01/31/2031", "LumberInc", "UniversalFrieght", "widgets", 1000,
            "ToyBank", "Chennai", "Hamburg"⟩ := by
  decide

/-- What `updateShipmentLocation` does to the arrival date of a trade: it leaves
it, or the call is for that trade, to `DESTINATION`, while another location
is recorded, and the arrival date is the date given. -/
theorem updateShipmentLocation_arrivalDate (env : Env) (o c : String) (args : List String)
    (s : Ledger) (id : String) :
    (updateShipmentLocation env o c args s).2.arrivalDate id = s.arrivalDate id
    ∨ ∃ date, args = [id, DESTINATION, date] ∧ s.shipmentLocation id ≠ ""
        ∧ s.shipmentLocation id ≠ DESTINATION
        ∧ (updateShipmentLocation env o c args s).2.arrivalDate id = date := by
  unfold updateShipmentLocation
  split
  · exact Or.inl rfl
  · split
    · rename_i id0 location date
      split
      · exact Or.inl rfl
      · rename_i hnz
        by_cases hsame : s.shipmentLocation id0 = location
        · simp only [if_pos hsame]
          exact Or.inl rfl
        · by_cases hd : location = DESTINATION
          · simp only [if_neg hsame, if_pos hd]
            by_cases hid : id = id0
            · subst hid
              subst hd
              exact Or.inr ⟨date, rfl, hnz, hsame,
                by simp [Ledger.putShipmentLocation, Ledger.putArrivalDate]⟩
            · exact Or.inl (by
                simp [Ledger.putShipmentLocation, Ledger.putArrivalDate,
                  Function.update_noteq hid])
          · simp only [if_neg hsame, if_neg hd]
            exact Or.inl rfl
    · exact Or.inl rfl

/-- The calls, after `shipmentPrefixCalls`, that report the arrival of the
shipment of `T1` at `DESTINATION` on 1 January 2020, then a move to another
port, then a second arrival at `DESTINATION` on 2 February 2020. -/
def secondArrivalCalls : List Call :=
  [⟨carrierTx, "updateShipmentLocation", ["T1", "DESTINATION", "01/01/2020"]⟩,
   ⟨carrierTx, "updateShipmentLocation", ["T1", "Rotterdam", "01/05/2020"]⟩,
   ⟨carrierTx, "updateShipmentLocation", ["T1", "DESTINATION", "02/02/2020"]⟩]

/-- C35 (amended): across any dispatched function, with any caller and
arguments, the arrival date recorded for a trade is as before, except across
an `updateShipmentLocation` for that trade to `DESTINATION` issued while
another location is recorded: that call makes the date it is given the arrival
date, whether or not one was recorded before. -/
theorem C35_arrivalDate_step (env : Env) (tx : Tx) (fn : String) (args : List String)
    (s : Ledger) (id : String) :
    (Invoke env tx fn args s).2.arrivalDate id = s.arrivalDate id
    ∨ (fn = "updateShipmentLocation" ∧ ∃ date, args = [id, DESTINATION, date]
        ∧ s.shipmentLocation id ≠ "" ∧ s.shipmentLocation id ≠ DESTINATION
        ∧ (Invoke env tx fn args s).2.arrivalDate id = date) := by
  by_cases hu : fn = "updateShipmentLocation"
  · subst hu
    exact Invoke_updateShipmentLocation
      (P := fun r => r.2.arrivalDate id = s.arrivalDate id
        ∨ ("updateShipmentLocation" = "updateShipmentLocation"
          ∧ ∃ date, args = [id, DESTINATION, date]
            ∧ s.shipmentLocation id ≠ "" ∧ s.shipmentLocation id ≠ DESTINATION
            ∧ r.2.arrivalDate id = date))
      env tx args s
      (fun o c => (updateShipmentLocation_arrivalDate env o c args s id).elim Or.inl
        (fun h => Or.inr ⟨rfl, h⟩))
      (Or.inl rfl)
  · exact Or.inl (by rw [Invoke_arrivalDate env tx fn args s hu])

/-- Counterexample to C35 as stated: the shipment of `T1` arrives at
`DESTINATION` on 1 January 2020, moves on, and arrives at `DESTINATION` again;
before the last call the arrival date recorded is `01/01/2020`, after it the
arrival date is `02/02/2020`. -/
theorem C35_counterexample :
    (run refEnv (secondArrivalCalls.take 2) preparedLedger).arrivalDate "T1" = "01/01/2020"
    ∧ (run refEnv (secondArrivalCalls.take 2) preparedLedger).shipmentLocation "T1"
        = "Rotterdam"
    ∧ (Invoke refEnv carrierTx "updateShipmentLocation" ["T1", "DESTINATION", "02/02/2020"]
        (run refEnv (secondArrivalCalls.take 2) preparedLedger)).1 = .success .nil
    ∧ (Invoke refEnv carrierTx "updateShipmentLocation" ["T1", "DESTINATION", "02/02/2020"]
        (run refEnv (secondArrivalCalls.take 2) preparedLedger)).2.arrivalDate "T1"
        = "02/02/2020" := by
  decide

/-! ## The balances -/

/-- The Importer balance is not touched by `makeAdvancePayment`. -/
theorem makeAdvancePayment_impBal (env : Env) (o c : String) (args : List String)
    (s : Ledger) : (makeAdvancePayment env o c args s).2.impBal = s.impBal := by
  unfold makeAdvancePayment
  repeat' split
  all_goals rfl

/-- C36: across every dispatched function, transition or query, other than
`makeAdvancePayment` and `makePayment`, with any caller, arguments and
ledger, the three stored balances are as before; and across
`makeAdvancePayment` the balance of the bank of the Importer is as before. -/
theorem C36_balances_frame (env : Env) (tx : Tx) (fn : String) (args : List String)
    (s : Ledger) :
    (fn ≠ "makeAdvancePayment" → fn ≠ "makePayment" →
      (Invoke env tx fn args s).2.expBal = s.expBal
      ∧ (Invoke env tx fn args s).2.impBal = s.impBal
      ∧ (Invoke env tx fn args s).2.lenBal = s.lenBal)
    ∧ (fn = "makeAdvancePayment" → (Invoke env tx fn args s).2.impBal = s.impBal) := by
  refine ⟨fun h0 h1 => Invoke_balances env tx fn args s h0 h1, fun hfn => ?_⟩
  subst hfn
  exact Invoke_makeAdvancePayment (P := fun r => r.2.impBal = s.impBal) env tx args s
    (fun o c => makeAdvancePayment_impBal env o c args s) rfl

/-- Witness for C36: on the ledger where the advance payment of `T1` is due the
Lender makes it, and the Importer balance is still 200000. -/
theorem C36_balances_frame_witness :
    advanceDueLedger.impBal = some 200000
    ∧ (Invoke refEnv lenderTx "makeAdvancePayment" ["T1"] advanceDueLedger).1 = .success .nil
    ∧ (Invoke refEnv lenderTx "makeAdvancePayment" ["T1"] advanceDueLedger).2.impBal
        = advanceDueLedger.impBal :=
  ⟨by decide, by decide,
   (C36_balances_frame refEnv lenderTx "makeAdvancePayment" ["T1"] advanceDueLedger).2 rfl⟩

/-- C37 (amended): a successful `makeAdvancePayment` moves the advance payment
from the Lender balance to the Exporter balance, and a successful
`makePayment` moves the computed payment from the Importer balance to the
Exporter or to the Lender balance, in the 64-bit arithmetic of `int`; the sum
of the three balances after the call agrees with the sum before it modulo
`2^64`, and is equal to it whenever the exact new value of the balance
credited and the exact new value of the balance debited are inside the range
of `int`, whatever the payment amount is, negative amounts and amounts above
the balance of the payer included. -/
theorem C37_money_conserved (env : Env) (o c : String) (args : List String) (s : Ledger)
    (eb ib lb : Int) (he : s.expBal = some eb) (hi : s.impBal = some ib)
    (hl : s.lenBal = some lb) :
    ((makeAdvancePayment env o c args s).1.isSuccess = true →
      ∃ id l, args = [id] ∧ s.lc id = some l
        ∧ (makeAdvancePayment env o c args s).2.expBal
            = some (intAdd eb (advancePaymentAmount l))
        ∧ (makeAdvancePayment env o c args s).2.impBal = some ib
        ∧ (makeAdvancePayment env o c args s).2.lenBal
            = some (intSub lb (advancePaymentAmount l))
        ∧ wrap64 (intAdd eb (advancePaymentAmount l) + ib
            + intSub lb (advancePaymentAmount l)) = wrap64 (eb + ib + lb)
        ∧ (inInt64 (eb + advancePaymentAmount l) → inInt64 (lb - advancePaymentAmount l) →
            intAdd eb (advancePaymentAmount l) + ib + intSub lb (advancePaymentAmount l)
              = eb + ib + lb))
    ∧ ((makePayment env o c args s).1.isSuccess = true →
      ∃ id date t p eb1 lb1, args = [id, date] ∧ s.trade id = some t
        ∧ computePaymentAmount env s id date t = .ok p
        ∧ (makePayment env o c args s).2.expBal = some eb1
        ∧ (makePayment env o c args s).2.impBal = some (intSub ib p)
        ∧ (makePayment env o c args s).2.lenBal = some lb1
        ∧ ((eb1 = intAdd eb p ∧ lb1 = lb) ∨ (eb1 = eb ∧ lb1 = intAdd lb p))
        ∧ wrap64 (eb1 + intSub ib p + lb1) = wrap64 (eb + ib + lb)
        ∧ (inInt64 (ib - p) → inInt64 (eb + p) → inInt64 (lb + p) →
            eb1 + intSub ib p + lb1 = eb + ib + lb)) := by
  constructor
  · intro hs
    rcases makeAdvancePayment_cases env o c args s with ⟨herr, _⟩
      | ⟨id, l, eb0, lb0, hargs, _, hl0, _, _, _, he0, hlb0, h1⟩
    · exact absurd herr (Response.not_isError_of_isSuccess hs)
    · rw [he] at he0
      rw [hl] at hlb0
      cases he0
      cases hlb0
      refine ⟨id, l, hargs, hl0, by rw [h1]; rfl, by rw [h1]; exact hi, by rw [h1]; rfl, ?_,
        fun h1 h2 => ?_⟩
      · unfold intAdd intSub wrap64
        omega
      · rw [intAdd_of_inInt64 h1, intSub_of_inInt64 h2]
        omega
  · intro hs
    rcases makePayment_cases env o c args s with ⟨herr, _⟩
      | ⟨id, date, t, l, eb0, ib0, lb0, p, hargs, _, ht0, _, _, _, he0, hi0, hl0, hc,
          ⟨_, h1⟩ | ⟨_, _, h1⟩⟩
    · exact absurd herr (Response.not_isError_of_isSuccess hs)
    · rw [he] at he0
      rw [hi] at hi0
      rw [hl] at hl0
      cases he0
      cases hi0
      cases hl0
      refine ⟨id, date, t, p, intAdd eb p, lb, hargs, ht0, hc, by rw [h1]; rfl,
        by rw [h1]; rfl, by rw [h1]; rfl, Or.inl ⟨rfl, rfl⟩, ?_, fun h2 h3 _ => ?_⟩
      · unfold intAdd intSub wrap64
        omega
      · rw [intAdd_of_inInt64 h3, intSub_of_inInt64 h2]
        omega
    · rw [he] at he0
      rw [hi] at hi0
      rw [hl] at hl0
      cases he0
      cases hi0
      cases hl0
      refine ⟨id, date, t, p, eb, intAdd lb p, hargs, ht0, hc, by rw [h1]; rfl,
        by rw [h1]; rfl, by rw [h1]; rfl, Or.inr ⟨rfl, rfl⟩, ?_, fun h2 _ h3 => ?_⟩
      · unfold intAdd intSub wrap64
        omega
      · rw [intAdd_of_inInt64 h3, intSub_of_inInt64 h2]
        omega

/-- Witness for C37 (amended): the first installment of `T1` moves 500 from the
Importer balance to the Exporter balance; the three balances sum to 600000
before and after. -/
theorem C37_money_conserved_witness :
    (makePayment refEnv "ImporterOrgMSP" "ca.importerorg.trade.com" ["T1", "01/15/2020"]
        installmentDueLedger).2.expBal = some 100500
    ∧ (makePayment refEnv "ImporterOrgMSP" "ca.importerorg.trade.com" ["T1", "01/15/2020"]
        installmentDueLedger).2.impBal = some 199500
    ∧ (makePayment refEnv "ImporterOrgMSP" "ca.importerorg.trade.com" ["T1", "01/15/2020"]
        installmentDueLedger).2.lenBal = some 300000
    ∧ ∃ p eb1 lb1,
        (makePayment refEnv "ImporterOrgMSP" "ca.importerorg.trade.com" ["T1", "01/15/2020"]
          installmentDueLedger).2.expBal = some eb1
        ∧ (makePayment refEnv "ImporterOrgMSP" "ca.importerorg.trade.com" ["T1", "01/15/2020"]
          installmentDueLedger).2.lenBal = some lb1
        ∧ wrap64 (eb1 + intSub 200000 p + lb1) = wrap64 (100000 + 200000 + 300000) :=
  ⟨by decide, by decide, by decide,
   let ⟨_, _, _, p, eb1, lb1, _, _, _, h1, _, h3, _, h4, _⟩ :=
     (C37_money_conserved refEnv "ImporterOrgMSP" "ca.importerorg.trade.com"
        ["T1", "01/15/2020"] installmentDueLedger 100000 200000 300000 (by decide) (by decide)
        (by decide)).2 (by decide)
   ⟨p, eb1, lb1, h1, h3, h4⟩⟩

/-- Counterexample to C37 as stated.  The Exporter bank balance is
9223372036854775807 at the bootstrap and the first installment of 500 for
trade `T1` is due; the three balances sum to 9223372036855275807.
`makePayment` succeeds; afterwards the Exporter balance is
-9223372036854775309, the Importer balance 199500 and the Lender balance
300000, and their sum is -9223372036854275809, which is `2^64` less. -/
theorem C37_counterexample :
    (run refEnv (shipmentPrefixCalls ++ firstInstallmentCalls.take 1) edgeGenesis).expBal
        = some 9223372036854775807
    ∧ (run refEnv (shipmentPrefixCalls ++ firstInstallmentCalls.take 1) edgeGenesis).impBal
        = some 200000
    ∧ (run refEnv (shipmentPrefixCalls ++ firstInstallmentCalls.take 1) edgeGenesis).lenBal
        = some 300000
    ∧ (Invoke refEnv importerTx "makePayment" ["T1", "01/15/2020"]
        (run refEnv (shipmentPrefixCalls ++ firstInstallmentCalls.take 1) edgeGenesis)).1
        = .success .nil
    ∧ (run refEnv (shipmentPrefixCalls ++ firstInstallmentCalls) edgeGenesis).expBal
        = some (-9223372036854775309)
    ∧ (run refEnv (shipmentPrefixCalls ++ firstInstallmentCalls) edgeGenesis).impBal
        = some 199500
    ∧ (run refEnv (shipmentPrefixCalls ++ firstInstallmentCalls) edgeGenesis).lenBal
        = some 300000
    ∧ (9223372036854775807 : Int) + 200000 + 300000 = 9223372036855275807
    ∧ (-9223372036854775309 : Int) + 199500 + 300000 = -9223372036854275809
    ∧ (9223372036855275807 : Int) - 2 ^ 64 = -9223372036854275809 := by
  decide

/-! ## Credit plus paid -/

/-- Across any dispatched function other than `requestLC` and `makePayment`
every letter of credit keeps its amount and does not lower its status. -/
theorem Invoke_lcKeep (env : Env) (tx : Tx) (fn : String) (args : List String) (s : Ledger)
    (hlc : fn ≠ "requestLC") (hmp : fn ≠ "makePayment") :
    LCStep lcKeep s (Invoke env tx fn args s).2 :=
  Invoke_cases (P := fun r => LCStep lcKeep s r.2) env tx fn args s
    (fun _ o c => requestTrade_lcKeep env _ o c args s)
    (fun _ o c => acceptTrade_lcKeep env o c args s)
    (fun h => absurd h hlc)
    (fun _ o c => issueLC_lcKeep env o c args s)
    (fun _ o c => acceptLC_lcKeep env o c args s)
    (fun _ o c => requestLCTransfer_lcKeep env o c args s)
    (fun _ o c => issueLCTransfer_lcKeep env o c args s)
    (fun _ o c => acceptLCTransfer_lcKeep env o c args s)
    (fun _ o c => requestEL_lcKeep env o c args s)
    (fun _ o c => issueEL_lcKeep env o c args s)
    (fun _ o c => prepareShipment_lcKeep env o c args s)
    (fun _ o c => acceptShipmentAndIssueBL_lcKeep env o c args s)
    (fun _ o c => requestAdvancePayment_lcKeep env o c args s)
    (fun _ o c => makeAdvancePayment_lcKeep env o c args s)
    (fun _ o c => requestPayment_lcKeep env o c args s)
    (fun h => absurd h hmp)
    (fun _ o c => updateShipmentLocation_lcKeep env o c args s)
    (fun _ o c => LCStep.of_lc_eq lcKeep_refl (by rw [getTradeStatus_ledger]))
    (fun _ o c => LCStep.of_lc_eq lcKeep_refl (by rw [getLCStatus_ledger]))
    (fun _ o c => LCStep.of_lc_eq lcKeep_refl (by rw [getELStatus_ledger]))
    (fun _ o c => LCStep.of_lc_eq lcKeep_refl (by rw [getShipmentLocation_ledger]))
    (fun _ o c => LCStep.of_lc_eq lcKeep_refl (by rw [getArrivalDate_ledger]))
    (fun _ o c => LCStep.of_lc_eq lcKeep_refl (by rw [getBillOfLading_ledger]))
    (fun _ o c => LCStep.of_lc_eq lcKeep_refl (by rw [getAccountBalance_ledger]))
    (fun _ => LCStep.of_lc_eq lcKeep_refl rfl)

/-- What `requestLC` does to the letter of credit of a trade: it leaves it, or
the call is for that trade and stores a fresh one in status `REQUESTED` whose
amount is the trade amount. -/
theorem requestLC_lc_new (env : Env) (o c : String) (args : List String) (s : Ledger)
    (id : String) :
    (requestLC env o c args s).2.lc id = s.lc id
    ∨ (args = [id] ∧ ∃ t, s.trade id = some t
        ∧ (requestLC env o c args s).2.lc id
          = some ⟨"", "", s.exp, t.amount, [], .REQUESTED, ⟨0, 0⟩, false⟩) := by
  unfold requestLC
  repeat' split
  all_goals first
    | exact Or.inl rfl
    | skip
  rename_i id0 _ t ht _
  by_cases hid : id = id0
  · subst hid
    exact Or.inr ⟨rfl, t, ht, by simp [Ledger.putLC]⟩
  · exact Or.inl (by simp [Ledger.putLC, Function.update_noteq hid])

/-- A trade without a trade agreement has none after `acceptTrade`. -/
theorem acceptTrade_trade_none (env : Env) (o c : String) (args : List String) (s : Ledger)
    (id : String) (h : s.trade id = none) : (acceptTrade env o c args s).2.trade id = none := by
  unfold acceptTrade
  repeat' split
  all_goals first
    | exact h
    | skip
  rename_i id0 _ t0 ht0 _
  have hid : id ≠ id0 := fun hc => by
    subst hc
    rw [h] at ht0
    cases ht0
  simp [Ledger.putTrade, Function.update_noteq hid, h]

/-- What `makePayment` does to the trade agreement and the letter of credit of
a trade that has both: it leaves the amount of the trade agreement, and moves
one payment from the amount of the letter of credit to the paid amount in the
arithmetic of `int`, so that their sum is as before modulo `2^64`. -/
theorem makePayment_credit_plus_paid (env : Env) (o c : String) (args : List String)
    (s : Ledger) (id : String) (t : TradeAgreement) (l : LetterOfCredit)
    (ht : s.trade id = some t) (hl : s.lc id = some l) :
    ∃ t1 l1, (makePayment env o c args s).2.trade id = some t1
      ∧ (makePayment env o c args s).2.lc id = some l1
      ∧ t1.amount = t.amount
      ∧ wrap64 (l1.amount + t1.payment) = wrap64 (l.amount + t.payment) := by
  have key : ∀ id0 t0 l0 p eb ib lb, s.trade id0 = some t0 → s.lc id0 = some l0 →
      ∃ t1 l1,
        (settlePayment s id0 { t0 with payment := intAdd t0.payment p }
          { l0 with amount := intSub l0.amount p } eb ib lb).trade id = some t1
        ∧ (settlePayment s id0 { t0 with payment := intAdd t0.payment p }
          { l0 with amount := intSub l0.amount p } eb ib lb).lc id = some l1
        ∧ t1.amount = t.amount
        ∧ wrap64 (l1.amount + t1.payment) = wrap64 (l.amount + t.payment) := by
    intro id0 t0 l0 p eb ib lb ht0 hl0
    by_cases hid : id = id0
    · subst hid
      rw [ht] at ht0
      rw [hl] at hl0
      cases ht0
      cases hl0
      refine ⟨{ t with payment := intAdd t.payment p }, { l with amount := intSub l.amount p },
        ?_, ?_, rfl, ?_⟩
      · simp [settlePayment, Ledger.delPayment, Ledger.putLC, Ledger.putTrade]
      · simp [settlePayment, Ledger.delPayment, Ledger.putLC, Ledger.putTrade]
      · exact wrap64_intSub_add_intAdd l.amount t.payment p
    · exact ⟨t, l,
        by simp [settlePayment, Ledger.delPayment, Ledger.putLC, Ledger.putTrade,
          Function.update_noteq hid, ht],
        by simp [settlePayment, Ledger.delPayment, Ledger.putLC, Ledger.putTrade,
          Function.update_noteq hid, hl], rfl, rfl⟩
  rcases makePayment_cases env o c args s with ⟨_, h⟩ | ⟨id0, date, t0, l0, eb, ib, lb, p, _, _,
    ht0, hl0, _, _, _, _, _, _, ⟨_, h⟩ | ⟨_, _, h⟩⟩
  · rw [h]
    exact ⟨t, l, ht, hl, rfl, rfl⟩
  · rw [h]
    exact key id0 t0 l0 p _ _ _ ht0 hl0
  · rw [h]
    exact key id0 t0 l0 p _ _ _ ht0 hl0

/-- A trade without a letter of credit keeps its trade agreement across
`makePayment`, and a trade without a trade agreement has none after it. -/
theorem makePayment_trade_no_lc (env : Env) (o c : String) (args : List String)
    (s : Ledger) (id : String) (h : s.lc id = none ∨ s.trade id = none) :
    (makePayment env o c args s).2.trade id = s.trade id := by
  rcases makePayment_cases env o c args s with ⟨_, h1⟩ | ⟨id0, date, t0, l0, eb, ib, lb, p, _, _,
    ht0, hl0, _, _, _, _, _, _, ⟨_, h1⟩ | ⟨_, _, h1⟩⟩
  · rw [h1]
  all_goals
    rw [h1]
    have hid : id ≠ id0 := fun hc => by
      subst hc
      rcases h with h | h
      · rw [h] at hl0
        cases hl0
      · rw [h] at ht0
        cases ht0
    simp [settlePayment, Ledger.delPayment, Ledger.putLC, Ledger.putTrade,
      Function.update_noteq hid]

/-- A trade without a trade agreement has none after any dispatched function
other than a `requestTrade` for that trade. -/
theorem Invoke_trade_none (env : Env) (tx : Tx) (fn : String) (args : List String)
    (s : Ledger) (id : String) (h : s.trade id = none)
    (hfn : ¬ (fn = "requestTrade" ∧ args.head? = some id)) :
    (Invoke env tx fn args s).2.trade id = none :=
  Invoke_cases (P := fun r => r.2.trade id = none) env tx fn args s
    (fun hc o c => by
      rcases requestTrade_trade env tx.tradelimit o c args s id with h1 | ⟨_, _, _, hargs, _⟩
      · exact h1.trans h
      · exact absurd ⟨hc, by rw [hargs]; rfl⟩ hfn)
    (fun _ o c => acceptTrade_trade_none env o c args s id h)
    (fun _ o c => by
      show (requestLC env o c args s).2.trade id = none
      unfold requestLC
      repeat' split
      all_goals exact h)
    (fun _ o c => by
      show (issueLC env o c args s).2.trade id = none
      unfold issueLC
      repeat' split
      all_goals exact h)
    (fun _ o c => by
      show (acceptLC env o c args s).2.trade id = none
      unfold acceptLC
      repeat' split
      all_goals exact h)
    (fun _ o c => by
      show (requestLCTransfer env o c args s).2.trade id = none
      unfold requestLCTransfer
      repeat' split
      all_goals exact h)
    (fun _ o c => by
      show (issueLCTransfer env o c args s).2.trade id = none
      unfold issueLCTransfer
      repeat' split
      all_goals exact h)
    (fun _ o c => by
      show (acceptLCTransfer env o c args s).2.trade id = none
      unfold acceptLCTransfer
      repeat' split
      all_goals exact h)
    (fun _ o c => by
      show (requestEL env o c args s).2.trade id = none
      unfold requestEL
      repeat' split
      all_goals exact h)
    (fun _ o c => by
      show (issueEL env o c args s).2.trade id = none
      unfold issueEL
      repeat' split
      all_goals exact h)
    (fun _ o c => by
      show (prepareShipment env o c args s).2.trade id = none
      unfold prepareShipment
      repeat' split
      all_goals exact h)
    (fun _ o c => by
      show (acceptShipmentAndIssueBL env o c args s).2.trade id = none
      unfold acceptShipmentAndIssueBL
      repeat' split
      all_goals exact h)
    (fun _ o c => by
      show (requestAdvancePayment env o c args s).2.trade id = none
      unfold requestAdvancePayment
      repeat' split
      all_goals exact h)
    (fun _ o c => by
      show (makeAdvancePayment env o c args s).2.trade id = none
      unfold makeAdvancePayment
      repeat' split
      all_goals exact h)
    (fun _ o c => by
      show (requestPayment env o c args s).2.trade id = none
      unfold requestPayment
      repeat' split
      all_goals exact h)
    (fun _ o c => (makePayment_trade_no_lc env o c args s id (Or.inr h)).trans h)
    (fun _ o c => by
      show (updateShipmentLocation env o c args s).2.trade id = none
      unfold updateShipmentLocation
      repeat' split
      all_goals exact h)
    (fun _ o c => by
      show (getTradeStatus env o c args s).2.trade id = none
      rw [getTradeStatus_ledger]
      exact h)
    (fun _ o c => by
      show (getLCStatus env o c args s).2.trade id = none
      rw [getLCStatus_ledger]
      exact h)
    (fun _ o c => by
      show (getELStatus env o c args s).2.trade id = none
      rw [getELStatus_ledger]
      exact h)
    (fun _ o c => by
      show (getShipmentLocation env o c args s).2.trade id = none
      rw [getShipmentLocation_ledger]
      exact h)
    (fun _ o c => by
      show (getArrivalDate env o c args s).2.trade id = none
      rw [getArrivalDate_ledger]
      exact h)
    (fun _ o c => by
      show (getBillOfLading env o c args s).2.trade id = none
      rw [getBillOfLading_ledger]
      exact h)
    (fun _ o c => by
      show (getAccountBalance env o c args s).2.trade id = none
      rw [getAccountBalance_ledger]
      exact h)
    (fun _ => h)

/-- A trade without a letter of credit has none after a dispatched function,
unless the function is a `requestLC` for that trade, which stores a fresh one
whose amount is the trade amount. -/
theorem Invoke_lc_none (env : Env) (tx : Tx) (fn : String) (args : List String) (s : Ledger)
    (id : String) (h : s.lc id = none) :
    (Invoke env tx fn args s).2.lc id = none
    ∨ (fn = "requestLC" ∧ args = [id] ∧ ∃ t, s.trade id = some t
        ∧ (Invoke env tx fn args s).2.lc id
          = some ⟨"", "", s.exp, t.amount, [], .REQUESTED, ⟨0, 0⟩, false⟩) := by
  by_cases hfn : fn = "requestLC"
  · subst hfn
    exact Invoke_requestLC
      (P := fun r => r.2.lc id = none
        ∨ ("requestLC" = "requestLC" ∧ args = [id] ∧ ∃ t, s.trade id = some t
          ∧ r.2.lc id = some ⟨"", "", s.exp, t.amount, [], .REQUESTED, ⟨0, 0⟩, false⟩))
      env tx args s
      (fun o c => (requestLC_lc_new env o c args s id).elim (fun h1 => Or.inl (h1.trans h))
        (fun h1 => Or.inr ⟨rfl, h1⟩))
      (Or.inl h)
  · rcases Invoke_lc_shape env tx fn args s with
      (heq | ⟨id0, l0, l1, h0, _, _, hupd⟩) | ⟨hc, _⟩ | ⟨_, id0, _, l0, _, _, _, h0, _, _, _, hupd⟩
    · exact Or.inl (by rw [heq]; exact h)
    · have hid : id ≠ id0 := fun hc => by
        subst hc
        rw [h] at h0
        cases h0
      exact Or.inl (by rw [hupd, Function.update_noteq hid]; exact h)
    · exact absurd hc hfn
    · have hid : id ≠ id0 := fun hc => by
        subst hc
        rw [h] at h0
        cases h0
      exact Or.inl (by rw [hupd, Function.update_noteq hid]; exact h)

/-- The call is a `requestTrade` whose first argument is the trade. -/
def isRequestTradeFor (id : String) (c : Call) : Bool :=
  c.function == "requestTrade" && c.args.head? == some id

/-- The call is a `requestLC` whose first argument is the trade. -/
def isRequestLCFor (id : String) (c : Call) : Bool :=
  c.function == "requestLC" && c.args.head? == some id

/-- When a trade has both a trade agreement and a letter of credit, the amount
of the letter of credit and the amount paid add up to the trade amount modulo
`2^64`. -/
def creditPlusPaid (s : Ledger) (id : String) : Prop :=
  ∀ t l, s.trade id = some t → s.lc id = some l →
    wrap64 (l.amount + t.payment) = wrap64 t.amount

/-- Where a trade stands in a run with the calls `cs` still to come: nothing
stored and at most one `requestTrade` and one `requestLC` for it to come; or
a trade agreement with nothing paid, no letter of credit, no `requestTrade`
and at most one `requestLC` to come; or both records, adding up, and neither
call to come. -/
def creditPhase (s : Ledger) (id : String) (cs : List Call) : Prop :=
  (s.trade id = none ∧ s.lc id = none
      ∧ cs.countP (isRequestTradeFor id) ≤ 1 ∧ cs.countP (isRequestLCFor id) ≤ 1)
  ∨ (∃ t, s.trade id = some t ∧ t.payment = 0 ∧ s.lc id = none
      ∧ cs.countP (isRequestTradeFor id) = 0 ∧ cs.countP (isRequestLCFor id) ≤ 1)
  ∨ (∃ t l, s.trade id = some t ∧ s.lc id = some l ∧ wrap64 (l.amount + t.payment) = wrap64 t.amount
      ∧ cs.countP (isRequestTradeFor id) = 0 ∧ cs.countP (isRequestLCFor id) = 0)

/-- The count contributed by a call that does not match. -/
theorem ite_true_eq_zero {b : Bool} (h : b = false) :
    (if b = true then 1 else 0) = (0 : Nat) := by
  subst h
  rfl

/-- The count contributed by a call that matches. -/
theorem ite_true_eq_one {b : Bool} (h : b = true) :
    (if b = true then 1 else 0) = (1 : Nat) := by
  subst h
  rfl

/-- In every phase credit and paid add up. -/
theorem creditPhase_creditPlusPaid {s : Ledger} {id : String} {cs : List Call}
    (h : creditPhase s id cs) : creditPlusPaid s id := by
  intro t l ht hl
  rcases h with ⟨_, h1, _⟩ | ⟨_, _, _, h1, _⟩ | ⟨t0, l0, ht0, hl0, hsum, _⟩
  · rw [h1] at hl
    cases hl
  · rw [h1] at hl
    cases hl
  · rw [ht] at ht0
    rw [hl] at hl0
    cases ht0
    cases hl0
    exact hsum

/-- A call that is not counted as a `requestTrade` for the trade. -/
theorem not_requestTrade_of_isRequestTradeFor {id : String} {c : Call}
    (h : isRequestTradeFor id c = false) :
    ¬ (c.function = "requestTrade" ∧ c.args.head? = some id) := by
  rintro ⟨h1, h2⟩
  simp [isRequestTradeFor, h1, h2] at h

/-- A call that is not counted as a `requestLC` for the trade. -/
theorem not_requestLC_of_isRequestLCFor {id : String} {c : Call}
    (h : isRequestLCFor id c = false) :
    ¬ (c.function = "requestLC" ∧ c.args.head? = some id) := by
  rintro ⟨h1, h2⟩
  simp [isRequestLCFor, h1, h2] at h

/-- Across a dispatched function that is no `requestTrade` for the trade, a
trade agreement without a letter of credit keeps its amount and its paid
amount. -/
theorem Invoke_trade_no_lc (env : Env) (tx : Tx) (fn : String) (args : List String)
    (s : Ledger) (id : String) (t : TradeAgreement) (ht : s.trade id = some t)
    (hl : s.lc id = none) (hfn : ¬ (fn = "requestTrade" ∧ args.head? = some id)) :
    ∃ t1, (Invoke env tx fn args s).2.trade id = some t1 ∧ t1.amount = t.amount
      ∧ t1.payment = t.payment := by
  by_cases hrt : fn = "requestTrade"
  · subst hrt
    refine Invoke_requestTrade
      (P := fun r => ∃ t1, r.2.trade id = some t1 ∧ t1.amount = t.amount
        ∧ t1.payment = t.payment) env tx args s (fun o c => ?_) ⟨t, ht, rfl, rfl⟩
    rcases requestTrade_trade env tx.tradelimit o c args s id with h1 | ⟨_, _, _, hargs, _⟩
    · exact ⟨t, h1.trans ht, rfl, rfl⟩
    · exact absurd ⟨rfl, by rw [hargs]; rfl⟩ hfn
  · by_cases hmp : fn = "makePayment"
    · subst hmp
      exact Invoke_makePayment
        (P := fun r => ∃ t1, r.2.trade id = some t1 ∧ t1.amount = t.amount
          ∧ t1.payment = t.payment) env tx args s
        (fun o c => ⟨t, (makePayment_trade_no_lc env o c args s id (Or.inl hl)).trans ht,
          rfl, rfl⟩)
        ⟨t, ht, rfl, rfl⟩
    · obtain ⟨t1, h1, ha, hp, _⟩ := Invoke_tradeKeep env tx fn args s hrt hmp id t ht
      exact ⟨t1, h1, ha, hp⟩

/-- Across a dispatched function that is neither a `requestTrade` nor a
`requestLC` for the trade, a trade agreement and a letter of credit that add
up persist and still add up. -/
theorem Invoke_creditPlusPaid (env : Env) (tx : Tx) (fn : String) (args : List String)
    (s : Ledger) (id : String) (t : TradeAgreement) (l : LetterOfCredit)
    (ht : s.trade id = some t) (hl : s.lc id = some l)
    (hsum : wrap64 (l.amount + t.payment) = wrap64 t.amount)
    (hrt : ¬ (fn = "requestTrade" ∧ args.head? = some id))
    (hlc : ¬ (fn = "requestLC" ∧ args.head? = some id)) :
    ∃ t1 l1, (Invoke env tx fn args s).2.trade id = some t1
      ∧ (Invoke env tx fn args s).2.lc id = some l1
      ∧ wrap64 (l1.amount + t1.payment) = wrap64 t1.amount := by
  by_cases h1 : fn = "makePayment"
  · subst h1
    refine Invoke_makePayment
      (P := fun r => ∃ t1 l1, r.2.trade id = some t1 ∧ r.2.lc id = some l1
        ∧ wrap64 (l1.amount + t1.payment) = wrap64 t1.amount) env tx args s (fun o c => ?_)
      ⟨t, l, ht, hl, hsum⟩
    obtain ⟨t1, l1, h2, h3, h4, h5⟩ := makePayment_credit_plus_paid env o c args s id t l ht hl
    exact ⟨t1, l1, h2, h3, by rw [h5, hsum, h4]⟩
  · by_cases h2 : fn = "requestTrade"
    · subst h2
      refine Invoke_requestTrade
        (P := fun r => ∃ t1 l1, r.2.trade id = some t1 ∧ r.2.lc id = some l1
          ∧ wrap64 (l1.amount + t1.payment) = wrap64 t1.amount) env tx args s (fun o c => ?_)
        ⟨t, l, ht, hl, hsum⟩
      obtain ⟨l1, h3, _, h4⟩ := requestTrade_lcKeep env tx.tradelimit o c args s id l hl
      rcases requestTrade_trade env tx.tradelimit o c args s id with h5 | ⟨_, _, _, hargs, _⟩
      · exact ⟨t, l1, h5.trans ht, h3, by rw [h4]; exact hsum⟩
      · exact absurd ⟨rfl, by rw [hargs]; rfl⟩ hrt
    · by_cases h3 : fn = "requestLC"
      · subst h3
        refine Invoke_requestLC
          (P := fun r => ∃ t1 l1, r.2.trade id = some t1 ∧ r.2.lc id = some l1
            ∧ wrap64 (l1.amount + t1.payment) = wrap64 t1.amount) env tx args s (fun o c => ?_)
          ⟨t, l, ht, hl, hsum⟩
        obtain ⟨t1, h4, h5, h6, _⟩ := requestLC_tradeKeep env o c args s id t ht
        rcases requestLC_lc_new env o c args s id with h7 | ⟨hargs, _⟩
        · exact ⟨t1, l, h4, h7.trans hl, by rw [h6, h5]; exact hsum⟩
        · exact absurd ⟨rfl, by rw [hargs]; rfl⟩ hlc
      · obtain ⟨t1, h4, h5, h6, _⟩ := Invoke_tradeKeep env tx fn args s h2 h1 id t ht
        obtain ⟨l1, h7, _, h8⟩ := Invoke_lcKeep env tx fn args s h3 h1 id l hl
        exact ⟨t1, l1, h4, h7, by rw [h8, h6, h5]; exact hsum⟩

/-- One call takes a phase to a phase. -/
theorem creditPhase_step (env : Env) {s : Ledger} {id : String} {c : Call} {cs : List Call}
    (h : creditPhase s id (c :: cs)) :
    creditPhase (Invoke env c.tx c.function c.args s).2 id cs := by
  rcases h with ⟨ht, hl, hcT, hcL⟩ | ⟨t, ht, hp, hl, hcT, hcL⟩ | ⟨t, l, ht, hl, hsum, hcT, hcL⟩
  · -- nothing stored
    rw [List.countP_cons] at hcT hcL
    have hlc : (Invoke env c.tx c.function c.args s).2.lc id = none := by
      rcases Invoke_lc_none env c.tx c.function c.args s id hl with h1 | ⟨_, _, t, h1, _⟩
      · exact h1
      · rw [ht] at h1
        cases h1
    cases hT : isRequestTradeFor id c with
    | false =>
      have h1 := Invoke_trade_none env c.tx c.function c.args s id ht
        (not_requestTrade_of_isRequestTradeFor hT)
      exact Or.inl ⟨h1, hlc, by rw [ite_true_eq_zero hT] at hcT; exact hcT, by omega⟩
    | true =>
      have hfn : c.function = "requestTrade" := by
        simp [isRequestTradeFor] at hT
        exact hT.1
      have hcT0 : cs.countP (isRequestTradeFor id) = 0 := by
        rw [ite_true_eq_one hT] at hcT
        omega
      have key : (Invoke env c.tx c.function c.args s).2.trade id = none
          ∨ ∃ t1, (Invoke env c.tx c.function c.args s).2.trade id = some t1
              ∧ t1.payment = 0 := by
        rw [hfn]
        refine Invoke_requestTrade
          (P := fun r => r.2.trade id = none ∨ ∃ t1, r.2.trade id = some t1 ∧ t1.payment = 0)
          env c.tx c.args s (fun o1 c1 => ?_) (Or.inl ht)
        rcases requestTrade_trade env c.tx.tradelimit o1 c1 c.args s id with h1
          | ⟨_, _, _, _, _, h1⟩
        · exact Or.inl (h1.trans ht)
        · exact Or.inr ⟨_, h1, rfl⟩
      rcases key with h1 | ⟨t1, h1, h2⟩
      · exact Or.inl ⟨h1, hlc, by omega, by omega⟩
      · exact Or.inr (Or.inl ⟨t1, h1, h2, hlc, hcT0, by omega⟩)
  · -- a trade agreement, no letter of credit
    rw [List.countP_cons] at hcT hcL
    have hT : isRequestTradeFor id c = false := by
      cases hT : isRequestTradeFor id c with
      | false => rfl
      | true => simp [hT] at hcT
    have hcT0 : cs.countP (isRequestTradeFor id) = 0 := by
      rw [ite_true_eq_zero hT] at hcT
      exact hcT
    obtain ⟨t1, h1, ha, hpay⟩ := Invoke_trade_no_lc env c.tx c.function c.args s id t ht hl
      (not_requestTrade_of_isRequestTradeFor hT)
    rcases Invoke_lc_none env c.tx c.function c.args s id hl with h2 | ⟨hfn, hargs, t0, ht0, h2⟩
    · exact Or.inr (Or.inl ⟨t1, h1, by omega, h2, hcT0, by omega⟩)
    · rw [ht] at ht0
      cases ht0
      have hL : isRequestLCFor id c = true := by
        simp [isRequestLCFor, hfn, hargs]
      have hcL0 : cs.countP (isRequestLCFor id) = 0 := by
        rw [ite_true_eq_one hL] at hcL
        omega
      exact Or.inr (Or.inr ⟨t1, _, h1, h2, by simp only; rw [hpay, hp, ha, add_zero], hcT0, hcL0⟩)
  · -- both records
    rw [List.countP_cons] at hcT hcL
    have hT : isRequestTradeFor id c = false := by
      cases hT : isRequestTradeFor id c with
      | false => rfl
      | true => simp [hT] at hcT
    have hL : isRequestLCFor id c = false := by
      cases hL : isRequestLCFor id c with
      | false => rfl
      | true => simp [hL] at hcL
    obtain ⟨t1, l1, h1, h2, h3⟩ := Invoke_creditPlusPaid env c.tx c.function c.args s id t l ht
      hl hsum (not_requestTrade_of_isRequestTradeFor hT) (not_requestLC_of_isRequestLCFor hL)
    exact Or.inr (Or.inr ⟨t1, l1, h1, h2, h3, by rw [ite_true_eq_zero hT] at hcT; exact hcT,
      by rw [ite_true_eq_zero hL] at hcL; exact hcL⟩)

/-- From a phase, every state of the run has credit and paid adding up. -/
theorem creditPhase_run (env : Env) (id : String) :
    ∀ (cs : List Call) (s : Ledger), creditPhase s id cs →
      ∀ n, creditPlusPaid (run env (cs.take n) s) id := by
  intro cs
  induction cs with
  | nil =>
    intro s h n
    simpa [TradeWorkflow.run] using creditPhase_creditPlusPaid h
  | cons c cs ih =>
    intro s h n
    cases n with
    | zero => simpa [TradeWorkflow.run] using creditPhase_creditPlusPaid h
    | succ n =>
      simp only [List.take_succ_cons, TradeWorkflow.run]
      exact ih _ (creditPhase_step env h) n

/-- C38 (amended): a `makePayment` leaves the sum of the amount of the letter of
credit and the paid amount of the trade agreement as it was modulo `2^64` (a
successful one moves the payment from the one to the other in the arithmetic
of `int`), hence exactly as it was whenever the sum before and the sum after
are inside the range of `int`; no dispatched function other than
`requestTrade`, `requestLC` and `makePayment` changes either value; and on
every run from a ledger on which the trade has neither record, in which
`requestTrade` and `requestLC` are each called at most once for the trade,
every state in which both records exist has the amount of the letter of
credit and the paid amount adding up to the trade amount modulo `2^64`,
hence exactly whenever their sum and the trade amount are inside the range
of `int`. -/
theorem C38_credit_plus_paid (env : Env) (id : String) :
    (∀ o c args s t l, s.trade id = some t → s.lc id = some l →
      ∃ t1 l1, (makePayment env o c args s).2.trade id = some t1
        ∧ (makePayment env o c args s).2.lc id = some l1
        ∧ wrap64 (l1.amount + t1.payment) = wrap64 (l.amount + t.payment)
        ∧ (inInt64 (l.amount + t.payment) → inInt64 (l1.amount + t1.payment) →
            l1.amount + t1.payment = l.amount + t.payment))
    ∧ (∀ tx fn args s t l, s.trade id = some t → s.lc id = some l →
      fn ≠ "requestTrade" → fn ≠ "requestLC" → fn ≠ "makePayment" →
      ∃ t1 l1, (Invoke env tx fn args s).2.trade id = some t1
        ∧ (Invoke env tx fn args s).2.lc id = some l1
        ∧ l1.amount = l.amount ∧ t1.payment = t.payment)
    ∧ (∀ (s0 : Ledger) (cs : List Call), s0.trade id = none → s0.lc id = none →
      cs.countP (isRequestTradeFor id) ≤ 1 → cs.countP (isRequestLCFor id) ≤ 1 →
      ∀ n t l, (run env (cs.take n) s0).trade id = some t →
        (run env (cs.take n) s0).lc id = some l →
        wrap64 (l.amount + t.payment) = wrap64 t.amount
        ∧ (inInt64 (l.amount + t.payment) → inInt64 t.amount →
            l.amount + t.payment = t.amount)) := by
  refine ⟨?_, ?_, ?_⟩
  · intro o c args s t l ht hl
    obtain ⟨t1, l1, h1, h2, _, h3⟩ := makePayment_credit_plus_paid env o c args s id t l ht hl
    exact ⟨t1, l1, h1, h2, h3, fun h4 h5 => eq_of_wrap64_eq h5 h4 h3⟩
  · intro tx fn args s t l ht hl h1 h2 h3
    obtain ⟨t1, h4, _, h5, _⟩ := Invoke_tradeKeep env tx fn args s h1 h3 id t ht
    obtain ⟨l1, h6, _, h7⟩ := Invoke_lcKeep env tx fn args s h2 h3 id l hl
    exact ⟨t1, l1, h4, h6, h7, h5⟩
  · intro s0 cs ht hl hcT hcL n t l h1 h2
    have h3 := creditPhase_run env id cs s0 (Or.inl ⟨ht, hl, hcT, hcL⟩) n t l h1 h2
    exact ⟨h3, fun h4 h5 => eq_of_wrap64_eq h4 h5 h3⟩

/-- Witness for C38 (amended): the run of trade `T1` from the bootstrapped
ledger to the first installment calls `requestTrade` and `requestLC` once
each; at the end 500 of 1000 is paid and the letter of credit has 500 left. -/
theorem C38_credit_plus_paid_witness :
    (run refEnv (shipmentPrefixCalls ++ firstInstallmentCalls) genesis).trade "T1"
        = some ⟨1000, "widgets", .ACCEPTED, 500⟩
    ∧ (run refEnv (shipmentPrefixCalls ++ firstInstallmentCalls) genesis).lc "T1"
        = some ⟨"lc1", "12/31/2030", "LumberInc", 500, ["E/L", "B/L"], .ACCEPTED, ⟨0, 0⟩,
            false⟩
    ∧ (500 : Int) + 500 = 1000 :=
  ⟨by decide, by decide,
   ((C38_credit_plus_paid refEnv "T1").2.2 genesis (shipmentPrefixCalls ++ firstInstallmentCalls)
      (by decide) (by decide) (by decide) (by decide) 11 ⟨1000, "widgets", .ACCEPTED, 500⟩
      ⟨"lc1", "12/31/2030", "LumberInc", 500, ["E/L", "B/L"], .ACCEPTED, ⟨0, 0⟩, false⟩
      (by decide) (by decide)).2 (by decide) (by decide)⟩

/-- The calls that request a trade `T1` of the amount -9223372036854775808,
the least value of type `int`, bring it to the first installment, report the
arrival at `DESTINATION` on 1 January 2020 and request and make the second
payment on 22 October 2021, 660 days after the arrival. -/
def negativeTradeCalls : List Call :=
  [⟨importerTx, "requestTrade", ["T1", "-9223372036854775808", "widgets"]⟩,
   ⟨exporterTx, "acceptTrade", ["T1"]⟩,
   ⟨importerTx, "requestLC", ["T1"]⟩,
   ⟨importerTx, "issueLC", ["T1", "lc1", "12/31/2030", "E/L", "B/L"]⟩,
   ⟨exporterTx, "acceptLC", ["T1"]⟩,
   ⟨exporterTx, "requestEL", ["T1"]⟩,
   ⟨regulatorTx, "issueEL", ["T1", "el1", "12/31/2030"]⟩,
   ⟨exporterTx, "prepareShipment", ["T1"]⟩,
   ⟨carrierTx, "acceptShipmentAndIssueBL", ["T1", "bl1", "12/31/2030", "Mumbai", "Rotterdam"]⟩,
   ⟨exporterTx, "requestPayment", ["T1"]⟩,
   ⟨importerTx, "makePayment", ["T1", "12/01/2019"]⟩,
   ⟨carrierTx, "updateShipmentLocation", ["T1", "DESTINATION", "01/01/2020"]⟩,
   ⟨exporterTx, "requestPayment", ["T1"]⟩,
   ⟨importerTx, "makePayment", ["T1", "10/22/2021"]⟩]

/-- Counterexample to C38 as stated.  On the run `negativeTradeCalls` from the
bootstrapped ledger `requestTrade` and `requestLC` are each called once.
Before the last call the trade agreement has amount -9223372036854775808 and
paid amount -4611686018427387904, the letter of credit has amount
-4611686018427387904, and the two add up to the trade amount.  The surcharge
of the last payment is 20, the payment computed is
-9223372036854775808 (twice the remaining amount), `makePayment` succeeds,
and afterwards the paid amount and the amount of the letter of credit are
both 4611686018427387904: their sum is 9223372036854775808, not the sum from
before and not the trade amount. -/
theorem C38_counterexample :
    negativeTradeCalls.countP (isRequestTradeFor "T1") = 1
    ∧ negativeTradeCalls.countP (isRequestLCFor "T1") = 1
    ∧ (run refEnv (negativeTradeCalls.take 13) genesis).trade "T1"
        = some ⟨-9223372036854775808, "widgets", .ACCEPTED, -4611686018427387904⟩
    ∧ ((run refEnv (negativeTradeCalls.take 13) genesis).lc "T1").map (fun l => l.amount)
        = some (-4611686018427387904)
    ∧ (-4611686018427387904 : Int) + -4611686018427387904 = -9223372036854775808
    ∧ surcharge 18262 18922 = .fin ⟨20, 0⟩
    ∧ latePaymentAmount (-9223372036854775808) (-4611686018427387904) 18262 18922
        = -9223372036854775808
    ∧ (Invoke refEnv importerTx "makePayment" ["T1", "10/22/2021"]
        (run refEnv (negativeTradeCalls.take 13) genesis)).1 = .success .nil
    ∧ (run refEnv negativeTradeCalls genesis).trade "T1"
        = some ⟨-9223372036854775808, "widgets", .ACCEPTED, 4611686018427387904⟩
    ∧ ((run refEnv negativeTradeCalls genesis).lc "T1").map (fun l => l.amount)
        = some 4611686018427387904
    ∧ (4611686018427387904 : Int) + 4611686018427387904 = 9223372036854775808
    ∧ ¬ ((9223372036854775808 : Int) = -9223372036854775808) := by
  decide

/-! ## Two installments -/

/-- Normalisation keeps a non-positive numerator non-positive. -/
theorem Flt.normalize_num_nonpos (k : Nat) :
    ∀ {n : Int}, n ≤ 0 → (Flt.normalize n k).num ≤ 0 := by
  induction k with
  | zero => intro n h; simpa [Flt.normalize] using h
  | succ k ih =>
    intro n h
    unfold Flt.normalize
    split_ifs
    · exact ih (by omega)
    · exact h

/-- Rounding a non-positive fraction gives a non-positive value. -/
theorem roundBin_num_nonpos (prec : Nat) (emin : Int) {a : Int} {b : Nat} (hb : 0 < b)
    (h : a ≤ 0) : (roundBin prec emin a b).num ≤ 0 := by
  unfold roundBin
  dsimp only
  split_ifs
  · exact le_refl _
  · have h1 : roundHalfEven a (b * 2 ^ (max (fracLog2 a.natAbs b) emin
        - ((prec : Int) - 1)).toNat) ≤ 0 :=
      roundHalfEven_le 0 (by positivity) (by simpa using h)
    exact Int.mul_nonpos_of_nonpos_of_nonneg h1 (by positivity)
  · refine Flt.normalize_num_nonpos _ (roundHalfEven_le 0 hb ?_)
    have h2 : (0 : Int) ≤ 2 ^ (-(max (fracLog2 a.natAbs b) emin - ((prec : Int) - 1))).toNat :=
      by positivity
    nlinarith

/-- The hours from a date to a date that is not later are not positive. -/
theorem hoursBetween_num_nonpos {ad cd : Int} (h : cd ≤ ad) : (hoursBetween ad cd).num ≤ 0 := by
  have hd : ∀ d : Int, d ≤ 0 →
      (f64Add (roundF64 (Int.tdiv d 3600000000000) 1)
        (f64Div (roundF64 (Int.tmod d 3600000000000) 1) (roundF64 3600000000000 1))).num ≤ 0 := by
    intro d hd0
    have h1 : Int.tdiv d 3600000000000 ≤ 0 := by
      have := Int.tdiv_nonneg (a := -d) (b := 3600000000000) (by omega) (by norm_num)
      rw [Int.neg_tdiv] at this
      omega
    have h2 : Int.tmod d 3600000000000 ≤ 0 := by
      have := Int.tmod_nonneg (a := -d) 3600000000000 (by omega)
      rw [Int.tmod_def, Int.neg_tdiv] at this
      rw [Int.tmod_def]
      omega
    have h3 : (roundF64 (Int.tdiv d 3600000000000) 1).num ≤ 0 :=
      roundBin_num_nonpos _ _ (by norm_num) h1
    have h4 : (roundF64 (Int.tmod d 3600000000000) 1).num ≤ 0 :=
      roundBin_num_nonpos _ _ (by norm_num) h2
    have h5 : roundF64 3600000000000 1 = ⟨3600000000000, 0⟩ := by decide
    have h6 : (f64Div (roundF64 (Int.tmod d 3600000000000) 1)
        (roundF64 3600000000000 1)).num ≤ 0 := by
      rw [h5]
      unfold f64Div
      refine roundBin_num_nonpos _ _ (by positivity) ?_
      have h7 : Int.sign (3600000000000 : Int) = 1 := by decide
      simp only [h7, one_mul, pow_zero, mul_one]
      exact h4
    unfold f64Add
    refine roundBin_num_nonpos _ _ (by positivity) ?_
    exact Int.add_nonpos (Int.mul_nonpos_of_nonpos_of_nonneg h3 (by positivity))
      (Int.mul_nonpos_of_nonpos_of_nonneg h6 (by positivity))
  unfold hoursBetween
  dsimp only
  refine hd _ ?_
  split_ifs <;> omega

/-- A rounded value that is not positive stands for a `float32` that is not
positive. -/
theorem F32.leZero_ofRounded {z : Flt} (h : z.num ≤ 0) : (F32.ofRounded z).leZero = true := by
  unfold F32.ofRounded
  split_ifs with hc
  · have h1 : maxF32 = (2 ^ 24 - 1) * 2 ^ 104 := rfl
    have h2 : (0 : Int) < z.num.natAbs := by
      have := hc.2
      rw [h1] at this
      norm_num at this
      omega
    have h3 : z.num < 0 := by omega
    simp [F32.leZero, h3]
  · simp [F32.leZero, h]

/-- Subtracting `float32(1440)` from a value that is not positive gives a value
that is not positive. -/
theorem f32Sub_leZero {x : F32} (hx : x.leZero = true) :
    (f32Sub x (.fin ⟨1440, 0⟩)).leZero = true := by
  cases x with
  | fin z =>
    have hz : z.num ≤ 0 := by simpa [F32.leZero] using hx
    refine F32.leZero_ofRounded (roundBin_num_nonpos _ _ (by positivity) ?_)
    have h5 : (0 : Int) ≤ 2 ^ z.scale := by positivity
    simp only [pow_zero, mul_one]
    omega
  | inf negative => exact hx
  | nan => exact hx

/-- Dividing a value that is not positive by `float32(720)` gives a value that
is not positive. -/
theorem f32Div_leZero {x : F32} (hx : x.leZero = true) :
    (f32Div x (.fin ⟨720, 0⟩)).leZero = true := by
  cases x with
  | fin z =>
    have hz : z.num ≤ 0 := by simpa [F32.leZero] using hx
    have h7 : Int.sign (720 : Int) = 1 := by decide
    have h8 : f32Div (.fin z) (.fin ⟨720, 0⟩)
        = F32.ofRounded (roundF32 (Int.sign 720 * z.num * 2 ^ 0)
            (Int.natAbs 720 * 2 ^ z.scale)) := rfl
    rw [h8]
    refine F32.leZero_ofRounded (roundBin_num_nonpos _ _ (by positivity) ?_)
    simp only [h7, one_mul, pow_zero, mul_one]
    exact hz
  | inf negative =>
    have h1 : f32Div (.inf negative) (.fin ⟨720, 0⟩) = .inf negative := by
      cases negative <;> rfl
    rw [h1]
    exact hx
  | nan => exact hx

/-- A payment not later than the arrival carries no surcharge. -/
theorem surcharge_leZero_of_hours {x : Flt} (h : x.num ≤ 0) :
    (f32Div (f32Sub (f32OfFloat64 x) (f32OfInt 1440)) (f32OfInt 720)).leZero = true := by
  have h1 : f32OfInt 1440 = .fin ⟨1440, 0⟩ := by decide
  have h2 : f32OfInt 720 = .fin ⟨720, 0⟩ := by decide
  rw [h1, h2]
  exact f32Div_leZero (f32Sub_leZero
    (F32.leZero_ofRounded (roundBin_num_nonpos _ _ (by positivity) h)))

/-- The surcharge depends on the two dates through their difference. -/
theorem surcharge_shift (ad cd : Int) : surcharge ad cd = surcharge 0 (cd - ad) := by
  unfold surcharge hoursBetween
  simp only [sub_zero]

/-- The surcharge for each of the payment dates 0 to 60 days after the
arrival date is not positive. -/
theorem surcharge_leZero_upto_60 :
    ∀ k : Nat, k < 61 → (surcharge 0 (k : Int)).leZero = true := by
  decide

/-- A payment at most 60 days (1440 hours) after the arrival date carries no
surcharge. -/
theorem surcharge_leZero {ad cd : Int} (h : cd - ad ≤ 60) :
    (surcharge ad cd).leZero = true := by
  rcases le_or_lt cd ad with hle | hlt
  · unfold surcharge
    exact surcharge_leZero_of_hours (hoursBetween_num_nonpos hle)
  · rw [surcharge_shift]
    obtain ⟨k, hk⟩ := Int.eq_ofNat_of_zero_le (show 0 ≤ cd - ad by omega)
    rw [hk]
    exact surcharge_leZero_upto_60 k (by omega)

/-- Calls that are none of `requestTrade`, `requestLC` and `makePayment` keep
the amount and the paid amount of a trade agreement and the amount of the
letter of credit of the same trade. -/
theorem run_keeps_credit (env : Env) (id : String) :
    ∀ (cs : List Call) (s : Ledger) (t : TradeAgreement) (l : LetterOfCredit),
      (∀ c ∈ cs, c.function ≠ "requestTrade" ∧ c.function ≠ "requestLC"
        ∧ c.function ≠ "makePayment") →
      s.trade id = some t → s.lc id = some l →
      ∃ t1 l1, (run env cs s).trade id = some t1 ∧ (run env cs s).lc id = some l1
        ∧ t1.amount = t.amount ∧ t1.payment = t.payment ∧ l1.amount = l.amount := by
  intro cs
  induction cs with
  | nil =>
    intro s t l _ ht hl
    exact ⟨t, l, ht, hl, rfl, rfl, rfl⟩
  | cons c cs ih =>
    intro s t l hcs ht hl
    obtain ⟨h1, h2, h3⟩ := hcs c (List.mem_cons_self _ _)
    obtain ⟨t1, ht1, ha1, hp1, _⟩ := Invoke_tradeKeep env c.tx c.function c.args s h1 h3 id t ht
    obtain ⟨l1, hl1, _, hb1⟩ := Invoke_lcKeep env c.tx c.function c.args s h2 h3 id l hl
    obtain ⟨t2, l2, ht2, hl2, ha2, hp2, hb2⟩ :=
      ih _ t1 l1 (fun c0 hc0 => hcs c0 (List.mem_cons_of_mem _ hc0)) ht1 hl1
    exact ⟨t2, l2, ht2, hl2, ha2.trans ha1, hp2.trans hp1, hb2.trans hb1⟩

/-- With the whole amount paid, the shipment prepared and no payment request
pending, `requestPayment` returns an error, for an admitted caller the error
`Payment already settled`. -/
theorem requestPayment_settled (env : Env) (o c id : String) (s : Ledger)
    (t : TradeAgreement) (l : LetterOfCredit) (ht : s.trade id = some t)
    (hl : s.lc id = some l) (hloc : s.shipmentLocation id ≠ "") (hpay : s.payment id = "")
    (heq : t.amount = t.payment) :
    (requestPayment env o c [id] s).1.isError = true
    ∧ (admitted env (authenticatePaymentRequestor env) o c →
        (requestPayment env o c [id] s).1 = .error "Payment already settled") := by
  by_cases hd : (!env.testMode && !(env.authenticateExporterOrg o c
      || env.authenticateLenderOrg o c)) = true
  · unfold requestPayment
    rw [if_pos hd]
    exact ⟨rfl, fun ha => absurd hd (admitted_not_denied ha)⟩
  · unfold requestPayment
    rw [if_neg hd]
    simp only [ht, hl]
    rw [if_neg hloc, if_neg (not_not.mpr hpay), if_pos heq]
    exact ⟨rfl, fun _ => rfl⟩

/-- C39: a trade agreement with nothing paid and a letter of credit for the
whole trade amount `A`, a value of type `int`; a successful `makePayment`
while the shipment is at `SOURCE`, then calls that are none of
`requestTrade`, `requestLC` and `makePayment` (they bring the shipment to
`DESTINATION` and request the payment again), then a successful
`makePayment` with a payment date at most 60 days after the arrival date.
The first payment is `A / 2` (truncated), the second is `A - A / 2`, each
taken from the Importer balance in the arithmetic of `int`; afterwards the
paid amount is `A` and the amount of the letter of credit is 0, and a further
`requestPayment` returns an error and leaves the ledger as it is, for an
admitted caller the error `Payment already settled`. -/
theorem C39_two_installments (env : Env) (o1 c1 o2 c2 id d1 d2 : String) (s s1 s3 : Ledger)
    (mid : List Call) (t : TradeAgreement) (l : LetterOfCredit) (ad cd : Int)
    (ht : s.trade id = some t) (hin : inInt64 t.amount) (hp : t.payment = 0)
    (hl : s.lc id = some l) (hla : l.amount = t.amount)
    (hsrc : s.shipmentLocation id = SOURCE)
    (h1 : makePayment env o1 c1 [id, d1] s = (.success .nil, s1))
    (hmid : ∀ c ∈ mid, c.function ≠ "requestTrade" ∧ c.function ≠ "requestLC"
      ∧ c.function ≠ "makePayment")
    (hdst : (run env mid s1).shipmentLocation id = DESTINATION)
    (had : env.parseDate ((run env mid s1).arrivalDate id) = some ad)
    (hcd : env.parseDate d2 = some cd) (h60 : cd - ad ≤ 60)
    (h2 : makePayment env o2 c2 [id, d2] (run env mid s1) = (.success .nil, s3)) :
    computePaymentAmount env s id d1 t = .ok (Int.tdiv t.amount 2)
    ∧ (∃ ib, s.impBal = some ib ∧ s1.impBal = some (intSub ib (Int.tdiv t.amount 2)))
    ∧ (∃ t1 l1, s1.trade id = some t1 ∧ s1.lc id = some l1
        ∧ t1.payment = Int.tdiv t.amount 2 ∧ l1.amount = t.amount - Int.tdiv t.amount 2)
    ∧ (∃ t2, (run env mid s1).trade id = some t2
        ∧ computePaymentAmount env (run env mid s1) id d2 t2
          = .ok (t.amount - Int.tdiv t.amount 2))
    ∧ (∃ ib, (run env mid s1).impBal = some ib
        ∧ s3.impBal = some (intSub ib (t.amount - Int.tdiv t.amount 2)))
    ∧ (∃ t3 l3, s3.trade id = some t3 ∧ s3.lc id = some l3
        ∧ t3.amount = t.amount ∧ t3.payment = t.amount ∧ l3.amount = 0)
    ∧ (∀ o c, (requestPayment env o c [id] s3).1.isError = true
        ∧ (requestPayment env o c [id] s3).2 = s3)
    ∧ (∀ o c, admitted env (authenticatePaymentRequestor env) o c →
        (requestPayment env o c [id] s3).1 = .error "Payment already settled") := by
  obtain ⟨hq1, hq2⟩ := inInt64_tdiv_two hin
  have hamount : computePaymentAmount env s id d1 t = .ok (Int.tdiv t.amount 2) := by
    unfold computePaymentAmount
    rw [if_pos hsrc]
  have e1 : intAdd t.payment (Int.tdiv t.amount 2) = Int.tdiv t.amount 2 := by
    rw [hp, intAdd_of_inInt64 (by rw [zero_add]; exact hq1), zero_add]
  have e2 : intSub l.amount (Int.tdiv t.amount 2) = t.amount - Int.tdiv t.amount 2 := by
    rw [hla, intSub_of_inInt64 hq2]
  -- the first installment
  have hs1 : (∃ ib, s.impBal = some ib ∧ s1.impBal = some (intSub ib (Int.tdiv t.amount 2)))
      ∧ s1.trade id = some { t with payment := intAdd t.payment (Int.tdiv t.amount 2) }
      ∧ s1.lc id = some { l with amount := intSub l.amount (Int.tdiv t.amount 2) } := by
    rcases makePayment_cases env o1 c1 [id, d1] s with ⟨he, _⟩ | ⟨id0, date0, t0, l0, eb0, ib0,
      lb0, p, hargs, _, ht0, hl0, _, _, _, hib0, _, hc, hcase⟩
    · rw [h1] at he
      cases he
    · cases hargs
      rw [ht] at ht0
      rw [hl] at hl0
      cases ht0
      cases hl0
      have hpe : p = Int.tdiv t.amount 2 := by
        rw [hamount] at hc
        cases hc
        rfl
      subst hpe
      have hs : s1 = settlePayment s id
            { t with payment := intAdd t.payment (Int.tdiv t.amount 2) }
            { l with amount := intSub l.amount (Int.tdiv t.amount 2) }
            (intAdd eb0 (Int.tdiv t.amount 2)) (intSub ib0 (Int.tdiv t.amount 2)) lb0
          ∨ s1 = settlePayment s id
            { t with payment := intAdd t.payment (Int.tdiv t.amount 2) }
            { l with amount := intSub l.amount (Int.tdiv t.amount 2) } eb0
            (intSub ib0 (Int.tdiv t.amount 2)) (intAdd lb0 (Int.tdiv t.amount 2)) := by
        rcases hcase with ⟨_, h⟩ | ⟨_, _, h⟩
        · rw [h1] at h
          exact Or.inl (congrArg Prod.snd h)
        · rw [h1] at h
          exact Or.inr (congrArg Prod.snd h)
      rcases hs with hs | hs
      all_goals
        subst hs
        refine ⟨⟨ib0, hib0, ?_⟩, ?_, ?_⟩
        all_goals simp [settlePayment, Ledger.delPayment, Ledger.putLC, Ledger.putTrade]
  obtain ⟨hib1, ht1, hl1⟩ := hs1
  -- the calls in between
  obtain ⟨t2, l2, ht2, hl2, ha2, hp2, hb2⟩ := run_keeps_credit env id mid s1 _ _ hmid ht1 hl1
  have ha2' : t2.amount = t.amount := ha2
  have hp2' : t2.payment = Int.tdiv t.amount 2 := hp2.trans e1
  have hb2' : l2.amount = t.amount - Int.tdiv t.amount 2 := hb2.trans e2
  -- the second installment
  have hamount2 : computePaymentAmount env (run env mid s1) id d2 t2
      = .ok (t.amount - Int.tdiv t.amount 2) := by
    unfold computePaymentAmount
    have hns : ¬ (run env mid s1).shipmentLocation id = SOURCE := by
      rw [hdst]
      decide
    rw [if_neg hns]
    split
    · rename_i harr
      exfalso
      rcases makePayment_cases env o2 c2 [id, d2] (run env mid s1) with ⟨he, _⟩
        | ⟨id0, date0, t0, l0, eb0, ib0, lb0, p, hargs, _, ht0, _, _, _, _, _, _, hc, _⟩
      · rw [h2] at he
        cases he
      · cases hargs
        unfold computePaymentAmount at hc
        rw [if_neg hns, if_pos harr] at hc
        cases hc
    · simp only [had, hcd]
      rw [latePaymentAmount_on_time _ _ _ _ (surcharge_leZero h60), ha2', hp2',
        intSub_of_inInt64 hq2]
  have e3 : intAdd t2.payment (t.amount - Int.tdiv t.amount 2) = t.amount := by
    rw [hp2']
    unfold intAdd
    rw [show Int.tdiv t.amount 2 + (t.amount - Int.tdiv t.amount 2) = t.amount by omega]
    exact wrap64_of_inInt64 hin
  have e4 : intSub l2.amount (t.amount - Int.tdiv t.amount 2) = 0 := by
    rw [hb2']
    unfold intSub
    rw [sub_self]
    rfl
  have hs3 : (∃ ib, (run env mid s1).impBal = some ib
        ∧ s3.impBal = some (intSub ib (t.amount - Int.tdiv t.amount 2)))
      ∧ s3.trade id
        = some { t2 with payment := intAdd t2.payment (t.amount - Int.tdiv t.amount 2) }
      ∧ s3.lc id
        = some { l2 with amount := intSub l2.amount (t.amount - Int.tdiv t.amount 2) }
      ∧ s3.shipmentLocation id = DESTINATION ∧ s3.payment id = "" := by
    rcases makePayment_cases env o2 c2 [id, d2] (run env mid s1) with ⟨he, _⟩
      | ⟨id0, date0, t0, l0, eb0, ib0, lb0, p, hargs, _, ht0, hl0, _, _, _, hib0, _, hc, hcase⟩
    · rw [h2] at he
      cases he
    · cases hargs
      rw [ht2] at ht0
      rw [hl2] at hl0
      cases ht0
      cases hl0
      have hpe : p = t.amount - Int.tdiv t.amount 2 := by
        rw [hamount2] at hc
        cases hc
        rfl
      subst hpe
      have hs : s3 = settlePayment (run env mid s1) id
            { t2 with payment := intAdd t2.payment (t.amount - Int.tdiv t.amount 2) }
            { l2 with amount := intSub l2.amount (t.amount - Int.tdiv t.amount 2) }
            (intAdd eb0 (t.amount - Int.tdiv t.amount 2))
            (intSub ib0 (t.amount - Int.tdiv t.amount 2)) lb0
          ∨ s3 = settlePayment (run env mid s1) id
            { t2 with payment := intAdd t2.payment (t.amount - Int.tdiv t.amount 2) }
            { l2 with amount := intSub l2.amount (t.amount - Int.tdiv t.amount 2) } eb0
            (intSub ib0 (t.amount - Int.tdiv t.amount 2))
            (intAdd lb0 (t.amount - Int.tdiv t.amount 2)) := by
        rcases hcase with ⟨_, h⟩ | ⟨_, _, h⟩
        · rw [h2] at h
          exact Or.inl (congrArg Prod.snd h)
        · rw [h2] at h
          exact Or.inr (congrArg Prod.snd h)
      rcases hs with hs | hs
      all_goals
        subst hs
        refine ⟨⟨ib0, hib0, ?_⟩, ?_, ?_, ?_, ?_⟩
        all_goals simp [settlePayment, Ledger.delPayment, Ledger.putLC, Ledger.putTrade, hdst]
  obtain ⟨hib3, ht3, hl3, hloc3, hpay3⟩ := hs3
  have hsettled := fun o c => requestPayment_settled env o c id s3 _ _ ht3 hl3
    (by rw [hloc3]; decide)
    hpay3 (show t2.amount = intAdd t2.payment (t.amount - Int.tdiv t.amount 2) by
      rw [e3]; exact ha2')
  exact ⟨hamount, hib1, ⟨_, _, ht1, hl1, e1, e2⟩, ⟨t2, ht2, hamount2⟩, hib3,
    ⟨_, _, ht3, hl3, ha2', e3, e4⟩,
    fun o c => ⟨(hsettled o c).1, requestPayment_error_ledger env o c _ s3 (hsettled o c).1⟩,
    fun o c => (hsettled o c).2⟩

/-- The calls that take a trade `T1` of the odd amount 1001 from the request
to a pending request for the first installment, the shipment at `SOURCE`. -/
def oddTradeCalls : List Call :=
  [⟨importerTx, "requestTrade", ["T1", "1001", "widgets"]⟩,
   ⟨exporterTx, "acceptTrade", ["T1"]⟩,
   ⟨importerTx, "requestLC", ["T1"]⟩,
   ⟨importerTx, "issueLC", ["T1", "lc1", "12/31/2030", "E/L", "B/L"]⟩,
   ⟨exporterTx, "acceptLC", ["T1"]⟩,
   ⟨exporterTx, "requestEL", ["T1"]⟩,
   ⟨regulatorTx, "issueEL", ["T1", "el1", "12/31/2030"]⟩,
   ⟨exporterTx, "prepareShipment", ["T1"]⟩,
   ⟨carrierTx, "acceptShipmentAndIssueBL", ["T1", "bl1", "12/31/2030", "Mumbai", "Rotterdam"]⟩,
   ⟨exporterTx, "requestPayment", ["T1"]⟩]

/-- The ledger on which the first installment of the trade of amount 1001 is
due. -/
def oddTradeLedger : Ledger := run refEnv oddTradeCalls genesis

/-- The calls between the two installments: the shipment arrives at
`DESTINATION` on 1 January 2020 and the Exporter requests the payment. -/
def arrivalCalls : List Call :=
  [⟨carrierTx, "updateShipmentLocation", ["T1", "DESTINATION", "01/01/2020"]⟩,
   ⟨exporterTx, "requestPayment", ["T1"]⟩]

/-- Witness for C39: the trade of amount 1001; the first installment is 500,
the second, 60 days after the arrival, is 501; afterwards 1001 is paid, the
letter of credit has amount 0 and the Exporter is told
`Payment already settled`. -/
theorem C39_two_installments_witness :
    (run refEnv arrivalCalls
      (makePayment refEnv "ImporterOrgMSP" "ca.importerorg.trade.com" ["T1", "12/01/2019"]
        oddTradeLedger).2).impBal = some (200000 - 500)
    ∧ (makePayment refEnv "ImporterOrgMSP" "ca.importerorg.trade.com" ["T1", "03/01/2020"]
        (run refEnv arrivalCalls
          (makePayment refEnv "ImporterOrgMSP" "ca.importerorg.trade.com" ["T1", "12/01/2019"]
            oddTradeLedger).2)).2.impBal = some (200000 - 1001)
    ∧ (∃ t3 l3,
        (makePayment refEnv "ImporterOrgMSP" "ca.importerorg.trade.com" ["T1", "03/01/2020"]
          (run refEnv arrivalCalls
            (makePayment refEnv "ImporterOrgMSP" "ca.importerorg.trade.com"
              ["T1", "12/01/2019"] oddTradeLedger).2)).2.trade "T1" = some t3
        ∧ (makePayment refEnv "ImporterOrgMSP" "ca.importerorg.trade.com" ["T1", "03/01/2020"]
          (run refEnv arrivalCalls
            (makePayment refEnv "ImporterOrgMSP" "ca.importerorg.trade.com"
              ["T1", "12/01/2019"] oddTradeLedger).2)).2.lc "T1" = some l3
        ∧ t3.amount = 1001 ∧ t3.payment = 1001 ∧ l3.amount = 0)
    ∧ (requestPayment refEnv "ExporterOrgMSP" "ca.exporterorg.trade.com" ["T1"]
        (makePayment refEnv "ImporterOrgMSP" "ca.importerorg.trade.com" ["T1", "03/01/2020"]
          (run refEnv arrivalCalls
            (makePayment refEnv "ImporterOrgMSP" "ca.importerorg.trade.com"
              ["T1", "12/01/2019"] oddTradeLedger).2)).2).1
        = .error "Payment already settled" :=
  have h := C39_two_installments refEnv "ImporterOrgMSP" "ca.importerorg.trade.com"
    "ImporterOrgMSP" "ca.importerorg.trade.com" "T1" "12/01/2019" "03/01/2020" oddTradeLedger
    (makePayment refEnv "ImporterOrgMSP" "ca.importerorg.trade.com" ["T1", "12/01/2019"]
      oddTradeLedger).2
    (makePayment refEnv "ImporterOrgMSP" "ca.importerorg.trade.com" ["T1", "03/01/2020"]
      (run refEnv arrivalCalls
        (makePayment refEnv "ImporterOrgMSP" "ca.importerorg.trade.com" ["T1", "12/01/2019"]
          oddTradeLedger).2)).2
    arrivalCalls ⟨1001, "widgets", .ACCEPTED, 0⟩
    ⟨"lc1", "12/31/2030", "LumberInc", 1001, ["E/L", "B/L"], .ACCEPTED, ⟨0, 0⟩, false⟩
    18262 18322 (by decide) (by decide) rfl (by decide) rfl (by decide)
    (Prod.ext (by decide) rfl) (by decide) (by decide) (by decide) (by decide) (by decide)
    (Prod.ext (by decide) rfl)
  ⟨by decide, by decide, h.2.2.2.2.2.1, h.2.2.2.2.2.2.2 _ _ (Or.inr (by decide))⟩

end TradeWorkflow
